import Mathlib

/-!
# DMG station MAC: association, beacon interval, sector sweep and relay handling

A shallow embedding of `src/wifi/model/dmg-sta-wifi-mac.cc`.  The station is a
record `Mac` of the members the file reads and writes; every member function is
a function on that record.  Collaborators that live outside the file (the
event scheduler, the queues, the low-level transmitter, the antenna, the base
class) are represented by the part of their state the file can observe:
the pending event list, the frames handed to each queue, the transmissions
started, the antenna setting and an ordered log of calls and traces.

Times are integers counted in nanoseconds and are treated as exact.
-/

namespace DmgSta

/-! ## Basic types -/

/-- Simulation time, in nanoseconds. -/
abbrev Time := Int

/-- Time from a count of microseconds. -/
def MicroSeconds (us : Int) : Time := 1000 * us

/-- Time from a count of nanoseconds. -/
def NanoSeconds (ns : Int) : Time := ns

/-- A 48-bit MAC address, most significant octet first. -/
abbrev Mac48Address := Nat

/-- Modelled from the spec: the broadcast sentinel, ff:ff:ff:ff:ff:ff. -/
def GetBroadcast : Mac48Address := 2 ^ 48 - 1

/-- Modelled from the spec: `Mac48Address::IsGroup`, the group bit (least
significant bit of the first octet). -/
def IsGroup (a : Mac48Address) : Bool := (a / 2 ^ 40) % 2 == 1

/-- Modelled from the spec: `Mac48Address::IsBroadcast`. -/
def IsBroadcast (a : Mac48Address) : Bool := a == GetBroadcast

/-- Service set identifier. -/
abbrev Ssid := Nat

/-- Association state of the station (`enum MacState`). -/
inductive MacState
  | ASSOCIATED
  | WAIT_PROBE_RESP
  | WAIT_ASSOC_RESP
  | BEACON_MISSED
  | REFUSED
  deriving DecidableEq

/-- Channel access period values used by the station. -/
inductive ChannelAccessPeriod
  | CHANNEL_ACCESS_BTI
  | CHANNEL_ACCESS_A_BFT
  | CHANNEL_ACCESS_ATI
  | CHANNEL_ACCESS_BHI
  | CHANNEL_ACCESS_DTI
  deriving DecidableEq

/-- Direction of a sector sweep. -/
inductive BeamformingDirection
  | BeamformingInitiator
  | BeamformingResponder
  deriving DecidableEq

/-- Frame types the receive path distinguishes; `WIFI_MAC_OTHER` stands for
every type none of the header predicates used in `Receive` recognises. -/
inductive WifiMacType
  | WIFI_MAC_CTL_DMG_POLL
  | WIFI_MAC_CTL_DMG_SPR
  | WIFI_MAC_CTL_DMG_GRANT
  | WIFI_MAC_CTL_DMG_SSW
  | WIFI_MAC_CTL_DMG_SSW_FBCK
  | WIFI_MAC_CTL_DMG_SSW_ACK
  | WIFI_MAC_MGT_ASSOCIATION_REQUEST
  | WIFI_MAC_MGT_ASSOCIATION_RESPONSE
  | WIFI_MAC_MGT_PROBE_REQUEST
  | WIFI_MAC_MGT_PROBE_RESPONSE
  | WIFI_MAC_MGT_ACTION
  | WIFI_MAC_MGT_ACTION_NO_ACK
  | WIFI_MAC_EXTENSION_DMG_BEACON
  | WIFI_MAC_DATA
  | WIFI_MAC_QOSDATA
  | WIFI_MAC_OTHER
  deriving DecidableEq

/-- An antenna configuration: (sector, antenna). -/
abbrev ANTENNA_CONFIGURATION := Nat × Nat

/-- MAC header fields the station reads or writes. -/
structure WifiMacHeader where
  macType : WifiMacType
  addr1 : Mac48Address
  addr2 : Mac48Address
  addr3 : Mac48Address
  duration : Time
  qosAmsdu : Bool
  qosTid : Nat
  dsTo : Bool
  dsFrom : Bool
  deriving DecidableEq

/-- A header with every field cleared, as a freshly declared `WifiMacHeader`. -/
def WifiMacHeader.blank (t : WifiMacType) : WifiMacHeader :=
  { macType := t, addr1 := 0, addr2 := 0, addr3 := 0, duration := 0,
    qosAmsdu := false, qosTid := 0, dsTo := false, dsFrom := false }

/-! ## Events and the scheduler -/

/-- Member functions the station hands to the scheduler, with their bound
arguments. -/
inductive Callback
  | TryToEnsureAssociated
  | ProbeRequestTimeout
  | AssocRequestTimeout
  | MissedBeacons
  | StartBeaconTransmissionInterval
  | StartAssociationBeamformTraining
  | StartAnnouncementTransmissionInterval
  | StartDataTransmissionInterval
  | StartContentionPeriod (duration : Time)
  | StartServicePeriod (length : Time) (peer : Mac48Address) (isSource : Bool)
  | EndServicePeriod
  | InitiateBeamforming (address : Mac48Address) (isTxss : Bool) (duration : Time)
  | StartResponderSectorSweep (address : Mac48Address) (isTxss : Bool) (duration : Time)
  | SendIssSectorSweepFrame (address : Mac48Address) (direction : BeamformingDirection)
      (sectorID antennaID count : Nat)
  | SendRssSectorSweepFrame (address : Mac48Address) (direction : BeamformingDirection)
      (sectorID antennaID count : Nat)
  | SendSectorSweepFrame (address : Mac48Address) (direction : BeamformingDirection)
      (sectorID antennaID count : Nat)
  | SendSswFbckFrame (receiver : Mac48Address)
  | SendSswAckFrame (receiver : Mac48Address)
  deriving DecidableEq

/-- A pending event: identifier, absolute firing time and the bound call. -/
structure Event where
  uid : Nat
  ts : Time
  cb : Callback
  deriving DecidableEq

/-- An event handle; `none` is the default-constructed handle. -/
abbrev EventId := Option Nat

/-- Modelled from the spec: the single-threaded discrete-event scheduler the
station runs on (section 5).  Pending events are kept in the order in which
they were scheduled; a cancelled or executed event is no longer pending. -/
structure Simulator where
  now : Time
  nextUid : Nat
  events : List Event
  deriving DecidableEq

/-- Modelled from the spec: `Simulator::Schedule (delay, ...)`; the new event
fires at `now + delay` and receives the next free identifier. -/
def Simulator.Schedule (sim : Simulator) (delay : Time) (cb : Callback) : Simulator :=
  { sim with nextUid := sim.nextUid + 1,
             events := sim.events ++ [{ uid := sim.nextUid, ts := sim.now + delay, cb := cb }] }

/-- Modelled from the spec: `Simulator::ScheduleNow`, an event for the current
instant. -/
def Simulator.ScheduleNow (sim : Simulator) (cb : Callback) : Simulator :=
  sim.Schedule 0 cb

/-- Modelled from the spec: `EventId::IsRunning`, the event is still pending. -/
def Simulator.IsRunning (sim : Simulator) (id : EventId) : Bool :=
  match id with
  | none => false
  | some u => sim.events.any (fun e => e.uid == u)

/-- Modelled from the spec: `EventId::IsExpired`, the negation of `IsRunning`. -/
def Simulator.IsExpired (sim : Simulator) (id : EventId) : Bool :=
  !sim.IsRunning id

/-- Modelled from the spec: `EventId::Cancel`; cancelling a handle that is not
running is a no-op. -/
def Simulator.Cancel (sim : Simulator) (id : EventId) : Simulator :=
  { sim with events :=
      match id with
      | none => sim.events
      | some u => sim.events.filter (fun e => e.uid != u) }

/-- Modelled from the spec: `Simulator::GetDelayLeft`; zero for an expired
handle, otherwise the time left until the event fires. -/
def Simulator.GetDelayLeft (sim : Simulator) (id : EventId) : Time :=
  match id with
  | none => 0
  | some u =>
    match sim.events.find? (fun e => e.uid == u) with
    | none => 0
    | some e => e.ts - sim.now

/-! ## Frame contents -/

/-- Sector sweep field of an SSW frame or a DMG beacon. -/
structure DMG_SSW_Field where
  direction : BeamformingDirection
  countDown : Nat
  sectorID : Nat
  antennaID : Nat
  deriving DecidableEq

/-- Sector sweep feedback field. -/
structure DMG_SSW_FBCK_Field where
  isPartOfISS : Bool
  sector : Nat
  antenna : Nat
  pollRequired : Bool
  deriving DecidableEq

/-- Allocation type of a schedule entry. -/
inductive AllocationType
  | SERVICE_PERIOD_ALLOCATION
  | CBAP_ALLOCATION
  deriving DecidableEq

/-- Beamforming control field of an allocation. -/
structure BF_Control_Field where
  isBeamformTraining : Bool
  isInitiatorTxss : Bool
  isResponderTxss : Bool
  deriving DecidableEq

/-- One allocation of the extended schedule element; start and block
duration are counts of microseconds. -/
structure AllocationField where
  allocationType : AllocationType
  sourceAid : Nat
  destinationAid : Nat
  allocationStart : Nat
  allocationBlockDuration : Nat
  bfControl : BF_Control_Field
  deriving DecidableEq

/-- Category of an action frame. -/
inductive CategoryValue
  | DMG
  | OTHER_CATEGORY
  deriving DecidableEq

/-- DMG action subtypes; `DMG_OTHER_ACTION` stands for every subtype the
station has no case for. -/
inductive DmgActionValue
  | DMG_RELAY_SEARCH_RESPONSE
  | DMG_MULTI_RELAY_CHANNEL_MEASUREMENT_REQUEST
  | DMG_MULTI_RELAY_CHANNEL_MEASUREMENT_REPORT
  | DMG_RLS_REQUEST
  | DMG_RLS_RESPONSE
  | DMG_INFORMATION_RESPONSE
  | DMG_OTHER_ACTION
  deriving DecidableEq

/-- One entry of a channel measurement report. -/
structure ExtChannelMeasurementInfo where
  peerStaAid : Nat
  snr : Nat
  deriving DecidableEq

/-- Contents of a DMG beacon read by the station. -/
structure ExtDMGBeacon where
  timestamp : Nat
  beaconIntervalUs : Nat
  sswField : DMG_SSW_Field
  atiPresent : Bool
  nBI : Nat
  abftLength : Nat
  fss : Nat
  isResponderTXSS : Bool
  ccPresent : Bool
  discoveryMode : Bool
  cbapOnly : Bool
  cbapSource : Bool
  minBHIDuration : Nat
  atiDuration : Nat
  scheduleElement : Option (List AllocationField)
  deriving DecidableEq

/-- A received packet, given by the values its headers yield when the receive
path removes them.  Every accessor is present for every packet; a branch of
`Receive` reads only the ones of the header it removes. -/
structure Packet where
  /-- From `MgtProbeResponseHeader`. -/
  probeRespSsid : Ssid
  probeRespBeaconIntervalUs : Nat
  /-- From `MgtAssocResponseHeader`. -/
  assocRespIsSuccess : Bool
  assocRespAid : Nat
  /-- From `WifiActionHeader`. -/
  category : CategoryValue
  dmgAction : DmgActionValue
  /-- From `ExtRelaySearchResponseHeader`: station AIDs of the relay capable list. -/
  relayCapableList : List Nat
  /-- Dialog token of the action body (measurement request, RLS request, RLS response). -/
  dialogToken : Nat
  /-- From `ExtMultiRelayChannelMeasurementReport`. -/
  channelMeasurementInfoList : List ExtChannelMeasurementInfo
  /-- From `ExtRlsRequest`. -/
  rlsSourceAid : Nat
  rlsRelayAid : Nat
  rlsDestinationAid : Nat
  /-- From `ExtRlsResponse`. -/
  relayStatusCode : Nat
  destinationStatusCode : Nat
  /-- From `ExtInformationResponse`: subject address and the AID in its first capabilities element. -/
  subjectAddress : Mac48Address
  capabilitiesAid : Nat
  /-- From `CtrlDMG_SSW`, `CtrlDMG_SSW_FBCK`. -/
  sswField : DMG_SSW_Field
  sswFeedbackField : DMG_SSW_FBCK_Field
  /-- From `ExtDMGBeacon`. -/
  beacon : ExtDMGBeacon
  /-- SNR of the reception, as reported by the station manager. -/
  rxSnr : Int
  deriving DecidableEq

/-- Body of a frame the station builds. -/
inductive TxBody
  | ProbeRequest (ssid : Ssid)
  | AssocRequest (ssid : Ssid)
  | Spr (sourceAid : Nat) (allocationDuration : Nat)
  | Ssw (ssw : DMG_SSW_Field) (fbck : DMG_SSW_FBCK_Field)
  | SswFbck (fbck : DMG_SSW_FBCK_Field)
  | SswAck (fbck : DMG_SSW_FBCK_Field)
  | Msdu (payload : Nat)
  deriving DecidableEq

/-- A frame handed to a queue. -/
structure Frame where
  hdr : WifiMacHeader
  body : TxBody
  deriving DecidableEq

/-- A transmission started on the low-level transmitter
(`MacLow::StartTransmission`): the frame, the overridden Duration/ID, and the
antenna transmit setting at the moment of the call. -/
structure Transmission where
  hdr : WifiMacHeader
  body : TxBody
  overrideDurationId : Time
  txSector : Nat
  txAntenna : Nat
  deriving DecidableEq

/-- Calls into collaborators outside the file and trace sources, in the order
in which they are made. -/
inductive Effect
  | LinkUp
  | LinkDown
  | AssocLogger (bssid : Mac48Address)
  | DeAssocLogger (bssid : Mac48Address)
  | ChannelReportReceived (address : Mac48Address)
  | SlsCompleted (address : Mac48Address) (period : ChannelAccessPeriod) (sector antenna : Nat)
  | NotifyRxDrop
  | NotifyTxDrop
  | ForwardUp (src dst : Mac48Address)
  | DeaggregateAmsduAndForward
  | BaseReceive (hdr : WifiMacHeader)
  | StartContentionPeriod (duration : Time)
  | StartServicePeriod (length : Time) (peer : Mac48Address) (isSource : Bool)
  | EndServicePeriod
  | InitiateAtiAccessPeriod (duration : Time)
  | SuspendRdsOperation
  | ResumeRdsOperation
  | SendInformationRequest (dest subject : Mac48Address)
  | SendRelaySearchRequest (token : Nat) (destinationAid : Nat)
  | SendChannelMeasurementReport (dest : Mac48Address) (token : Nat)
      (list : List ExtChannelMeasurementInfo)
  | SetupRls (dest : Mac48Address) (token sourceAid relayAid destinationAid : Nat)
  | SendRlsResponse (dest : Mac48Address) (token : Nat)
  | SendRlsAnnouncment (dest : Mac48Address) (destinationAid relayAid sourceAid : Nat)
  | BaseDoInitialize
  deriving DecidableEq

/-! ## Finite maps (`std::map`) -/

/-- Lookup in a map kept as a list of key/value pairs with distinct keys. -/
def mapFind {K V : Type} [DecidableEq K] (m : List (K × V)) (k : K) : Option V :=
  (m.find? (fun e => e.1 == k)).map (fun e => e.2)

/-- Insert or overwrite the value at a key (`m[k] = v`). -/
def mapSet {K V : Type} [DecidableEq K] (m : List (K × V)) (k : K) (v : V) : List (K × V) :=
  if m.any (fun e => e.1 == k) then m.map (fun e => if e.1 == k then (k, v) else e)
  else m ++ [(k, v)]

/-- Remove a key (`m.erase (k)`). -/
def mapErase {K V : Type} [DecidableEq K] (m : List (K × V)) (k : K) : List (K × V) :=
  m.filter (fun e => e.1 != k)

/-- The map after `m[k]` has been evaluated: an absent key is inserted with
the default-constructed value. -/
def mapTouch {K V : Type} [DecidableEq K] (m : List (K × V)) (k : K) (dflt : V) :
    List (K × V) :=
  if m.any (fun e => e.1 == k) then m else m ++ [(k, dflt)]

/-- The value `m[k]` evaluates to. -/
def mapIndex {K V : Type} [DecidableEq K] (m : List (K × V)) (k : K) (dflt : V) : V :=
  (mapFind m k).getD dflt

/-! ## The station -/

/-- Access categories of the contention queues. -/
inductive AcIndex
  | AC_BE
  | AC_BK
  | AC_VI
  | AC_VO
  deriving DecidableEq

/-- Modelled from the spec: the antenna controller (component A), with setters
for the transmit and receive sector and antenna and an omni-receive mode.
Selecting a receive sector leaves omni-receive mode. -/
structure DirectionalAntenna where
  currentTxSectorID : Nat
  currentTxAntennaID : Nat
  currentRxSectorID : Nat
  currentRxAntennaID : Nat
  omniReceivingMode : Bool
  numberOfSectors : Nat
  numberOfAntennas : Nat
  deriving DecidableEq

/-- Modelled from the spec: `SetCurrentTxSectorID`. -/
def DirectionalAntenna.SetCurrentTxSectorID (a : DirectionalAntenna) (sector : Nat) :
    DirectionalAntenna :=
  { a with currentTxSectorID := sector }

/-- Modelled from the spec: `SetCurrentTxAntennaID`. -/
def DirectionalAntenna.SetCurrentTxAntennaID (a : DirectionalAntenna) (antenna : Nat) :
    DirectionalAntenna :=
  { a with currentTxAntennaID := antenna }

/-- Modelled from the spec: `SetCurrentRxSectorID`; leaves omni-receive mode. -/
def DirectionalAntenna.SetCurrentRxSectorID (a : DirectionalAntenna) (sector : Nat) :
    DirectionalAntenna :=
  { a with currentRxSectorID := sector, omniReceivingMode := false }

/-- Modelled from the spec: `SetCurrentRxAntennaID`. -/
def DirectionalAntenna.SetCurrentRxAntennaID (a : DirectionalAntenna) (antenna : Nat) :
    DirectionalAntenna :=
  { a with currentRxAntennaID := antenna }

/-- Modelled from the spec: `SetInOmniReceivingMode`. -/
def DirectionalAntenna.SetInOmniReceivingMode (a : DirectionalAntenna) : DirectionalAntenna :=
  { a with omniReceivingMode := true }

/-- Best (Tx, Rx) antenna configuration towards a peer. -/
abbrev BestAntennaConfig := ANTENNA_CONFIGURATION × ANTENNA_CONFIGURATION

/-- The members of `DmgStaWifiMac` (and of its base classes) that the file
reads or writes, followed by the observable state of its collaborators. -/
structure Mac where
  /- identity -/
  address : Mac48Address
  ssid : Ssid
  m_bssid : Mac48Address
  /- association -/
  m_state : MacState
  m_aid : Nat
  m_activeProbing : Bool
  m_probeRequestTimeout : Time
  m_assocRequestTimeout : Time
  m_maxMissedBeacons : Nat
  m_probeRequestEvent : EventId
  m_assocRequestEvent : EventId
  m_beaconWatchdog : EventId
  m_beaconWatchdogEnd : Time
  m_linkUpIsNull : Bool
  m_supportRdp : Bool
  /- beacon interval -/
  m_accessPeriod : ChannelAccessPeriod
  m_scheduledPeriodAfterAbft : Bool
  m_sectorFeedbackSent : List (Mac48Address × Bool)
  m_rdsOperational : Bool
  m_remainingSlotsPerABFT : Nat
  m_slotIndex : Nat
  m_ssSlotsPerABFT : Nat
  m_ssFramesPerSlot : Nat
  m_isResponderTXSS : Bool
  m_atiPresent : Bool
  m_nBI : Nat
  m_abftDuration : Time
  m_atiDuration : Time
  m_btiDuration : Time
  m_btiStarted : Time
  m_beaconInterval : Time
  m_isCbapOnly : Bool
  m_isCbapSource : Bool
  m_allocationList : List AllocationField
  m_receivedDmgBeacon : Bool
  m_abftEvent : EventId
  m_sswFbckTimeout : EventId
  m_rssEvent : EventId
  /- peers -/
  m_aidMap : List (Nat × Mac48Address)
  m_macMap : List (Mac48Address × Nat)
  m_spStations : List Mac48Address
  m_dataForwardingMap : List Mac48Address
  m_bestAntennaConfig : List (Mac48Address × BestAntennaConfig)
  m_stationSnrMap : List (Mac48Address × List (ANTENNA_CONFIGURATION × Int))
  m_informationMap : List (Mac48Address × Nat)
  /- sector level sweep -/
  m_isIssInitiator : Bool
  m_allocationStarted : Time
  m_currentAllocationLength : Time
  m_feedbackAntennaConfig : ANTENNA_CONFIGURATION
  m_sectorId : Nat
  m_antennaId : Nat
  m_totalSectors : Nat
  m_sswFbckDuration : Time
  m_sbifs : Time
  m_mbifs : Time
  m_sifs : Time
  sswAckTxTime : Int
  /- relay -/
  m_dstRedsAddress : Mac48Address
  m_waitingDestinationRedsReports : Bool
  m_dstRedsAid : Nat
  m_relayInitiator : Bool
  m_selectedRelayAddress : Mac48Address
  m_selectedRelayAid : Nat
  m_rdsList : List Nat
  m_rdsActivated : Bool
  m_srcRedsAddress : Mac48Address
  m_relayMode : Bool
  /- collaborators -/
  sim : Simulator
  antenna : DirectionalAntenna
  m_dca : List Frame
  m_edca : List (AcIndex × Frame)
  m_sp : List Frame
  m_dmgAtiDca : List Frame
  m_low : List Transmission
  m_dcfManagerAccess : Bool
  m_spAccess : Bool
  log : List Effect
  GetSectorSweepSlotTime : Nat → Time
  GetSectorSweepDuration : Nat → Time

/-- The BSSID (`GetBssid`). -/
def GetBssid (s : Mac) : Mac48Address := s.m_bssid

/-- Set the BSSID (`SetBssid`). -/
def SetBssid (bssid : Mac48Address) (s : Mac) : Mac := { s with m_bssid := bssid }

/-- Append a call or trace to the log. -/
def emit (e : Effect) (s : Mac) : Mac := { s with log := s.log ++ [e] }

/-- From `Simulator::Schedule` on the station's scheduler. -/
def Schedule (delay : Time) (cb : Callback) (s : Mac) : Mac :=
  { s with sim := s.sim.Schedule delay cb }

/-- From `Simulator::ScheduleNow` on the station's scheduler. -/
def ScheduleNow (cb : Callback) (s : Mac) : Mac :=
  { s with sim := s.sim.ScheduleNow cb }

/-- The handle the next call of `Schedule` returns. -/
def nextEventId (s : Mac) : EventId := some s.sim.nextUid

/-! ## Association state machine -/

/-- From `DmgStaWifiMac::SetState`. -/
def SetState (value : MacState) (s : Mac) : Mac :=
  let previousState := s.m_state
  let s := { s with m_state := value }
  if value = MacState.ASSOCIATED ∧ previousState ≠ MacState.ASSOCIATED then
    emit (Effect.AssocLogger (GetBssid s)) s
  else if value ≠ MacState.ASSOCIATED ∧ previousState = MacState.ASSOCIATED then
    emit (Effect.DeAssocLogger (GetBssid s)) s
  else s

/-- From `DmgStaWifiMac::IsAssociated`. -/
def IsAssociated (s : Mac) : Bool := s.m_state = MacState.ASSOCIATED

/-- From `DmgStaWifiMac::IsWaitAssocResp`. -/
def IsWaitAssocResp (s : Mac) : Bool := s.m_state = MacState.WAIT_ASSOC_RESP

/-- From `DmgStaWifiMac::GetAssociationID`. -/
def GetAssociationID (s : Mac) : Nat :=
  if s.m_state = MacState.ASSOCIATED then s.m_aid else 0

/-- From `DmgStaWifiMac::MapAidToMacAddress`. -/
def MapAidToMacAddress (aid : Nat) (address : Mac48Address) (s : Mac) : Mac :=
  { s with m_aidMap := mapSet s.m_aidMap aid address,
           m_macMap := mapSet s.m_macMap address aid }

/-- From `DmgStaWifiMac::SetMaxMissedBeacons`. -/
def SetMaxMissedBeacons (missed : Nat) (s : Mac) : Mac := { s with m_maxMissedBeacons := missed }

/-- From `DmgStaWifiMac::SetProbeRequestTimeout`. -/
def SetProbeRequestTimeout (timeout : Time) (s : Mac) : Mac :=
  { s with m_probeRequestTimeout := timeout }

/-- From `DmgStaWifiMac::SetAssocRequestTimeout`. -/
def SetAssocRequestTimeout (timeout : Time) (s : Mac) : Mac :=
  { s with m_assocRequestTimeout := timeout }

/-- The probe request frame built by `SendProbeRequest`. -/
def probeRequestFrame (s : Mac) : Frame :=
  { hdr := { WifiMacHeader.blank WifiMacType.WIFI_MAC_MGT_PROBE_REQUEST with
               addr1 := GetBroadcast, addr2 := s.address, addr3 := GetBroadcast,
               dsFrom := false, dsTo := false },
    body := TxBody.ProbeRequest s.ssid }

/-- From `DmgStaWifiMac::SendProbeRequest`. -/
def SendProbeRequest (s : Mac) : Mac :=
  let s := { s with m_dca := s.m_dca ++ [probeRequestFrame s] }
  let s := if s.sim.IsRunning s.m_probeRequestEvent then
      { s with sim := s.sim.Cancel s.m_probeRequestEvent }
    else s
  { s with m_probeRequestEvent := nextEventId s,
           sim := s.sim.Schedule s.m_probeRequestTimeout Callback.ProbeRequestTimeout }

/-- The association request frame built by `SendAssociationRequest`. -/
def assocRequestFrame (s : Mac) : Frame :=
  { hdr := { WifiMacHeader.blank WifiMacType.WIFI_MAC_MGT_ASSOCIATION_REQUEST with
               addr1 := GetBssid s, addr2 := s.address, addr3 := GetBssid s,
               dsFrom := false, dsTo := false },
    body := TxBody.AssocRequest s.ssid }

/-- From `DmgStaWifiMac::SendAssociationRequest`. -/
def SendAssociationRequest (s : Mac) : Mac :=
  let s := { s with m_dca := s.m_dca ++ [assocRequestFrame s] }
  let s := if s.sim.IsRunning s.m_assocRequestEvent then
      { s with sim := s.sim.Cancel s.m_assocRequestEvent }
    else s
  /- For now, we assume station talks to the DMG AP only -/
  let s := { s with m_bestAntennaConfig := mapTouch s.m_bestAntennaConfig (GetBssid s) ((0, 0), (0, 0)) }
  let antennaConfigTx := (mapIndex s.m_bestAntennaConfig (GetBssid s) ((0, 0), (0, 0))).1
  let antennaConfigRx := (mapIndex s.m_bestAntennaConfig (GetBssid s) ((0, 0), (0, 0))).2
  let s := { s with antenna := (s.antenna.SetCurrentTxSectorID antennaConfigTx.fst).SetCurrentTxAntennaID
                                 antennaConfigTx.snd }
  let s := if antennaConfigRx.fst ≠ 0 then
      /- Make sure we have trained Rx Antenna sector -/
      { s with antenna := (s.antenna.SetCurrentRxSectorID antennaConfigRx.fst).SetCurrentRxAntennaID
                            antennaConfigRx.snd }
    else s
  { s with m_assocRequestEvent := nextEventId s,
           sim := s.sim.Schedule s.m_assocRequestTimeout Callback.AssocRequestTimeout }

/-- From `DmgStaWifiMac::TryToEnsureAssociated`. -/
def TryToEnsureAssociated (s : Mac) : Mac :=
  match s.m_state with
  | MacState.ASSOCIATED => s
  | MacState.WAIT_PROBE_RESP => s
  | MacState.BEACON_MISSED =>
    let s := emit Effect.LinkDown s
    if s.m_activeProbing then SendProbeRequest (SetState MacState.WAIT_PROBE_RESP s) else s
  | MacState.WAIT_ASSOC_RESP => s
  | MacState.REFUSED => s

/-- From `DmgStaWifiMac::StartActiveAssociation`. -/
def StartActiveAssociation (s : Mac) : Mac := TryToEnsureAssociated s

/-- From `DmgStaWifiMac::SetActiveProbing`. -/
def SetActiveProbing (enable : Bool) (s : Mac) : Mac :=
  let s := if enable then ScheduleNow Callback.TryToEnsureAssociated s
    else { s with sim := s.sim.Cancel s.m_probeRequestEvent }
  { s with m_activeProbing := enable }

/-- From `DmgStaWifiMac::GetActiveProbing`. -/
def GetActiveProbing (s : Mac) : Bool := s.m_activeProbing

/-- From `DmgStaWifiMac::AssocRequestTimeout`. -/
def AssocRequestTimeout (s : Mac) : Mac :=
  SendAssociationRequest (SetState MacState.WAIT_ASSOC_RESP s)

/-- From `DmgStaWifiMac::ProbeRequestTimeout`. -/
def ProbeRequestTimeout (s : Mac) : Mac :=
  SendProbeRequest (SetState MacState.WAIT_PROBE_RESP s)

/-- From `DmgStaWifiMac::MissedBeacons`. -/
def MissedBeacons (s : Mac) : Mac :=
  if s.m_beaconWatchdogEnd > s.sim.now then
    let s := if s.sim.IsRunning s.m_beaconWatchdog then
        { s with sim := s.sim.Cancel s.m_beaconWatchdog }
      else s
    { s with m_beaconWatchdog := nextEventId s,
             sim := s.sim.Schedule (s.m_beaconWatchdogEnd - s.sim.now) Callback.MissedBeacons }
  else
    TryToEnsureAssociated (SetState MacState.BEACON_MISSED s)

/-- From `DmgStaWifiMac::RestartBeaconWatchdog`. -/
def RestartBeaconWatchdog (delay : Time) (s : Mac) : Mac :=
  let s := { s with m_beaconWatchdogEnd := max (s.sim.now + delay) s.m_beaconWatchdogEnd }
  if s.sim.GetDelayLeft s.m_beaconWatchdog < delay ∧ s.sim.IsExpired s.m_beaconWatchdog then
    { s with m_beaconWatchdog := nextEventId s,
             sim := s.sim.Schedule delay Callback.MissedBeacons }
  else s

/-! ## Beacon interval scheduler -/

/-- From `DmgStaWifiMac::StartBeaconTransmissionInterval`. -/
def StartBeaconTransmissionInterval (s : Mac) : Mac :=
  let s := { s with m_accessPeriod := ChannelAccessPeriod.CHANNEL_ACCESS_BTI }
  /- Re-initialize variables -/
  let s := { s with m_scheduledPeriodAfterAbft := false, m_sectorFeedbackSent := [] }
  /- Disable Channel Access by CBAPs and SPs -/
  let s := { s with m_dcfManagerAccess := false, m_spAccess := false }
  let s := if s.m_rdsOperational then emit Effect.SuspendRdsOperation s else s
  /- At BTI period, a DMG STA should be in Omni receiving mode -/
  { s with antenna := s.antenna.SetInOmniReceivingMode }

/-- Modelled from the spec: a uniform random source (`UniformRandomVariable`)
with its attributes "Min" and "Max". -/
structure UniformRandomVariable where
  min : Int
  max : Int
  deriving DecidableEq

/-- Modelled from the spec: `UniformRandomVariable::GetInteger ()`, an integer
picked uniformly in the closed range from "Min" to "Max".  The argument `draw`
is the number the underlying stream yields; every integer of the range is
returned for some `draw`, and no other.  For the empty range whose "Max" is
below "Min" the value is "Min". -/
def UniformRandomVariable.GetInteger (rv : UniformRandomVariable) (draw : Nat) : Nat :=
  if rv.max < rv.min then rv.min.toNat
  else (rv.min + (draw : Int) % (rv.max - rv.min + 1)).toNat

/-- From `DmgStaWifiMac::DoInitialize`; the call of the base class
`DmgWifiMac::DoInitialize` is recorded in the log. -/
def DoInitialize (s : Mac) : Mac :=
  let s := emit Effect.BaseDoInitialize s
  /- Initialize DMG STA -/
  StartBeaconTransmissionInterval s

/-- From `DmgStaWifiMac::StartAssociationBeamformTraining`.  The random source
`a_bftSlot` gets its attributes "Min" and "Max" set to 0 and to
`m_remainingSlotsPerABFT - 1` (an `int`, so -1 when no slot remains) and is then
asked for an integer; the argument `draw` is the number its stream yields for
this call.  `m_slotIndex` and `m_remainingSlotsPerABFT` are 8-bit. -/
def StartAssociationBeamformTraining (draw : Nat) (s : Mac) : Mac :=
  let s := { s with m_accessPeriod := ChannelAccessPeriod.CHANNEL_ACCESS_A_BFT }
  /- Choose a random SSW Slot to transmit SSW Frames in it -/
  let a_bftSlot : UniformRandomVariable :=
    { min := 0, max := (s.m_remainingSlotsPerABFT : Int) - 1 }
  let s := { s with m_slotIndex := a_bftSlot.GetInteger draw % 256 }
  let rssTime : Time := s.m_slotIndex * s.GetSectorSweepSlotTime s.m_ssFramesPerSlot
  let s := Schedule rssTime
    (Callback.StartResponderSectorSweep (GetBssid s) s.m_isResponderTXSS
      (s.GetSectorSweepDuration s.m_ssFramesPerSlot)) s
  let s := if !s.m_scheduledPeriodAfterAbft then
      let s := if s.m_atiPresent then
          Schedule s.m_abftDuration Callback.StartAnnouncementTransmissionInterval s
        else
          Schedule s.m_abftDuration Callback.StartDataTransmissionInterval s
      { s with m_scheduledPeriodAfterAbft := true }
    else s
  if s.m_remainingSlotsPerABFT > 0 then
    /- Schedule SSW FBCK Timeout to detect a collision i.e. missing SSW-FBCK -/
    let timeout : Time := (s.m_slotIndex + 1) * s.GetSectorSweepSlotTime s.m_ssFramesPerSlot
    let s := { s with m_sswFbckTimeout := nextEventId s,
                      sim := s.sim.Schedule timeout Callback.StartAssociationBeamformTraining }
    /- Update upper bound of slots -/
    { s with m_remainingSlotsPerABFT := (s.m_remainingSlotsPerABFT + 256 - (s.m_slotIndex + 1)) % 256 }
  else s

/-- From `DmgStaWifiMac::StartAnnouncementTransmissionInterval`. -/
def StartAnnouncementTransmissionInterval (s : Mac) : Mac :=
  let s := { s with m_accessPeriod := ChannelAccessPeriod.CHANNEL_ACCESS_ATI,
                    m_scheduledPeriodAfterAbft := false }
  /- We started ATI Period we should stay in Omni Drectional waiting for packets -/
  let s := { s with antenna := s.antenna.SetInOmniReceivingMode }
  let s := Schedule s.m_atiDuration Callback.StartDataTransmissionInterval s
  emit (Effect.InitiateAtiAccessPeriod s.m_atiDuration) s

/-- The body of the loop over the allocation list in
`DmgStaWifiMac::StartDataTransmissionInterval`, for one allocation `field`. -/
def dtiAllocation (field : AllocationField) (s : Mac) : Mac :=
  if field.allocationType = AllocationType.SERVICE_PERIOD_ALLOCATION then
    let spStart := MicroSeconds field.allocationStart
    if field.sourceAid = s.m_aid then
      let s := { s with m_aidMap := mapTouch s.m_aidMap field.destinationAid 0 }
      let destAddress := mapIndex s.m_aidMap field.destinationAid 0
      if field.bfControl.isBeamformTraining then
        Schedule spStart
          (Callback.InitiateBeamforming destAddress field.bfControl.isInitiatorTxss
            (MicroSeconds field.allocationBlockDuration)) s
      else
        /- Add station to the list of stations -/
        let s := { s with m_spStations := s.m_spStations ++ [destAddress] }
        /- Schedule two events: one for the beginning of the SP and another for the end of SP -/
        let spEnd := spStart + MicroSeconds field.allocationBlockDuration
        let s := Schedule spStart
          (Callback.StartServicePeriod (MicroSeconds field.allocationBlockDuration) destAddress true) s
        Schedule spEnd Callback.EndServicePeriod s
    else if field.allocationType = AllocationType.SERVICE_PERIOD_ALLOCATION ∧
        field.sourceAid = 255 ∧ field.destinationAid = 255 then
      s
    else if field.allocationType = AllocationType.SERVICE_PERIOD_ALLOCATION ∧
        (field.destinationAid = s.m_aid ∨ field.destinationAid = 255) then
      /- Change Rx antenna sector to the source AID -/
      let s := { s with m_aidMap := mapTouch s.m_aidMap field.sourceAid 0 }
      let sourceAddress := mapIndex s.m_aidMap field.sourceAid 0
      let spEnd := spStart + MicroSeconds field.allocationBlockDuration
      let s := Schedule spStart
        (Callback.StartServicePeriod (MicroSeconds field.allocationBlockDuration) sourceAddress false) s
      Schedule spEnd Callback.EndServicePeriod s
    else s
  else if field.allocationType = AllocationType.CBAP_ALLOCATION ∧
      (field.sourceAid = 255 ∨ field.sourceAid = s.m_aid ∨ field.destinationAid = s.m_aid) then
    Schedule (MicroSeconds field.allocationStart)
      (Callback.StartContentionPeriod (MicroSeconds field.allocationBlockDuration)) s
  else s

/-- From `DmgStaWifiMac::StartDataTransmissionInterval`. -/
def StartDataTransmissionInterval (s : Mac) : Mac :=
  let s := { s with m_accessPeriod := ChannelAccessPeriod.CHANNEL_ACCESS_DTI }
  /- Initialize DMG Reception -/
  let s := { s with m_receivedDmgBeacon := false }
  /- Schedule the beginning of the next BI interval -/
  let nextBeaconInterval : Time := s.m_beaconInterval - (s.sim.now - s.m_btiStarted)
  let s := Schedule nextBeaconInterval Callback.StartBeaconTransmissionInterval s
  /- Check whether we work in RDS mode or not -/
  if s.m_rdsOperational then
    emit Effect.ResumeRdsOperation s
  else
    /- Send Association Request if we are not assoicated -/
    let s := if !IsAssociated s then
        SendAssociationRequest (SetState MacState.WAIT_ASSOC_RESP s)
      else s
    if s.m_isCbapOnly ∧ !s.m_isCbapSource then
      ScheduleNow (Callback.StartContentionPeriod nextBeaconInterval) s
    else
      s.m_allocationList.foldl (fun acc field => dtiAllocation field acc) s

/-! ## Data path -/

/-- Modelled from the spec: the access class mapped from a TID
(`QosUtilsMapTidToAc`), following the user-priority mapping of the standard. -/
def QosUtilsMapTidToAc (tid : Nat) : AcIndex :=
  match tid with
  | 0 => AcIndex.AC_BE
  | 3 => AcIndex.AC_BE
  | 1 => AcIndex.AC_BK
  | 2 => AcIndex.AC_BK
  | 4 => AcIndex.AC_VI
  | 5 => AcIndex.AC_VI
  | 6 => AcIndex.AC_VO
  | 7 => AcIndex.AC_VO
  | _ => AcIndex.AC_BE

/-- From `DmgStaWifiMac::SetHeaderAddresses`. -/
def SetHeaderAddresses (destAddress : Mac48Address) (hdr : WifiMacHeader) (s : Mac) :
    WifiMacHeader :=
  if s.m_dataForwardingMap.any (fun a => a == destAddress) then
    /- We are in Ad-Hoc Mode (STA-STA) -/
    { hdr with addr1 := destAddress, addr2 := s.address, addr3 := GetBssid s,
               dsFrom := false, dsTo := false }
  else
    /- The AP is our receiver -/
    { hdr with addr1 := GetBssid s, addr2 := s.address, addr3 := destAddress,
               dsFrom := false, dsTo := true }

/-- From `DmgStaWifiMac::Enqueue`; `packet` names the MSDU and `packetTid` is the
value `QosUtilsGetTidForPacket` returns for it. -/
def Enqueue (packet : Nat) (packetTid : Nat) (dest : Mac48Address) (s : Mac) : Mac :=
  if !IsAssociated s then
    TryToEnsureAssociated (emit Effect.NotifyTxDrop s)
  else
    let tid := if packetTid > 7 then 0 else packetTid
    let hdr := { WifiMacHeader.blank WifiMacType.WIFI_MAC_QOSDATA with qosAmsdu := false, qosTid := tid }
    let hdr := SetHeaderAddresses dest hdr s
    /- Check whether we should transmit in CBAP or SP -/
    if s.m_spStations.any (fun a => a == dest) then
      { s with m_sp := s.m_sp ++ [{ hdr := hdr, body := TxBody.Msdu packet }] }
    else
      { s with m_edca := s.m_edca ++ [(QosUtilsMapTidToAc tid, { hdr := hdr, body := TxBody.Msdu packet })] }

/-- From `DmgStaWifiMac::SendSprFrame`. -/
def SendSprFrame (dest : Mac48Address) (s : Mac) : Mac :=
  let hdr := { WifiMacHeader.blank WifiMacType.WIFI_MAC_CTL_DMG_SPR with
                 addr1 := dest, addr2 := s.address, dsFrom := false, dsTo := false }
  { s with m_dmgAtiDca := s.m_dmgAtiDca ++ [{ hdr := hdr, body := TxBody.Spr s.m_aid 32000 }] }

/-! ## Sector level sweep -/

/-- Modelled from the spec: `MapTxSnr`, which stores `SnrMap[X, s, a] = rxSnr`. -/
def MapTxSnr (address : Mac48Address) (sectorID antennaID : Nat) (snr : Int) (s : Mac) : Mac :=
  let table := mapSet (mapIndex s.m_stationSnrMap address []) (sectorID, antennaID) snr
  { s with m_stationSnrMap := mapSet s.m_stationSnrMap address table }

/-- Modelled from the spec: the highest-SNR entry of a per-peer SNR table (the
first such entry; the zero configuration for an empty table). -/
def bestSnrEntry : List (ANTENNA_CONFIGURATION × Int) → ANTENNA_CONFIGURATION × Int
  | [] => ((0, 0), 0)
  | e :: rest => rest.foldl (fun best x => if best.2 < x.2 then x else best) e

/-- Modelled from the spec: `GetBestAntennaConfiguration (address, true)`, the
argmax of `SnrMap[address, s, a]`. -/
def GetBestAntennaConfiguration (address : Mac48Address) (s : Mac) : ANTENNA_CONFIGURATION :=
  (bestSnrEntry (mapIndex s.m_stationSnrMap address [])).1

/-- Modelled from the spec: the SNR found by `GetBestAntennaConfiguration`. -/
def GetBestSnr (address : Mac48Address) (s : Mac) : Int :=
  (bestSnrEntry (mapIndex s.m_stationSnrMap address [])).2

/-- From `DmgStaWifiMac::StartReceiveSectorSweep`. -/
def StartReceiveSectorSweep (_address : Mac48Address) (_direction : BeamformingDirection)
    (s : Mac) : Mac := s

/-- From `DmgStaWifiMac::StartTransmitSectorSweep`; `m_totalSectors` is 16-bit. -/
def StartTransmitSectorSweep (address : Mac48Address) (direction : BeamformingDirection)
    (s : Mac) : Mac :=
  let s := { s with m_sectorId := 1, m_antennaId := 1,
                    m_totalSectors :=
                      (s.antenna.numberOfSectors * s.antenna.numberOfAntennas + 65536 - 1) % 65536 }
  if direction = BeamformingDirection.BeamformingInitiator then
    ScheduleNow (Callback.SendIssSectorSweepFrame address direction s.m_sectorId s.m_antennaId
      s.m_totalSectors) s
  else
    ScheduleNow (Callback.SendSectorSweepFrame address direction s.m_sectorId s.m_antennaId
      s.m_totalSectors) s

/-- From `DmgStaWifiMac::StartInitiatorSectorSweep`. -/
def StartInitiatorSectorSweep (address : Mac48Address) (isTxss : Bool) (duration : Time)
    (s : Mac) : Mac :=
  let s := { s with m_isIssInitiator := true, m_allocationStarted := s.sim.now,
                    m_currentAllocationLength := duration }
  if isTxss then StartTransmitSectorSweep address BeamformingDirection.BeamformingInitiator s
  else StartReceiveSectorSweep address BeamformingDirection.BeamformingInitiator s

/-- From `DmgStaWifiMac::InitiateBeamforming`. -/
def InitiateBeamforming (address : Mac48Address) (isTxss : Bool) (duration : Time)
    (s : Mac) : Mac :=
  StartInitiatorSectorSweep address isTxss duration s

/-- From `DmgStaWifiMac::StartResponderSectorSweep`. -/
def StartResponderSectorSweep (address : Mac48Address) (isTxss : Bool) (duration : Time)
    (s : Mac) : Mac :=
  let s := { s with m_isIssInitiator := false, m_allocationStarted := s.sim.now,
                    m_currentAllocationLength := duration }
  /- Obtain antenna configuration for the highest received SNR from the DMG AP to feed it back -/
  let s := { s with m_feedbackAntennaConfig := GetBestAntennaConfiguration address s }
  if isTxss then StartTransmitSectorSweep address BeamformingDirection.BeamformingResponder s
  else
    /- The initiator is switching receive antennas at the same time. -/
    let s := { s with antenna := s.antenna.SetInOmniReceivingMode }
    StartReceiveSectorSweep address BeamformingDirection.BeamformingResponder s

/-- From `DmgStaWifiMac::GetRemainingAllocationTime`. -/
def GetRemainingAllocationTime (s : Mac) : Time :=
  s.m_currentAllocationLength - (s.sim.now - s.m_allocationStarted)

/-- Modelled from the spec: `StartTransmission (packet, header, params, onTxOk)`
of the frame transmitter, called with RTS, ACK and next-data disabled and the
Duration/ID overridden by the header duration; the call is recorded together
with the antenna setting it is made under. -/
def StartTransmission (hdr : WifiMacHeader) (body : TxBody) (s : Mac) : Mac :=
  { s with m_low := s.m_low ++ [{ hdr := hdr, body := body, overrideDurationId := hdr.duration,
                                  txSector := s.antenna.currentTxSectorID,
                                  txAntenna := s.antenna.currentTxAntennaID }] }

/-- The header shared by the three sector sweep senders. -/
def sswHeader (address : Mac48Address) (s : Mac) : WifiMacHeader :=
  { WifiMacHeader.blank WifiMacType.WIFI_MAC_CTL_DMG_SSW with
      duration := GetRemainingAllocationTime s, addr1 := address, addr2 := s.address }

/-- From `DmgStaWifiMac::SendIssSectorSweepFrame`. -/
def SendIssSectorSweepFrame (address : Mac48Address) (direction : BeamformingDirection)
    (sectorID antennaID count : Nat) (s : Mac) : Mac :=
  let hdr := sswHeader address s
  let ssw : DMG_SSW_Field :=
    { direction := direction, countDown := count, sectorID := sectorID, antennaID := antennaID }
  let sswFeedback : DMG_SSW_FBCK_Field :=
    { isPartOfISS := true, sector := s.m_totalSectors, antenna := s.antenna.numberOfAntennas,
      pollRequired := false }
  /- Set Antenna Direction -/
  let s := { s with antenna := (s.antenna.SetCurrentTxSectorID sectorID).SetCurrentTxAntennaID antennaID }
  /- Send Control Frames directly without DCA + DCF Manager -/
  StartTransmission hdr (TxBody.Ssw ssw sswFeedback) s

/-- From `DmgStaWifiMac::SendRssSectorSweepFrame`. -/
def SendRssSectorSweepFrame (address : Mac48Address) (direction : BeamformingDirection)
    (sectorID antennaID count : Nat) (s : Mac) : Mac :=
  let hdr := sswHeader address s
  let ssw : DMG_SSW_Field :=
    { direction := direction, countDown := count, sectorID := sectorID, antennaID := antennaID }
  let sswFeedback : DMG_SSW_FBCK_Field :=
    { isPartOfISS := false, sector := s.m_feedbackAntennaConfig.1,
      antenna := s.m_feedbackAntennaConfig.2, pollRequired := false }
  let s := if s.m_isResponderTXSS then
      /- Set Antenna Direction -/
      { s with antenna := (s.antenna.SetCurrentTxSectorID sectorID).SetCurrentTxAntennaID antennaID }
    else s
  /- Send Control Frames directly without DCA + DCF Manager -/
  StartTransmission hdr (TxBody.Ssw ssw sswFeedback) s

/-- From `DmgStaWifiMac::SendSectorSweepFrame`. -/
def SendSectorSweepFrame (address : Mac48Address) (direction : BeamformingDirection)
    (sectorID antennaID count : Nat) (s : Mac) : Mac :=
  let hdr := sswHeader address s
  let ssw : DMG_SSW_Field :=
    { direction := direction, countDown := count, sectorID := sectorID, antennaID := antennaID }
  let sswFeedback : DMG_SSW_FBCK_Field :=
    { isPartOfISS := false, sector := s.m_feedbackAntennaConfig.1,
      antenna := s.m_feedbackAntennaConfig.2, pollRequired := false }
  let s := if s.m_isResponderTXSS then
      /- Set Antenna Direction -/
      { s with antenna := (s.antenna.SetCurrentTxSectorID sectorID).SetCurrentTxAntennaID antennaID }
    else s
  /- Send Control Frames directly without DCA + DCF Manager -/
  StartTransmission hdr (TxBody.Ssw ssw sswFeedback) s

/-- From `DmgStaWifiMac::SendSswFbckFrame`. -/
def SendSswFbckFrame (receiver : Mac48Address) (s : Mac) : Mac :=
  /- The Duration field is set until the end of the current allocation -/
  let hdr := { WifiMacHeader.blank WifiMacType.WIFI_MAC_CTL_DMG_SSW_FBCK with
                 duration := GetRemainingAllocationTime s, addr1 := receiver, addr2 := s.address }
  /- Obtain antenna configuration for the highest received SNR from DMG STA to feed it back -/
  let s := { s with m_feedbackAntennaConfig := GetBestAntennaConfiguration receiver s }
  let feedback : DMG_SSW_FBCK_Field :=
    { isPartOfISS := false, sector := s.m_feedbackAntennaConfig.1,
      antenna := s.m_feedbackAntennaConfig.2, pollRequired := false }
  /- Set the best sector for transmission -/
  let s := { s with m_bestAntennaConfig := mapTouch s.m_bestAntennaConfig receiver ((0, 0), (0, 0)) }
  let antennaConfigTx := (mapIndex s.m_bestAntennaConfig receiver ((0, 0), (0, 0))).1
  let s := { s with antenna := (s.antenna.SetCurrentTxSectorID antennaConfigTx.fst).SetCurrentTxAntennaID
                                 antennaConfigTx.snd }
  /- Send Control Frames directly without DCA + DCF Manager -/
  StartTransmission hdr (TxBody.SswFbck feedback) s

/-- From `DmgStaWifiMac::SendSswAckFrame`; `none` when the assertion on the
computed duration fails. -/
def SendSswAckFrame (receiver : Mac48Address) (s : Mac) : Option Mac :=
  /- The Duration field is set until the end of the current allocation -/
  let duration : Time := s.m_sswFbckDuration - (s.m_sifs + NanoSeconds s.sswAckTxTime)
  if duration > 0 then
    let hdr := { WifiMacHeader.blank WifiMacType.WIFI_MAC_CTL_DMG_SSW_ACK with
                   addr1 := receiver, addr2 := s.address, duration := s.m_currentAllocationLength }
    /- Obtain antenna configuration for the highest received SNR from DMG STA to feed it back -/
    let s := { s with m_feedbackAntennaConfig := GetBestAntennaConfiguration receiver s }
    let feedback : DMG_SSW_FBCK_Field :=
      { isPartOfISS := false, sector := s.m_feedbackAntennaConfig.1,
        antenna := s.m_feedbackAntennaConfig.2, pollRequired := false }
    /- Set the best sector for transmission -/
    let s := { s with m_bestAntennaConfig := mapTouch s.m_bestAntennaConfig receiver ((0, 0), (0, 0)) }
    let antennaConfigTx := (mapIndex s.m_bestAntennaConfig receiver ((0, 0), (0, 0))).1
    let s := { s with antenna := (s.antenna.SetCurrentTxSectorID antennaConfigTx.fst).SetCurrentTxAntennaID
                                   antennaConfigTx.snd }
    /- Send Control Frames directly without DCA + DCF Manager -/
    some (StartTransmission hdr (TxBody.SswAck feedback) s)
  else none

/-- From `DmgStaWifiMac::FrameTxOk`. -/
def FrameTxOk (hdr : WifiMacHeader) (s : Mac) : Mac :=
  if hdr.macType = WifiMacType.WIFI_MAC_CTL_DMG_SSW then
    if s.m_totalSectors > 0 then
      let s := if s.m_sectorId < s.antenna.numberOfSectors then
          { s with m_sectorId := s.m_sectorId + 1 }
        else if s.m_sectorId = s.antenna.numberOfSectors ∧
            s.m_antennaId < s.antenna.numberOfAntennas then
          { s with m_sectorId := 1, m_antennaId := s.m_antennaId + 1 }
        else s
      let s := { s with m_totalSectors := s.m_totalSectors - 1 }
      if s.m_accessPeriod = ChannelAccessPeriod.CHANNEL_ACCESS_A_BFT then
        Schedule s.m_sbifs
          (Callback.SendSectorSweepFrame hdr.addr1 BeamformingDirection.BeamformingResponder
            s.m_sectorId s.m_antennaId s.m_totalSectors) s
      else
        /- We are performing BF in DTI -/
        if s.m_isIssInitiator then
          Schedule s.m_sbifs
            (Callback.SendIssSectorSweepFrame hdr.addr1 BeamformingDirection.BeamformingInitiator
              s.m_sectorId s.m_antennaId s.m_totalSectors) s
        else
          Schedule s.m_sbifs
            (Callback.SendRssSectorSweepFrame hdr.addr1 BeamformingDirection.BeamformingResponder
              s.m_sectorId s.m_antennaId s.m_totalSectors) s
    else
      /- We finished sending SSW Frame, we wait for the SSW-FBCK from the peer DMG STA/AP -/
      { s with antenna := s.antenna.SetInOmniReceivingMode }
  else if hdr.macType = WifiMacType.WIFI_MAC_CTL_DMG_SSW_ACK then
    /- We are SLS Respodner, raise a callback -/
    let antennaConfig := GetBestAntennaConfiguration hdr.addr1 s
    emit (Effect.SlsCompleted hdr.addr1 ChannelAccessPeriod.CHANNEL_ACCESS_DTI antennaConfig.1
      antennaConfig.2) s
  else s

/-- From `DmgStaWifiMac::BrpSetupCompleted`. -/
def BrpSetupCompleted (_address : Mac48Address) (s : Mac) : Mac := s

/-- From `DmgStaWifiMac::NotifyBrpPhaseCompleted`. -/
def NotifyBrpPhaseCompleted (s : Mac) : Mac := s

/-! ## Relay coordination -/

/-- From `DmgStaWifiMac::RequestInformation`. -/
def RequestInformation (stationAddress : Mac48Address) (s : Mac) : Mac :=
  emit (Effect.SendInformationRequest (GetBssid s) stationAddress) s

/-- From `DmgStaWifiMac::DoRelayDiscovery`; the information map holds, for each
station, the AID of its recorded capabilities. -/
def DoRelayDiscovery (stationAddress : Mac48Address) (s : Mac) : Mac :=
  let s := { s with m_dstRedsAddress := stationAddress, m_waitingDestinationRedsReports := false }
  /- Establish Relay with specific node -/
  match mapFind s.m_informationMap stationAddress with
  | some infoAid =>
    /- Send Relay Search Request Frame to the PCP/AP -/
    let s := { s with m_dstRedsAid := infoAid }
    let s := emit (Effect.SendRelaySearchRequest 0 s.m_dstRedsAid) s
    { s with m_relayInitiator := true }
  | none =>
    /- Obtain Information about the node like DMG Capabilities and AID -/
    emit (Effect.SendInformationRequest (GetBssid s) stationAddress) s

/-- From `DmgStaWifiMac::InitiateLinkSwitchingTypeProcedure`. -/
def InitiateLinkSwitchingTypeProcedure (rdsAddress : Mac48Address) (s : Mac) : Mac :=
  let s := { s with m_selectedRelayAddress := rdsAddress }
  emit (Effect.SetupRls rdsAddress 10 s.m_aid s.m_selectedRelayAid s.m_dstRedsAid) s

/-! ## Receive dispatcher -/

/-- Modelled from the spec: `WifiMacHeader::IsData`, a Data frame. -/
def WifiMacHeader.IsData (hdr : WifiMacHeader) : Bool :=
  hdr.macType = WifiMacType.WIFI_MAC_DATA ∨ hdr.macType = WifiMacType.WIFI_MAC_QOSDATA

/-- Modelled from the spec: `WifiMacHeader::IsQosData`, a QoS Data frame. -/
def WifiMacHeader.IsQosData (hdr : WifiMacHeader) : Bool :=
  hdr.macType = WifiMacType.WIFI_MAC_QOSDATA

/-- Modelled from the spec: `WifiMacHeader::IsDMGBeacon`, a DMG beacon. -/
def WifiMacHeader.IsDMGBeacon (hdr : WifiMacHeader) : Bool :=
  hdr.macType = WifiMacType.WIFI_MAC_EXTENSION_DMG_BEACON

/-- The 8-bit SNR value of a channel measurement entry,
`-(unsigned int) (4 * (measuredsnr - 19))` truncated to eight bits. -/
def encodeSnr (measuredsnr : Int) : Nat := ((-(4 * (measuredsnr - 19))) % 256).toNat

/-- The Action / Action-No-Ack branch of `DmgStaWifiMac::Receive`; `none` is
the fatal error of the default case. -/
def ReceiveAction (packet : Packet) (hdr : WifiMacHeader) (s : Mac) : Option Mac :=
  match packet.category with
  | CategoryValue.DMG =>
    match packet.dmgAction with
    | DmgActionValue.DMG_RELAY_SEARCH_RESPONSE =>
      /- The response contains list of RDS in BSS -/
      some { s with m_rdsList := packet.relayCapableList }
    | DmgActionValue.DMG_MULTI_RELAY_CHANNEL_MEASUREMENT_REQUEST =>
      let list : List ExtChannelMeasurementInfo :=
        if s.m_rdsActivated then
          [{ peerStaAid := 0, snr := encodeSnr (GetBestSnr hdr.addr2 s) }]
        else
          s.m_rdsList.map (fun aid => { peerStaAid := aid, snr := encodeSnr (GetBestSnr 2 s) })
      some (emit (Effect.SendChannelMeasurementReport hdr.addr2 packet.dialogToken list) s)
    | DmgActionValue.DMG_MULTI_RELAY_CHANNEL_MEASUREMENT_REPORT =>
      if s.m_relayInitiator then
        let s := if !s.m_waitingDestinationRedsReports then
            { s with m_waitingDestinationRedsReports := true }
          else
            packet.channelMeasurementInfoList.foldl
              (fun acc e => { acc with m_selectedRelayAid := e.peerStaAid }) s
        some (emit (Effect.ChannelReportReceived hdr.addr2) s)
      else some s
    | DmgActionValue.DMG_RLS_REQUEST =>
      if s.m_rdsActivated then
        /- We are the RDS, so resend RLS Request to the Destination REDS -/
        let s := { s with m_srcRedsAddress := hdr.addr2 }
        some (emit (Effect.SetupRls 4 packet.dialogToken packet.rlsSourceAid packet.rlsRelayAid
          packet.rlsDestinationAid) s)
      else
        /- We are the destination REDS, so we send RLS Response to RDS -/
        let s := { s with m_selectedRelayAddress := hdr.addr2, m_relayMode := true }
        some (emit (Effect.SendRlsResponse s.m_selectedRelayAddress packet.dialogToken) s)
    | DmgActionValue.DMG_RLS_RESPONSE =>
      if s.m_rdsActivated then
        /- We are the RDS, resend RLS Response to Source REDS -/
        let s := emit (Effect.SendRlsResponse s.m_srcRedsAddress packet.dialogToken) s
        some { s with m_relayMode := true }
      else if packet.relayStatusCode = 0 ∧ packet.destinationStatusCode = 0 then
        /- This node is the Source REDS, so send RLS Announcement frame to PCP/AP -/
        let s := { s with m_relayMode := true }
        some (emit (Effect.SendRlsAnnouncment (GetBssid s) s.m_dstRedsAid s.m_selectedRelayAid
          s.m_aid) s)
      else some s
    | DmgActionValue.DMG_INFORMATION_RESPONSE =>
      /- Record the Information Obtained -/
      if IsBroadcast packet.subjectAddress then some s
      else
        let s := { s with m_informationMap :=
                            mapSet s.m_informationMap packet.subjectAddress packet.capabilitiesAid }
        some (MapAidToMacAddress packet.capabilitiesAid packet.subjectAddress s)
    | DmgActionValue.DMG_OTHER_ACTION => none
  | CategoryValue.OTHER_CATEGORY => some (emit (Effect.BaseReceive hdr) s)

/-- The SSW branch of `DmgStaWifiMac::Receive`. -/
def ReceiveSsw (packet : Packet) (hdr : WifiMacHeader) (s : Mac) : Mac :=
  let ssw := packet.sswField
  /- Map the antenna configuration for the frames received by SLS of the DMG-STA -/
  let s := MapTxSnr hdr.addr2 ssw.sectorID ssw.antennaID packet.rxSnr s
  if ssw.direction = BeamformingDirection.BeamformingResponder then
    /- If we receive one SSW Frame at least, then we schedule SSW-FBCK -/
    let sent := mapIndex s.m_sectorFeedbackSent hdr.addr2 false
    let s := { s with m_sectorFeedbackSent := mapTouch s.m_sectorFeedbackSent hdr.addr2 false }
    if !sent then
      let s := { s with m_sectorFeedbackSent := mapSet s.m_sectorFeedbackSent hdr.addr2 true }
      /- Set the best TX antenna configuration reported by the SSW-FBCK Field -/
      let sswFeedback := packet.sswFeedbackField
      let antennaConfigTx : ANTENNA_CONFIGURATION := (sswFeedback.sector, sswFeedback.antenna)
      let antennaConfigRx : ANTENNA_CONFIGURATION := (0, 0)
      let s := { s with m_bestAntennaConfig :=
                          mapSet s.m_bestAntennaConfig hdr.addr2 (antennaConfigTx, antennaConfigRx) }
      let sswFbckTime : Time := s.GetSectorSweepDuration ssw.countDown + s.m_mbifs
      Schedule sswFbckTime (Callback.SendSswFbckFrame hdr.addr2) s
    else s
  else
    if s.sim.IsExpired s.m_rssEvent then
      let rssTime : Time := s.GetSectorSweepDuration ssw.countDown + s.m_mbifs
      { s with m_rssEvent := nextEventId s,
               sim := s.sim.Schedule rssTime
                        (Callback.StartResponderSectorSweep hdr.addr2 true (MicroSeconds 300)) }
    else s

/-- The SSW-FBCK branch of `DmgStaWifiMac::Receive`. -/
def ReceiveSswFbck (packet : Packet) (hdr : WifiMacHeader) (s : Mac) : Mac :=
  /- The SSW-FBCK contains the best TX antenna by this station -/
  let sswFeedback := packet.sswFeedbackField
  let antennaConfigTx : ANTENNA_CONFIGURATION := (sswFeedback.sector, sswFeedback.antenna)
  let antennaConfigRx : ANTENNA_CONFIGURATION := (0, 0)
  let s := { s with m_bestAntennaConfig :=
                      mapSet s.m_bestAntennaConfig hdr.addr2 (antennaConfigTx, antennaConfigRx) }
  if s.m_accessPeriod = ChannelAccessPeriod.CHANNEL_ACCESS_A_BFT then
    /- Raise an event that we selected the best sector to the DMG AP -/
    let s := emit (Effect.SlsCompleted hdr.addr2 ChannelAccessPeriod.CHANNEL_ACCESS_BHI
      antennaConfigTx.1 antennaConfigTx.2) s
    /- We received SSW-FBCK so we cancel the timeout event -/
    { s with m_slotIndex := 0, sim := s.sim.Cancel s.m_sswFbckTimeout }
  else if s.m_accessPeriod = ChannelAccessPeriod.CHANNEL_ACCESS_DTI then
    let s := { s with m_sswFbckDuration := hdr.duration }
    /- We add the station to the list of the stations we can directly communicate with -/
    let s := { s with m_dataForwardingMap := s.m_dataForwardingMap ++ [hdr.addr2] }
    Schedule s.m_mbifs (Callback.SendSswAckFrame hdr.addr2) s
  else s

/-- The SSW-ACK branch of `DmgStaWifiMac::Receive`. -/
def ReceiveSswAck (_packet : Packet) (hdr : WifiMacHeader) (s : Mac) : Mac :=
  /- We add the station to the list of the stations we can directly communicate with -/
  let s := { s with m_dataForwardingMap := s.m_dataForwardingMap ++ [hdr.addr2] }
  /- Raise a callback -/
  let antennaConfig := GetBestAntennaConfiguration hdr.addr2 s
  emit (Effect.SlsCompleted hdr.addr2 ChannelAccessPeriod.CHANNEL_ACCESS_DTI antennaConfig.1
    antennaConfig.2) s

/-- The part of the DMG beacon branch of `DmgStaWifiMac::Receive` that runs
for the first beacon of a beacon interval. -/
def firstDmgBeacon (packet : Packet) (hdr : WifiMacHeader) (s : Mac) : Mac :=
  let beacon := packet.beacon
  let s := { s with m_receivedDmgBeacon := true,
                    m_stationSnrMap := mapErase s.m_stationSnrMap hdr.addr1 }
  /- Beacon Interval Field -/
  let s := { s with m_atiPresent := beacon.atiPresent, m_nBI := beacon.nBI,
                    m_ssSlotsPerABFT := beacon.abftLength, m_ssFramesPerSlot := beacon.fss,
                    m_isResponderTXSS := beacon.isResponderTXSS }
  /- DMG Parameters -/
  let s := { s with m_isCbapOnly := beacon.cbapOnly, m_isCbapSource := beacon.cbapSource }
  /- Next DMG ATI Element -/
  let s := { s with m_atiDuration := MicroSeconds beacon.atiDuration }
  /- Organizing medium access periods (Synchronization with TSF) -/
  let s := { s with m_abftDuration :=
                      NanoSeconds (s.m_ssSlotsPerABFT * s.GetSectorSweepSlotTime s.m_ssFramesPerSlot) }
  let s := { s with m_abftDuration := MicroSeconds (-((-s.m_abftDuration) / 1000)) }
  let s := { s with m_btiDuration :=
                      MicroSeconds beacon.minBHIDuration - s.m_abftDuration - s.m_atiDuration
                        - 2 * s.m_mbifs }
  let s := { s with m_btiStarted := MicroSeconds beacon.timestamp + hdr.duration - s.m_btiDuration }
  let s := { s with m_beaconInterval := MicroSeconds beacon.beaconIntervalUs }
  let s := if beacon.ccPresent ∧ beacon.discoveryMode then
      /- Check whether a station can participate in A-BFT -/
      s
    else
      /- Schedule A-BFT if not scheudled -/
      if s.m_nBI = 1 then
        let abftStartTime : Time := s.m_btiDuration + s.m_mbifs - (s.sim.now - s.m_btiStarted)
        let s := SetBssid hdr.addr1 s
        let s := { s with m_slotIndex := 0, m_remainingSlotsPerABFT := s.m_ssSlotsPerABFT }
        { s with m_abftEvent := nextEventId s,
                 sim := s.sim.Schedule abftStartTime Callback.StartAssociationBeamformTraining }
      else s
  /- Extended Scheudle Element -/
  match beacon.scheduleElement with
  | some list => { s with m_allocationList := list }
  | none => s

/-- The DMG beacon branch of `DmgStaWifiMac::Receive`. -/
def ReceiveDmgBeacon (packet : Packet) (hdr : WifiMacHeader) (s : Mac) : Mac :=
  let s := if !s.m_receivedDmgBeacon then firstDmgBeacon packet hdr s else s
  /- Sector Sweep Field -/
  let ssw := packet.beacon.sswField
  /- Map the antenna configuration, Addr1=BSSID -/
  MapTxSnr hdr.addr1 ssw.sectorID ssw.antennaID packet.rxSnr s

/-- The probe response branch of `DmgStaWifiMac::Receive`. -/
def ReceiveProbeResp (packet : Packet) (hdr : WifiMacHeader) (s : Mac) : Mac :=
  if s.m_state = MacState.WAIT_PROBE_RESP then
    if packet.probeRespSsid ≠ s.ssid then
      /- not a probe resp for our ssid. -/
      s
    else
      let s := SetBssid hdr.addr3 s
      /- the product of a 64-bit and a 32-bit unsigned integer, 64-bit -/
      let delay := MicroSeconds
        ((packet.probeRespBeaconIntervalUs * s.m_maxMissedBeacons) % 2 ^ 64 : Nat)
      let s := RestartBeaconWatchdog delay s
      let s := if s.sim.IsRunning s.m_probeRequestEvent then
          { s with sim := s.sim.Cancel s.m_probeRequestEvent }
        else s
      SendAssociationRequest (SetState MacState.WAIT_ASSOC_RESP s)
  else s

/-- The association response branch of `DmgStaWifiMac::Receive`. -/
def ReceiveAssocResp (packet : Packet) (_hdr : WifiMacHeader) (s : Mac) : Mac :=
  if s.m_state = MacState.WAIT_ASSOC_RESP then
    let s := if s.sim.IsRunning s.m_assocRequestEvent then
        { s with sim := s.sim.Cancel s.m_assocRequestEvent }
      else s
    if packet.assocRespIsSuccess then
      let s := { s with m_aid := packet.assocRespAid }
      let s := SetState MacState.ASSOCIATED s
      if !s.m_linkUpIsNull then emit Effect.LinkUp s else s
    else
      SetState MacState.REFUSED s
  else s

/-- From `DmgStaWifiMac::Receive`; `none` is a fatal error or a failed assertion. -/
def Receive (packet : Packet) (hdr : WifiMacHeader) (s : Mac) : Option Mac :=
  if hdr.addr3 = s.address then
    /- packet sent by us. -/
    some s
  else if hdr.addr1 ≠ s.address ∧ !IsGroup hdr.addr1 ∧ !hdr.IsDMGBeacon then
    /- packet is not for us -/
    some (emit Effect.NotifyRxDrop s)
  else if hdr.IsData then
    if !IsAssociated s ∧ hdr.addr2 ≠ GetBssid s then
      /- Received data frame while not associated: ignore -/
      some (emit Effect.NotifyRxDrop s)
    else if hdr.IsQosData then
      if hdr.qosAmsdu then
        if hdr.addr3 = GetBssid s then some (emit Effect.DeaggregateAmsduAndForward s) else none
      else some (emit (Effect.ForwardUp hdr.addr3 hdr.addr1) s)
    else some (emit (Effect.ForwardUp hdr.addr3 hdr.addr1) s)
  else if hdr.macType = WifiMacType.WIFI_MAC_MGT_PROBE_REQUEST ∨
      hdr.macType = WifiMacType.WIFI_MAC_MGT_ASSOCIATION_REQUEST then
    /- This is a frame aimed at an AP, so we can safely ignore it. -/
    some (emit Effect.NotifyRxDrop s)
  else if hdr.macType = WifiMacType.WIFI_MAC_MGT_ACTION ∨
      hdr.macType = WifiMacType.WIFI_MAC_MGT_ACTION_NO_ACK then
    ReceiveAction packet hdr s
  else if hdr.macType = WifiMacType.WIFI_MAC_CTL_DMG_SSW then
    some (ReceiveSsw packet hdr s)
  else if hdr.macType = WifiMacType.WIFI_MAC_CTL_DMG_SSW_FBCK then
    some (ReceiveSswFbck packet hdr s)
  else if hdr.macType = WifiMacType.WIFI_MAC_CTL_DMG_SSW_ACK then
    some (ReceiveSswAck packet hdr s)
  else if hdr.macType = WifiMacType.WIFI_MAC_EXTENSION_DMG_BEACON then
    some (ReceiveDmgBeacon packet hdr s)
  else if hdr.macType = WifiMacType.WIFI_MAC_MGT_PROBE_RESPONSE then
    some (ReceiveProbeResp packet hdr s)
  else if hdr.macType = WifiMacType.WIFI_MAC_MGT_ASSOCIATION_RESPONSE then
    some (ReceiveAssocResp packet hdr s)
  else
    /- Poll, Grant and every other frame go to the base class. -/
    some (emit (Effect.BaseReceive hdr) s)

/-! ## Running the station -/

/-- The member function bound in a scheduled event, applied to the station.
`slot` is the number the stream of the random source yields if the call draws
one; a number inside the range the call sets is returned as it is.  The
contention and service period handlers belong to the base class and are
recorded in the log. -/
def invoke (cb : Callback) (slot : Nat) (s : Mac) : Option Mac :=
  match cb with
  | Callback.TryToEnsureAssociated => some (TryToEnsureAssociated s)
  | Callback.ProbeRequestTimeout => some (ProbeRequestTimeout s)
  | Callback.AssocRequestTimeout => some (AssocRequestTimeout s)
  | Callback.MissedBeacons => some (MissedBeacons s)
  | Callback.StartBeaconTransmissionInterval => some (StartBeaconTransmissionInterval s)
  | Callback.StartAssociationBeamformTraining => some (StartAssociationBeamformTraining slot s)
  | Callback.StartAnnouncementTransmissionInterval =>
    some (StartAnnouncementTransmissionInterval s)
  | Callback.StartDataTransmissionInterval => some (StartDataTransmissionInterval s)
  | Callback.StartContentionPeriod d => some (emit (Effect.StartContentionPeriod d) s)
  | Callback.StartServicePeriod l peer isSource =>
    some (emit (Effect.StartServicePeriod l peer isSource) s)
  | Callback.EndServicePeriod => some (emit Effect.EndServicePeriod s)
  | Callback.InitiateBeamforming a t d => some (InitiateBeamforming a t d s)
  | Callback.StartResponderSectorSweep a t d => some (StartResponderSectorSweep a t d s)
  | Callback.SendIssSectorSweepFrame a dir sec ant c =>
    some (SendIssSectorSweepFrame a dir sec ant c s)
  | Callback.SendRssSectorSweepFrame a dir sec ant c =>
    some (SendRssSectorSweepFrame a dir sec ant c s)
  | Callback.SendSectorSweepFrame a dir sec ant c =>
    some (SendSectorSweepFrame a dir sec ant c s)
  | Callback.SendSswFbckFrame r => some (SendSswFbckFrame r s)
  | Callback.SendSswAckFrame r => SendSswAckFrame r s

/-- Modelled from the spec: the scheduler executes the pending event `uid`; the
clock moves to the firing time of the event, the event stops being pending and
its call runs.  `none` when no such event is pending or the call aborts. -/
def runEvent (uid : Nat) (slot : Nat) (s : Mac) : Option Mac :=
  match s.sim.events.find? (fun e => e.uid == uid) with
  | none => none
  | some e =>
    invoke e.cb slot
      { s with sim := { s.sim with now := e.ts,
                                   events := s.sim.events.filter (fun x => x.uid != uid) } }

/-- The steps that drive the station: a scheduled event firing, a frame
reception, a transmission completing, and the calls other objects make. -/
inductive Op
  | RunEvent (uid : Nat) (slot : Nat)
  | Receive (packet : Packet) (hdr : WifiMacHeader)
  | FrameTxOk (hdr : WifiMacHeader)
  | DoInitialize
  | SetMaxMissedBeacons (missed : Nat)
  | SetProbeRequestTimeout (timeout : Time)
  | SetAssocRequestTimeout (timeout : Time)
  | StartActiveAssociation
  | SetActiveProbing (enable : Bool)
  | MapAidToMacAddress (aid : Nat) (address : Mac48Address)
  | Enqueue (packet : Nat) (packetTid : Nat) (dest : Mac48Address)
  | SendSprFrame (dest : Mac48Address)
  | InitiateBeamforming (address : Mac48Address) (isTxss : Bool) (duration : Time)
  | RequestInformation (stationAddress : Mac48Address)
  | DoRelayDiscovery (stationAddress : Mac48Address)
  | InitiateLinkSwitchingTypeProcedure (rdsAddress : Mac48Address)
  | BrpSetupCompleted (address : Mac48Address)
  | NotifyBrpPhaseCompleted

/-- One step of the station. -/
def step (op : Op) (s : Mac) : Option Mac :=
  match op with
  | Op.RunEvent uid slot => runEvent uid slot s
  | Op.Receive packet hdr => Receive packet hdr s
  | Op.FrameTxOk hdr => some (FrameTxOk hdr s)
  | Op.DoInitialize => some (DoInitialize s)
  | Op.SetMaxMissedBeacons missed => some (SetMaxMissedBeacons missed s)
  | Op.SetProbeRequestTimeout timeout => some (SetProbeRequestTimeout timeout s)
  | Op.SetAssocRequestTimeout timeout => some (SetAssocRequestTimeout timeout s)
  | Op.StartActiveAssociation => some (StartActiveAssociation s)
  | Op.SetActiveProbing enable => some (SetActiveProbing enable s)
  | Op.MapAidToMacAddress aid address => some (MapAidToMacAddress aid address s)
  | Op.Enqueue packet packetTid dest => some (Enqueue packet packetTid dest s)
  | Op.SendSprFrame dest => some (SendSprFrame dest s)
  | Op.InitiateBeamforming a t d => some (InitiateBeamforming a t d s)
  | Op.RequestInformation a => some (RequestInformation a s)
  | Op.DoRelayDiscovery a => some (DoRelayDiscovery a s)
  | Op.InitiateLinkSwitchingTypeProcedure a => some (InitiateLinkSwitchingTypeProcedure a s)
  | Op.BrpSetupCompleted a => some (BrpSetupCompleted a s)
  | Op.NotifyBrpPhaseCompleted => some (NotifyBrpPhaseCompleted s)

/-! ## Observations used in the statements -/

/-- The calls and traces an operation added to the log, given the station
before (`s`) and after (`t`) it. -/
def emitted (s t : Mac) : List Effect := t.log.drop s.log.length

/-- The frames an operation added to the contention (DCA) queue. -/
def queued (s t : Mac) : List Frame := t.m_dca.drop s.m_dca.length

/-- Recognises the `Assoc` trace. -/
def Effect.isAssoc : Effect → Bool
  | Effect.AssocLogger _ => true
  | _ => false

/-- Recognises the `DeAssoc` trace. -/
def Effect.isDeAssoc : Effect → Bool
  | Effect.DeAssocLogger _ => true
  | _ => false

/-- Recognises an association request frame. -/
def Frame.isAssocRequest (f : Frame) : Bool :=
  f.hdr.macType = WifiMacType.WIFI_MAC_MGT_ASSOCIATION_REQUEST

/-- Recognises a probe request frame. -/
def Frame.isProbeRequest (f : Frame) : Bool :=
  f.hdr.macType = WifiMacType.WIFI_MAC_MGT_PROBE_REQUEST

/-- A station as the constructor and the attribute defaults leave it, with
an 8-sector single-antenna array; used to evaluate the model on concrete runs. -/
def initialMac : Mac :=
  { address := 1, ssid := 7, m_bssid := 0,
    m_state := MacState.BEACON_MISSED, m_aid := 0, m_activeProbing := false,
    m_probeRequestTimeout := 50000000, m_assocRequestTimeout := 500000000,
    m_maxMissedBeacons := 10,
    m_probeRequestEvent := none, m_assocRequestEvent := none, m_beaconWatchdog := none,
    m_beaconWatchdogEnd := 0, m_linkUpIsNull := false, m_supportRdp := false,
    m_accessPeriod := ChannelAccessPeriod.CHANNEL_ACCESS_BTI,
    m_scheduledPeriodAfterAbft := false, m_sectorFeedbackSent := [],
    m_rdsOperational := false, m_remainingSlotsPerABFT := 0, m_slotIndex := 0,
    m_ssSlotsPerABFT := 0, m_ssFramesPerSlot := 0, m_isResponderTXSS := false,
    m_atiPresent := false, m_nBI := 0, m_abftDuration := 0, m_atiDuration := 0,
    m_btiDuration := 0, m_btiStarted := 0, m_beaconInterval := 102400000,
    m_isCbapOnly := false, m_isCbapSource := false, m_allocationList := [],
    m_receivedDmgBeacon := false, m_abftEvent := none, m_sswFbckTimeout := none,
    m_rssEvent := none,
    m_aidMap := [], m_macMap := [], m_spStations := [], m_dataForwardingMap := [],
    m_bestAntennaConfig := [], m_stationSnrMap := [], m_informationMap := [],
    m_isIssInitiator := false, m_allocationStarted := 0, m_currentAllocationLength := 0,
    m_feedbackAntennaConfig := (0, 0), m_sectorId := 0, m_antennaId := 0, m_totalSectors := 0,
    m_sswFbckDuration := 0, m_sbifs := 1000, m_mbifs := 9000, m_sifs := 3000,
    sswAckTxTime := 0,
    m_dstRedsAddress := 0, m_waitingDestinationRedsReports := false, m_dstRedsAid := 0,
    m_relayInitiator := false, m_selectedRelayAddress := 0, m_selectedRelayAid := 0,
    m_rdsList := [], m_rdsActivated := false, m_srcRedsAddress := 0, m_relayMode := false,
    sim := { now := 0, nextUid := 0, events := [] },
    antenna := { currentTxSectorID := 0, currentTxAntennaID := 0, currentRxSectorID := 0,
                 currentRxAntennaID := 0, omniReceivingMode := false,
                 numberOfSectors := 8, numberOfAntennas := 1 },
    m_dca := [], m_edca := [], m_sp := [], m_dmgAtiDca := [], m_low := [],
    m_dcfManagerAccess := false, m_spAccess := false, log := [],
    GetSectorSweepSlotTime := fun n => 16000 * (n + 1),
    GetSectorSweepDuration := fun n => 16000 * (n + 1) }

/-- A received packet with every accessor zero; concrete runs override the
fields of the header they exercise. -/
def blankPacket : Packet :=
  { probeRespSsid := 0, probeRespBeaconIntervalUs := 0, assocRespIsSuccess := false,
    assocRespAid := 0, category := CategoryValue.OTHER_CATEGORY,
    dmgAction := DmgActionValue.DMG_OTHER_ACTION, relayCapableList := [], dialogToken := 0,
    channelMeasurementInfoList := [], rlsSourceAid := 0, rlsRelayAid := 0,
    rlsDestinationAid := 0, relayStatusCode := 0, destinationStatusCode := 0,
    subjectAddress := 0, capabilitiesAid := 0,
    sswField := { direction := BeamformingDirection.BeamformingInitiator, countDown := 0,
                  sectorID := 0, antennaID := 0 },
    sswFeedbackField := { isPartOfISS := false, sector := 0, antenna := 0, pollRequired := false },
    beacon := { timestamp := 0, beaconIntervalUs := 0,
                sswField := { direction := BeamformingDirection.BeamformingInitiator,
                              countDown := 0, sectorID := 0, antennaID := 0 },
                atiPresent := false, nBI := 0, abftLength := 0, fss := 0,
                isResponderTXSS := false, ccPresent := false, discoveryMode := false,
                cbapOnly := false, cbapSource := false, minBHIDuration := 0, atiDuration := 0,
                scheduleElement := none },
    rxSnr := 0 }

/-- A station waiting for an association response, with no link-up callback
installed. -/
def waitingWithoutLinkUp : Mac :=
  { initialMac with m_state := MacState.WAIT_ASSOC_RESP, m_linkUpIsNull := true }

/-- Header of an association response addressed to the station `initialMac`. -/
def assocRespHdr : WifiMacHeader :=
  { WifiMacHeader.blank WifiMacType.WIFI_MAC_MGT_ASSOCIATION_RESPONSE with
      addr1 := 1, addr2 := 9, addr3 := 9 }

/-- A successful association response assigning AID 5. -/
def assocRespSuccess : Packet :=
  { blankPacket with assocRespIsSuccess := true, assocRespAid := 5 }

/-- A station waiting for a probe response under active probing. -/
def probingStation : Mac :=
  { initialMac with m_state := MacState.WAIT_PROBE_RESP, m_activeProbing := true }

/-- Header of a probe response from the access point 9 to the station
`initialMac`. -/
def probeRespHdr : WifiMacHeader :=
  { WifiMacHeader.blank WifiMacType.WIFI_MAC_MGT_PROBE_RESPONSE with
      addr1 := 1, addr2 := 9, addr3 := 9 }

/-- A probe response for the SSID of `initialMac` announcing a beacon interval
of 102400 microseconds. -/
def probeRespMatching : Packet :=
  { blankPacket with probeRespSsid := 7, probeRespBeaconIntervalUs := 102400 }

/-- A station that has sent an association request and waits for the
response. -/
def waitingForAssocResp : Mac :=
  { initialMac with m_state := MacState.WAIT_ASSOC_RESP }

/-- A station whose association was refused, with a DTI start and a beacon
watchdog callback pending. -/
def refusedStation : Mac :=
  { initialMac with
      m_state := MacState.REFUSED,
      sim := { now := 0, nextUid := 2,
               events := [{ uid := 0, ts := 5, cb := Callback.StartDataTransmissionInterval },
                          { uid := 1, ts := 7, cb := Callback.MissedBeacons }] } }

/-- The station `refusedStation` after its pending DTI start has fired. -/
def refusedAfterDtiStart : Mac :=
  StartDataTransmissionInterval
    { refusedStation with
        sim := { now := 5, nextUid := 2,
                 events := [{ uid := 1, ts := 7, cb := Callback.MissedBeacons }] } }

/-- A run of the station: the steps of a list, in order; `none` as soon as one
step aborts. -/
def run : List Op → Mac → Option Mac
  | [], s => some s
  | op :: rest, s => (step op s).bind (run rest)

/-- Recognises the step that associates the station: the reception of an
association response whose status code is success. -/
def Op.isSuccessfulAssocResp : Op → Bool
  | Op.Receive packet hdr =>
    hdr.macType = WifiMacType.WIFI_MAC_MGT_ASSOCIATION_RESPONSE ∧ packet.assocRespIsSuccess = true
  | _ => false

/-- Header of a DMG beacon of the access point 9. -/
def beaconHdr : WifiMacHeader :=
  { WifiMacHeader.blank WifiMacType.WIFI_MAC_EXTENSION_DMG_BEACON with
      addr1 := 9, duration := 300000 }

/-- A station that has processed a DMG beacon in the current beacon interval. -/
def afterFirstBeacon : Mac :=
  { initialMac with m_receivedDmgBeacon := true, m_bssid := 9, m_nBI := 1,
                    m_ssSlotsPerABFT := 4, m_ssFramesPerSlot := 8,
                    m_remainingSlotsPerABFT := 4 }

/-- A DMG beacon sent on sector 3 of antenna 1, received with SNR 17. -/
def beaconOnSector3 : Packet :=
  { blankPacket with
      beacon := { blankPacket.beacon with
                    sswField := { direction := BeamformingDirection.BeamformingInitiator,
                                  countDown := 0, sectorID := 3, antennaID := 1 },
                    nBI := 1, abftLength := 4, fss := 8, minBHIDuration := 2000,
                    timestamp := 100 },
      rxSnr := 17 }

/-- A DMG beacon with nBI = 1 that announces clustering control in discovery mode. -/
def beaconDiscovery : Packet :=
  { beaconOnSector3 with
      beacon := { beaconOnSector3.beacon with ccPresent := true, discoveryMode := true } }

/-- An associated station (AID 5 at the access point 9). -/
def associatedStation : Mac :=
  { initialMac with m_state := MacState.ASSOCIATED, m_aid := 5, m_bssid := 9 }

/-- The events an operation appended to the list of pending events, given the
station before (`s`) and after (`t`) it. -/
def scheduled (s t : Mac) : List Event := t.sim.events.drop s.sim.events.length

/-- Recognises the start of a Responder Sector Sweep. -/
def Callback.isResponderSectorSweep : Callback → Bool
  | Callback.StartResponderSectorSweep _ _ _ => true
  | _ => false

/-- Recognises the (re-)entry of the A-BFT. -/
def Callback.isAbftStart : Callback → Bool
  | Callback.StartAssociationBeamformTraining => true
  | _ => false

/-- A DMG beacon that announces an A-BFT of a single slot of 8 frames, in a
beacon interval of 102400 microseconds whose BTI started at time 0. -/
def beaconOneSlot : Packet :=
  { blankPacket with
      beacon := { blankPacket.beacon with
                    nBI := 1, abftLength := 1, fss := 8, minBHIDuration := 2000,
                    timestamp := 1538, beaconIntervalUs := 102400 } }

/-- The station when `StartDataTransmissionInterval`, on a station that is not
an operational RDS, reaches the test of the CBAP-only flags: the access period
is DTI, the beacon flag is reset, the next BTI is scheduled and the association
request, if the station is not associated, is sent. -/
def dtiEntry (s : Mac) : Mac :=
  let s := { s with m_accessPeriod := ChannelAccessPeriod.CHANNEL_ACCESS_DTI }
  let s := { s with m_receivedDmgBeacon := false }
  let nextBeaconInterval : Time := s.m_beaconInterval - (s.sim.now - s.m_btiStarted)
  let s := Schedule nextBeaconInterval Callback.StartBeaconTransmissionInterval s
  if !IsAssociated s then SendAssociationRequest (SetState MacState.WAIT_ASSOC_RESP s) else s

/-- The pending events of `t` that were scheduled after the station was `s`:
those whose identifier is not below the next identifier of `s`. -/
def scheduledSince (s t : Mac) : List Event :=
  t.sim.events.filter (fun e => decide (s.sim.nextUid ≤ e.uid))

/-- Recognises the start of a Contention Period. -/
def Callback.isContentionPeriod : Callback → Bool
  | Callback.StartContentionPeriod _ => true
  | _ => false

/-- Recognises the events of a Service Period allocation: the start of an
Initiator Sector Sweep, and the start and the end of a Service Period. -/
def Callback.isServicePeriodEvent : Callback → Bool
  | Callback.InitiateBeamforming _ _ _ => true
  | Callback.StartServicePeriod _ _ _ => true
  | Callback.EndServicePeriod => true
  | _ => false

/-- A Service Period allocation from the station with AID 5 to the station
with AID 6, from 1000 to 3000 microseconds after the start of the DTI. -/
def spFrom5To6 : AllocationField :=
  { allocationType := AllocationType.SERVICE_PERIOD_ALLOCATION, sourceAid := 5,
    destinationAid := 6, allocationStart := 1000, allocationBlockDuration := 2000,
    bfControl := { isBeamformTraining := false, isInitiatorTxss := false,
                   isResponderTxss := false } }

/-- An associated station (AID 5) in a CBAP-only beacon interval whose schedule
has one Service Period allocation. -/
def cbapOnlyStation : Mac :=
  { associatedStation with m_isCbapOnly := true, m_isCbapSource := false,
                           m_allocationList := [spFrom5To6], m_aidMap := [(6, 66)] }

/-- A CBAP allocation open to every station. -/
def cbapForAll : AllocationField :=
  { allocationType := AllocationType.CBAP_ALLOCATION, sourceAid := 255,
    destinationAid := 255, allocationStart := 0, allocationBlockDuration := 1000,
    bfControl := { isBeamformTraining := false, isInitiatorTxss := false,
                   isResponderTxss := false } }

/-- A quiet period: a Service Period allocation with source and destination
AID 255. -/
def quietPeriod : AllocationField :=
  { allocationType := AllocationType.SERVICE_PERIOD_ALLOCATION, sourceAid := 255,
    destinationAid := 255, allocationStart := 3000, allocationBlockDuration := 500,
    bfControl := { isBeamformTraining := false, isInitiatorTxss := false,
                   isResponderTxss := false } }

/-- An associated station (AID 5) whose schedule holds a CBAP allocation, a
Service Period of which it is the source, and a quiet period. -/
def scheduledStation : Mac :=
  { associatedStation with m_allocationList := [cbapForAll, spFrom5To6, quietPeriod],
                           m_aidMap := [(6, 66)] }

/-- An operational RDS whose schedule holds a Service Period of which it is the
source. -/
def rdsStation : Mac :=
  { associatedStation with m_rdsOperational := true, m_allocationList := [spFrom5To6],
                           m_aidMap := [(6, 66)] }

/-- A station whose AID is 255, with a quiet period in its schedule. -/
def station255 : Mac :=
  { associatedStation with m_aid := 255, m_allocationList := [quietPeriod],
                           m_aidMap := [(255, 77)] }

/-- Header of a data frame from the access point 9 to the station 2, which is
not the station `initialMac`. -/
def hdrForOther : WifiMacHeader :=
  { WifiMacHeader.blank WifiMacType.WIFI_MAC_QOSDATA with addr1 := 2, addr2 := 9, addr3 := 9 }

/-- Header of an Action frame from the station 5 to the station `initialMac`. -/
def actionHdr : WifiMacHeader :=
  { WifiMacHeader.blank WifiMacType.WIFI_MAC_MGT_ACTION with addr1 := 1, addr2 := 5, addr3 := 9 }

/-- A DMG action frame of a subtype the station has no case for. -/
def unknownDmgAction : Packet :=
  { blankPacket with category := CategoryValue.DMG,
                     dmgAction := DmgActionValue.DMG_OTHER_ACTION }

/-- A relay initiator (source REDS) that has run the relay discovery toward
the station 4 (AID 6) and has received a first channel measurement report. -/
def sourceReds : Mac :=
  { associatedStation with m_relayInitiator := true, m_waitingDestinationRedsReports := true,
                           m_dstRedsAddress := 4, m_dstRedsAid := 6, m_selectedRelayAid := 7,
                           m_informationMap := [(4, 6)] }

/-- A channel measurement report with two entries, for the stations with AID 7
and AID 8. -/
def reportTwoEntries : Packet :=
  { blankPacket with category := CategoryValue.DMG,
                     dmgAction := DmgActionValue.DMG_MULTI_RELAY_CHANNEL_MEASUREMENT_REPORT,
                     channelMeasurementInfoList :=
                       [{ peerStaAid := 7, snr := 10 }, { peerStaAid := 8, snr := 20 }] }

/-- An RLS Response with both status codes zero. -/
def rlsResponseOk : Packet :=
  { blankPacket with category := CategoryValue.DMG,
                     dmgAction := DmgActionValue.DMG_RLS_RESPONSE, dialogToken := 10,
                     relayStatusCode := 0, destinationStatusCode := 0 }

/-- An activated RDS that knows the station with AID 6 under the address 66. -/
def rdsRelay : Mac :=
  { associatedStation with m_rdsActivated := true, m_aid := 7, m_aidMap := [(5, 5), (6, 66)] }

/-- An RLS Request from the source REDS (AID 5) for the relay with AID 7 and
the destination REDS with AID 6. -/
def rlsRequest : Packet :=
  { blankPacket with category := CategoryValue.DMG,
                     dmgAction := DmgActionValue.DMG_RLS_REQUEST, dialogToken := 10,
                     rlsSourceAid := 5, rlsRelayAid := 7, rlsDestinationAid := 6 }

/-- One round of a transmit sector sweep: the scheduler runs the pending event
`uid` (a sector sweep sender), and the frame transmitter then reports the
completion of the transmission it was handed last. -/
def sweepRound (uid : Nat) (s : Mac) : Option Mac :=
  match runEvent uid 0 s with
  | none => none
  | some t =>
    match t.m_low.getLast? with
    | none => none
    | some tx => some (FrameTxOk tx.hdr t)

/-- The first `n` rounds of a transmit sector sweep whose first sender is the
pending event `uid`; each round schedules the sender of the next. -/
def sweepRounds : Nat → Nat → Mac → Option Mac
  | 0, _, s => some s
  | n + 1, uid, s => (sweepRound uid s).bind (sweepRounds n (uid + 1))

/-- The sector, the antenna and the CountDown an SSW frame carries. -/
def Transmission.sweepFields (tx : Transmission) : Option (Nat × Nat × Nat) :=
  match tx.body with
  | TxBody.Ssw ssw _ => some (ssw.sectorID, ssw.antennaID, ssw.countDown)
  | _ => none

/-- The receiver, the sector, the antenna and the count a pending sector sweep
sender was scheduled with. -/
def Callback.sweepArgs : Callback → Option (Mac48Address × Nat × Nat × Nat)
  | Callback.SendIssSectorSweepFrame a _ sec ant c => some (a, sec, ant, c)
  | Callback.SendRssSectorSweepFrame a _ sec ant c => some (a, sec, ant, c)
  | Callback.SendSectorSweepFrame a _ sec ant c => some (a, sec, ant, c)
  | _ => none

/-- A station whose antenna array has three sectors on each of two antennas. -/
def sweepStation : Mac :=
  { initialMac with
    antenna := { initialMac.antenna with numberOfSectors := 3, numberOfAntennas := 2 } }

/-- A station in the A-BFT whose responder sweep toward the access point 9 is
over and whose SSW-FBCK timeout (event 0) is pending. -/
def awaitingFbck : Mac :=
  { afterFirstBeacon with
      m_accessPeriod := ChannelAccessPeriod.CHANNEL_ACCESS_A_BFT,
      m_sswFbckTimeout := some 0, m_slotIndex := 2,
      sim := { now := 300000, nextUid := 1,
               events := [{ uid := 0, ts := 432000,
                            cb := Callback.StartAssociationBeamformTraining }] } }

/-- Header of an SSW-FBCK from the access point 9 to the station `initialMac`. -/
def fbckHdr : WifiMacHeader :=
  { WifiMacHeader.blank WifiMacType.WIFI_MAC_CTL_DMG_SSW_FBCK with
      addr1 := 1, addr2 := 9, duration := 100000 }

/-- A frame whose SSW feedback field reports sector 3 of antenna 1. -/
def feedbackSector3 : Packet :=
  { blankPacket with
      sswFeedbackField := { isPartOfISS := false, sector := 3, antenna := 1,
                            pollRequired := false } }

/-- Header of an SSW frame from the station 5 to the station `initialMac`. -/
def sswHdrFrom5 : WifiMacHeader :=
  { WifiMacHeader.blank WifiMacType.WIFI_MAC_CTL_DMG_SSW with
      addr1 := 1, addr2 := 5, duration := 100000 }

/-- Header of an SSW-ACK from the station 5 to the station `initialMac`. -/
def ackHdrFrom5 : WifiMacHeader :=
  { WifiMacHeader.blank WifiMacType.WIFI_MAC_CTL_DMG_SSW_ACK with
      addr1 := 1, addr2 := 5, duration := 100000 }

/-- An SSW frame of an initiator sweep (sector 2 of antenna 1, CountDown 5). -/
def issFrame : Packet :=
  { blankPacket with
      sswField := { direction := BeamformingDirection.BeamformingInitiator, countDown := 5,
                    sectorID := 2, antennaID := 1 },
      rxSnr := 12 }

/-- An SSW frame of a responder sweep (sector 2 of antenna 1, CountDown 5)
whose feedback field reports sector 6 of antenna 2. -/
def rssFrame : Packet :=
  { blankPacket with
      sswField := { direction := BeamformingDirection.BeamformingResponder, countDown := 5,
                    sectorID := 2, antennaID := 1 },
      sswFeedbackField := { isPartOfISS := false, sector := 6, antenna := 2,
                            pollRequired := false },
      rxSnr := 12 }

/-- An associated station in the DTI whose best configuration toward the
station 5 is sector 1 of antenna 1 and which has heard the station 5 best on
its sector 3 of antenna 1. -/
def trainedStation : Mac :=
  { associatedStation with
      m_accessPeriod := ChannelAccessPeriod.CHANNEL_ACCESS_DTI,
      m_bestAntennaConfig := [(5, ((1, 1), (0, 0)))],
      m_stationSnrMap := [(5, [((2, 1), 4), ((3, 1), 17)])] }

/-- Recognises the sending of an SSW-FBCK. -/
def Callback.isSswFbck : Callback → Bool
  | Callback.SendSswFbckFrame _ => true
  | _ => false

/-- An RLS Response whose relay status code is 1 (the relay refuses) and whose
destination status code is 0. -/
def rlsResponseRefused : Packet :=
  { blankPacket with category := CategoryValue.DMG,
                     dmgAction := DmgActionValue.DMG_RLS_RESPONSE, dialogToken := 10,
                     relayStatusCode := 1, destinationStatusCode := 0 }

/-- Header of an Action frame from the station 6 to the station `initialMac`. -/
def actionHdrFrom6 : WifiMacHeader :=
  { WifiMacHeader.blank WifiMacType.WIFI_MAC_MGT_ACTION with addr1 := 1, addr2 := 6, addr3 := 9 }

/-- A station in the DTI, 100 microseconds into a beamforming allocation of
300 microseconds that started at time 1000000, which has received an SSW-FBCK
with a duration field of 100 microseconds from the station 5. -/
def ackingStation : Mac :=
  { trainedStation with
      m_allocationStarted := 1000000, m_currentAllocationLength := 300000,
      m_sswFbckDuration := 100000,
      sim := { now := 1100000, nextUid := 0, events := [] } }

/-- The header and the overridden Duration/ID of the transmission started
last. -/
def lastDurations (s : Mac) : Option (WifiMacType × Time × Time) :=
  s.m_low.getLast?.map (fun tx => (tx.hdr.macType, tx.hdr.duration, tx.overrideDurationId))

/-- The antenna setting under which the transmission started last was handed
to the transmitter. -/
def lastTxAntenna (s : Mac) : Option (Nat × Nat) :=
  s.m_low.getLast?.map (fun tx => (tx.txSector, tx.txAntenna))

/-- The QoS Data header `Enqueue` builds for the destination `dest` and the TID
`tid`, with the addresses `SetHeaderAddresses` fills in. -/
def enqueueHeader (dest : Mac48Address) (tid : Nat) (s : Mac) : WifiMacHeader :=
  SetHeaderAddresses dest
    { WifiMacHeader.blank WifiMacType.WIFI_MAC_QOSDATA with qosAmsdu := false, qosTid := tid } s

/-- A Service Period allocation from the station with AID 5 to a station with
AID 8, which the station has no address and no antenna configuration for. -/
def spFrom5To8 : AllocationField :=
  { allocationType := AllocationType.SERVICE_PERIOD_ALLOCATION, sourceAid := 5,
    destinationAid := 8, allocationStart := 1000, allocationBlockDuration := 2000,
    bfControl := { isBeamformTraining := false, isInitiatorTxss := false,
                   isResponderTxss := false } }

/-- An associated station (AID 5) that has trained with no peer and whose
schedule holds Service Periods toward the stations with AID 6 (address 66) and
AID 8 (unknown). -/
def untrainedStation : Mac :=
  { associatedStation with m_allocationList := [spFrom5To6, spFrom5To8],
                           m_aidMap := [(6, 66)] }

/-- The steps that receive the frames of a list, in order. -/
def receiveAll (frames : List (Packet × WifiMacHeader)) : List Op :=
  frames.map (fun f => Op.Receive f.1 f.2)

/-- The first frame of a list that belongs to a responder sweep. -/
def firstResponderSsw (frames : List (Packet × WifiMacHeader)) : Option (Packet × WifiMacHeader) :=
  frames.find? (fun f => decide (f.1.sswField.direction = BeamformingDirection.BeamformingResponder))

/-- A DMG beacon that announces an A-BFT of a single slot of 8 frames followed
by an ATI of 300 microseconds. -/
def beaconOneSlotAti : Packet :=
  { blankPacket with
      beacon := { blankPacket.beacon with
                    nBI := 1, abftLength := 1, fss := 8, minBHIDuration := 2000,
                    timestamp := 1538, beaconIntervalUs := 102400, atiPresent := true,
                    atiDuration := 300 } }

/-- Recognises the start of the phase that follows the A-BFT. -/
def Callback.isNextPhaseStart : Callback → Bool
  | Callback.StartAnnouncementTransmissionInterval => true
  | Callback.StartDataTransmissionInterval => true
  | _ => false

/-- The pending starts of the phase after the A-BFT. -/
def nextPhaseStarts (t : Mac) : List Event :=
  t.sim.events.filter (fun e => e.cb.isNextPhaseStart)

/-- The fallback of the A-BFT fires: the scheduler runs the pending SSW-FBCK
timeout, which re-enters the A-BFT; `slot` is the number the stream of the
random source yields at the re-entry (the slot itself, when in range). -/
def abftFallback (slot : Nat) (s : Mac) : Option Mac :=
  match s.m_sswFbckTimeout with
  | none => none
  | some uid => runEvent uid slot s

/-- The fallbacks of one A-BFT firing one after the other, with the numbers
the stream of the random source yields at the re-entries (the slots
themselves, when in range). -/
def abftFallbacks : List Nat → Mac → Option Mac
  | [], s => some s
  | slot :: rest, s => (abftFallback slot s).bind (abftFallbacks rest)

/-- The slots consecutive A-BFT entries use up: each entry its chosen slot and
the slots before it in its range. -/
def slotsUsed : List Nat → Nat
  | [] => 0
  | slot :: rest => (slot + 1) + slotsUsed rest

/-- Each slot of the list lies in the range of its A-BFT entry: with `r` slots
remaining at an entry the chosen slot is at most `r - 1`, and the next entry
has `r - (slot + 1)` slots remaining. -/
def slotsInRange : Nat → List Nat → Bool
  | _, [] => true
  | r, slot :: rest => decide (slot + 1 ≤ r) && slotsInRange (r - (slot + 1)) rest

/-- The Responder Sector Sweeps scheduled after the station was `s` that are
pending in `t`. -/
def sweepsSince (s t : Mac) : List Event :=
  (scheduledSince s t).filter (fun e => e.cb.isResponderSectorSweep)

/-- The A-BFT fallbacks scheduled after the station was `s` that are pending
in `t`. -/
def fallbacksSince (s t : Mac) : List Event :=
  (scheduledSince s t).filter (fun e => e.cb.isAbftStart)

/-- A run of a station under active probing that associates through the DTI
start, its events fired in the order of their times: active probing is turned
on and the scheduled `TryToEnsureAssociated` sends a probe request and arms
the probe-request timeout (event 1, for 50 ms); a DMG beacon arrives; the
A-BFT starts (event 2) with its Responder Sector Sweep (event 3); the DTI
starts (event 4), which on a station that is not associated sets
WAIT_ASSOC_RESP and sends an association request; the A-BFT fallback (event 5)
and its sweep (event 8) fire; a successful association response arrives. -/
def associationByDtiStart : List Op :=
  [Op.SetActiveProbing true, Op.RunEvent 0 0, Op.Receive beaconOneSlot beaconHdr,
   Op.RunEvent 2 0, Op.RunEvent 3 0, Op.RunEvent 4 0, Op.RunEvent 5 0, Op.RunEvent 8 0,
   Op.Receive assocRespSuccess assocRespHdr]

/-- Recognises the probe-request and the association-request timeout. -/
def Callback.isRequestTimeout : Callback → Bool
  | Callback.ProbeRequestTimeout => true
  | Callback.AssocRequestTimeout => true
  | _ => false

/-- Header of a frame of the station `initialMac` (address 1) that the access
point 9 relays to the station 2: Addr3 is the address of `initialMac`, Addr1 is
another unicast address. -/
def hdrOwnFrameRelayed : WifiMacHeader :=
  { WifiMacHeader.blank WifiMacType.WIFI_MAC_QOSDATA with addr1 := 2, addr2 := 9, addr3 := 1 }

/-- A probe response for the SSID of `initialMac` announcing a beacon interval
of 2 ^ 63 microseconds. -/
def probeRespHuge : Packet :=
  { blankPacket with probeRespSsid := 7, probeRespBeaconIntervalUs := 2 ^ 63 }

/-! ## Theorems -/

/-- The log only grows by what `emit` appends. -/
theorem emitted_emit (e : Effect) (s : Mac) : emitted s (emit e s) = [e] := by
  simp [emitted, emit]

/-- Nothing is emitted when the log is unchanged. -/
theorem emitted_of_log_eq (s t : Mac) (h : t.log = s.log) : emitted s t = [] := by
  simp [emitted, h]

/-- C8: `SetState` fires the association traces exactly on entering and on
leaving ASSOCIATED.  For every previous state and every new state `v`: the state
after the call is `v`; the Assoc trace fires iff `v` is ASSOCIATED and the
previous state is not; the DeAssoc trace fires iff `v` is not ASSOCIATED and
the previous state is; at most one trace fires, it carries the BSSID, and
none fires when both states are ASSOCIATED or both are not. -/
theorem SetState_traces (v : MacState) (s : Mac) :
    (SetState v s).m_state = v ∧
    ((emitted s (SetState v s)).any Effect.isAssoc = true ↔
      (v = MacState.ASSOCIATED ∧ s.m_state ≠ MacState.ASSOCIATED)) ∧
    ((emitted s (SetState v s)).any Effect.isDeAssoc = true ↔
      (v ≠ MacState.ASSOCIATED ∧ s.m_state = MacState.ASSOCIATED)) ∧
    (emitted s (SetState v s)).length ≤ 1 ∧
    (∀ e ∈ emitted s (SetState v s),
      e = Effect.AssocLogger (GetBssid s) ∨ e = Effect.DeAssocLogger (GetBssid s)) ∧
    ((v = MacState.ASSOCIATED ↔ s.m_state = MacState.ASSOCIATED) →
      emitted s (SetState v s) = []) := by
  by_cases hv : v = MacState.ASSOCIATED <;> by_cases hp : s.m_state = MacState.ASSOCIATED <;>
    simp [SetState, emitted, emit, GetBssid, hv, hp, Effect.isAssoc, Effect.isDeAssoc]

/-- C6: `RestartBeaconWatchdog` never shortens the watchdog deadline.  For every
current time, delay and prior deadline the new deadline is
`max (now + delay) deadline`, hence not earlier than the prior one, and along
any sequence of restarts, each made at an arbitrary instant with an arbitrary
delay, the deadline never decreases. -/
theorem RestartBeaconWatchdog_deadline (delay : Time) (s : Mac) :
    (RestartBeaconWatchdog delay s).m_beaconWatchdogEnd
        = max (s.sim.now + delay) s.m_beaconWatchdogEnd ∧
    s.m_beaconWatchdogEnd ≤ (RestartBeaconWatchdog delay s).m_beaconWatchdogEnd ∧
    (∀ restarts : List (Time × Time),
      s.m_beaconWatchdogEnd ≤
        (restarts.foldl (fun acc r =>
            RestartBeaconWatchdog r.2 { acc with sim := { acc.sim with now := r.1 } }) s
          ).m_beaconWatchdogEnd) := by
  have h1 : ∀ (d : Time) (t : Mac), (RestartBeaconWatchdog d t).m_beaconWatchdogEnd
      = max (t.sim.now + d) t.m_beaconWatchdogEnd := by
    intro d t
    unfold RestartBeaconWatchdog
    simp only []
    split_ifs <;> rfl
  refine ⟨h1 delay s, ?_, ?_⟩
  · rw [h1]; exact le_max_right _ _
  · intro restarts
    induction restarts generalizing s with
    | nil => simp
    | cons r rest ih =>
      simp only [List.foldl_cons]
      refine le_trans ?_ (ih _)
      rw [h1]
      exact le_max_right _ _

/-- Cancelling a handle that is not running leaves the scheduler as it is. -/
theorem Simulator.Cancel_of_not_running (sim : Simulator) (id : EventId)
    (h : sim.IsRunning id = false) : sim.Cancel id = sim := by
  cases id with
  | none => rfl
  | some u =>
    simp only [Simulator.IsRunning, List.any_eq_false, beq_iff_eq] at h
    have : sim.events.filter (fun e => e.uid != u) = sim.events := by
      apply List.filter_eq_self.mpr
      intro e he
      simpa using h e he
    show ({ sim with events := sim.events.filter (fun e => e.uid != u) } : Simulator) = sim
    rw [this]

/-- Cancelling only when running is the same as cancelling. -/
theorem Simulator.cancel_if_running (sim : Simulator) (id : EventId) :
    (if sim.IsRunning id = true then sim.Cancel id else sim) = sim.Cancel id := by
  split_ifs with h
  · rfl
  · exact (Simulator.Cancel_of_not_running sim id (by simpa using h)).symm

/-- A cancelled handle is not running. -/
theorem Simulator.IsRunning_Cancel (sim : Simulator) (id : EventId) :
    (sim.Cancel id).IsRunning id = false := by
  cases id with
  | none => rfl
  | some u => simp [Simulator.Cancel, Simulator.IsRunning]

/-- The handle returned by `Schedule` is running. -/
theorem Simulator.IsRunning_Schedule (sim : Simulator) (d : Time) (cb : Callback) :
    (sim.Schedule d cb).IsRunning (some sim.nextUid) = true := by
  simp [Simulator.Schedule, Simulator.IsRunning]

/-- What `SendProbeRequest` does to the scheduler, the handle and the queue. -/
theorem SendProbeRequest_eq (s : Mac) :
    SendProbeRequest s =
      { s with m_dca := s.m_dca ++ [probeRequestFrame s],
               m_probeRequestEvent := some s.sim.nextUid,
               sim := (s.sim.Cancel s.m_probeRequestEvent).Schedule s.m_probeRequestTimeout
                        Callback.ProbeRequestTimeout } := by
  unfold SendProbeRequest
  by_cases h : s.sim.IsRunning s.m_probeRequestEvent = true
  · simp [h, nextEventId, Simulator.Cancel, probeRequestFrame]
  · have h2 := Simulator.Cancel_of_not_running s.sim s.m_probeRequestEvent (by simpa using h)
    simp [h, nextEventId, h2, probeRequestFrame]

/-- What `SendAssociationRequest` does to the association fields, the queue,
the log and the scheduler. -/
theorem SendAssociationRequest_fields (s : Mac) :
    (SendAssociationRequest s).m_state = s.m_state ∧
    (SendAssociationRequest s).m_aid = s.m_aid ∧
    (SendAssociationRequest s).m_bssid = s.m_bssid ∧
    (SendAssociationRequest s).m_beaconWatchdogEnd = s.m_beaconWatchdogEnd ∧
    (SendAssociationRequest s).m_beaconWatchdog = s.m_beaconWatchdog ∧
    (SendAssociationRequest s).m_probeRequestEvent = s.m_probeRequestEvent ∧
    (SendAssociationRequest s).log = s.log ∧
    (SendAssociationRequest s).m_dca = s.m_dca ++ [assocRequestFrame s] ∧
    (SendAssociationRequest s).m_assocRequestEvent = some s.sim.nextUid ∧
    (SendAssociationRequest s).sim =
      (s.sim.Cancel s.m_assocRequestEvent).Schedule s.m_assocRequestTimeout
        Callback.AssocRequestTimeout := by
  have hc := Simulator.cancel_if_running s.sim s.m_assocRequestEvent
  have hn : (s.sim.Cancel s.m_assocRequestEvent).nextUid = s.sim.nextUid := by
    cases s.m_assocRequestEvent <;> rfl
  unfold SendAssociationRequest
  simp only []
  split_ifs at hc ⊢ <;>
    refine ⟨rfl, rfl, rfl, rfl, rfl, rfl, rfl, rfl, ?_, ?_⟩ <;>
    first
      | rfl
      | exact congrArg some hn
      | (rw [← hc])

/-- From `SetState` writes the state. -/
theorem SetState_state (v : MacState) (s : Mac) : (SetState v s).m_state = v := by
  unfold SetState
  simp only []
  split_ifs <;> rfl

/-- From `SetState` to a state other than ASSOCIATED logs the DeAssoc trace exactly
when the station was associated. -/
theorem SetState_log_of_ne (v : MacState) (s : Mac) (hv : v ≠ MacState.ASSOCIATED) :
    (SetState v s).log =
      s.log ++ (if s.m_state = MacState.ASSOCIATED then [Effect.DeAssocLogger s.m_bssid] else []) := by
  unfold SetState
  by_cases hp : s.m_state = MacState.ASSOCIATED <;> simp [hv, hp, emit, GetBssid]

/-- From `SetState` leaves the other fields used by the association procedures. -/
theorem SetState_fields (v : MacState) (s : Mac) :
    (SetState v s).m_aid = s.m_aid ∧ (SetState v s).m_bssid = s.m_bssid ∧
    (SetState v s).sim = s.sim ∧ (SetState v s).m_dca = s.m_dca ∧
    (SetState v s).m_activeProbing = s.m_activeProbing ∧
    (SetState v s).m_probeRequestEvent = s.m_probeRequestEvent ∧
    (SetState v s).m_assocRequestEvent = s.m_assocRequestEvent ∧
    (SetState v s).m_beaconWatchdog = s.m_beaconWatchdog ∧
    (SetState v s).m_beaconWatchdogEnd = s.m_beaconWatchdogEnd ∧
    (SetState v s).m_probeRequestTimeout = s.m_probeRequestTimeout ∧
    (SetState v s).m_assocRequestTimeout = s.m_assocRequestTimeout ∧
    (SetState v s).address = s.address ∧ (SetState v s).ssid = s.ssid := by
  unfold SetState
  simp only []
  split_ifs <;> exact ⟨rfl, rfl, rfl, rfl, rfl, rfl, rfl, rfl, rfl, rfl, rfl, rfl, rfl⟩

/-- From `TryToEnsureAssociated` on a station in BEACON_MISSED. -/
theorem TryToEnsureAssociated_of_beaconMissed (s : Mac) (h : s.m_state = MacState.BEACON_MISSED) :
    TryToEnsureAssociated s =
      if s.m_activeProbing = true then
        SendProbeRequest (SetState MacState.WAIT_PROBE_RESP (emit Effect.LinkDown s))
      else emit Effect.LinkDown s := by
  unfold TryToEnsureAssociated
  simp only [h]
  rfl

/-- From `TryToEnsureAssociated` on a station in any other state. -/
theorem TryToEnsureAssociated_of_ne (s : Mac) (h : s.m_state ≠ MacState.BEACON_MISSED) :
    TryToEnsureAssociated s = s := by
  unfold TryToEnsureAssociated
  cases hs : s.m_state <;> simp_all

/-- C7: the beacon-watchdog callback `MissedBeacons`.  If the deadline is not
later than the current time, the state is set to BEACON_MISSED (the DeAssoc
trace fires exactly when the previous state was ASSOCIATED) and
`TryToEnsureAssociated` is then invoked, which raises link-down and leaves the
station in WAIT_PROBE_RESP under active probing and in BEACON_MISSED otherwise.
If the deadline is still in the future, the association state and the log are
unchanged and the watchdog is re-armed to fire exactly at the deadline.  Hence
the callback changes the association state only at or after the deadline. -/
theorem MissedBeacons_spec (s : Mac) :
    (if s.m_beaconWatchdogEnd ≤ s.sim.now then
      MissedBeacons s = TryToEnsureAssociated (SetState MacState.BEACON_MISSED s) ∧
      (SetState MacState.BEACON_MISSED s).m_state = MacState.BEACON_MISSED ∧
      emitted s (MissedBeacons s) =
        (if s.m_state = MacState.ASSOCIATED then [Effect.DeAssocLogger s.m_bssid] else [])
          ++ [Effect.LinkDown] ∧
      (MissedBeacons s).m_state =
        (if s.m_activeProbing = true then MacState.WAIT_PROBE_RESP else MacState.BEACON_MISSED)
    else
      (MissedBeacons s).m_state = s.m_state ∧
      emitted s (MissedBeacons s) = [] ∧
      (MissedBeacons s).m_beaconWatchdog = some s.sim.nextUid ∧
      (MissedBeacons s).sim.events =
        (s.sim.Cancel s.m_beaconWatchdog).events ++
          [{ uid := s.sim.nextUid, ts := s.m_beaconWatchdogEnd, cb := Callback.MissedBeacons }] ∧
      (MissedBeacons s).sim.now = s.sim.now ∧
      (MissedBeacons s).m_beaconWatchdogEnd = s.m_beaconWatchdogEnd) ∧
    ((MissedBeacons s).m_state = s.m_state ∨ s.m_beaconWatchdogEnd ≤ s.sim.now) := by
  have hc := Simulator.cancel_if_running s.sim s.m_beaconWatchdog
  by_cases h : s.m_beaconWatchdogEnd ≤ s.sim.now
  · have hgt : ¬ (s.m_beaconWatchdogEnd > s.sim.now) := not_lt.mpr h
    have heq : MissedBeacons s = TryToEnsureAssociated (SetState MacState.BEACON_MISSED s) := by
      unfold MissedBeacons
      simp only [hgt, if_false]
    have hst := SetState_state MacState.BEACON_MISSED s
    have hf := SetState_fields MacState.BEACON_MISSED s
    have hlog := SetState_log_of_ne MacState.BEACON_MISSED s (by decide)
    simp only [h, if_true]
    refine ⟨⟨heq, hst, ?_, ?_⟩, Or.inr trivial⟩
    · rw [heq, TryToEnsureAssociated_of_beaconMissed _ hst, hf.2.2.2.2.1]
      by_cases hp : s.m_activeProbing = true
      · simp only [hp, if_true, SendProbeRequest_eq]
        simp [emitted, emit, SetState_log_of_ne, hlog, hst]
      · simp only [hp, if_false]
        simp [emitted, emit, hlog]
    · rw [heq, TryToEnsureAssociated_of_beaconMissed _ hst, hf.2.2.2.2.1]
      by_cases hp : s.m_activeProbing = true
      · simp only [hp, if_true, SendProbeRequest_eq]
        exact SetState_state _ _
      · simp only [hp, if_false]
        simpa [emit] using hst
  · have hgt : s.m_beaconWatchdogEnd > s.sim.now := not_le.mp h
    simp only [h, if_false]
    have hn : (s.sim.Cancel s.m_beaconWatchdog).nextUid = s.sim.nextUid := by
      cases s.m_beaconWatchdog <;> rfl
    have hnow : (s.sim.Cancel s.m_beaconWatchdog).now = s.sim.now := by
      cases s.m_beaconWatchdog <;> rfl
    have hsim : (MissedBeacons s).sim =
        (s.sim.Cancel s.m_beaconWatchdog).Schedule (s.m_beaconWatchdogEnd - s.sim.now)
          Callback.MissedBeacons := by
      unfold MissedBeacons
      simp only [hgt, if_true]
      split_ifs at hc ⊢ <;> first | rfl | rw [← hc]
    have hrest : (MissedBeacons s).m_state = s.m_state ∧ (MissedBeacons s).log = s.log ∧
        (MissedBeacons s).m_beaconWatchdog = some (s.sim.Cancel s.m_beaconWatchdog).nextUid ∧
        (MissedBeacons s).m_beaconWatchdogEnd = s.m_beaconWatchdogEnd := by
      unfold MissedBeacons
      simp only [hgt, if_true]
      split_ifs at hc ⊢ <;> exact ⟨rfl, rfl, rfl, rfl⟩
    refine ⟨⟨hrest.1, emitted_of_log_eq _ _ hrest.2.1, ?_, ?_, ?_, hrest.2.2.2⟩, Or.inl hrest.1⟩
    · rw [hrest.2.2.1, hn]
    · rw [hsim]
      simp [Simulator.Schedule, hn, hnow]
    · rw [hsim]
      simp [Simulator.Schedule, hnow]

/-- The inline "cancel if running" of the source is a plain cancel. -/
theorem cancel_if_running_mac (s : Mac) (id : EventId) :
    (if s.sim.IsRunning id = true then { s with sim := s.sim.Cancel id } else s)
      = { s with sim := s.sim.Cancel id } := by
  split_ifs with h
  · rfl
  · have h2 := Simulator.Cancel_of_not_running s.sim id (by simpa using h)
    rw [h2]

/-- The frames that reach the association response branch. -/
theorem Receive_assocResp_eq (packet : Packet) (hdr : WifiMacHeader) (s : Mac)
    (htype : hdr.macType = WifiMacType.WIFI_MAC_MGT_ASSOCIATION_RESPONSE)
    (h3 : hdr.addr3 ≠ s.address)
    (h1 : hdr.addr1 = s.address ∨ IsGroup hdr.addr1 = true) :
    Receive packet hdr s = some (ReceiveAssocResp packet hdr s) := by
  unfold Receive
  rcases h1 with h1 | h1 <;>
    simp [h3, h1, htype, WifiMacHeader.IsData, WifiMacHeader.IsDMGBeacon]

/-- The frames that reach the probe response branch. -/
theorem Receive_probeResp_eq (packet : Packet) (hdr : WifiMacHeader) (s : Mac)
    (htype : hdr.macType = WifiMacType.WIFI_MAC_MGT_PROBE_RESPONSE)
    (h3 : hdr.addr3 ≠ s.address)
    (h1 : hdr.addr1 = s.address ∨ IsGroup hdr.addr1 = true) :
    Receive packet hdr s = some (ReceiveProbeResp packet hdr s) := by
  unfold Receive
  rcases h1 with h1 | h1 <;>
    simp [h3, h1, htype, WifiMacHeader.IsData, WifiMacHeader.IsDMGBeacon]

/-- The association response branch, case by case. -/
theorem ReceiveAssocResp_eq (packet : Packet) (hdr : WifiMacHeader) (s : Mac) :
    ReceiveAssocResp packet hdr s =
      if s.m_state = MacState.WAIT_ASSOC_RESP then
        if packet.assocRespIsSuccess = true then
          if s.m_linkUpIsNull = true then
            SetState MacState.ASSOCIATED
              { s with sim := s.sim.Cancel s.m_assocRequestEvent, m_aid := packet.assocRespAid }
          else
            emit Effect.LinkUp (SetState MacState.ASSOCIATED
              { s with sim := s.sim.Cancel s.m_assocRequestEvent, m_aid := packet.assocRespAid })
        else SetState MacState.REFUSED { s with sim := s.sim.Cancel s.m_assocRequestEvent }
      else s := by
  have hc := cancel_if_running_mac s s.m_assocRequestEvent
  unfold ReceiveAssocResp
  by_cases hs : s.m_state = MacState.WAIT_ASSOC_RESP
  · rw [if_pos hs, if_pos hs]
    simp only []
    rw [hc]
    have hl : (SetState MacState.ASSOCIATED
        { s with sim := s.sim.Cancel s.m_assocRequestEvent, m_aid := packet.assocRespAid }
        ).m_linkUpIsNull = s.m_linkUpIsNull := by
      unfold SetState
      simp only []
      split_ifs <;> rfl
    by_cases hok : packet.assocRespIsSuccess = true
    · rw [if_pos hok, if_pos hok]
      by_cases hn : s.m_linkUpIsNull = true
      · rw [if_pos hn, if_neg (by rw [hl, hn]; decide)]
      · rw [if_neg hn, if_pos (by rw [hl]; simpa using hn)]
    · rw [if_neg hok, if_neg hok]
  · rw [if_neg hs, if_neg hs]

/-- The log after `SetState`. -/
theorem SetState_log (v : MacState) (s : Mac) :
    (SetState v s).log =
      s.log ++
        (if v = MacState.ASSOCIATED ∧ s.m_state ≠ MacState.ASSOCIATED then
          [Effect.AssocLogger s.m_bssid]
        else if v ≠ MacState.ASSOCIATED ∧ s.m_state = MacState.ASSOCIATED then
          [Effect.DeAssocLogger s.m_bssid]
        else []) := by
  unfold SetState
  by_cases hv : v = MacState.ASSOCIATED <;> by_cases hp : s.m_state = MacState.ASSOCIATED <;>
    simp [hv, hp, emit, GetBssid]

/-- A list that extends `l` by `k` drops to `k`. -/
theorem drop_length_append {α : Type} (l k : List α) : (l ++ k).drop l.length = k := by
  simp

/-- C2, counterexample: a station in WAIT_ASSOC_RESP on which no link-up
callback is installed receives a successful association response that passes
the address filter; it becomes ASSOCIATED with the AID of the response, the
Assoc trace is logged, and link-up is not fired. -/
theorem assocResp_success_without_linkUp :
    (Receive assocRespSuccess assocRespHdr waitingWithoutLinkUp).map
        (fun t => (t.m_state, t.m_aid, emitted waitingWithoutLinkUp t))
      = some (MacState.ASSOCIATED, 5, [Effect.AssocLogger 0]) ∧
    ((Receive assocRespSuccess assocRespHdr waitingWithoutLinkUp).map
        (fun t => decide (Effect.LinkUp ∈ emitted waitingWithoutLinkUp t))) = some false := by
  decide

/-- C2, amended: an association response that passes the address filter.  In
WAIT_ASSOC_RESP the pending association-request timeout is cancelled; on a
success status the AID becomes the AID of the response, the state becomes
ASSOCIATED, the Assoc trace is logged and link-up is fired if a link-up
callback is installed (and not otherwise); on any other status the state
becomes REFUSED, the AID is unchanged and nothing is logged.  In every other
state the station is left exactly as it was. -/
theorem Receive_assocResp_spec (packet : Packet) (hdr : WifiMacHeader) (s : Mac)
    (htype : hdr.macType = WifiMacType.WIFI_MAC_MGT_ASSOCIATION_RESPONSE)
    (h3 : hdr.addr3 ≠ s.address)
    (h1 : hdr.addr1 = s.address ∨ IsGroup hdr.addr1 = true) :
    ∃ t, Receive packet hdr s = some t ∧
      (if s.m_state = MacState.WAIT_ASSOC_RESP then
        t.sim = s.sim.Cancel s.m_assocRequestEvent ∧
        t.sim.IsRunning s.m_assocRequestEvent = false ∧
        (if packet.assocRespIsSuccess = true then
          t.m_aid = packet.assocRespAid ∧ t.m_state = MacState.ASSOCIATED ∧
          emitted s t =
            Effect.AssocLogger s.m_bssid ::
              (if s.m_linkUpIsNull = true then [] else [Effect.LinkUp])
        else
          t.m_state = MacState.REFUSED ∧ t.m_aid = s.m_aid ∧ emitted s t = [])
      else t = s) := by
  refine ⟨_, Receive_assocResp_eq packet hdr s htype h3 h1, ?_⟩
  rw [ReceiveAssocResp_eq]
  by_cases hs : s.m_state = MacState.WAIT_ASSOC_RESP
  · rw [if_pos hs, if_pos hs]
    have hne : s.m_state ≠ MacState.ASSOCIATED := by rw [hs]; decide
    by_cases hok : packet.assocRespIsSuccess = true
    · rw [if_pos hok, if_pos hok]
      have hf := SetState_fields MacState.ASSOCIATED
        { s with sim := s.sim.Cancel s.m_assocRequestEvent, m_aid := packet.assocRespAid }
      have hst := SetState_state MacState.ASSOCIATED
        { s with sim := s.sim.Cancel s.m_assocRequestEvent, m_aid := packet.assocRespAid }
      have hlog := SetState_log MacState.ASSOCIATED
        { s with sim := s.sim.Cancel s.m_assocRequestEvent, m_aid := packet.assocRespAid }
      simp only [hne, ne_eq, not_false_eq_true, and_self, if_true] at hlog
      by_cases hn : s.m_linkUpIsNull = true
      · rw [if_pos hn, if_pos hn]
        refine ⟨hf.2.2.1, ?_, hf.1, hst, ?_⟩
        · rw [hf.2.2.1]; exact Simulator.IsRunning_Cancel _ _
        · unfold emitted; rw [hlog]; exact drop_length_append _ _
      · rw [if_neg hn, if_neg hn]
        refine ⟨hf.2.2.1, ?_, hf.1, hst, ?_⟩
        · show (SetState _ _).sim.IsRunning _ = false
          rw [hf.2.2.1]; exact Simulator.IsRunning_Cancel _ _
        · unfold emitted
          show List.drop s.log.length ((SetState _ _).log ++ [Effect.LinkUp]) = _
          rw [hlog, List.append_assoc]; exact drop_length_append _ _
    · rw [if_neg hok, if_neg hok]
      have hf := SetState_fields MacState.REFUSED { s with sim := s.sim.Cancel s.m_assocRequestEvent }
      have hst := SetState_state MacState.REFUSED { s with sim := s.sim.Cancel s.m_assocRequestEvent }
      have hlog := SetState_log MacState.REFUSED { s with sim := s.sim.Cancel s.m_assocRequestEvent }
      simp only [hne, if_false, and_false, reduceCtorEq, false_and] at hlog
      refine ⟨hf.2.2.1, ?_, hst, hf.1, ?_⟩
      · rw [hf.2.2.1]; exact Simulator.IsRunning_Cancel _ _
      · unfold emitted; rw [hlog]; simp
  · rw [if_neg hs, if_neg hs]

/-- C2, witness: the amended statement at the station `waitingWithoutLinkUp`
and a successful response that passes the address filter. -/
theorem Receive_assocResp_spec_witness :
    assocRespHdr.macType = WifiMacType.WIFI_MAC_MGT_ASSOCIATION_RESPONSE ∧
    assocRespHdr.addr3 ≠ waitingWithoutLinkUp.address ∧
    (assocRespHdr.addr1 = waitingWithoutLinkUp.address ∨ IsGroup assocRespHdr.addr1 = true) ∧
    ∃ t, Receive assocRespSuccess assocRespHdr waitingWithoutLinkUp = some t ∧
      (if waitingWithoutLinkUp.m_state = MacState.WAIT_ASSOC_RESP then
        t.sim = waitingWithoutLinkUp.sim.Cancel waitingWithoutLinkUp.m_assocRequestEvent ∧
        t.sim.IsRunning waitingWithoutLinkUp.m_assocRequestEvent = false ∧
        (if assocRespSuccess.assocRespIsSuccess = true then
          t.m_aid = assocRespSuccess.assocRespAid ∧ t.m_state = MacState.ASSOCIATED ∧
          emitted waitingWithoutLinkUp t =
            Effect.AssocLogger waitingWithoutLinkUp.m_bssid ::
              (if waitingWithoutLinkUp.m_linkUpIsNull = true then [] else [Effect.LinkUp])
        else
          t.m_state = MacState.REFUSED ∧ t.m_aid = waitingWithoutLinkUp.m_aid ∧
            emitted waitingWithoutLinkUp t = [])
      else t = waitingWithoutLinkUp) :=
  ⟨by decide, by decide, Or.inl (by decide),
    Receive_assocResp_spec assocRespSuccess assocRespHdr waitingWithoutLinkUp
      (by decide) (by decide) (Or.inl (by decide))⟩

/-- What `RestartBeaconWatchdog` does to the fields of the association
procedures: only the deadline, the watchdog handle and the scheduler change. -/
theorem RestartBeaconWatchdog_fields (delay : Time) (s : Mac) :
    (RestartBeaconWatchdog delay s).m_state = s.m_state ∧
    (RestartBeaconWatchdog delay s).m_bssid = s.m_bssid ∧
    (RestartBeaconWatchdog delay s).m_aid = s.m_aid ∧
    (RestartBeaconWatchdog delay s).m_dca = s.m_dca ∧
    (RestartBeaconWatchdog delay s).log = s.log ∧
    (RestartBeaconWatchdog delay s).m_probeRequestEvent = s.m_probeRequestEvent ∧
    (RestartBeaconWatchdog delay s).m_assocRequestEvent = s.m_assocRequestEvent ∧
    (RestartBeaconWatchdog delay s).m_assocRequestTimeout = s.m_assocRequestTimeout ∧
    (RestartBeaconWatchdog delay s).address = s.address ∧
    (RestartBeaconWatchdog delay s).ssid = s.ssid ∧
    (RestartBeaconWatchdog delay s).m_beaconWatchdogEnd
      = max (s.sim.now + delay) s.m_beaconWatchdogEnd ∧
    (RestartBeaconWatchdog delay s).sim =
      (if s.sim.GetDelayLeft s.m_beaconWatchdog < delay ∧ s.sim.IsExpired s.m_beaconWatchdog = true
        then s.sim.Schedule delay Callback.MissedBeacons else s.sim) ∧
    (RestartBeaconWatchdog delay s).m_beaconWatchdog =
      (if s.sim.GetDelayLeft s.m_beaconWatchdog < delay ∧ s.sim.IsExpired s.m_beaconWatchdog = true
        then some s.sim.nextUid else s.m_beaconWatchdog) := by
  unfold RestartBeaconWatchdog
  simp only []
  split_ifs <;> exact ⟨rfl, rfl, rfl, rfl, rfl, rfl, rfl, rfl, rfl, rfl, rfl, rfl, rfl⟩

/-- The probe response branch, case by case. -/
theorem ReceiveProbeResp_eq (packet : Packet) (hdr : WifiMacHeader) (s : Mac) :
    ReceiveProbeResp packet hdr s =
      if s.m_state = MacState.WAIT_PROBE_RESP then
        if packet.probeRespSsid ≠ s.ssid then s
        else
          SendAssociationRequest (SetState MacState.WAIT_ASSOC_RESP
            { RestartBeaconWatchdog
                (MicroSeconds ((packet.probeRespBeaconIntervalUs * s.m_maxMissedBeacons) % 2 ^ 64 : Nat))
                (SetBssid hdr.addr3 s) with
              sim := (RestartBeaconWatchdog
                  (MicroSeconds ((packet.probeRespBeaconIntervalUs * s.m_maxMissedBeacons) % 2 ^ 64 : Nat))
                  (SetBssid hdr.addr3 s)).sim.Cancel
                (RestartBeaconWatchdog
                  (MicroSeconds ((packet.probeRespBeaconIntervalUs * s.m_maxMissedBeacons) % 2 ^ 64 : Nat))
                  (SetBssid hdr.addr3 s)).m_probeRequestEvent })
      else s := by
  unfold ReceiveProbeResp
  by_cases hs : s.m_state = MacState.WAIT_PROBE_RESP
  · rw [if_pos hs, if_pos hs]
    by_cases hid : packet.probeRespSsid ≠ s.ssid
    · rw [if_pos hid, if_pos hid]
    · rw [if_neg hid, if_neg hid]
      simp only []
      rw [cancel_if_running_mac]
      rfl
  · rw [if_neg hs, if_neg hs]

/-- The event scheduled last is found by its identifier when the pending
events all carry smaller identifiers. -/
theorem find_scheduled (events : List Event) (n : Nat) (ev : Event) (hev : ev.uid = n)
    (hwf : ∀ e ∈ events, e.uid < n) :
    (events ++ [ev]).find? (fun e => e.uid == n) = some ev ∧
    (events ++ [ev]).filter (fun x => x.uid != n) = events := by
  constructor
  · rw [List.find?_append]
    have : events.find? (fun e => e.uid == n) = none := by
      apply List.find?_eq_none.mpr
      intro e he
      have := hwf e he
      simp; omega
    rw [this]
    simp [hev]
  · rw [List.filter_append]
    have h1 : events.filter (fun x => x.uid != n) = events := by
      apply List.filter_eq_self.mpr
      intro e he
      have := hwf e he
      simp; omega
    rw [h1]
    simp [hev]

/-! ### The association state after each operation -/

/-- From `emit` leaves the association state. -/
theorem emit_state (e : Effect) (s : Mac) : (emit e s).m_state = s.m_state := rfl

/-- From `SendProbeRequest` leaves the association state. -/
theorem SendProbeRequest_state (s : Mac) : (SendProbeRequest s).m_state = s.m_state := by
  rw [SendProbeRequest_eq]

/-- The association state after `TryToEnsureAssociated`. -/
theorem TryToEnsureAssociated_state (s : Mac) :
    (TryToEnsureAssociated s).m_state =
      (if s.m_state = MacState.BEACON_MISSED ∧ s.m_activeProbing = true
        then MacState.WAIT_PROBE_RESP else s.m_state) := by
  by_cases hs : s.m_state = MacState.BEACON_MISSED
  · rw [TryToEnsureAssociated_of_beaconMissed s hs]
    by_cases hp : s.m_activeProbing = true
    · rw [if_pos hp, if_pos ⟨hs, hp⟩, SendProbeRequest_state, SetState_state]
    · rw [if_neg hp, if_neg (fun h => hp h.2), emit_state]
  · rw [TryToEnsureAssociated_of_ne s hs, if_neg (fun h => hs h.1)]

/-- The association state after `ProbeRequestTimeout`. -/
theorem ProbeRequestTimeout_state (s : Mac) :
    (ProbeRequestTimeout s).m_state = MacState.WAIT_PROBE_RESP := by
  unfold ProbeRequestTimeout
  rw [SendProbeRequest_state, SetState_state]

/-- The association state after `AssocRequestTimeout`. -/
theorem AssocRequestTimeout_state (s : Mac) :
    (AssocRequestTimeout s).m_state = MacState.WAIT_ASSOC_RESP := by
  unfold AssocRequestTimeout
  rw [(SendAssociationRequest_fields _).1, SetState_state]

/-- The association state after `MissedBeacons`. -/
theorem MissedBeacons_state (s : Mac) :
    (MissedBeacons s).m_state =
      (if s.m_beaconWatchdogEnd > s.sim.now then s.m_state
       else if s.m_activeProbing = true then MacState.WAIT_PROBE_RESP
       else MacState.BEACON_MISSED) := by
  unfold MissedBeacons
  by_cases h : s.m_beaconWatchdogEnd > s.sim.now
  · rw [if_pos h, if_pos h]
    simp only []
    split_ifs <;> rfl
  · rw [if_neg h, if_neg h, TryToEnsureAssociated_state, SetState_state,
      (SetState_fields MacState.BEACON_MISSED s).2.2.2.2.1]
    by_cases hp : s.m_activeProbing = true
    · rw [if_pos ⟨rfl, hp⟩, if_pos hp]
    · rw [if_neg (fun h => hp h.2), if_neg hp]

/-- From `StartBeaconTransmissionInterval` leaves the association state. -/
theorem StartBeaconTransmissionInterval_state (s : Mac) :
    (StartBeaconTransmissionInterval s).m_state = s.m_state := by
  unfold StartBeaconTransmissionInterval
  simp only []
  split_ifs <;> rfl

/-- From `StartAssociationBeamformTraining` leaves the association state. -/
theorem StartAssociationBeamformTraining_state (slot : Nat) (s : Mac) :
    (StartAssociationBeamformTraining slot s).m_state = s.m_state := by
  unfold StartAssociationBeamformTraining
  simp only []
  split_ifs <;> rfl

/-- From `StartAnnouncementTransmissionInterval` leaves the association state. -/
theorem StartAnnouncementTransmissionInterval_state (s : Mac) :
    (StartAnnouncementTransmissionInterval s).m_state = s.m_state := rfl

/-- One allocation of the DTI schedule leaves the association state and the
contention queue. -/
theorem dtiAllocation_fields (field : AllocationField) (s : Mac) :
    (dtiAllocation field s).m_state = s.m_state ∧ (dtiAllocation field s).m_dca = s.m_dca := by
  unfold dtiAllocation
  simp only []
  split_ifs <;> exact ⟨rfl, rfl⟩

/-- The walk over the DTI schedule leaves the association state and the
contention queue. -/
theorem dtiAllocations_fields (l : List AllocationField) (s : Mac) :
    (l.foldl (fun acc field => dtiAllocation field acc) s).m_state = s.m_state ∧
    (l.foldl (fun acc field => dtiAllocation field acc) s).m_dca = s.m_dca := by
  induction l generalizing s with
  | nil => exact ⟨rfl, rfl⟩
  | cons f rest ih =>
    simp only [List.foldl_cons]
    obtain ⟨h1, h2⟩ := ih (dtiAllocation f s)
    obtain ⟨g1, g2⟩ := dtiAllocation_fields f s
    exact ⟨h1.trans g1, h2.trans g2⟩

/-- An association attempt: the state and the queue after
`SendAssociationRequest (SetState WAIT_ASSOC_RESP x)`. -/
theorem assocAttempt_fields (x : Mac) :
    (SendAssociationRequest (SetState MacState.WAIT_ASSOC_RESP x)).m_state
      = MacState.WAIT_ASSOC_RESP ∧
    (SendAssociationRequest (SetState MacState.WAIT_ASSOC_RESP x)).m_dca
      = x.m_dca ++ [assocRequestFrame x] := by
  obtain ⟨a1, -, -, -, -, -, -, a8, -, -⟩ :=
    SendAssociationRequest_fields (SetState MacState.WAIT_ASSOC_RESP x)
  obtain ⟨-, f2, -, f4, -, -, -, -, -, -, -, f12, f13⟩ := SetState_fields MacState.WAIT_ASSOC_RESP x
  refine ⟨a1.trans (SetState_state _ _), ?_⟩
  rw [a8, f4]
  unfold assocRequestFrame GetBssid
  rw [f2, f12, f13]

/-- The association request sent at DTI start when the station is not
associated. -/
theorem assocIfNeeded_fields (x : Mac) :
    (if (!IsAssociated x) = true then SendAssociationRequest (SetState MacState.WAIT_ASSOC_RESP x)
      else x).m_state
      = (if x.m_state ≠ MacState.ASSOCIATED then MacState.WAIT_ASSOC_RESP else x.m_state) ∧
    (if (!IsAssociated x) = true then SendAssociationRequest (SetState MacState.WAIT_ASSOC_RESP x)
      else x).m_dca
      = (if x.m_state ≠ MacState.ASSOCIATED then x.m_dca ++ [assocRequestFrame x] else x.m_dca) := by
  by_cases ha : x.m_state = MacState.ASSOCIATED
  · have h1 : ¬ ((!IsAssociated x) = true) := by simp [IsAssociated, ha]
    rw [if_neg h1, if_neg (not_not.mpr ha), if_neg (not_not.mpr ha)]
    exact ⟨rfl, rfl⟩
  · have h1 : (!IsAssociated x) = true := by simp [IsAssociated, ha]
    rw [if_pos h1, if_pos ha, if_pos ha]
    exact assocAttempt_fields x

/-- The association state and the contention queue after
`StartDataTransmissionInterval`. -/
theorem StartDataTransmissionInterval_fields (s : Mac) :
    (StartDataTransmissionInterval s).m_state =
      (if s.m_rdsOperational = false ∧ s.m_state ≠ MacState.ASSOCIATED
        then MacState.WAIT_ASSOC_RESP else s.m_state) ∧
    (StartDataTransmissionInterval s).m_dca =
      (if s.m_rdsOperational = false ∧ s.m_state ≠ MacState.ASSOCIATED
        then s.m_dca ++ [assocRequestFrame s] else s.m_dca) := by
  have tail : ∀ (nbi : Time) (x : Mac),
      (if x.m_isCbapOnly = true ∧ (!x.m_isCbapSource) = true then
          ScheduleNow (Callback.StartContentionPeriod nbi) x
        else x.m_allocationList.foldl (fun acc field => dtiAllocation field acc) x).m_state
        = x.m_state ∧
      (if x.m_isCbapOnly = true ∧ (!x.m_isCbapSource) = true then
          ScheduleNow (Callback.StartContentionPeriod nbi) x
        else x.m_allocationList.foldl (fun acc field => dtiAllocation field acc) x).m_dca
        = x.m_dca := by
    intro nbi x
    split_ifs
    · exact ⟨rfl, rfl⟩
    · exact dtiAllocations_fields _ _
  by_cases hr : s.m_rdsOperational = true
  · have e1 : StartDataTransmissionInterval s = _ := if_pos hr
    have hc : ¬ (s.m_rdsOperational = false ∧ s.m_state ≠ MacState.ASSOCIATED) := by
      rw [hr]; simp
    rw [if_neg hc, if_neg hc, e1]
    exact ⟨rfl, rfl⟩
  · have e1 : StartDataTransmissionInterval s = _ := if_neg hr
    have hrf : s.m_rdsOperational = false := by simpa using hr
    rw [e1]
    refine ⟨(tail _ _).1.trans ((assocIfNeeded_fields _).1.trans ?_),
      (tail _ _).2.trans ((assocIfNeeded_fields _).2.trans ?_)⟩
    · show (if s.m_state ≠ MacState.ASSOCIATED then MacState.WAIT_ASSOC_RESP else s.m_state) = _
      by_cases ha : s.m_state = MacState.ASSOCIATED
      · rw [if_neg (not_not.mpr ha), if_neg (fun h => h.2 ha)]
      · rw [if_pos ha, if_pos ⟨hrf, ha⟩]
    · show (if s.m_state ≠ MacState.ASSOCIATED then s.m_dca ++ [assocRequestFrame s] else s.m_dca) = _
      by_cases ha : s.m_state = MacState.ASSOCIATED
      · rw [if_neg (not_not.mpr ha), if_neg (fun h => h.2 ha)]
      · rw [if_pos ha, if_pos ⟨hrf, ha⟩]

/-- C9, counterexample: a station that is already in WAIT_ASSOC_RESP (and is
not an operational RDS) reaches DTI start; one more association request is
queued. -/
theorem dti_start_resends_while_waiting :
    waitingForAssocResp.m_state = MacState.WAIT_ASSOC_RESP ∧
    waitingForAssocResp.m_rdsOperational = false ∧
    (StartDataTransmissionInterval waitingForAssocResp).m_state = MacState.WAIT_ASSOC_RESP ∧
    queued waitingForAssocResp (StartDataTransmissionInterval waitingForAssocResp)
      = [assocRequestFrame waitingForAssocResp] ∧
    ((queued waitingForAssocResp (StartDataTransmissionInterval waitingForAssocResp)).filter
      Frame.isAssocRequest).length = 1 := by
  decide

/-- C9, amended: at DTI start the station transitions to WAIT_ASSOC_RESP and
queues exactly one association request exactly when it is not an operational
RDS and its state is not ASSOCIATED, whether or not an attempt is already under
way; otherwise (ASSOCIATED, or operational RDS) the state is unchanged and
nothing is queued. -/
theorem StartDataTransmissionInterval_association (s : Mac) :
    (StartDataTransmissionInterval s).m_state =
      (if s.m_rdsOperational = false ∧ s.m_state ≠ MacState.ASSOCIATED
        then MacState.WAIT_ASSOC_RESP else s.m_state) ∧
    queued s (StartDataTransmissionInterval s) =
      (if s.m_rdsOperational = false ∧ s.m_state ≠ MacState.ASSOCIATED
        then [assocRequestFrame s] else []) ∧
    ((queued s (StartDataTransmissionInterval s)).filter Frame.isAssocRequest).length =
      (if s.m_rdsOperational = false ∧ s.m_state ≠ MacState.ASSOCIATED then 1 else 0) := by
  obtain ⟨h1, h2⟩ := StartDataTransmissionInterval_fields s
  have hq : queued s (StartDataTransmissionInterval s) =
      (if s.m_rdsOperational = false ∧ s.m_state ≠ MacState.ASSOCIATED
        then [assocRequestFrame s] else []) := by
    unfold queued
    rw [h2]
    split_ifs
    · exact drop_length_append _ _
    · simp
  refine ⟨h1, hq, ?_⟩
  rw [hq]
  split_ifs
  · simp [Frame.isAssocRequest, assocRequestFrame, WifiMacHeader.blank]
  · rfl

/-- The sector sweep starters leave the association state. -/
theorem StartTransmitSectorSweep_state (a : Mac48Address) (d : BeamformingDirection) (s : Mac) :
    (StartTransmitSectorSweep a d s).m_state = s.m_state := by
  unfold StartTransmitSectorSweep
  simp only []
  split_ifs <;> rfl

/-- From `StartInitiatorSectorSweep` leaves the association state. -/
theorem StartInitiatorSectorSweep_state (a : Mac48Address) (x : Bool) (d : Time) (s : Mac) :
    (StartInitiatorSectorSweep a x d s).m_state = s.m_state := by
  unfold StartInitiatorSectorSweep
  simp only []
  split_ifs
  · exact StartTransmitSectorSweep_state _ _ _
  · rfl

/-- From `StartResponderSectorSweep` leaves the association state. -/
theorem StartResponderSectorSweep_state (a : Mac48Address) (x : Bool) (d : Time) (s : Mac) :
    (StartResponderSectorSweep a x d s).m_state = s.m_state := by
  unfold StartResponderSectorSweep
  simp only []
  split_ifs
  · exact StartTransmitSectorSweep_state _ _ _
  · rfl

/-- The sector sweep senders leave the association state. -/
theorem SendSectorSweepFrames_state (a : Mac48Address) (d : BeamformingDirection)
    (sec ant c : Nat) (s : Mac) :
    (SendIssSectorSweepFrame a d sec ant c s).m_state = s.m_state ∧
    (SendRssSectorSweepFrame a d sec ant c s).m_state = s.m_state ∧
    (SendSectorSweepFrame a d sec ant c s).m_state = s.m_state := by
  refine ⟨rfl, ?_, ?_⟩
  · unfold SendRssSectorSweepFrame
    simp only []
    split_ifs <;> rfl
  · unfold SendSectorSweepFrame
    simp only []
    split_ifs <;> rfl

/-- From `SendSswFbckFrame` leaves the association state. -/
theorem SendSswFbckFrame_state (r : Mac48Address) (s : Mac) :
    (SendSswFbckFrame r s).m_state = s.m_state := rfl

/-- From `SendSswAckFrame`, when it returns, leaves the association state. -/
theorem SendSswAckFrame_state (r : Mac48Address) (s t : Mac) (h : SendSswAckFrame r s = some t) :
    t.m_state = s.m_state := by
  unfold SendSswAckFrame at h
  simp only [] at h
  split_ifs at h
  injection h with h
  rw [← h]
  rfl

/-- From `FrameTxOk` leaves the association state. -/
theorem FrameTxOk_state (hdr : WifiMacHeader) (s : Mac) : (FrameTxOk hdr s).m_state = s.m_state := by
  unfold FrameTxOk
  simp only []
  split_ifs <;> rfl

/-- The relay selection loop leaves the association state. -/
theorem selectRelay_state (l : List ExtChannelMeasurementInfo) (s : Mac) :
    (l.foldl (fun acc e => { acc with m_selectedRelayAid := e.peerStaAid }) s).m_state
      = s.m_state := by
  induction l generalizing s with
  | nil => rfl
  | cons e rest ih =>
    simp only [List.foldl_cons]
    exact (ih _).trans rfl

/-- The action branch, when it returns, leaves the association state. -/
theorem ReceiveAction_state (packet : Packet) (hdr : WifiMacHeader) (s t : Mac)
    (h : ReceiveAction packet hdr s = some t) : t.m_state = s.m_state := by
  unfold ReceiveAction at h
  cases hc : packet.category <;> rw [hc] at h <;> simp only [] at h
  · cases ha : packet.dmgAction <;> rw [ha] at h <;> simp only [] at h
    · injection h with h; subst h; rfl
    · injection h with h; subst h; rfl
    · split_ifs at h
      · injection h with h; subst h; rfl
      · injection h with h; subst h; exact selectRelay_state _ _
      · injection h with h; subst h; rfl
    · split_ifs at h <;> (injection h with h; subst h; rfl)
    · split_ifs at h <;> (injection h with h; subst h; rfl)
    · split_ifs at h <;> (injection h with h; subst h; rfl)
    · exact absurd h (by simp)
  · injection h with h; subst h; rfl

/-- The SSW, SSW-FBCK, SSW-ACK and DMG beacon branches leave the association
state. -/
theorem ReceiveSls_state (packet : Packet) (hdr : WifiMacHeader) (s : Mac) :
    (ReceiveSsw packet hdr s).m_state = s.m_state ∧
    (ReceiveSswFbck packet hdr s).m_state = s.m_state ∧
    (ReceiveSswAck packet hdr s).m_state = s.m_state ∧
    (ReceiveDmgBeacon packet hdr s).m_state = s.m_state := by
  refine ⟨?_, ?_, rfl, ?_⟩
  · unfold ReceiveSsw
    simp only []
    split_ifs <;> rfl
  · unfold ReceiveSswFbck
    simp only []
    split_ifs <;> rfl
  · have hf : (firstDmgBeacon packet hdr s).m_state = s.m_state := by
      unfold firstDmgBeacon
      simp only []
      split <;> split_ifs <;> rfl
    unfold ReceiveDmgBeacon
    simp only []
    split_ifs
    · exact hf
    · rfl

/-- The association state after the probe response branch. -/
theorem ReceiveProbeResp_state (packet : Packet) (hdr : WifiMacHeader) (s : Mac) :
    (ReceiveProbeResp packet hdr s).m_state =
      (if s.m_state = MacState.WAIT_PROBE_RESP ∧ packet.probeRespSsid = s.ssid
        then MacState.WAIT_ASSOC_RESP else s.m_state) := by
  rw [ReceiveProbeResp_eq]
  by_cases hs : s.m_state = MacState.WAIT_PROBE_RESP
  · by_cases hid : packet.probeRespSsid = s.ssid
    · rw [if_pos hs, if_neg (not_not.mpr hid), if_pos ⟨hs, hid⟩]
      exact (assocAttempt_fields _).1
    · rw [if_pos hs, if_pos hid, if_neg (fun h => hid h.2)]
  · rw [if_neg hs, if_neg (fun h => hs h.1)]

/-- The association state after the association response branch. -/
theorem ReceiveAssocResp_state (packet : Packet) (hdr : WifiMacHeader) (s : Mac) :
    (ReceiveAssocResp packet hdr s).m_state =
      (if s.m_state = MacState.WAIT_ASSOC_RESP then
        (if packet.assocRespIsSuccess = true then MacState.ASSOCIATED else MacState.REFUSED)
       else s.m_state) := by
  rw [ReceiveAssocResp_eq]
  by_cases hs : s.m_state = MacState.WAIT_ASSOC_RESP
  · rw [if_pos hs, if_pos hs]
    by_cases hok : packet.assocRespIsSuccess = true
    · rw [if_pos hok, if_pos hok]
      split_ifs
      · exact SetState_state _ _
      · exact (emit_state _ _).trans (SetState_state _ _)
    · rw [if_neg hok, if_neg hok]
      exact SetState_state _ _
  · rw [if_neg hs, if_neg hs]

/-- The association state after `Enqueue`. -/
theorem Enqueue_state (packet tid : Nat) (dest : Mac48Address) (s : Mac) :
    (Enqueue packet tid dest s).m_state =
      (if s.m_state = MacState.BEACON_MISSED ∧ s.m_activeProbing = true
        then MacState.WAIT_PROBE_RESP else s.m_state) := by
  unfold Enqueue
  by_cases ha : s.m_state = MacState.ASSOCIATED
  · have h1 : ¬ ((!IsAssociated s) = true) := by simp [IsAssociated, ha]
    have hc : ¬ (s.m_state = MacState.BEACON_MISSED ∧ s.m_activeProbing = true) := by
      rw [ha]; simp
    rw [if_neg h1, if_neg hc]
    simp only []
    split_ifs <;> rfl
  · have h1 : (!IsAssociated s) = true := by simp [IsAssociated, ha]
    rw [if_pos h1, TryToEnsureAssociated_state]
    rfl

/-- From `DoRelayDiscovery` leaves the association state. -/
theorem DoRelayDiscovery_state (a : Mac48Address) (s : Mac) :
    (DoRelayDiscovery a s).m_state = s.m_state := by
  unfold DoRelayDiscovery
  simp only []
  split <;> rfl

/-- Every change of the association state made by a frame reception: a
matching probe response in WAIT_PROBE_RESP, or an association response in
WAIT_ASSOC_RESP; both only for frames that pass the address filter. -/
theorem Receive_state (packet : Packet) (hdr : WifiMacHeader) (s t : Mac)
    (h : Receive packet hdr s = some t) :
    t.m_state = s.m_state ∨
    (hdr.macType = WifiMacType.WIFI_MAC_MGT_PROBE_RESPONSE ∧
      s.m_state = MacState.WAIT_PROBE_RESP ∧ packet.probeRespSsid = s.ssid ∧
      t.m_state = MacState.WAIT_ASSOC_RESP) ∨
    (hdr.macType = WifiMacType.WIFI_MAC_MGT_ASSOCIATION_RESPONSE ∧
      hdr.addr3 ≠ s.address ∧ (hdr.addr1 = s.address ∨ IsGroup hdr.addr1 = true) ∧
      s.m_state = MacState.WAIT_ASSOC_RESP ∧
      ((packet.assocRespIsSuccess = true ∧ t.m_state = MacState.ASSOCIATED) ∨
        (packet.assocRespIsSuccess = false ∧ t.m_state = MacState.REFUSED))) := by
  unfold Receive at h
  by_cases c1 : hdr.addr3 = s.address
  · rw [if_pos c1] at h
    have h := Option.some.inj h; subst h; exact Or.inl rfl
  rw [if_neg c1] at h
  by_cases c2 : hdr.addr1 ≠ s.address ∧ !IsGroup hdr.addr1 ∧ !hdr.IsDMGBeacon
  · rw [if_pos c2] at h
    have h := Option.some.inj h; subst h; exact Or.inl rfl
  rw [if_neg c2] at h
  by_cases c3 : hdr.IsData = true
  · rw [if_pos c3] at h
    by_cases d1 : !IsAssociated s ∧ hdr.addr2 ≠ GetBssid s
    · rw [if_pos d1] at h
      have h := Option.some.inj h; subst h; exact Or.inl rfl
    rw [if_neg d1] at h
    by_cases d2 : hdr.IsQosData = true
    · rw [if_pos d2] at h
      by_cases d3 : hdr.qosAmsdu = true
      · rw [if_pos d3] at h
        by_cases d4 : hdr.addr3 = GetBssid s
        · rw [if_pos d4] at h
          have h := Option.some.inj h; subst h; exact Or.inl rfl
        · rw [if_neg d4] at h
          exact absurd h (Option.noConfusion)
      · rw [if_neg d3] at h
        have h := Option.some.inj h; subst h; exact Or.inl rfl
    · rw [if_neg d2] at h
      have h := Option.some.inj h; subst h; exact Or.inl rfl
  rw [if_neg c3] at h
  by_cases c4 : hdr.macType = WifiMacType.WIFI_MAC_MGT_PROBE_REQUEST ∨
      hdr.macType = WifiMacType.WIFI_MAC_MGT_ASSOCIATION_REQUEST
  · rw [if_pos c4] at h
    have h := Option.some.inj h; subst h; exact Or.inl rfl
  rw [if_neg c4] at h
  by_cases c5 : hdr.macType = WifiMacType.WIFI_MAC_MGT_ACTION ∨
      hdr.macType = WifiMacType.WIFI_MAC_MGT_ACTION_NO_ACK
  · rw [if_pos c5] at h
    exact Or.inl (ReceiveAction_state packet hdr s t h)
  rw [if_neg c5] at h
  by_cases c6 : hdr.macType = WifiMacType.WIFI_MAC_CTL_DMG_SSW
  · rw [if_pos c6] at h
    have h := Option.some.inj h; subst h; exact Or.inl (ReceiveSls_state packet hdr s).1
  rw [if_neg c6] at h
  by_cases c7 : hdr.macType = WifiMacType.WIFI_MAC_CTL_DMG_SSW_FBCK
  · rw [if_pos c7] at h
    have h := Option.some.inj h; subst h; exact Or.inl (ReceiveSls_state packet hdr s).2.1
  rw [if_neg c7] at h
  by_cases c8 : hdr.macType = WifiMacType.WIFI_MAC_CTL_DMG_SSW_ACK
  · rw [if_pos c8] at h
    have h := Option.some.inj h; subst h; exact Or.inl (ReceiveSls_state packet hdr s).2.2.1
  rw [if_neg c8] at h
  by_cases c9 : hdr.macType = WifiMacType.WIFI_MAC_EXTENSION_DMG_BEACON
  · rw [if_pos c9] at h
    have h := Option.some.inj h; subst h; exact Or.inl (ReceiveSls_state packet hdr s).2.2.2
  rw [if_neg c9] at h
  by_cases c10 : hdr.macType = WifiMacType.WIFI_MAC_MGT_PROBE_RESPONSE
  swap
  · rw [if_neg c10] at h
    by_cases c11 : hdr.macType = WifiMacType.WIFI_MAC_MGT_ASSOCIATION_RESPONSE
    swap
    · rw [if_neg c11] at h
      have h := Option.some.inj h; subst h; exact Or.inl rfl
    · -- association response
      rw [if_pos c11] at h
      have h := Option.some.inj h; subst h
      rw [ReceiveAssocResp_state]
      by_cases hs : s.m_state = MacState.WAIT_ASSOC_RESP
      · rw [if_pos hs]
        have hfilter : hdr.addr1 = s.address ∨ IsGroup hdr.addr1 = true := by
          by_contra hcon
          push_neg at hcon
          apply c2
          refine ⟨hcon.1, ?_, ?_⟩
          · simpa using hcon.2
          · simp [WifiMacHeader.IsDMGBeacon, c11]
        refine Or.inr (Or.inr ⟨c11, c1, hfilter, hs, ?_⟩)
        by_cases hok : packet.assocRespIsSuccess = true
        · rw [if_pos hok]; exact Or.inl ⟨hok, rfl⟩
        · rw [if_neg hok]; exact Or.inr ⟨by simpa using hok, rfl⟩
      · rw [if_neg hs]
        exact Or.inl rfl
  · -- probe response
    rw [if_pos c10] at h
    have h := Option.some.inj h; subst h
    rw [ReceiveProbeResp_state]
    by_cases hp : s.m_state = MacState.WAIT_PROBE_RESP ∧ packet.probeRespSsid = s.ssid
    · rw [if_pos hp]
      exact Or.inr (Or.inl ⟨c10, hp.1, hp.2, rfl⟩)
    · rw [if_neg hp]
      exact Or.inl rfl

/-- Every change of the association state made by a scheduled call. -/
theorem invoke_state (cb : Callback) (slot : Nat) (s t : Mac) (h : invoke cb slot s = some t) :
    t.m_state = s.m_state ∨
    (cb = Callback.TryToEnsureAssociated ∧ s.m_state = MacState.BEACON_MISSED ∧
      s.m_activeProbing = true ∧ t.m_state = MacState.WAIT_PROBE_RESP) ∨
    (cb = Callback.ProbeRequestTimeout ∧ t.m_state = MacState.WAIT_PROBE_RESP) ∨
    (cb = Callback.AssocRequestTimeout ∧ t.m_state = MacState.WAIT_ASSOC_RESP) ∨
    (cb = Callback.MissedBeacons ∧ s.m_beaconWatchdogEnd ≤ s.sim.now ∧
      t.m_state = (if s.m_activeProbing = true then MacState.WAIT_PROBE_RESP
        else MacState.BEACON_MISSED)) ∨
    (cb = Callback.StartDataTransmissionInterval ∧ s.m_rdsOperational = false ∧
      s.m_state ≠ MacState.ASSOCIATED ∧ t.m_state = MacState.WAIT_ASSOC_RESP) := by
  cases cb with
  | TryToEnsureAssociated =>
    have h := Option.some.inj h; subst h
    rw [TryToEnsureAssociated_state]
    by_cases hc : s.m_state = MacState.BEACON_MISSED ∧ s.m_activeProbing = true
    · rw [if_pos hc]; exact Or.inr (Or.inl ⟨rfl, hc.1, hc.2, rfl⟩)
    · rw [if_neg hc]; exact Or.inl rfl
  | ProbeRequestTimeout =>
    have h := Option.some.inj h; subst h
    exact Or.inr (Or.inr (Or.inl ⟨rfl, ProbeRequestTimeout_state s⟩))
  | AssocRequestTimeout =>
    have h := Option.some.inj h; subst h
    exact Or.inr (Or.inr (Or.inr (Or.inl ⟨rfl, AssocRequestTimeout_state s⟩)))
  | MissedBeacons =>
    have h := Option.some.inj h; subst h
    rw [MissedBeacons_state]
    by_cases hc : s.m_beaconWatchdogEnd > s.sim.now
    · rw [if_pos hc]; exact Or.inl rfl
    · rw [if_neg hc]
      exact Or.inr (Or.inr (Or.inr (Or.inr (Or.inl ⟨rfl, not_lt.mp hc, rfl⟩))))
  | StartBeaconTransmissionInterval =>
    have h := Option.some.inj h; subst h
    exact Or.inl (StartBeaconTransmissionInterval_state s)
  | StartAssociationBeamformTraining =>
    have h := Option.some.inj h; subst h
    exact Or.inl (StartAssociationBeamformTraining_state slot s)
  | StartAnnouncementTransmissionInterval =>
    have h := Option.some.inj h; subst h
    exact Or.inl rfl
  | StartDataTransmissionInterval =>
    have h := Option.some.inj h; subst h
    rw [(StartDataTransmissionInterval_fields s).1]
    by_cases hc : s.m_rdsOperational = false ∧ s.m_state ≠ MacState.ASSOCIATED
    · rw [if_pos hc]
      exact Or.inr (Or.inr (Or.inr (Or.inr (Or.inr ⟨rfl, hc.1, hc.2, rfl⟩))))
    · rw [if_neg hc]; exact Or.inl rfl
  | StartContentionPeriod d =>
    have h := Option.some.inj h; subst h; exact Or.inl rfl
  | StartServicePeriod l peer isSource =>
    have h := Option.some.inj h; subst h; exact Or.inl rfl
  | EndServicePeriod =>
    have h := Option.some.inj h; subst h; exact Or.inl rfl
  | InitiateBeamforming a x d =>
    have h := Option.some.inj h; subst h
    exact Or.inl (StartInitiatorSectorSweep_state a x d s)
  | StartResponderSectorSweep a x d =>
    have h := Option.some.inj h; subst h
    exact Or.inl (StartResponderSectorSweep_state a x d s)
  | SendIssSectorSweepFrame a d sec ant c =>
    have h := Option.some.inj h; subst h
    exact Or.inl (SendSectorSweepFrames_state a d sec ant c s).1
  | SendRssSectorSweepFrame a d sec ant c =>
    have h := Option.some.inj h; subst h
    exact Or.inl (SendSectorSweepFrames_state a d sec ant c s).2.1
  | SendSectorSweepFrame a d sec ant c =>
    have h := Option.some.inj h; subst h
    exact Or.inl (SendSectorSweepFrames_state a d sec ant c s).2.2
  | SendSswFbckFrame r =>
    have h := Option.some.inj h; subst h; exact Or.inl rfl
  | SendSswAckFrame r =>
    exact Or.inl (SendSswAckFrame_state r s t h)

/-- A fired event is a pending event; its call runs on the station with the
clock at the firing time of the event. -/
theorem runEvent_invoke (uid slot : Nat) (s t : Mac) (h : runEvent uid slot s = some t) :
    ∃ e, e ∈ s.sim.events ∧ e.uid = uid ∧
      invoke e.cb slot
        { s with sim := { s.sim with now := e.ts,
                                     events := s.sim.events.filter (fun x => x.uid != uid) } }
        = some t := by
  unfold runEvent at h
  cases hf : s.sim.events.find? (fun e => e.uid == uid) with
  | none => rw [hf] at h; exact absurd h (Option.noConfusion)
  | some e =>
    rw [hf] at h
    refine ⟨e, List.mem_of_find?_eq_some hf, ?_, h⟩
    have := List.find?_some hf
    simpa using this

/-- The association state transitions of one step: the state is unchanged, or
the step is one of the listed transitions. -/
theorem step_state (op : Op) (s t : Mac) (h : step op s = some t) :
    t.m_state = s.m_state ∨
    (s.m_state = MacState.BEACON_MISSED ∧ s.m_activeProbing = true ∧
      t.m_state = MacState.WAIT_PROBE_RESP) ∨
    (∃ packet hdr, op = Op.Receive packet hdr ∧
      ((hdr.macType = WifiMacType.WIFI_MAC_MGT_PROBE_RESPONSE ∧
          s.m_state = MacState.WAIT_PROBE_RESP ∧ packet.probeRespSsid = s.ssid ∧
          t.m_state = MacState.WAIT_ASSOC_RESP) ∨
        (hdr.macType = WifiMacType.WIFI_MAC_MGT_ASSOCIATION_RESPONSE ∧
          hdr.addr3 ≠ s.address ∧ (hdr.addr1 = s.address ∨ IsGroup hdr.addr1 = true) ∧
          s.m_state = MacState.WAIT_ASSOC_RESP ∧
          ((packet.assocRespIsSuccess = true ∧ t.m_state = MacState.ASSOCIATED) ∨
            (packet.assocRespIsSuccess = false ∧ t.m_state = MacState.REFUSED))))) ∨
    (∃ uid slot e, op = Op.RunEvent uid slot ∧ e ∈ s.sim.events ∧ e.uid = uid ∧
      ((e.cb = Callback.ProbeRequestTimeout ∧ t.m_state = MacState.WAIT_PROBE_RESP) ∨
        (e.cb = Callback.AssocRequestTimeout ∧ t.m_state = MacState.WAIT_ASSOC_RESP) ∨
        (e.cb = Callback.MissedBeacons ∧ s.m_beaconWatchdogEnd ≤ e.ts ∧
          t.m_state = (if s.m_activeProbing = true then MacState.WAIT_PROBE_RESP
            else MacState.BEACON_MISSED)) ∨
        (e.cb = Callback.StartDataTransmissionInterval ∧ s.m_rdsOperational = false ∧
          s.m_state ≠ MacState.ASSOCIATED ∧ t.m_state = MacState.WAIT_ASSOC_RESP))) := by
  have tte : ∀ x : Mac, x.m_state = s.m_state → x.m_activeProbing = s.m_activeProbing →
      t = TryToEnsureAssociated x →
      t.m_state = s.m_state ∨
        (s.m_state = MacState.BEACON_MISSED ∧ s.m_activeProbing = true ∧
          t.m_state = MacState.WAIT_PROBE_RESP) := by
    intro x hx hp ht
    rw [ht, TryToEnsureAssociated_state, hx, hp]
    by_cases hc : s.m_state = MacState.BEACON_MISSED ∧ s.m_activeProbing = true
    · rw [if_pos hc]; exact Or.inr ⟨hc.1, hc.2, rfl⟩
    · rw [if_neg hc]; exact Or.inl rfl
  cases op with
  | RunEvent uid slot =>
    obtain ⟨e, he, hu, hi⟩ := runEvent_invoke uid slot s t h
    rcases invoke_state e.cb slot _ t hi with h0 | ⟨-, h1, h2, h3⟩ | ⟨h1, h2⟩ | ⟨h1, h2⟩ |
      ⟨h1, h2, h3⟩ | ⟨h1, h2, h3, h4⟩
    · exact Or.inl h0
    · exact Or.inr (Or.inl ⟨h1, h2, h3⟩)
    · exact Or.inr (Or.inr (Or.inr ⟨uid, slot, e, rfl, he, hu, Or.inl ⟨h1, h2⟩⟩))
    · exact Or.inr (Or.inr (Or.inr ⟨uid, slot, e, rfl, he, hu, Or.inr (Or.inl ⟨h1, h2⟩)⟩))
    · exact Or.inr (Or.inr (Or.inr ⟨uid, slot, e, rfl, he, hu,
        Or.inr (Or.inr (Or.inl ⟨h1, h2, h3⟩))⟩))
    · exact Or.inr (Or.inr (Or.inr ⟨uid, slot, e, rfl, he, hu,
        Or.inr (Or.inr (Or.inr ⟨h1, h2, h3, h4⟩))⟩))
  | Receive packet hdr =>
    rcases Receive_state packet hdr s t h with h0 | h1 | h2
    · exact Or.inl h0
    · exact Or.inr (Or.inr (Or.inl ⟨packet, hdr, rfl, Or.inl h1⟩))
    · exact Or.inr (Or.inr (Or.inl ⟨packet, hdr, rfl, Or.inr h2⟩))
  | FrameTxOk hdr =>
    have h := Option.some.inj h; subst h; exact Or.inl (FrameTxOk_state hdr s)
  | DoInitialize =>
    have h := Option.some.inj h; subst h
    exact Or.inl (StartBeaconTransmissionInterval_state (emit Effect.BaseDoInitialize s))
  | SetMaxMissedBeacons missed => have h := Option.some.inj h; subst h; exact Or.inl rfl
  | SetProbeRequestTimeout timeout => have h := Option.some.inj h; subst h; exact Or.inl rfl
  | SetAssocRequestTimeout timeout => have h := Option.some.inj h; subst h; exact Or.inl rfl
  | StartActiveAssociation =>
    rcases tte s rfl rfl (Option.some.inj h).symm with h0 | h1
    · exact Or.inl h0
    · exact Or.inr (Or.inl h1)
  | SetActiveProbing enable =>
    have h := Option.some.inj h; subst h
    cases enable <;> exact Or.inl rfl
  | MapAidToMacAddress aid address => have h := Option.some.inj h; subst h; exact Or.inl rfl
  | Enqueue packet packetTid dest =>
    have h := Option.some.inj h; subst h
    rw [Enqueue_state]
    by_cases hc : s.m_state = MacState.BEACON_MISSED ∧ s.m_activeProbing = true
    · rw [if_pos hc]; exact Or.inr (Or.inl ⟨hc.1, hc.2, rfl⟩)
    · rw [if_neg hc]; exact Or.inl rfl
  | SendSprFrame dest => have h := Option.some.inj h; subst h; exact Or.inl rfl
  | InitiateBeamforming a x d =>
    have h := Option.some.inj h; subst h
    exact Or.inl (StartInitiatorSectorSweep_state a x d s)
  | RequestInformation a => have h := Option.some.inj h; subst h; exact Or.inl rfl
  | DoRelayDiscovery a =>
    have h := Option.some.inj h; subst h; exact Or.inl (DoRelayDiscovery_state a s)
  | InitiateLinkSwitchingTypeProcedure a =>
    have h := Option.some.inj h; subst h; exact Or.inl rfl
  | BrpSetupCompleted a => have h := Option.some.inj h; subst h; exact Or.inl rfl
  | NotifyBrpPhaseCompleted => have h := Option.some.inj h; subst h; exact Or.inl rfl

/-- C1: the only step that takes the station from a state other than ASSOCIATED
into ASSOCIATED is the reception of an association response with a success
status code that passes the address filter, processed while the state is
WAIT_ASSOC_RESP.  No scheduled event, other frame, transmission completion or
public call does so; consequently a run that starts outside ASSOCIATED and ends
in ASSOCIATED contains such a reception. -/
theorem associated_only_by_successful_response (op : Op) (s t : Mac)
    (hstep : step op s = some t) (hpre : s.m_state ≠ MacState.ASSOCIATED)
    (hpost : t.m_state = MacState.ASSOCIATED) :
    (∃ packet hdr, op = Op.Receive packet hdr ∧
      hdr.macType = WifiMacType.WIFI_MAC_MGT_ASSOCIATION_RESPONSE ∧
      packet.assocRespIsSuccess = true ∧
      s.m_state = MacState.WAIT_ASSOC_RESP ∧
      hdr.addr3 ≠ s.address ∧ (hdr.addr1 = s.address ∨ IsGroup hdr.addr1 = true)) ∧
    (∀ (ops : List Op) (a b : Mac), run ops a = some b → a.m_state ≠ MacState.ASSOCIATED →
      b.m_state = MacState.ASSOCIATED → ∃ o ∈ ops, o.isSuccessfulAssocResp = true) := by
  have single : ∀ (o : Op) (a b : Mac), step o a = some b → a.m_state ≠ MacState.ASSOCIATED →
      b.m_state = MacState.ASSOCIATED →
      ∃ packet hdr, o = Op.Receive packet hdr ∧
        hdr.macType = WifiMacType.WIFI_MAC_MGT_ASSOCIATION_RESPONSE ∧
        packet.assocRespIsSuccess = true ∧
        a.m_state = MacState.WAIT_ASSOC_RESP ∧
        hdr.addr3 ≠ a.address ∧ (hdr.addr1 = a.address ∨ IsGroup hdr.addr1 = true) := by
    intro o a b hs hp hq
    rcases step_state o a b hs with h0 | ⟨-, -, h1⟩ | ⟨packet, hdr, ho, h1 | h1⟩ |
      ⟨uid, slot, e, -, -, -, h1 | h1 | h1 | h1⟩
    · exact absurd (h0 ▸ hq) hp
    · rw [h1] at hq; exact absurd hq (by decide)
    · rw [h1.2.2.2] at hq; exact absurd hq (by decide)
    · obtain ⟨ht, h3, hf, hw, hr⟩ := h1
      rcases hr with ⟨hok, -⟩ | ⟨-, hr⟩
      · exact ⟨packet, hdr, ho, ht, hok, hw, h3, hf⟩
      · rw [hr] at hq; exact absurd hq (by decide)
    · rw [h1.2] at hq; exact absurd hq (by decide)
    · rw [h1.2] at hq; exact absurd hq (by decide)
    · rw [h1.2.2] at hq
      split_ifs at hq
    · rw [h1.2.2.2] at hq; exact absurd hq (by decide)
  refine ⟨single op s t hstep hpre hpost, ?_⟩
  intro ops
  induction ops with
  | nil =>
    intro a b hr hp hq
    have hr := Option.some.inj hr
    subst hr
    exact absurd hq hp
  | cons o rest ih =>
    intro a b hr hp hq
    unfold run at hr
    cases hso : step o a with
    | none => rw [hso] at hr; exact absurd hr (by simp)
    | some m =>
      rw [hso] at hr
      have hr : run rest m = some b := hr
      by_cases hm : m.m_state = MacState.ASSOCIATED
      · obtain ⟨packet, hdr, ho, ht, hok, -⟩ := single o a m hso hp hm
        refine ⟨o, List.mem_cons_self _ _, ?_⟩
        rw [ho]
        simp [Op.isSuccessfulAssocResp, ht, hok]
      · obtain ⟨o2, hmem, ho2⟩ := ih m b hr hm hq
        exact ⟨o2, List.mem_cons_of_mem _ hmem, ho2⟩

/-- C1, witness: the station `waitingForAssocResp` receives a successful
association response and becomes ASSOCIATED; the step is the reception
that the statement describes. -/
theorem associated_only_by_successful_response_witness :
    step (Op.Receive assocRespSuccess assocRespHdr) waitingForAssocResp
      = some (ReceiveAssocResp assocRespSuccess assocRespHdr waitingForAssocResp) ∧
    waitingForAssocResp.m_state ≠ MacState.ASSOCIATED ∧
    (ReceiveAssocResp assocRespSuccess assocRespHdr waitingForAssocResp).m_state
      = MacState.ASSOCIATED ∧
    ∃ packet hdr, Op.Receive assocRespSuccess assocRespHdr = Op.Receive packet hdr ∧
      hdr.macType = WifiMacType.WIFI_MAC_MGT_ASSOCIATION_RESPONSE ∧
      packet.assocRespIsSuccess = true ∧
      waitingForAssocResp.m_state = MacState.WAIT_ASSOC_RESP ∧
      hdr.addr3 ≠ waitingForAssocResp.address ∧
      (hdr.addr1 = waitingForAssocResp.address ∨ IsGroup hdr.addr1 = true) :=
  ⟨rfl, by decide, by decide,
    (associated_only_by_successful_response (Op.Receive assocRespSuccess assocRespHdr)
      waitingForAssocResp (ReceiveAssocResp assocRespSuccess assocRespHdr waitingForAssocResp)
      rfl (by decide) (by decide)).1⟩

/-- C10, counterexample: a station in REFUSED leaves that state without any
external call, when its pending DTI start fires (to WAIT_ASSOC_RESP, with an
association request queued) and when its beacon watchdog fires after the
deadline (to BEACON_MISSED). -/
theorem refused_is_left_by_internal_steps :
    refusedStation.m_state = MacState.REFUSED ∧
    (step (Op.RunEvent 0 0) refusedStation).map (fun t => (t.m_state, (queued refusedStation t).length))
      = some (MacState.WAIT_ASSOC_RESP, 1) ∧
    (step (Op.RunEvent 1 0) refusedStation).map (fun t => t.m_state)
      = some MacState.BEACON_MISSED := by
  decide

/-- C12: entering the BTI, from any prior state, makes the access period BTI,
clears the post-A-BFT flag and the sector-feedback tracking map, disables
channel access on the contention manager and on the service-period queue,
suspends relay operation exactly when the station is an operational RDS, and
puts the antenna in omni receiving mode; the association state, the AID, the
best-configuration table and the scheduler are unchanged.  Node initialization
calls the base class and then enters the BTI. -/
theorem StartBeaconTransmissionInterval_post (s : Mac) :
    (StartBeaconTransmissionInterval s).m_accessPeriod = ChannelAccessPeriod.CHANNEL_ACCESS_BTI ∧
    (StartBeaconTransmissionInterval s).m_scheduledPeriodAfterAbft = false ∧
    (StartBeaconTransmissionInterval s).m_sectorFeedbackSent = [] ∧
    (StartBeaconTransmissionInterval s).m_dcfManagerAccess = false ∧
    (StartBeaconTransmissionInterval s).m_spAccess = false ∧
    emitted s (StartBeaconTransmissionInterval s) =
      (if s.m_rdsOperational = true then [Effect.SuspendRdsOperation] else []) ∧
    (Effect.SuspendRdsOperation ∈ emitted s (StartBeaconTransmissionInterval s) ↔
      s.m_rdsOperational = true) ∧
    (StartBeaconTransmissionInterval s).antenna.omniReceivingMode = true ∧
    (StartBeaconTransmissionInterval s).m_state = s.m_state ∧
    (StartBeaconTransmissionInterval s).m_aid = s.m_aid ∧
    (StartBeaconTransmissionInterval s).m_bestAntennaConfig = s.m_bestAntennaConfig ∧
    (StartBeaconTransmissionInterval s).sim = s.sim ∧
    DoInitialize s = StartBeaconTransmissionInterval (emit Effect.BaseDoInitialize s) ∧
    (DoInitialize s).m_accessPeriod = ChannelAccessPeriod.CHANNEL_ACCESS_BTI ∧
    (DoInitialize s).antenna.omniReceivingMode = true := by
  have hlog : (StartBeaconTransmissionInterval s).log =
      s.log ++ (if s.m_rdsOperational = true then [Effect.SuspendRdsOperation] else []) := by
    unfold StartBeaconTransmissionInterval
    simp only []
    split_ifs
    · rfl
    · exact (List.append_nil _).symm
  have hem : emitted s (StartBeaconTransmissionInterval s) =
      (if s.m_rdsOperational = true then [Effect.SuspendRdsOperation] else []) := by
    unfold emitted
    rw [hlog, drop_length_append]
  have hall : ∀ x : Mac,
      (StartBeaconTransmissionInterval x).m_accessPeriod = ChannelAccessPeriod.CHANNEL_ACCESS_BTI ∧
      (StartBeaconTransmissionInterval x).m_scheduledPeriodAfterAbft = false ∧
      (StartBeaconTransmissionInterval x).m_sectorFeedbackSent = [] ∧
      (StartBeaconTransmissionInterval x).m_dcfManagerAccess = false ∧
      (StartBeaconTransmissionInterval x).m_spAccess = false ∧
      (StartBeaconTransmissionInterval x).antenna.omniReceivingMode = true ∧
      (StartBeaconTransmissionInterval x).m_state = x.m_state ∧
      (StartBeaconTransmissionInterval x).m_aid = x.m_aid ∧
      (StartBeaconTransmissionInterval x).m_bestAntennaConfig = x.m_bestAntennaConfig ∧
      (StartBeaconTransmissionInterval x).sim = x.sim := by
    intro x
    unfold StartBeaconTransmissionInterval
    simp only []
    split_ifs <;> exact ⟨rfl, rfl, rfl, rfl, rfl, rfl, rfl, rfl, rfl, rfl⟩
  obtain ⟨h1, h2, h3, h4, h5, h6, h7, h8, h9, h10⟩ := hall s
  refine ⟨h1, h2, h3, h4, h5, hem, ?_, h6, h7, h8, h9, h10, rfl, (hall _).1, (hall _).2.2.2.2.2.1⟩
  rw [hem]
  by_cases hr : s.m_rdsOperational = true
  · rw [if_pos hr]; simp [hr]
  · rw [if_neg hr]; simp [hr]

/-- The frames that reach the DMG beacon branch: every DMG beacon whose Addr3
is not the address of the station. -/
theorem Receive_dmgBeacon_eq (packet : Packet) (hdr : WifiMacHeader) (s : Mac)
    (htype : hdr.macType = WifiMacType.WIFI_MAC_EXTENSION_DMG_BEACON)
    (h3 : hdr.addr3 ≠ s.address) :
    Receive packet hdr s = some (ReceiveDmgBeacon packet hdr s) := by
  unfold Receive
  simp [h3, htype, WifiMacHeader.IsData, WifiMacHeader.IsDMGBeacon]

/-- The DMG beacon branch once a beacon has been processed in the beacon interval. -/
theorem ReceiveDmgBeacon_of_received (packet : Packet) (hdr : WifiMacHeader) (s : Mac)
    (hrecv : s.m_receivedDmgBeacon = true) :
    ReceiveDmgBeacon packet hdr s =
      MapTxSnr hdr.addr1 packet.beacon.sswField.sectorID packet.beacon.sswField.antennaID
        packet.rxSnr s := by
  unfold ReceiveDmgBeacon
  simp only [hrecv]
  rfl

/-- C13: once a DMG beacon has been processed in a beacon interval, the
reception of a further DMG beacon schedules no event and changes no field of
the timing snapshot; the station differs from the one before at most in the SNR
map, where the entry (sector, antenna) of the table of the beacon Addr1 (the
BSSID) is set to the received SNR (a beacon whose Addr3 is the address of the
station is dropped by the address filter and changes nothing). -/
theorem Receive_duplicate_beacon (packet : Packet) (hdr : WifiMacHeader) (s : Mac)
    (htype : hdr.macType = WifiMacType.WIFI_MAC_EXTENSION_DMG_BEACON)
    (hrecv : s.m_receivedDmgBeacon = true) :
    ∃ t, Receive packet hdr s = some t ∧
      t.sim = s.sim ∧
      t.m_btiDuration = s.m_btiDuration ∧ t.m_abftDuration = s.m_abftDuration ∧
      t.m_atiDuration = s.m_atiDuration ∧ t.m_btiStarted = s.m_btiStarted ∧
      t.m_beaconInterval = s.m_beaconInterval ∧
      t.m_ssSlotsPerABFT = s.m_ssSlotsPerABFT ∧ t.m_ssFramesPerSlot = s.m_ssFramesPerSlot ∧
      t.m_remainingSlotsPerABFT = s.m_remainingSlotsPerABFT ∧ t.m_slotIndex = s.m_slotIndex ∧
      t.m_isCbapOnly = s.m_isCbapOnly ∧ t.m_isCbapSource = s.m_isCbapSource ∧
      t.m_allocationList = s.m_allocationList ∧ t.m_bssid = s.m_bssid ∧
      t.m_abftEvent = s.m_abftEvent ∧ t.m_receivedDmgBeacon = true ∧
      t = { s with m_stationSnrMap := t.m_stationSnrMap } ∧
      t.m_stationSnrMap =
        (if hdr.addr3 = s.address then s.m_stationSnrMap
         else mapSet s.m_stationSnrMap hdr.addr1
                (mapSet (mapIndex s.m_stationSnrMap hdr.addr1 [])
                  (packet.beacon.sswField.sectorID, packet.beacon.sswField.antennaID)
                  packet.rxSnr)) := by
  by_cases h3 : hdr.addr3 = s.address
  · refine ⟨s, ?_, rfl, rfl, rfl, rfl, rfl, rfl, rfl, rfl, rfl, rfl, rfl, rfl, rfl, rfl, rfl,
      hrecv, rfl, ?_⟩
    · unfold Receive
      rw [if_pos h3]
    · rw [if_pos h3]
  · refine ⟨_, Receive_dmgBeacon_eq packet hdr s htype h3, ?_⟩
    rw [ReceiveDmgBeacon_of_received packet hdr s hrecv, if_neg h3]
    exact ⟨rfl, rfl, rfl, rfl, rfl, rfl, rfl, rfl, rfl, rfl, rfl, rfl, rfl, rfl, rfl, hrecv,
      rfl, rfl⟩

/-- C13, witness: the statement at the station `afterFirstBeacon` and the
beacon `beaconOnSector3`. -/
theorem Receive_duplicate_beacon_witness :
    beaconHdr.macType = WifiMacType.WIFI_MAC_EXTENSION_DMG_BEACON ∧
    afterFirstBeacon.m_receivedDmgBeacon = true ∧
    ∃ t, Receive beaconOnSector3 beaconHdr afterFirstBeacon = some t ∧
      t.sim = afterFirstBeacon.sim ∧
      t.m_btiDuration = afterFirstBeacon.m_btiDuration ∧
      t.m_abftDuration = afterFirstBeacon.m_abftDuration ∧
      t.m_atiDuration = afterFirstBeacon.m_atiDuration ∧
      t.m_btiStarted = afterFirstBeacon.m_btiStarted ∧
      t.m_beaconInterval = afterFirstBeacon.m_beaconInterval ∧
      t.m_ssSlotsPerABFT = afterFirstBeacon.m_ssSlotsPerABFT ∧
      t.m_ssFramesPerSlot = afterFirstBeacon.m_ssFramesPerSlot ∧
      t.m_remainingSlotsPerABFT = afterFirstBeacon.m_remainingSlotsPerABFT ∧
      t.m_slotIndex = afterFirstBeacon.m_slotIndex ∧
      t.m_isCbapOnly = afterFirstBeacon.m_isCbapOnly ∧
      t.m_isCbapSource = afterFirstBeacon.m_isCbapSource ∧
      t.m_allocationList = afterFirstBeacon.m_allocationList ∧
      t.m_bssid = afterFirstBeacon.m_bssid ∧
      t.m_abftEvent = afterFirstBeacon.m_abftEvent ∧ t.m_receivedDmgBeacon = true ∧
      t = { afterFirstBeacon with m_stationSnrMap := t.m_stationSnrMap } ∧
      t.m_stationSnrMap =
        (if beaconHdr.addr3 = afterFirstBeacon.address then afterFirstBeacon.m_stationSnrMap
         else mapSet afterFirstBeacon.m_stationSnrMap beaconHdr.addr1
                (mapSet (mapIndex afterFirstBeacon.m_stationSnrMap beaconHdr.addr1 [])
                  (beaconOnSector3.beacon.sswField.sectorID,
                    beaconOnSector3.beacon.sswField.antennaID)
                  beaconOnSector3.rxSnr)) :=
  ⟨by decide, by decide,
    Receive_duplicate_beacon beaconOnSector3 beaconHdr afterFirstBeacon (by decide) (by decide)⟩

/-- The DMG beacon branch for the first beacon of a beacon interval. -/
theorem ReceiveDmgBeacon_of_first (packet : Packet) (hdr : WifiMacHeader) (s : Mac)
    (hfirst : s.m_receivedDmgBeacon = false) :
    ReceiveDmgBeacon packet hdr s =
      MapTxSnr hdr.addr1 packet.beacon.sswField.sectorID packet.beacon.sswField.antennaID
        packet.rxSnr (firstDmgBeacon packet hdr s) := by
  unfold ReceiveDmgBeacon
  simp only [hfirst]
  rfl

/-- The timing snapshot taken from the first beacon of a beacon interval. -/
theorem firstDmgBeacon_snapshot (packet : Packet) (hdr : WifiMacHeader) (s : Mac) :
    (firstDmgBeacon packet hdr s).m_btiStarted =
      MicroSeconds packet.beacon.timestamp + hdr.duration -
        (firstDmgBeacon packet hdr s).m_btiDuration ∧
    (firstDmgBeacon packet hdr s).m_ssSlotsPerABFT = packet.beacon.abftLength ∧
    (firstDmgBeacon packet hdr s).m_nBI = packet.beacon.nBI ∧
    (firstDmgBeacon packet hdr s).m_receivedDmgBeacon = true ∧
    (firstDmgBeacon packet hdr s).sim.now = s.sim.now := by
  by_cases hcc : packet.beacon.ccPresent = true ∧ packet.beacon.discoveryMode = true
  · rcases hse : packet.beacon.scheduleElement with _ | list <;>
    · unfold firstDmgBeacon
      simp only [hse]
      rw [if_pos hcc]
      exact ⟨rfl, rfl, rfl, rfl, rfl⟩
  · by_cases hn : packet.beacon.nBI = 1
    · rcases hse : packet.beacon.scheduleElement with _ | list <;>
      · unfold firstDmgBeacon
        simp only [hse]
        rw [if_neg hcc, if_pos hn]
        exact ⟨rfl, rfl, rfl, rfl, rfl⟩
    · rcases hse : packet.beacon.scheduleElement with _ | list <;>
      · unfold firstDmgBeacon
        simp only [hse]
        rw [if_neg hcc, if_neg hn]
        exact ⟨rfl, rfl, rfl, rfl, rfl⟩

/-- The first beacon of a beacon interval that schedules the A-BFT. -/
theorem firstDmgBeacon_abft (packet : Packet) (hdr : WifiMacHeader) (s : Mac)
    (hn : packet.beacon.nBI = 1)
    (hcc : ¬(packet.beacon.ccPresent = true ∧ packet.beacon.discoveryMode = true)) :
    (firstDmgBeacon packet hdr s).sim =
      s.sim.Schedule
        ((firstDmgBeacon packet hdr s).m_btiDuration + s.m_mbifs -
          (s.sim.now - (firstDmgBeacon packet hdr s).m_btiStarted))
        Callback.StartAssociationBeamformTraining ∧
    (firstDmgBeacon packet hdr s).m_abftEvent = some s.sim.nextUid ∧
    (firstDmgBeacon packet hdr s).m_bssid = hdr.addr1 ∧
    (firstDmgBeacon packet hdr s).m_slotIndex = 0 ∧
    (firstDmgBeacon packet hdr s).m_remainingSlotsPerABFT = packet.beacon.abftLength := by
  rcases hse : packet.beacon.scheduleElement with _ | list <;>
  · unfold firstDmgBeacon
    simp only [hse]
    rw [if_neg hcc, if_pos hn]
    exact ⟨rfl, rfl, rfl, rfl, rfl⟩

/-- The first beacon of a beacon interval that schedules no A-BFT. -/
theorem firstDmgBeacon_no_abft (packet : Packet) (hdr : WifiMacHeader) (s : Mac)
    (h : ¬(packet.beacon.nBI = 1 ∧
          ¬(packet.beacon.ccPresent = true ∧ packet.beacon.discoveryMode = true))) :
    (firstDmgBeacon packet hdr s).sim = s.sim ∧
    (firstDmgBeacon packet hdr s).m_abftEvent = s.m_abftEvent ∧
    (firstDmgBeacon packet hdr s).m_bssid = s.m_bssid ∧
    (firstDmgBeacon packet hdr s).m_slotIndex = s.m_slotIndex ∧
    (firstDmgBeacon packet hdr s).m_remainingSlotsPerABFT = s.m_remainingSlotsPerABFT := by
  by_cases hcc : packet.beacon.ccPresent = true ∧ packet.beacon.discoveryMode = true
  · rcases hse : packet.beacon.scheduleElement with _ | list <;>
    · unfold firstDmgBeacon
      simp only [hse]
      rw [if_pos hcc]
      exact ⟨rfl, rfl, rfl, rfl, rfl⟩
  · have hn : ¬ packet.beacon.nBI = 1 := fun hn => h ⟨hn, hcc⟩
    rcases hse : packet.beacon.scheduleElement with _ | list <;>
    · unfold firstDmgBeacon
      simp only [hse]
      rw [if_neg hcc, if_neg hn]
      exact ⟨rfl, rfl, rfl, rfl, rfl⟩

/-- C14, counterexample: the first DMG beacon of a beacon interval has nBI = 1
and announces clustering control in discovery mode; the station takes the
timing snapshot and schedules no A-BFT start event. -/
theorem first_beacon_in_discovery_mode_schedules_no_abft :
    initialMac.m_receivedDmgBeacon = false ∧ beaconDiscovery.beacon.nBI = 1 ∧
    (Receive beaconDiscovery beaconHdr initialMac).map
        (fun t => (t.m_receivedDmgBeacon, t.m_nBI, t.sim.events, t.m_abftEvent))
      = some (true, 1, [], none) := by
  decide

/-- C14, amended: the first DMG beacon of a beacon interval that passes the
address filter.  If nBI = 1 and the beacon does not announce clustering control
in discovery mode, exactly one A-BFT start event is scheduled, at delay
btiDuration + MBIFS − (now − btiStarted) from the reception time, that is at
the absolute time btiStarted + btiDuration + MBIFS = timestamp + Duration field
+ MBIFS, whatever the reception time; the BSSID becomes the beacon Addr1, the
slot index 0 and the remaining slots ssSlotsPerABFT.  Otherwise (nBI ≠ 1, or
clustering control in discovery mode) no event is scheduled and the BSSID, the
slot index and the remaining slots are unchanged. -/
theorem Receive_first_beacon (packet : Packet) (hdr : WifiMacHeader) (s : Mac)
    (htype : hdr.macType = WifiMacType.WIFI_MAC_EXTENSION_DMG_BEACON)
    (h3 : hdr.addr3 ≠ s.address)
    (hfirst : s.m_receivedDmgBeacon = false) :
    ∃ t, Receive packet hdr s = some t ∧
      t.m_receivedDmgBeacon = true ∧
      t.m_btiStarted + t.m_btiDuration = MicroSeconds packet.beacon.timestamp + hdr.duration ∧
      t.m_ssSlotsPerABFT = packet.beacon.abftLength ∧
      (if packet.beacon.nBI = 1 ∧
          ¬(packet.beacon.ccPresent = true ∧ packet.beacon.discoveryMode = true) then
        t.sim.events = s.sim.events ++
          [{ uid := s.sim.nextUid,
             ts := s.sim.now + (t.m_btiDuration + s.m_mbifs - (s.sim.now - t.m_btiStarted)),
             cb := Callback.StartAssociationBeamformTraining }] ∧
        s.sim.now + (t.m_btiDuration + s.m_mbifs - (s.sim.now - t.m_btiStarted)) =
          t.m_btiStarted + t.m_btiDuration + s.m_mbifs ∧
        t.m_abftEvent = some s.sim.nextUid ∧
        t.m_bssid = hdr.addr1 ∧ t.m_slotIndex = 0 ∧
        t.m_remainingSlotsPerABFT = t.m_ssSlotsPerABFT
      else
        t.sim = s.sim ∧ t.m_abftEvent = s.m_abftEvent ∧ t.m_bssid = s.m_bssid ∧
        t.m_slotIndex = s.m_slotIndex ∧
        t.m_remainingSlotsPerABFT = s.m_remainingSlotsPerABFT) := by
  refine ⟨_, Receive_dmgBeacon_eq packet hdr s htype h3, ?_⟩
  rw [ReceiveDmgBeacon_of_first packet hdr s hfirst]
  obtain ⟨hst, hslots, _, hrecv, _⟩ := firstDmgBeacon_snapshot packet hdr s
  have hsum : (firstDmgBeacon packet hdr s).m_btiStarted +
      (firstDmgBeacon packet hdr s).m_btiDuration =
        MicroSeconds packet.beacon.timestamp + hdr.duration := by
    rw [hst]; exact sub_add_cancel _ _
  refine ⟨hrecv, hsum, hslots, ?_⟩
  by_cases h : packet.beacon.nBI = 1 ∧
      ¬(packet.beacon.ccPresent = true ∧ packet.beacon.discoveryMode = true)
  · rw [if_pos h]
    obtain ⟨e1, e2, e3, e4, e5⟩ := firstDmgBeacon_abft packet hdr s h.1 h.2
    refine ⟨?_, ?_, e2, e3, e4, ?_⟩
    · show (firstDmgBeacon packet hdr s).sim.events = _
      rw [e1]
      rfl
    · show s.sim.now + ((firstDmgBeacon packet hdr s).m_btiDuration + s.m_mbifs -
          (s.sim.now - (firstDmgBeacon packet hdr s).m_btiStarted)) =
        (firstDmgBeacon packet hdr s).m_btiStarted +
          (firstDmgBeacon packet hdr s).m_btiDuration + s.m_mbifs
      ring
    · show (firstDmgBeacon packet hdr s).m_remainingSlotsPerABFT =
        (firstDmgBeacon packet hdr s).m_ssSlotsPerABFT
      rw [e5, hslots]
  · rw [if_neg h]
    exact firstDmgBeacon_no_abft packet hdr s h

/-- C14, witness: the statement at the station `initialMac` and the beacon
`beaconOnSector3`, which has nBI = 1. -/
theorem Receive_first_beacon_witness :
    beaconHdr.macType = WifiMacType.WIFI_MAC_EXTENSION_DMG_BEACON ∧
    beaconHdr.addr3 ≠ initialMac.address ∧
    initialMac.m_receivedDmgBeacon = false ∧
    ∃ t, Receive beaconOnSector3 beaconHdr initialMac = some t ∧
      t.m_receivedDmgBeacon = true ∧
      t.m_btiStarted + t.m_btiDuration =
        MicroSeconds beaconOnSector3.beacon.timestamp + beaconHdr.duration ∧
      t.m_ssSlotsPerABFT = beaconOnSector3.beacon.abftLength ∧
      (if beaconOnSector3.beacon.nBI = 1 ∧
          ¬(beaconOnSector3.beacon.ccPresent = true ∧
            beaconOnSector3.beacon.discoveryMode = true) then
        t.sim.events = initialMac.sim.events ++
          [{ uid := initialMac.sim.nextUid,
             ts := initialMac.sim.now +
               (t.m_btiDuration + initialMac.m_mbifs - (initialMac.sim.now - t.m_btiStarted)),
             cb := Callback.StartAssociationBeamformTraining }] ∧
        initialMac.sim.now +
            (t.m_btiDuration + initialMac.m_mbifs - (initialMac.sim.now - t.m_btiStarted)) =
          t.m_btiStarted + t.m_btiDuration + initialMac.m_mbifs ∧
        t.m_abftEvent = some initialMac.sim.nextUid ∧
        t.m_bssid = beaconHdr.addr1 ∧ t.m_slotIndex = 0 ∧
        t.m_remainingSlotsPerABFT = t.m_ssSlotsPerABFT
      else
        t.sim = initialMac.sim ∧ t.m_abftEvent = initialMac.m_abftEvent ∧
        t.m_bssid = initialMac.m_bssid ∧
        t.m_slotIndex = initialMac.m_slotIndex ∧
        t.m_remainingSlotsPerABFT = initialMac.m_remainingSlotsPerABFT) :=
  ⟨by decide, by decide, by decide,
    Receive_first_beacon beaconOnSector3 beaconHdr initialMac (by decide) (by decide)
      (by decide)⟩

/-- The integer the random source returns for the range from 0 to r − 1, for
r ≥ 1: the remainder of the stream's number modulo r. -/
theorem UniformRandomVariable.GetInteger_range (r draw : Nat) (hr : 1 ≤ r) :
    ({ min := 0, max := (r : Int) - 1 } : UniformRandomVariable).GetInteger draw = draw % r := by
  unfold UniformRandomVariable.GetInteger
  have hn : ¬ ((r : Int) - 1 < 0) := by omega
  simp only [hn, if_false, zero_add, sub_zero, sub_add_cancel]
  rw [← Int.natCast_mod]
  exact Int.toNat_natCast _

/-- A number of the stream that lies in the range from 0 to r − 1 is returned
as it is, and fits the 8-bit slot index. -/
theorem UniformRandomVariable.GetInteger_of_lt (slot r : Nat) (h : slot + 1 ≤ r) (h8 : r < 256) :
    ({ min := 0, max := (r : Int) - 1 } : UniformRandomVariable).GetInteger slot % 256 = slot := by
  have h1 : slot % r = slot := Nat.mod_eq_of_lt (by omega)
  rw [UniformRandomVariable.GetInteger_range r slot (by omega), h1]
  exact Nat.mod_eq_of_lt (by omega)

/-- The events `StartAssociationBeamformTraining` schedules and the fields it
writes, case by case. -/
theorem StartAssociationBeamformTraining_fields (slot : Nat) (s : Mac) :
    (StartAssociationBeamformTraining slot s).sim.events =
      s.sim.events ++
        ([{ uid := s.sim.nextUid,
            ts := s.sim.now +
              ((({ min := 0, max := (s.m_remainingSlotsPerABFT : Int) - 1 } :
                UniformRandomVariable).GetInteger slot % 256 : Nat) : Int) *
                s.GetSectorSweepSlotTime s.m_ssFramesPerSlot,
            cb := Callback.StartResponderSectorSweep s.m_bssid s.m_isResponderTXSS
                    (s.GetSectorSweepDuration s.m_ssFramesPerSlot) }] ++
         (if s.m_scheduledPeriodAfterAbft = true then []
          else [{ uid := s.sim.nextUid + 1, ts := s.sim.now + s.m_abftDuration,
                  cb := if s.m_atiPresent = true then
                      Callback.StartAnnouncementTransmissionInterval
                    else Callback.StartDataTransmissionInterval }]) ++
         (if s.m_remainingSlotsPerABFT > 0 then
            [{ uid := if s.m_scheduledPeriodAfterAbft = true then s.sim.nextUid + 1
                      else s.sim.nextUid + 1 + 1,
               ts := s.sim.now +
                 (((({ min := 0, max := (s.m_remainingSlotsPerABFT : Int) - 1 } :
                UniformRandomVariable).GetInteger slot % 256 : Nat) : Int) + 1) *
                   s.GetSectorSweepSlotTime s.m_ssFramesPerSlot,
               cb := Callback.StartAssociationBeamformTraining }]
          else [])) ∧
    (StartAssociationBeamformTraining slot s).m_sswFbckTimeout =
      (if s.m_remainingSlotsPerABFT > 0 then
         some (if s.m_scheduledPeriodAfterAbft = true then s.sim.nextUid + 1
               else s.sim.nextUid + 1 + 1)
       else s.m_sswFbckTimeout) ∧
    (StartAssociationBeamformTraining slot s).m_remainingSlotsPerABFT =
      (if s.m_remainingSlotsPerABFT > 0 then
         (s.m_remainingSlotsPerABFT + 256 -
           (({ min := 0, max := (s.m_remainingSlotsPerABFT : Int) - 1 } :
              UniformRandomVariable).GetInteger slot % 256 + 1)) % 256
       else s.m_remainingSlotsPerABFT) ∧
    (StartAssociationBeamformTraining slot s).m_accessPeriod =
      ChannelAccessPeriod.CHANNEL_ACCESS_A_BFT ∧
    (StartAssociationBeamformTraining slot s).m_slotIndex =
      ({ min := 0, max := (s.m_remainingSlotsPerABFT : Int) - 1 } :
        UniformRandomVariable).GetInteger slot % 256 ∧
    (StartAssociationBeamformTraining slot s).m_scheduledPeriodAfterAbft = true ∧
    (StartAssociationBeamformTraining slot s).sim.now = s.sim.now := by
  by_cases hr : s.m_remainingSlotsPerABFT > 0 <;>
  rcases hsch : s.m_scheduledPeriodAfterAbft with _ | _ <;>
  rcases hati : s.m_atiPresent with _ | _ <;>
  · unfold StartAssociationBeamformTraining Schedule GetBssid nextEventId Simulator.Schedule
    simp only [hr, hsch, hati, Bool.not_true, Bool.not_false, Bool.false_eq_true, ↓reduceIte,
      List.append_nil, List.append_assoc, List.singleton_append, List.cons_append,
      List.nil_append, and_self, and_true, true_and]

/-- C16, the code at the failing input: a station receives the first beacon of
a beacon interval whose A-BFT has a single slot, enters the A-BFT (slot 0, no
slot remains), sweeps, and starts the DTI; then the fallback fires with no
remaining slot and the re-entry of the A-BFT schedules a further Responder
Sector Sweep, at the current instant, and no further fallback. -/
theorem abft_reentry_without_slots_sweeps :
    (run [Op.Receive beaconOneSlot beaconHdr, Op.RunEvent 0 0, Op.RunEvent 1 0,
          Op.RunEvent 2 0] initialMac).map
        (fun t => (t.m_remainingSlotsPerABFT, t.m_accessPeriod, t.sim.now))
      = some (0, ChannelAccessPeriod.CHANNEL_ACCESS_DTI, 1991000) ∧
    (run [Op.Receive beaconOneSlot beaconHdr, Op.RunEvent 0 0, Op.RunEvent 1 0,
          Op.RunEvent 2 0] initialMac).map
        (fun t => (t.sim.events.filter (fun e => e.cb.isAbftStart),
          t.sim.events.filter (fun e => e.cb.isResponderSectorSweep)))
      = some ([{ uid := 3, ts := 1991000, cb := Callback.StartAssociationBeamformTraining }],
          []) ∧
    (run [Op.Receive beaconOneSlot beaconHdr, Op.RunEvent 0 0, Op.RunEvent 1 0,
          Op.RunEvent 2 0, Op.RunEvent 3 0] initialMac).map
        (fun t => (t.m_remainingSlotsPerABFT, t.m_accessPeriod, t.sim.now))
      = some (0, ChannelAccessPeriod.CHANNEL_ACCESS_A_BFT, 1991000) ∧
    (run [Op.Receive beaconOneSlot beaconHdr, Op.RunEvent 0 0, Op.RunEvent 1 0,
          Op.RunEvent 2 0, Op.RunEvent 3 0] initialMac).map
        (fun t => (t.sim.events.filter (fun e => e.cb.isAbftStart),
          t.sim.events.filter (fun e => e.cb.isResponderSectorSweep)))
      = some ([], [{ uid := 6, ts := 1991000,
                     cb := Callback.StartResponderSectorSweep 9 false 144000 }]) := by
  decide

/-- From `StartDataTransmissionInterval` on a station that is not an operational RDS. -/
theorem StartDataTransmissionInterval_of_not_rds (s : Mac) (hr : s.m_rdsOperational = false) :
    StartDataTransmissionInterval s =
      if (dtiEntry s).m_isCbapOnly = true ∧ (!(dtiEntry s).m_isCbapSource) = true then
        ScheduleNow (Callback.StartContentionPeriod
          (s.m_beaconInterval - (s.sim.now - s.m_btiStarted))) (dtiEntry s)
      else (dtiEntry s).m_allocationList.foldl (fun acc field => dtiAllocation field acc)
        (dtiEntry s) := by
  have hn : ¬ (s.m_rdsOperational = true) := by rw [hr]; simp
  have e1 : StartDataTransmissionInterval s = _ := if_neg hn
  exact e1

/-- The schedule fields `SetState` leaves. -/
theorem SetState_frame (v : MacState) (x : Mac) :
    (SetState v x).m_aidMap = x.m_aidMap ∧ (SetState v x).m_spStations = x.m_spStations ∧
    (SetState v x).m_isCbapOnly = x.m_isCbapOnly ∧
    (SetState v x).m_isCbapSource = x.m_isCbapSource ∧
    (SetState v x).m_allocationList = x.m_allocationList := by
  unfold SetState
  simp only []
  split_ifs <;> exact ⟨rfl, rfl, rfl, rfl, rfl⟩

/-- The schedule fields `SendAssociationRequest` leaves. -/
theorem SendAssociationRequest_frame (x : Mac) :
    (SendAssociationRequest x).m_aidMap = x.m_aidMap ∧
    (SendAssociationRequest x).m_spStations = x.m_spStations ∧
    (SendAssociationRequest x).m_isCbapOnly = x.m_isCbapOnly ∧
    (SendAssociationRequest x).m_isCbapSource = x.m_isCbapSource ∧
    (SendAssociationRequest x).m_allocationList = x.m_allocationList := by
  unfold SendAssociationRequest
  simp only []
  split_ifs <;> exact ⟨rfl, rfl, rfl, rfl, rfl⟩

/-- The fields an association attempt leaves, and its scheduler. -/
theorem assocAttempt_frame (x : Mac) :
    (SendAssociationRequest (SetState MacState.WAIT_ASSOC_RESP x)).m_aid = x.m_aid ∧
    (SendAssociationRequest (SetState MacState.WAIT_ASSOC_RESP x)).m_aidMap = x.m_aidMap ∧
    (SendAssociationRequest (SetState MacState.WAIT_ASSOC_RESP x)).m_spStations = x.m_spStations ∧
    (SendAssociationRequest (SetState MacState.WAIT_ASSOC_RESP x)).m_isCbapOnly = x.m_isCbapOnly ∧
    (SendAssociationRequest (SetState MacState.WAIT_ASSOC_RESP x)).m_isCbapSource
      = x.m_isCbapSource ∧
    (SendAssociationRequest (SetState MacState.WAIT_ASSOC_RESP x)).m_allocationList
      = x.m_allocationList ∧
    (SendAssociationRequest (SetState MacState.WAIT_ASSOC_RESP x)).sim =
      (x.sim.Cancel x.m_assocRequestEvent).Schedule x.m_assocRequestTimeout
        Callback.AssocRequestTimeout := by
  obtain ⟨-, a2, -, -, -, -, -, -, -, asim⟩ :=
    SendAssociationRequest_fields (SetState MacState.WAIT_ASSOC_RESP x)
  obtain ⟨f1, -, f3, -, -, -, f7, -, -, -, f11, -, -⟩ :=
    SetState_fields MacState.WAIT_ASSOC_RESP x
  obtain ⟨g1, g2, g3, g4, g5⟩ := SendAssociationRequest_frame (SetState MacState.WAIT_ASSOC_RESP x)
  obtain ⟨k1, k2, k3, k4, k5⟩ := SetState_frame MacState.WAIT_ASSOC_RESP x
  rw [f3, f7, f11] at asim
  exact ⟨a2.trans f1, g1.trans k1, g2.trans k2, g3.trans k3, g4.trans k4, g5.trans k5, asim⟩

/-- The fields of the station at the point where the DTI start tests the
CBAP-only flags. -/
theorem dtiEntry_frame (s : Mac) :
    (dtiEntry s).m_aid = s.m_aid ∧ (dtiEntry s).m_aidMap = s.m_aidMap ∧
    (dtiEntry s).m_spStations = s.m_spStations ∧
    (dtiEntry s).m_isCbapOnly = s.m_isCbapOnly ∧
    (dtiEntry s).m_isCbapSource = s.m_isCbapSource ∧
    (dtiEntry s).m_allocationList = s.m_allocationList ∧
    (dtiEntry s).sim =
      (if s.m_state = MacState.ASSOCIATED then
         s.sim.Schedule (s.m_beaconInterval - (s.sim.now - s.m_btiStarted))
           Callback.StartBeaconTransmissionInterval
       else
         ((s.sim.Schedule (s.m_beaconInterval - (s.sim.now - s.m_btiStarted))
             Callback.StartBeaconTransmissionInterval).Cancel s.m_assocRequestEvent).Schedule
           s.m_assocRequestTimeout Callback.AssocRequestTimeout) := by
  by_cases ha : s.m_state = MacState.ASSOCIATED
  · have h1 : ¬ ((!IsAssociated (Schedule (s.m_beaconInterval - (s.sim.now - s.m_btiStarted))
        Callback.StartBeaconTransmissionInterval
        { s with m_accessPeriod := ChannelAccessPeriod.CHANNEL_ACCESS_DTI,
                 m_receivedDmgBeacon := false })) = true) := by
      simp [IsAssociated, Schedule, ha]
    have e : dtiEntry s = _ := if_neg h1
    rw [e, if_pos ha]
    exact ⟨rfl, rfl, rfl, rfl, rfl, rfl, rfl⟩
  · have h1 : (!IsAssociated (Schedule (s.m_beaconInterval - (s.sim.now - s.m_btiStarted))
        Callback.StartBeaconTransmissionInterval
        { s with m_accessPeriod := ChannelAccessPeriod.CHANNEL_ACCESS_DTI,
                 m_receivedDmgBeacon := false })) = true := by
      simp [IsAssociated, Schedule, ha]
    have e : dtiEntry s = _ := if_pos h1
    rw [e, if_neg ha]
    exact assocAttempt_frame _

/-- On a scheduler whose pending events all have identifiers below the next
identifier, no pending event counts as scheduled since. -/
theorem filter_since_nil (sim : Simulator) (hwf : ∀ e ∈ sim.events, e.uid < sim.nextUid) :
    sim.events.filter (fun e => decide (sim.nextUid ≤ e.uid)) = [] := by
  rw [List.filter_eq_nil_iff]
  intro e he
  have := hwf e he
  simp only [decide_eq_true_eq]
  omega

/-- Cancelling an older event does not change what was scheduled since. -/
theorem filter_since_cancel (l : List Event) (n u : Nat) (hu : u < n) :
    (l.filter (fun e => e.uid != u)).filter (fun e => decide (n ≤ e.uid)) =
      l.filter (fun e => decide (n ≤ e.uid)) := by
  rw [List.filter_filter]
  apply List.filter_congr
  intro e _
  by_cases h : n ≤ e.uid
  · have : e.uid ≠ u := by omega
    simp [h, this]
  · simp [h]

/-- C17: CBAP-only DTI.  On a station that is not an operational RDS, with
cbapOnly set and cbapSource clear (and a scheduler whose pending identifiers
are below the next one), the start of the DTI schedules the next BTI, the
association-request timeout if the station is not associated, and exactly one
Contention Period, for the current instant, whose duration is the remaining
beacon interval beaconInterval − (now − btiStarted); no Service Period or
beamforming event is scheduled and the SP-reachable list, the AID map and the
allocation list are unchanged, whatever the allocation list contains. -/
theorem cbap_only_dti (s : Mac)
    (hr : s.m_rdsOperational = false) (hc : s.m_isCbapOnly = true)
    (hs : s.m_isCbapSource = false)
    (hwf : ∀ e ∈ s.sim.events, e.uid < s.sim.nextUid)
    (hid : ∀ u, s.m_assocRequestEvent = some u → u < s.sim.nextUid) :
    scheduledSince s (StartDataTransmissionInterval s) =
      [{ uid := s.sim.nextUid,
         ts := s.sim.now + (s.m_beaconInterval - (s.sim.now - s.m_btiStarted)),
         cb := Callback.StartBeaconTransmissionInterval }] ++
      (if s.m_state = MacState.ASSOCIATED then []
       else [{ uid := s.sim.nextUid + 1, ts := s.sim.now + s.m_assocRequestTimeout,
               cb := Callback.AssocRequestTimeout }]) ++
      [{ uid := if s.m_state = MacState.ASSOCIATED then s.sim.nextUid + 1
                else s.sim.nextUid + 1 + 1,
         ts := s.sim.now,
         cb := Callback.StartContentionPeriod
                 (s.m_beaconInterval - (s.sim.now - s.m_btiStarted)) }] ∧
    ((scheduledSince s (StartDataTransmissionInterval s)).filter
        (fun e => e.cb.isContentionPeriod)).length = 1 ∧
    (scheduledSince s (StartDataTransmissionInterval s)).filter
        (fun e => e.cb.isServicePeriodEvent) = [] ∧
    (StartDataTransmissionInterval s).m_spStations = s.m_spStations ∧
    (StartDataTransmissionInterval s).m_aidMap = s.m_aidMap ∧
    (StartDataTransmissionInterval s).m_allocationList = s.m_allocationList := by
  obtain ⟨-, d2, d3, d4, d5, d6, dsim⟩ := dtiEntry_frame s
  have hcb : (dtiEntry s).m_isCbapOnly = true ∧ (!(dtiEntry s).m_isCbapSource) = true := by
    rw [d4, d5, hc, hs]; exact ⟨rfl, rfl⟩
  have e : StartDataTransmissionInterval s = _ :=
    (StartDataTransmissionInterval_of_not_rds s hr).trans (if_pos hcb)
  have hold := filter_since_nil s.sim hwf
  have hsched : scheduledSince s (StartDataTransmissionInterval s) =
      [{ uid := s.sim.nextUid,
         ts := s.sim.now + (s.m_beaconInterval - (s.sim.now - s.m_btiStarted)),
         cb := Callback.StartBeaconTransmissionInterval }] ++
      (if s.m_state = MacState.ASSOCIATED then []
       else [{ uid := s.sim.nextUid + 1, ts := s.sim.now + s.m_assocRequestTimeout,
               cb := Callback.AssocRequestTimeout }]) ++
      [{ uid := if s.m_state = MacState.ASSOCIATED then s.sim.nextUid + 1
                else s.sim.nextUid + 1 + 1,
         ts := s.sim.now,
         cb := Callback.StartContentionPeriod
                 (s.m_beaconInterval - (s.sim.now - s.m_btiStarted)) }] := by
    unfold scheduledSince
    rw [e]
    show ((dtiEntry s).sim.ScheduleNow _).events.filter _ = _
    rw [dsim]
    by_cases ha : s.m_state = MacState.ASSOCIATED
    · rw [if_pos ha, if_pos ha, if_pos ha]
      simp [Simulator.ScheduleNow, Simulator.Schedule, List.filter_append, hold]
    · rw [if_neg ha, if_neg ha, if_neg ha]
      rcases hev : s.m_assocRequestEvent with _ | u
      · simp [Simulator.ScheduleNow, Simulator.Schedule, Simulator.Cancel, List.filter_append,
          hold]
        omega
      · have hu := hid u hev
        have hne : s.sim.nextUid ≠ u := by omega
        simp only [Simulator.ScheduleNow, Simulator.Schedule, Simulator.Cancel,
          List.filter_append, filter_since_cancel _ _ _ hu, hold]
        simp
        omega
  refine ⟨hsched, ?_, ?_, ?_, ?_, ?_⟩
  · rw [hsched]
    by_cases ha : s.m_state = MacState.ASSOCIATED <;> simp [ha, Callback.isContentionPeriod]
  · rw [hsched]
    by_cases ha : s.m_state = MacState.ASSOCIATED <;> simp [ha, Callback.isServicePeriodEvent]
  · rw [e]; exact d3
  · rw [e]; exact d2
  · rw [e]; exact d6

/-- C17, witness: the statement at the station `cbapOnlyStation`, whose
allocation list holds a Service Period allocation of which it is the source. -/
theorem cbap_only_dti_witness :
    cbapOnlyStation.m_rdsOperational = false ∧ cbapOnlyStation.m_isCbapOnly = true ∧
    cbapOnlyStation.m_isCbapSource = false ∧
    (∀ e ∈ cbapOnlyStation.sim.events, e.uid < cbapOnlyStation.sim.nextUid) ∧
    (∀ u, cbapOnlyStation.m_assocRequestEvent = some u → u < cbapOnlyStation.sim.nextUid) ∧
    cbapOnlyStation.m_allocationList = [spFrom5To6] ∧
    scheduledSince cbapOnlyStation (StartDataTransmissionInterval cbapOnlyStation) =
      [{ uid := cbapOnlyStation.sim.nextUid,
         ts := cbapOnlyStation.sim.now + (cbapOnlyStation.m_beaconInterval - (cbapOnlyStation.sim.now - cbapOnlyStation.m_btiStarted)),
         cb := Callback.StartBeaconTransmissionInterval }] ++
      (if cbapOnlyStation.m_state = MacState.ASSOCIATED then []
       else [{ uid := cbapOnlyStation.sim.nextUid + 1, ts := cbapOnlyStation.sim.now + cbapOnlyStation.m_assocRequestTimeout,
               cb := Callback.AssocRequestTimeout }]) ++
      [{ uid := if cbapOnlyStation.m_state = MacState.ASSOCIATED then cbapOnlyStation.sim.nextUid + 1
                else cbapOnlyStation.sim.nextUid + 1 + 1,
         ts := cbapOnlyStation.sim.now,
         cb := Callback.StartContentionPeriod
                 (cbapOnlyStation.m_beaconInterval - (cbapOnlyStation.sim.now - cbapOnlyStation.m_btiStarted)) }] ∧
    ((scheduledSince cbapOnlyStation (StartDataTransmissionInterval cbapOnlyStation)).filter
        (fun e => e.cb.isContentionPeriod)).length = 1 ∧
    (scheduledSince cbapOnlyStation (StartDataTransmissionInterval cbapOnlyStation)).filter
        (fun e => e.cb.isServicePeriodEvent) = [] ∧
    (StartDataTransmissionInterval cbapOnlyStation).m_spStations = cbapOnlyStation.m_spStations ∧
    (StartDataTransmissionInterval cbapOnlyStation).m_aidMap = cbapOnlyStation.m_aidMap ∧
    (StartDataTransmissionInterval cbapOnlyStation).m_allocationList = cbapOnlyStation.m_allocationList :=
  ⟨by decide, by decide, by decide, by decide, (fun u h => by cases h), by decide,
    cbap_only_dti cbapOnlyStation (by decide) (by decide) (by decide) (by decide)
      (fun u h => by cases h)⟩

/-- Evaluating `m[k]` inserts at most a default value, so it changes no lookup
that falls back to the default. -/
theorem mapIndex_mapTouch (m : List (Nat × Nat)) (k j : Nat) :
    mapIndex (mapTouch m k 0) j 0 = mapIndex m j 0 := by
  unfold mapTouch
  split_ifs with h
  · rfl
  · unfold mapIndex mapFind
    rw [List.find?_append]
    cases hf : m.find? (fun e => e.1 == j) with
    | some v => rfl
    | none =>
      by_cases hkj : k = j
      · simp [hkj]
      · simp [hkj]

/-- A Service Period allocation whose source is the station, for beamforming
training. -/
theorem dtiAllocation_source_bf (a : AllocationField) (x : Mac)
    (hsp : a.allocationType = AllocationType.SERVICE_PERIOD_ALLOCATION)
    (hsrc : a.sourceAid = x.m_aid) (hbf : a.bfControl.isBeamformTraining = true) :
    dtiAllocation a x =
      Schedule (MicroSeconds a.allocationStart)
        (Callback.InitiateBeamforming (mapIndex x.m_aidMap a.destinationAid 0)
          a.bfControl.isInitiatorTxss (MicroSeconds a.allocationBlockDuration))
        { x with m_aidMap := mapTouch x.m_aidMap a.destinationAid 0 } := by
  unfold dtiAllocation
  rw [if_pos hsp, if_pos hsrc]
  simp only [hbf, ↓reduceIte, mapIndex_mapTouch]

/-- A Service Period allocation whose source is the station, for data. -/
theorem dtiAllocation_source_sp (a : AllocationField) (x : Mac)
    (hsp : a.allocationType = AllocationType.SERVICE_PERIOD_ALLOCATION)
    (hsrc : a.sourceAid = x.m_aid) (hbf : a.bfControl.isBeamformTraining = false) :
    dtiAllocation a x =
      Schedule (MicroSeconds a.allocationStart + MicroSeconds a.allocationBlockDuration)
        Callback.EndServicePeriod
        (Schedule (MicroSeconds a.allocationStart)
          (Callback.StartServicePeriod (MicroSeconds a.allocationBlockDuration)
            (mapIndex x.m_aidMap a.destinationAid 0) true)
          { x with m_aidMap := mapTouch x.m_aidMap a.destinationAid 0,
                   m_spStations := x.m_spStations ++ [mapIndex x.m_aidMap a.destinationAid 0] })
      := by
  unfold dtiAllocation
  rw [if_pos hsp, if_pos hsrc]
  simp only [hbf, Bool.false_eq_true, ↓reduceIte, mapIndex_mapTouch]

/-- A quiet period on a station whose AID is not the source AID. -/
theorem dtiAllocation_quiet (a : AllocationField) (x : Mac)
    (hsp : a.allocationType = AllocationType.SERVICE_PERIOD_ALLOCATION)
    (hsrc : a.sourceAid ≠ x.m_aid) (h255 : a.sourceAid = 255 ∧ a.destinationAid = 255) :
    dtiAllocation a x = x := by
  unfold dtiAllocation
  rw [if_pos hsp, if_neg hsrc, if_pos ⟨hsp, h255⟩]

/-- A CBAP allocation. -/
theorem dtiAllocation_cbap (a : AllocationField) (x : Mac)
    (hcb : a.allocationType = AllocationType.CBAP_ALLOCATION) :
    dtiAllocation a x =
      if a.sourceAid = 255 ∨ a.sourceAid = x.m_aid ∨ a.destinationAid = x.m_aid then
        Schedule (MicroSeconds a.allocationStart)
          (Callback.StartContentionPeriod (MicroSeconds a.allocationBlockDuration)) x
      else x := by
  have hsp : ¬ a.allocationType = AllocationType.SERVICE_PERIOD_ALLOCATION := by
    rw [hcb]; decide
  unfold dtiAllocation
  rw [if_neg hsp]
  by_cases h : a.sourceAid = 255 ∨ a.sourceAid = x.m_aid ∨ a.destinationAid = x.m_aid
  · rw [if_pos ⟨hcb, h⟩, if_pos h]
  · rw [if_neg (fun hh => h hh.2), if_neg h]

/-- One allocation of the DTI schedule leaves the AID, the clock and every
lookup in the AID map, and only appends to the pending events. -/
theorem dtiAllocation_frame (a : AllocationField) (x : Mac) :
    (dtiAllocation a x).m_aid = x.m_aid ∧ (dtiAllocation a x).sim.now = x.sim.now ∧
    (∀ k, mapIndex (dtiAllocation a x).m_aidMap k 0 = mapIndex x.m_aidMap k 0) ∧
    x.sim.events <+: (dtiAllocation a x).sim.events := by
  unfold dtiAllocation Schedule Simulator.Schedule
  simp only []
  split_ifs <;>
    refine ⟨rfl, rfl, fun k => ?_, ?_⟩ <;>
    first
      | rfl
      | exact mapIndex_mapTouch _ _ _
      | exact List.prefix_refl _
      | exact List.prefix_append _ _
      | exact (List.prefix_append _ _).trans (List.prefix_append _ _)

/-- The walk over the DTI schedule leaves the AID, the clock and every lookup
in the AID map, and only appends to the pending events. -/
theorem dtiAllocations_frame (l : List AllocationField) (x : Mac) :
    (l.foldl (fun acc field => dtiAllocation field acc) x).m_aid = x.m_aid ∧
    (l.foldl (fun acc field => dtiAllocation field acc) x).sim.now = x.sim.now ∧
    (∀ k, mapIndex (l.foldl (fun acc field => dtiAllocation field acc) x).m_aidMap k 0
      = mapIndex x.m_aidMap k 0) ∧
    x.sim.events <+: (l.foldl (fun acc field => dtiAllocation field acc) x).sim.events := by
  induction l generalizing x with
  | nil => exact ⟨rfl, rfl, fun _ => rfl, List.prefix_refl _⟩
  | cons f rest ih =>
    simp only [List.foldl_cons]
    obtain ⟨h1, h2, h3, h4⟩ := ih (dtiAllocation f x)
    obtain ⟨g1, g2, g3, g4⟩ := dtiAllocation_frame f x
    exact ⟨h1.trans g1, h2.trans g2, fun k => (h3 k).trans (g3 k), g4.trans h4⟩

/-- The station when the walk over the DTI schedule reaches an allocation, on
a station that is not an operational RDS in a DTI that is not CBAP-only. -/
theorem StartDataTransmissionInterval_walk (s : Mac) (pre post : List AllocationField)
    (a : AllocationField)
    (hr : s.m_rdsOperational = false)
    (hcb : ¬(s.m_isCbapOnly = true ∧ s.m_isCbapSource = false))
    (hl : s.m_allocationList = pre ++ a :: post) :
    StartDataTransmissionInterval s =
      post.foldl (fun acc field => dtiAllocation field acc)
        (dtiAllocation a (pre.foldl (fun acc field => dtiAllocation field acc) (dtiEntry s))) ∧
    (pre.foldl (fun acc field => dtiAllocation field acc) (dtiEntry s)).m_aid = s.m_aid ∧
    (pre.foldl (fun acc field => dtiAllocation field acc) (dtiEntry s)).sim.now = s.sim.now ∧
    (∀ k, mapIndex (pre.foldl (fun acc field => dtiAllocation field acc) (dtiEntry s)).m_aidMap
      k 0 = mapIndex s.m_aidMap k 0) ∧
    (dtiAllocation a (pre.foldl (fun acc field => dtiAllocation field acc) (dtiEntry s))).sim.events
      <+: (StartDataTransmissionInterval s).sim.events := by
  obtain ⟨d1, d2, -, d4, d5, d6, dsim⟩ := dtiEntry_frame s
  have hn : ¬((dtiEntry s).m_isCbapOnly = true ∧ (!(dtiEntry s).m_isCbapSource) = true) := by
    rw [d4, d5]
    intro h
    exact hcb ⟨h.1, by simpa using h.2⟩
  have e : StartDataTransmissionInterval s = _ :=
    (StartDataTransmissionInterval_of_not_rds s hr).trans (if_neg hn)
  have e2 : StartDataTransmissionInterval s =
      post.foldl (fun acc field => dtiAllocation field acc)
        (dtiAllocation a (pre.foldl (fun acc field => dtiAllocation field acc) (dtiEntry s))) := by
    rw [e, d6, hl, List.foldl_append, List.foldl_cons]
  obtain ⟨w1, w2, w3, -⟩ := dtiAllocations_frame pre (dtiEntry s)
  have hnow : (dtiEntry s).sim.now = s.sim.now := by
    rw [dsim]
    split_ifs
    · rfl
    · rfl
  refine ⟨e2, w1.trans d1, w2.trans hnow, fun k => (w3 k).trans (by rw [d2]), ?_⟩
  rw [e2]
  exact (dtiAllocations_frame post _).2.2.2

/-- C18, counterexample: an operational RDS whose schedule holds a Service
Period allocation of which it is the source (the DTI is not CBAP-only); the
start of the DTI schedules the next BTI only and adds no station to the
SP-reachable list. -/
theorem rds_installs_no_service_period :
    rdsStation.m_allocationList = [spFrom5To6] ∧
    spFrom5To6.allocationType = AllocationType.SERVICE_PERIOD_ALLOCATION ∧
    spFrom5To6.sourceAid = rdsStation.m_aid ∧ rdsStation.m_isCbapOnly = false ∧
    (StartDataTransmissionInterval rdsStation).sim.events =
      [{ uid := 0, ts := 102400000, cb := Callback.StartBeaconTransmissionInterval }] ∧
    (StartDataTransmissionInterval rdsStation).m_spStations = [] := by
  decide

/-- C18, amended: on a station that is not an operational RDS, in a DTI that is
not CBAP-only, for a Service Period allocation of the schedule whose source AID
is the AID of the station.  With `x` the station when the walk over the
schedule reaches the allocation: for beamforming training exactly one event is
installed, the start of an Initiator Sector Sweep at offset start from the DTI
start toward the address the AID map gives for the destination AID, with the
allocation duration and the initiator TxSS flag, and the SP-reachable list is
unchanged; otherwise that address is added to the SP-reachable list and exactly
two events are installed, the start of the Service Period (as source, with the
allocation duration) at offset start and its end at offset start + duration.
No event of the allocation is earlier than start or later than start +
duration, and the events stay pending until the end of the DTI start. -/
theorem dti_service_period_source (s : Mac) (pre post : List AllocationField)
    (alloc : AllocationField)
    (hr : s.m_rdsOperational = false)
    (hcb : ¬(s.m_isCbapOnly = true ∧ s.m_isCbapSource = false))
    (hl : s.m_allocationList = pre ++ alloc :: post)
    (hsp : alloc.allocationType = AllocationType.SERVICE_PERIOD_ALLOCATION)
    (hsrc : alloc.sourceAid = s.m_aid) :
    ∃ x : Mac,
      x = pre.foldl (fun acc field => dtiAllocation field acc) (dtiEntry s) ∧
      StartDataTransmissionInterval s =
        post.foldl (fun acc field => dtiAllocation field acc) (dtiAllocation alloc x) ∧
      (dtiAllocation alloc x).sim.events <+: (StartDataTransmissionInterval s).sim.events ∧
      (dtiAllocation alloc x).sim.events = x.sim.events ++ scheduled x (dtiAllocation alloc x) ∧
      (if alloc.bfControl.isBeamformTraining = true then
        scheduled x (dtiAllocation alloc x) =
          [{ uid := x.sim.nextUid, ts := s.sim.now + MicroSeconds alloc.allocationStart,
             cb := Callback.InitiateBeamforming (mapIndex s.m_aidMap alloc.destinationAid 0)
                     alloc.bfControl.isInitiatorTxss
                     (MicroSeconds alloc.allocationBlockDuration) }] ∧
        (dtiAllocation alloc x).m_spStations = x.m_spStations
      else
        scheduled x (dtiAllocation alloc x) =
          [{ uid := x.sim.nextUid, ts := s.sim.now + MicroSeconds alloc.allocationStart,
             cb := Callback.StartServicePeriod (MicroSeconds alloc.allocationBlockDuration)
                     (mapIndex s.m_aidMap alloc.destinationAid 0) true },
           { uid := x.sim.nextUid + 1,
             ts := s.sim.now + (MicroSeconds alloc.allocationStart +
                     MicroSeconds alloc.allocationBlockDuration),
             cb := Callback.EndServicePeriod }] ∧
        (dtiAllocation alloc x).m_spStations =
          x.m_spStations ++ [mapIndex s.m_aidMap alloc.destinationAid 0]) ∧
      (∀ e ∈ scheduled x (dtiAllocation alloc x),
        s.sim.now + MicroSeconds alloc.allocationStart ≤ e.ts ∧
        e.ts ≤ s.sim.now + MicroSeconds alloc.allocationStart +
                 MicroSeconds alloc.allocationBlockDuration) := by
  obtain ⟨e2, w1, w2, w3, w5⟩ := StartDataTransmissionInterval_walk s pre post alloc hr hcb hl
  have hsrc2 : alloc.sourceAid =
      (pre.foldl (fun acc field => dtiAllocation field acc) (dtiEntry s)).m_aid := by
    rw [w1]; exact hsrc
  have hdur : (0 : Int) ≤ MicroSeconds alloc.allocationBlockDuration := by
    unfold MicroSeconds; positivity
  refine ⟨_, rfl, e2, w5, ?_⟩
  by_cases hbf : alloc.bfControl.isBeamformTraining = true
  · have hb := dtiAllocation_source_bf alloc _ hsp hsrc2 hbf
    rw [w3] at hb
    have hsched : scheduled (pre.foldl (fun acc field => dtiAllocation field acc) (dtiEntry s))
        (dtiAllocation alloc (pre.foldl (fun acc field => dtiAllocation field acc) (dtiEntry s)))
        = [{ uid := (pre.foldl (fun acc field => dtiAllocation field acc) (dtiEntry s)).sim.nextUid,
             ts := s.sim.now + MicroSeconds alloc.allocationStart,
             cb := Callback.InitiateBeamforming (mapIndex s.m_aidMap alloc.destinationAid 0)
                     alloc.bfControl.isInitiatorTxss
                     (MicroSeconds alloc.allocationBlockDuration) }] := by
      unfold scheduled
      rw [hb, ← w2]
      exact drop_length_append _ _
    rw [if_pos hbf, hsched]
    refine ⟨?_, ⟨rfl, ?_⟩, ?_⟩
    · rw [hb, ← w2]; rfl
    · rw [hb]; rfl
    · intro e he
      rw [List.mem_singleton] at he
      subst he
      simp only []
      constructor <;> linarith
  · have hbf2 : alloc.bfControl.isBeamformTraining = false := by simpa using hbf
    have hb := dtiAllocation_source_sp alloc _ hsp hsrc2 hbf2
    rw [w3] at hb
    have hsched : scheduled (pre.foldl (fun acc field => dtiAllocation field acc) (dtiEntry s))
        (dtiAllocation alloc (pre.foldl (fun acc field => dtiAllocation field acc) (dtiEntry s)))
        = [{ uid := (pre.foldl (fun acc field => dtiAllocation field acc) (dtiEntry s)).sim.nextUid,
             ts := s.sim.now + MicroSeconds alloc.allocationStart,
             cb := Callback.StartServicePeriod (MicroSeconds alloc.allocationBlockDuration)
                     (mapIndex s.m_aidMap alloc.destinationAid 0) true },
           { uid := (pre.foldl (fun acc field => dtiAllocation field acc) (dtiEntry s)).sim.nextUid
                      + 1,
             ts := s.sim.now + (MicroSeconds alloc.allocationStart +
                     MicroSeconds alloc.allocationBlockDuration),
             cb := Callback.EndServicePeriod }] := by
      unfold scheduled
      rw [hb, ← w2]
      show ((_ ++ [_]) ++ [_]).drop _ = _
      rw [List.append_assoc]
      exact drop_length_append _ _
    rw [if_neg hbf, hsched]
    refine ⟨?_, ⟨rfl, ?_⟩, ?_⟩
    · rw [hb, ← w2]
      show (_ ++ [_]) ++ [_] = _
      rw [List.append_assoc]
      rfl
    · rw [hb]; rfl
    · intro e he
      rw [List.mem_cons, List.mem_singleton] at he
      rcases he with he | he <;> subst he <;> simp only [] <;> constructor <;> linarith

/-- C18, witness: the statement at the station `scheduledStation` and the
second allocation of its schedule. -/
theorem dti_service_period_source_witness :
    scheduledStation.m_rdsOperational = false ∧
    ¬(scheduledStation.m_isCbapOnly = true ∧ scheduledStation.m_isCbapSource = false) ∧
    scheduledStation.m_allocationList = [cbapForAll] ++ spFrom5To6 :: [quietPeriod] ∧
    spFrom5To6.allocationType = AllocationType.SERVICE_PERIOD_ALLOCATION ∧
    spFrom5To6.sourceAid = scheduledStation.m_aid ∧
    ∃ x : Mac,
      x = [cbapForAll].foldl (fun acc field => dtiAllocation field acc) (dtiEntry scheduledStation) ∧
      StartDataTransmissionInterval scheduledStation =
        [quietPeriod].foldl (fun acc field => dtiAllocation field acc) (dtiAllocation spFrom5To6 x) ∧
      (dtiAllocation spFrom5To6 x).sim.events <+: (StartDataTransmissionInterval scheduledStation).sim.events ∧
      (dtiAllocation spFrom5To6 x).sim.events = x.sim.events ++ scheduled x (dtiAllocation spFrom5To6 x) ∧
      (if spFrom5To6.bfControl.isBeamformTraining = true then
        scheduled x (dtiAllocation spFrom5To6 x) =
          [{ uid := x.sim.nextUid, ts := scheduledStation.sim.now + MicroSeconds spFrom5To6.allocationStart,
             cb := Callback.InitiateBeamforming (mapIndex scheduledStation.m_aidMap spFrom5To6.destinationAid 0)
                     spFrom5To6.bfControl.isInitiatorTxss
                     (MicroSeconds spFrom5To6.allocationBlockDuration) }] ∧
        (dtiAllocation spFrom5To6 x).m_spStations = x.m_spStations
      else
        scheduled x (dtiAllocation spFrom5To6 x) =
          [{ uid := x.sim.nextUid, ts := scheduledStation.sim.now + MicroSeconds spFrom5To6.allocationStart,
             cb := Callback.StartServicePeriod (MicroSeconds spFrom5To6.allocationBlockDuration)
                     (mapIndex scheduledStation.m_aidMap spFrom5To6.destinationAid 0) true },
           { uid := x.sim.nextUid + 1,
             ts := scheduledStation.sim.now + (MicroSeconds spFrom5To6.allocationStart +
                     MicroSeconds spFrom5To6.allocationBlockDuration),
             cb := Callback.EndServicePeriod }] ∧
        (dtiAllocation spFrom5To6 x).m_spStations =
          x.m_spStations ++ [mapIndex scheduledStation.m_aidMap spFrom5To6.destinationAid 0]) ∧
      (∀ e ∈ scheduled x (dtiAllocation spFrom5To6 x),
        scheduledStation.sim.now + MicroSeconds spFrom5To6.allocationStart ≤ e.ts ∧
        e.ts ≤ scheduledStation.sim.now + MicroSeconds spFrom5To6.allocationStart +
                 MicroSeconds spFrom5To6.allocationBlockDuration) :=
  ⟨by decide, by decide, by decide, by decide, by decide,
    dti_service_period_source scheduledStation [cbapForAll] [quietPeriod] spFrom5To6
      (by decide) (by decide) (by decide) (by decide) (by decide)⟩

/-- C19, counterexample: a station whose own AID is 255 takes a quiet period
(source and destination AID 255) for a Service Period of which it is the
source; the start of the DTI schedules the start and the end of a Service
Period and adds the address mapped from AID 255 to the SP-reachable list. -/
theorem quiet_period_on_aid_255 :
    station255.m_allocationList = [quietPeriod] ∧
    quietPeriod.allocationType = AllocationType.SERVICE_PERIOD_ALLOCATION ∧
    quietPeriod.sourceAid = 255 ∧ quietPeriod.destinationAid = 255 ∧
    station255.m_aid = 255 ∧
    (StartDataTransmissionInterval station255).sim.events =
      [{ uid := 0, ts := 102400000, cb := Callback.StartBeaconTransmissionInterval },
       { uid := 1, ts := 3000000, cb := Callback.StartServicePeriod 500000 77 true },
       { uid := 2, ts := 3500000, cb := Callback.EndServicePeriod }] ∧
    (StartDataTransmissionInterval station255).m_spStations = [77] := by
  decide

/-- C19, amended: on a station whose own AID is not 255, a quiet period (a
Service Period allocation with source and destination AID 255) is a no-op of
the walk over the schedule: the loop body returns the station unchanged, so
no event is scheduled and no station is added to the SP-reachable list for it,
and the start of the DTI ends as it would without the allocation. -/
theorem dti_quiet_period (s : Mac) (pre post : List AllocationField)
    (alloc : AllocationField)
    (hl : s.m_allocationList = pre ++ alloc :: post)
    (hsp : alloc.allocationType = AllocationType.SERVICE_PERIOD_ALLOCATION)
    (hsrc : alloc.sourceAid = 255) (hdst : alloc.destinationAid = 255)
    (haid : s.m_aid ≠ 255) :
    (∀ x : Mac, x.m_aid = s.m_aid → dtiAllocation alloc x = x) ∧
    (pre ++ alloc :: post).foldl (fun acc field => dtiAllocation field acc) (dtiEntry s) =
      (pre ++ post).foldl (fun acc field => dtiAllocation field acc) (dtiEntry s) ∧
    (s.m_rdsOperational = false → ¬(s.m_isCbapOnly = true ∧ s.m_isCbapSource = false) →
      StartDataTransmissionInterval s =
        (pre ++ post).foldl (fun acc field => dtiAllocation field acc) (dtiEntry s)) := by
  have h1 : ∀ x : Mac, x.m_aid = s.m_aid → dtiAllocation alloc x = x := by
    intro x hx
    have hne : alloc.sourceAid ≠ x.m_aid := by
      rw [hx, hsrc]; exact fun h => haid h.symm
    exact dtiAllocation_quiet alloc x hsp hne ⟨hsrc, hdst⟩
  have h2 : (pre ++ alloc :: post).foldl (fun acc field => dtiAllocation field acc) (dtiEntry s) =
      (pre ++ post).foldl (fun acc field => dtiAllocation field acc) (dtiEntry s) := by
    rw [List.foldl_append, List.foldl_cons, List.foldl_append,
      h1 _ ((dtiAllocations_frame pre (dtiEntry s)).1.trans (dtiEntry_frame s).1)]
  refine ⟨h1, h2, fun hr hcb => ?_⟩
  rw [(StartDataTransmissionInterval_walk s pre post alloc hr hcb hl).1, ← h2,
    List.foldl_append, List.foldl_cons]

/-- C19, witness: the statement at the station `scheduledStation` (AID 5) and
the last allocation of its schedule. -/
theorem dti_quiet_period_witness :
    scheduledStation.m_allocationList = [cbapForAll, spFrom5To6] ++ quietPeriod :: [] ∧
    quietPeriod.allocationType = AllocationType.SERVICE_PERIOD_ALLOCATION ∧
    quietPeriod.sourceAid = 255 ∧ quietPeriod.destinationAid = 255 ∧
    scheduledStation.m_aid ≠ 255 ∧
    (∀ x : Mac, x.m_aid = scheduledStation.m_aid → dtiAllocation quietPeriod x = x) ∧
    ([cbapForAll, spFrom5To6] ++ quietPeriod :: []).foldl (fun acc field => dtiAllocation field acc) (dtiEntry scheduledStation) =
      ([cbapForAll, spFrom5To6] ++ []).foldl (fun acc field => dtiAllocation field acc) (dtiEntry scheduledStation) ∧
    (scheduledStation.m_rdsOperational = false → ¬(scheduledStation.m_isCbapOnly = true ∧ scheduledStation.m_isCbapSource = false) →
      StartDataTransmissionInterval scheduledStation =
        ([cbapForAll, spFrom5To6] ++ []).foldl (fun acc field => dtiAllocation field acc) (dtiEntry scheduledStation)) :=
  ⟨by decide, by decide, by decide, by decide, by decide,
    dti_quiet_period scheduledStation [cbapForAll, spFrom5To6] [] quietPeriod
      (by decide) (by decide) (by decide) (by decide) (by decide)⟩

/-- C20: on a station that is not an operational RDS, in a DTI that is not
CBAP-only, for a CBAP allocation of the schedule.  With `x` the station when
the walk over the schedule reaches the allocation: a Contention Period is
scheduled for the allocation exactly when its source AID is 255 or the AID of
the station, or its destination AID is the AID of the station; it is then the
one event installed, at offset start from the DTI start, with the allocation
duration; otherwise the station is left unchanged. -/
theorem dti_cbap_allocation (s : Mac) (pre post : List AllocationField)
    (alloc : AllocationField)
    (hr : s.m_rdsOperational = false)
    (hcb : ¬(s.m_isCbapOnly = true ∧ s.m_isCbapSource = false))
    (hl : s.m_allocationList = pre ++ alloc :: post)
    (htype : alloc.allocationType = AllocationType.CBAP_ALLOCATION) :
    ∃ x : Mac,
      x = pre.foldl (fun acc field => dtiAllocation field acc) (dtiEntry s) ∧
      StartDataTransmissionInterval s =
        post.foldl (fun acc field => dtiAllocation field acc) (dtiAllocation alloc x) ∧
      (dtiAllocation alloc x).sim.events <+: (StartDataTransmissionInterval s).sim.events ∧
      (dtiAllocation alloc x).sim.events = x.sim.events ++ scheduled x (dtiAllocation alloc x) ∧
      scheduled x (dtiAllocation alloc x) =
        (if alloc.sourceAid = 255 ∨ alloc.sourceAid = s.m_aid ∨ alloc.destinationAid = s.m_aid
         then [{ uid := x.sim.nextUid, ts := s.sim.now + MicroSeconds alloc.allocationStart,
                 cb := Callback.StartContentionPeriod
                         (MicroSeconds alloc.allocationBlockDuration) }]
         else []) ∧
      ((∃ e ∈ scheduled x (dtiAllocation alloc x), e.cb.isContentionPeriod = true) ↔
        (alloc.sourceAid = 255 ∨ alloc.sourceAid = s.m_aid ∨ alloc.destinationAid = s.m_aid)) ∧
      (¬(alloc.sourceAid = 255 ∨ alloc.sourceAid = s.m_aid ∨ alloc.destinationAid = s.m_aid) →
        dtiAllocation alloc x = x) := by
  obtain ⟨e2, w1, w2, w3, w5⟩ := StartDataTransmissionInterval_walk s pre post alloc hr hcb hl
  have hb := dtiAllocation_cbap alloc
    (pre.foldl (fun acc field => dtiAllocation field acc) (dtiEntry s)) htype
  rw [w1] at hb
  refine ⟨_, rfl, e2, w5, ?_⟩
  by_cases hc : alloc.sourceAid = 255 ∨ alloc.sourceAid = s.m_aid ∨ alloc.destinationAid = s.m_aid
  · rw [if_pos hc] at hb
    have hsched : scheduled (pre.foldl (fun acc field => dtiAllocation field acc) (dtiEntry s))
        (dtiAllocation alloc (pre.foldl (fun acc field => dtiAllocation field acc) (dtiEntry s)))
        = [{ uid := (pre.foldl (fun acc field => dtiAllocation field acc) (dtiEntry s)).sim.nextUid,
             ts := s.sim.now + MicroSeconds alloc.allocationStart,
             cb := Callback.StartContentionPeriod
                     (MicroSeconds alloc.allocationBlockDuration) }] := by
      unfold scheduled
      rw [hb, ← w2]
      exact drop_length_append _ _
    rw [if_pos hc, hsched]
    refine ⟨?_, rfl, ?_, fun h => absurd hc h⟩
    · rw [hb, ← w2]; rfl
    · exact ⟨fun _ => hc, fun _ => ⟨_, List.mem_singleton.mpr rfl, rfl⟩⟩
  · rw [if_neg hc] at hb
    have hsched : scheduled (pre.foldl (fun acc field => dtiAllocation field acc) (dtiEntry s))
        (dtiAllocation alloc (pre.foldl (fun acc field => dtiAllocation field acc) (dtiEntry s)))
        = [] := by
      unfold scheduled
      rw [hb]
      exact List.drop_length _
    rw [if_neg hc, hsched]
    refine ⟨?_, rfl, ?_, fun _ => hb⟩
    · rw [hb]; exact (List.append_nil _).symm
    · exact ⟨fun ⟨e, he, _⟩ => absurd he (List.not_mem_nil e), fun h => absurd h hc⟩

/-- C20, witness: the statement at the station `scheduledStation` and the
first allocation of its schedule. -/
theorem dti_cbap_allocation_witness :
    scheduledStation.m_rdsOperational = false ∧
    ¬(scheduledStation.m_isCbapOnly = true ∧ scheduledStation.m_isCbapSource = false) ∧
    scheduledStation.m_allocationList = [] ++ cbapForAll :: [spFrom5To6, quietPeriod] ∧
    cbapForAll.allocationType = AllocationType.CBAP_ALLOCATION ∧
    ∃ x : Mac,
      x = [].foldl (fun acc field => dtiAllocation field acc) (dtiEntry scheduledStation) ∧
      StartDataTransmissionInterval scheduledStation =
        [spFrom5To6, quietPeriod].foldl (fun acc field => dtiAllocation field acc) (dtiAllocation cbapForAll x) ∧
      (dtiAllocation cbapForAll x).sim.events <+: (StartDataTransmissionInterval scheduledStation).sim.events ∧
      (dtiAllocation cbapForAll x).sim.events = x.sim.events ++ scheduled x (dtiAllocation cbapForAll x) ∧
      scheduled x (dtiAllocation cbapForAll x) =
        (if cbapForAll.sourceAid = 255 ∨ cbapForAll.sourceAid = scheduledStation.m_aid ∨ cbapForAll.destinationAid = scheduledStation.m_aid
         then [{ uid := x.sim.nextUid, ts := scheduledStation.sim.now + MicroSeconds cbapForAll.allocationStart,
                 cb := Callback.StartContentionPeriod
                         (MicroSeconds cbapForAll.allocationBlockDuration) }]
         else []) ∧
      ((∃ e ∈ scheduled x (dtiAllocation cbapForAll x), e.cb.isContentionPeriod = true) ↔
        (cbapForAll.sourceAid = 255 ∨ cbapForAll.sourceAid = scheduledStation.m_aid ∨ cbapForAll.destinationAid = scheduledStation.m_aid)) ∧
      (¬(cbapForAll.sourceAid = 255 ∨ cbapForAll.sourceAid = scheduledStation.m_aid ∨ cbapForAll.destinationAid = scheduledStation.m_aid) →
        dtiAllocation cbapForAll x = x) :=
  ⟨by decide, by decide, by decide, by decide,
    dti_cbap_allocation scheduledStation [] [spFrom5To6, quietPeriod] cbapForAll
      (by decide) (by decide) (by decide) (by decide)⟩

/-- The frames that reach the Action branch. -/
theorem Receive_action_eq (packet : Packet) (hdr : WifiMacHeader) (s : Mac)
    (htype : hdr.macType = WifiMacType.WIFI_MAC_MGT_ACTION ∨
      hdr.macType = WifiMacType.WIFI_MAC_MGT_ACTION_NO_ACK)
    (h3 : hdr.addr3 ≠ s.address)
    (h1 : hdr.addr1 = s.address ∨ IsGroup hdr.addr1 = true) :
    Receive packet hdr s = ReceiveAction packet hdr s := by
  unfold Receive
  rcases htype with htype | htype <;> rcases h1 with h1 | h1 <;>
    simp [h3, h1, htype, WifiMacHeader.IsData, WifiMacHeader.IsDMGBeacon]

/-- The frames that reach the SSW branch. -/
theorem Receive_ssw_eq (packet : Packet) (hdr : WifiMacHeader) (s : Mac)
    (htype : hdr.macType = WifiMacType.WIFI_MAC_CTL_DMG_SSW)
    (h3 : hdr.addr3 ≠ s.address)
    (h1 : hdr.addr1 = s.address ∨ IsGroup hdr.addr1 = true) :
    Receive packet hdr s = some (ReceiveSsw packet hdr s) := by
  unfold Receive
  rcases h1 with h1 | h1 <;>
    simp [h3, h1, htype, WifiMacHeader.IsData, WifiMacHeader.IsDMGBeacon]

/-- The frames that reach the SSW-FBCK branch. -/
theorem Receive_sswFbck_eq (packet : Packet) (hdr : WifiMacHeader) (s : Mac)
    (htype : hdr.macType = WifiMacType.WIFI_MAC_CTL_DMG_SSW_FBCK)
    (h3 : hdr.addr3 ≠ s.address)
    (h1 : hdr.addr1 = s.address ∨ IsGroup hdr.addr1 = true) :
    Receive packet hdr s = some (ReceiveSswFbck packet hdr s) := by
  unfold Receive
  rcases h1 with h1 | h1 <;>
    simp [h3, h1, htype, WifiMacHeader.IsData, WifiMacHeader.IsDMGBeacon]

/-- The frames that reach the SSW-ACK branch. -/
theorem Receive_sswAck_eq (packet : Packet) (hdr : WifiMacHeader) (s : Mac)
    (htype : hdr.macType = WifiMacType.WIFI_MAC_CTL_DMG_SSW_ACK)
    (h3 : hdr.addr3 ≠ s.address)
    (h1 : hdr.addr1 = s.address ∨ IsGroup hdr.addr1 = true) :
    Receive packet hdr s = some (ReceiveSswAck packet hdr s) := by
  unfold Receive
  rcases h1 with h1 | h1 <;>
    simp [h3, h1, htype, WifiMacHeader.IsData, WifiMacHeader.IsDMGBeacon]

/-- C25, amended: the address filter of `Receive`.  A frame whose Addr3 is the
address of the station, and a frame whose Addr1 is neither the address of the
station nor a group address and which is not a DMG beacon, leaves the station
as it was except for the log: no field of the MAC state changes, no event is
scheduled and no frame is queued or transmitted.  The Addr3 test comes first
and logs nothing; the receive-drop trace is raised exactly for the frames of
the second kind whose Addr3 is not the address of the station. -/
theorem Receive_address_filter (packet : Packet) (hdr : WifiMacHeader) (s : Mac)
    (h : hdr.addr3 = s.address ∨
      (hdr.addr1 ≠ s.address ∧ IsGroup hdr.addr1 = false ∧
        hdr.macType ≠ WifiMacType.WIFI_MAC_EXTENSION_DMG_BEACON)) :
    ∃ t, Receive packet hdr s = some t ∧
      t = { s with log := t.log } ∧
      t.m_state = s.m_state ∧ t.m_aid = s.m_aid ∧ t.m_bssid = s.m_bssid ∧
      t.m_bestAntennaConfig = s.m_bestAntennaConfig ∧ t.m_stationSnrMap = s.m_stationSnrMap ∧
      t.m_relayMode = s.m_relayMode ∧ t.m_allocationList = s.m_allocationList ∧
      t.sim = s.sim ∧ t.m_dca = s.m_dca ∧ t.m_edca = s.m_edca ∧ t.m_sp = s.m_sp ∧
      t.m_dmgAtiDca = s.m_dmgAtiDca ∧ t.m_low = s.m_low ∧
      emitted s t = (if hdr.addr3 = s.address then [] else [Effect.NotifyRxDrop]) := by
  by_cases h3 : hdr.addr3 = s.address
  · refine ⟨s, ?_, rfl, rfl, rfl, rfl, rfl, rfl, rfl, rfl, rfl, rfl, rfl, rfl, rfl, rfl, ?_⟩
    · unfold Receive
      rw [if_pos h3]
    · rw [if_pos h3]
      simp [emitted]
  · rcases h with h | ⟨ha, hg, hb⟩
    · exact absurd h h3
    · have hc : hdr.addr1 ≠ s.address ∧ (!IsGroup hdr.addr1) = true ∧
          (!hdr.IsDMGBeacon) = true := by
        refine ⟨ha, by rw [hg]; rfl, ?_⟩
        simp [WifiMacHeader.IsDMGBeacon, hb]
      refine ⟨emit Effect.NotifyRxDrop s, ?_, rfl, rfl, rfl, rfl, rfl, rfl, rfl, rfl, rfl, rfl,
        rfl, rfl, rfl, rfl, ?_⟩
      · unfold Receive
        rw [if_neg h3, if_pos hc]
      · rw [if_neg h3]
        exact emitted_emit _ _

/-- C25, witness: the amended statement at the station `initialMac` and a data
frame addressed to another station. -/
theorem Receive_address_filter_witness :
    (hdrForOther.addr3 = initialMac.address ∨
      (hdrForOther.addr1 ≠ initialMac.address ∧ IsGroup hdrForOther.addr1 = false ∧
        hdrForOther.macType ≠ WifiMacType.WIFI_MAC_EXTENSION_DMG_BEACON)) ∧
    ∃ t, Receive blankPacket hdrForOther initialMac = some t ∧
      t = { initialMac with log := t.log } ∧
      t.m_state = initialMac.m_state ∧ t.m_aid = initialMac.m_aid ∧
      t.m_bssid = initialMac.m_bssid ∧
      t.m_bestAntennaConfig = initialMac.m_bestAntennaConfig ∧
      t.m_stationSnrMap = initialMac.m_stationSnrMap ∧
      t.m_relayMode = initialMac.m_relayMode ∧
      t.m_allocationList = initialMac.m_allocationList ∧
      t.sim = initialMac.sim ∧ t.m_dca = initialMac.m_dca ∧ t.m_edca = initialMac.m_edca ∧
      t.m_sp = initialMac.m_sp ∧
      t.m_dmgAtiDca = initialMac.m_dmgAtiDca ∧ t.m_low = initialMac.m_low ∧
      emitted initialMac t =
        (if hdrForOther.addr3 = initialMac.address then [] else [Effect.NotifyRxDrop]) :=
  ⟨Or.inr (by decide),
    Receive_address_filter blankPacket hdrForOther initialMac (Or.inr (by decide))⟩

/-- C26: an Action or Action-No-Ack frame of category DMG that passes the
address filter.  For a subtype other than Relay Search Response, Multi-Relay
Channel Measurement Request, Multi-Relay Channel Measurement Report, RLS
Request, RLS Response and Information Response, `Receive` ends in the fatal
error; for each of these six subtypes it returns. -/
theorem Receive_dmg_action (packet : Packet) (hdr : WifiMacHeader) (s : Mac)
    (htype : hdr.macType = WifiMacType.WIFI_MAC_MGT_ACTION ∨
      hdr.macType = WifiMacType.WIFI_MAC_MGT_ACTION_NO_ACK)
    (h3 : hdr.addr3 ≠ s.address)
    (h1 : hdr.addr1 = s.address ∨ IsGroup hdr.addr1 = true)
    (hcat : packet.category = CategoryValue.DMG) :
    ((packet.dmgAction ≠ DmgActionValue.DMG_RELAY_SEARCH_RESPONSE ∧
      packet.dmgAction ≠ DmgActionValue.DMG_MULTI_RELAY_CHANNEL_MEASUREMENT_REQUEST ∧
      packet.dmgAction ≠ DmgActionValue.DMG_MULTI_RELAY_CHANNEL_MEASUREMENT_REPORT ∧
      packet.dmgAction ≠ DmgActionValue.DMG_RLS_REQUEST ∧
      packet.dmgAction ≠ DmgActionValue.DMG_RLS_RESPONSE ∧
      packet.dmgAction ≠ DmgActionValue.DMG_INFORMATION_RESPONSE) →
        Receive packet hdr s = none) ∧
    ((packet.dmgAction = DmgActionValue.DMG_RELAY_SEARCH_RESPONSE ∨
      packet.dmgAction = DmgActionValue.DMG_MULTI_RELAY_CHANNEL_MEASUREMENT_REQUEST ∨
      packet.dmgAction = DmgActionValue.DMG_MULTI_RELAY_CHANNEL_MEASUREMENT_REPORT ∨
      packet.dmgAction = DmgActionValue.DMG_RLS_REQUEST ∨
      packet.dmgAction = DmgActionValue.DMG_RLS_RESPONSE ∨
      packet.dmgAction = DmgActionValue.DMG_INFORMATION_RESPONSE) →
        ∃ t, Receive packet hdr s = some t) := by
  rw [Receive_action_eq packet hdr s htype h3 h1]
  have hsome : packet.dmgAction ≠ DmgActionValue.DMG_OTHER_ACTION →
      ∃ t, ReceiveAction packet hdr s = some t := by
    intro hne
    rcases hact : packet.dmgAction with _ | _ | _ | _ | _ | _ | _
    all_goals first
      | exact absurd hact hne
      | (unfold ReceiveAction
         simp only [hcat, hact]
         first
           | exact ⟨_, rfl⟩
           | (split_ifs <;> exact ⟨_, rfl⟩))
  have hnone : packet.dmgAction = DmgActionValue.DMG_OTHER_ACTION →
      ReceiveAction packet hdr s = none := by
    intro hact
    unfold ReceiveAction
    simp only [hcat, hact]
  refine ⟨fun h => hnone ?_, fun h => hsome ?_⟩
  · obtain ⟨a1, a2, a3, a4, a5, a6⟩ := h
    cases hact : packet.dmgAction
    · exact absurd hact a1
    · exact absurd hact a2
    · exact absurd hact a3
    · exact absurd hact a4
    · exact absurd hact a5
    · exact absurd hact a6
    · rfl
  · rcases h with h | h | h | h | h | h <;> rw [h] <;> decide

/-- C26, witness: the statement at the station `initialMac` and a DMG action
frame of an unknown subtype. -/
theorem Receive_dmg_action_witness :
    (actionHdr.macType = WifiMacType.WIFI_MAC_MGT_ACTION ∨
      actionHdr.macType = WifiMacType.WIFI_MAC_MGT_ACTION_NO_ACK) ∧
    actionHdr.addr3 ≠ initialMac.address ∧
    (actionHdr.addr1 = initialMac.address ∨ IsGroup actionHdr.addr1 = true) ∧
    unknownDmgAction.category = CategoryValue.DMG ∧
    ((unknownDmgAction.dmgAction ≠ DmgActionValue.DMG_RELAY_SEARCH_RESPONSE ∧
      unknownDmgAction.dmgAction ≠ DmgActionValue.DMG_MULTI_RELAY_CHANNEL_MEASUREMENT_REQUEST ∧
      unknownDmgAction.dmgAction ≠ DmgActionValue.DMG_MULTI_RELAY_CHANNEL_MEASUREMENT_REPORT ∧
      unknownDmgAction.dmgAction ≠ DmgActionValue.DMG_RLS_REQUEST ∧
      unknownDmgAction.dmgAction ≠ DmgActionValue.DMG_RLS_RESPONSE ∧
      unknownDmgAction.dmgAction ≠ DmgActionValue.DMG_INFORMATION_RESPONSE) →
        Receive unknownDmgAction actionHdr initialMac = none) ∧
    ((unknownDmgAction.dmgAction = DmgActionValue.DMG_RELAY_SEARCH_RESPONSE ∨
      unknownDmgAction.dmgAction = DmgActionValue.DMG_MULTI_RELAY_CHANNEL_MEASUREMENT_REQUEST ∨
      unknownDmgAction.dmgAction = DmgActionValue.DMG_MULTI_RELAY_CHANNEL_MEASUREMENT_REPORT ∨
      unknownDmgAction.dmgAction = DmgActionValue.DMG_RLS_REQUEST ∨
      unknownDmgAction.dmgAction = DmgActionValue.DMG_RLS_RESPONSE ∨
      unknownDmgAction.dmgAction = DmgActionValue.DMG_INFORMATION_RESPONSE) →
        ∃ t, Receive unknownDmgAction actionHdr initialMac = some t) :=
  ⟨Or.inl (by decide), by decide, Or.inl (by decide), by decide,
    Receive_dmg_action unknownDmgAction actionHdr initialMac (Or.inl (by decide)) (by decide)
      (Or.inl (by decide)) (by decide)⟩

/-- C27: `DoRelayDiscovery (peer)` records the peer as the destination REDS
and clears the flag that waits for its reports.  With station information
cached for the peer it makes exactly one call, a Relay Search Request carrying
the cached AID, and sets the relay-initiator flag; with none cached it makes
exactly one call, an Information Request to the BSSID with the peer as subject,
and leaves the relay-initiator flag and the destination AID unchanged.  The
scheduler and the queues are untouched. -/
theorem DoRelayDiscovery_spec (peer : Mac48Address) (s : Mac) :
    (DoRelayDiscovery peer s).m_dstRedsAddress = peer ∧
    (DoRelayDiscovery peer s).m_waitingDestinationRedsReports = false ∧
    (DoRelayDiscovery peer s).sim = s.sim ∧ (DoRelayDiscovery peer s).m_dca = s.m_dca ∧
    (DoRelayDiscovery peer s).m_low = s.m_low ∧
    (match mapFind s.m_informationMap peer with
     | some aid =>
       emitted s (DoRelayDiscovery peer s) = [Effect.SendRelaySearchRequest 0 aid] ∧
       (DoRelayDiscovery peer s).m_dstRedsAid = aid ∧
       (DoRelayDiscovery peer s).m_relayInitiator = true
     | none =>
       emitted s (DoRelayDiscovery peer s) = [Effect.SendInformationRequest s.m_bssid peer] ∧
       (DoRelayDiscovery peer s).m_dstRedsAid = s.m_dstRedsAid ∧
       (DoRelayDiscovery peer s).m_relayInitiator = s.m_relayInitiator) := by
  rcases hf : mapFind s.m_informationMap peer with _ | aid
  · have e : DoRelayDiscovery peer s =
        emit (Effect.SendInformationRequest s.m_bssid peer)
          { s with m_dstRedsAddress := peer, m_waitingDestinationRedsReports := false } := by
      unfold DoRelayDiscovery
      simp only [hf]
      rfl
    rw [e]
    exact ⟨rfl, rfl, rfl, rfl, rfl, emitted_emit _ _, rfl, rfl⟩
  · have e : DoRelayDiscovery peer s =
        { emit (Effect.SendRelaySearchRequest 0 aid)
            { s with m_dstRedsAddress := peer, m_waitingDestinationRedsReports := false,
                     m_dstRedsAid := aid } with m_relayInitiator := true } := by
      unfold DoRelayDiscovery
      simp only [hf]
    rw [e]
    exact ⟨rfl, rfl, rfl, rfl, rfl, drop_length_append _ _, rfl, rfl⟩

/-- The relay selection loop: the last entry of the report wins and nothing
but the selected relay AID changes. -/
theorem selectRelay_last (l : List ExtChannelMeasurementInfo) (s : Mac) :
    l.foldl (fun acc e => { acc with m_selectedRelayAid := e.peerStaAid }) s =
      { s with m_selectedRelayAid :=
          match l.getLast? with
          | some e => e.peerStaAid
          | none => s.m_selectedRelayAid } := by
  induction l generalizing s with
  | nil => rfl
  | cons e rest ih =>
    rw [List.foldl_cons, ih]
    cases rest with
    | nil => rfl
    | cons e2 rest2 => rfl

/-- C28: a Multi-Relay Channel Measurement Report that passes the address
filter.  On the relay initiator the ChannelReportReceived trace fires once,
with the address of the sender; the first report after the relay discovery
(the waiting flag is clear) sets the waiting flag and leaves the selected relay
AID unchanged; a later report sets the selected relay AID to the peer AID of
the last entry of its measurement list, and leaves it unchanged when the list
is empty.  On a station that is not the relay initiator the report changes
nothing and fires no trace. -/
theorem Receive_channel_report (packet : Packet) (hdr : WifiMacHeader) (s : Mac)
    (htype : hdr.macType = WifiMacType.WIFI_MAC_MGT_ACTION ∨
      hdr.macType = WifiMacType.WIFI_MAC_MGT_ACTION_NO_ACK)
    (h3 : hdr.addr3 ≠ s.address)
    (h1 : hdr.addr1 = s.address ∨ IsGroup hdr.addr1 = true)
    (hcat : packet.category = CategoryValue.DMG)
    (hact : packet.dmgAction = DmgActionValue.DMG_MULTI_RELAY_CHANNEL_MEASUREMENT_REPORT) :
    ∃ t, Receive packet hdr s = some t ∧
      (if s.m_relayInitiator = true then
        emitted s t = [Effect.ChannelReportReceived hdr.addr2] ∧
        t.m_waitingDestinationRedsReports = true ∧
        t.m_selectedRelayAid =
          (if s.m_waitingDestinationRedsReports = true then
            match packet.channelMeasurementInfoList.getLast? with
            | some e => e.peerStaAid
            | none => s.m_selectedRelayAid
           else s.m_selectedRelayAid) ∧
        t = { s with
                m_waitingDestinationRedsReports := true,
                m_selectedRelayAid := t.m_selectedRelayAid, log := t.log }
      else t = s ∧ emitted s t = []) := by
  rw [Receive_action_eq packet hdr s htype h3 h1]
  by_cases hri : s.m_relayInitiator = true
  · by_cases hw : s.m_waitingDestinationRedsReports = true
    · refine ⟨emit (Effect.ChannelReportReceived hdr.addr2)
        (packet.channelMeasurementInfoList.foldl
          (fun acc e => { acc with m_selectedRelayAid := e.peerStaAid }) s), ?_, ?_⟩
      · unfold ReceiveAction
        simp only [hcat, hact, hri, hw, Bool.not_true, Bool.false_eq_true, ↓reduceIte]
      · rw [if_pos hri, if_pos hw, selectRelay_last]
        refine ⟨emitted_emit _ _, hw, rfl, ?_⟩
        have e : ∀ (b : Bool) (a : Nat) (l : List Effect), s.m_waitingDestinationRedsReports = b →
            ({ s with m_selectedRelayAid := a, log := l } : Mac) =
              { s with m_waitingDestinationRedsReports := b, m_selectedRelayAid := a,
                       log := l } := by
          intro b a l h
          subst h
          rfl
        exact e true _ _ hw
    · have hwf : s.m_waitingDestinationRedsReports = false := by simpa using hw
      refine ⟨emit (Effect.ChannelReportReceived hdr.addr2)
        { s with m_waitingDestinationRedsReports := true }, ?_, ?_⟩
      · unfold ReceiveAction
        simp only [hcat, hact, hri, hwf, Bool.not_false, ↓reduceIte]
      · rw [if_pos hri, if_neg hw]
        exact ⟨emitted_emit _ _, rfl, rfl, rfl⟩
  · refine ⟨s, ?_, ?_⟩
    · unfold ReceiveAction
      simp only [hcat, hact, hri, Bool.false_eq_true, ↓reduceIte]
    · rw [if_neg hri]
      exact ⟨rfl, by simp [emitted]⟩

/-- C28, witness: the statement at the relay initiator `sourceReds`, which has
already received a first report, and a report with two entries. -/
theorem Receive_channel_report_witness :
    (actionHdr.macType = WifiMacType.WIFI_MAC_MGT_ACTION ∨
      actionHdr.macType = WifiMacType.WIFI_MAC_MGT_ACTION_NO_ACK) ∧
    actionHdr.addr3 ≠ sourceReds.address ∧
    (actionHdr.addr1 = sourceReds.address ∨ IsGroup actionHdr.addr1 = true) ∧
    reportTwoEntries.category = CategoryValue.DMG ∧
    reportTwoEntries.dmgAction = DmgActionValue.DMG_MULTI_RELAY_CHANNEL_MEASUREMENT_REPORT ∧
    ∃ t, Receive reportTwoEntries actionHdr sourceReds = some t ∧
      (if sourceReds.m_relayInitiator = true then
        emitted sourceReds t = [Effect.ChannelReportReceived actionHdr.addr2] ∧
        t.m_waitingDestinationRedsReports = true ∧
        t.m_selectedRelayAid =
          (if sourceReds.m_waitingDestinationRedsReports = true then
            match reportTwoEntries.channelMeasurementInfoList.getLast? with
            | some e => e.peerStaAid
            | none => sourceReds.m_selectedRelayAid
           else sourceReds.m_selectedRelayAid) ∧
        t = { sourceReds with
                m_waitingDestinationRedsReports := true,
                m_selectedRelayAid := t.m_selectedRelayAid, log := t.log }
      else t = sourceReds ∧ emitted sourceReds t = []) :=
  ⟨Or.inl (by decide), by decide, Or.inl (by decide), by decide, by decide,
    Receive_channel_report reportTwoEntries actionHdr sourceReds (Or.inl (by decide))
      (by decide) (Or.inl (by decide)) (by decide) (by decide)⟩

/-- C29: an RLS Response that passes the address filter, on a station that is
not an activated RDS (the source REDS).  If both the relay status code and the
destination status code are zero, relayMode becomes true and exactly one call
is made, an RLS Announcement to the BSSID carrying the destination REDS AID,
the selected relay AID and the AID of the station; otherwise the station is
left as it was and no call is made. -/
theorem Receive_rls_response_source (packet : Packet) (hdr : WifiMacHeader) (s : Mac)
    (htype : hdr.macType = WifiMacType.WIFI_MAC_MGT_ACTION ∨
      hdr.macType = WifiMacType.WIFI_MAC_MGT_ACTION_NO_ACK)
    (h3 : hdr.addr3 ≠ s.address)
    (h1 : hdr.addr1 = s.address ∨ IsGroup hdr.addr1 = true)
    (hcat : packet.category = CategoryValue.DMG)
    (hact : packet.dmgAction = DmgActionValue.DMG_RLS_RESPONSE)
    (hrds : s.m_rdsActivated = false) :
    ∃ t, Receive packet hdr s = some t ∧
      (if packet.relayStatusCode = 0 ∧ packet.destinationStatusCode = 0 then
        t.m_relayMode = true ∧
        emitted s t =
          [Effect.SendRlsAnnouncment s.m_bssid s.m_dstRedsAid s.m_selectedRelayAid s.m_aid] ∧
        t = { s with m_relayMode := true, log := t.log } ∧
        t.sim = s.sim ∧ t.m_dca = s.m_dca ∧ t.m_low = s.m_low
      else t = s ∧ emitted s t = []) := by
  rw [Receive_action_eq packet hdr s htype h3 h1]
  by_cases hc : packet.relayStatusCode = 0 ∧ packet.destinationStatusCode = 0
  · refine ⟨emit (Effect.SendRlsAnnouncment s.m_bssid s.m_dstRedsAid s.m_selectedRelayAid
      s.m_aid) { s with m_relayMode := true }, ?_, ?_⟩
    · unfold ReceiveAction
      simp only [hcat, hact, hrds, Bool.false_eq_true, ↓reduceIte]
      rw [if_pos hc]
      rfl
    · rw [if_pos hc]
      exact ⟨rfl, emitted_emit _ _, rfl, rfl, rfl, rfl⟩
  · refine ⟨s, ?_, ?_⟩
    · unfold ReceiveAction
      simp only [hcat, hact, hrds, Bool.false_eq_true, ↓reduceIte]
      rw [if_neg hc]
    · rw [if_neg hc]
      exact ⟨rfl, by simp [emitted]⟩

/-- C29, witness: the statement at the source REDS `sourceReds` and an RLS
Response with both status codes zero. -/
theorem Receive_rls_response_source_witness :
    (actionHdr.macType = WifiMacType.WIFI_MAC_MGT_ACTION ∨
      actionHdr.macType = WifiMacType.WIFI_MAC_MGT_ACTION_NO_ACK) ∧
    actionHdr.addr3 ≠ sourceReds.address ∧
    (actionHdr.addr1 = sourceReds.address ∨ IsGroup actionHdr.addr1 = true) ∧
    rlsResponseOk.category = CategoryValue.DMG ∧
    rlsResponseOk.dmgAction = DmgActionValue.DMG_RLS_RESPONSE ∧
    sourceReds.m_rdsActivated = false ∧
    ∃ t, Receive rlsResponseOk actionHdr sourceReds = some t ∧
      (if rlsResponseOk.relayStatusCode = 0 ∧ rlsResponseOk.destinationStatusCode = 0 then
        t.m_relayMode = true ∧
        emitted sourceReds t =
          [Effect.SendRlsAnnouncment sourceReds.m_bssid sourceReds.m_dstRedsAid sourceReds.m_selectedRelayAid sourceReds.m_aid] ∧
        t = { sourceReds with m_relayMode := true, log := t.log } ∧
        t.sim = sourceReds.sim ∧ t.m_dca = sourceReds.m_dca ∧ t.m_low = sourceReds.m_low
      else t = sourceReds ∧ emitted sourceReds t = []) :=
  ⟨Or.inl (by decide), by decide, Or.inl (by decide), by decide, by decide, by decide,
    Receive_rls_response_source rlsResponseOk actionHdr sourceReds (Or.inl (by decide))
      (by decide) (Or.inl (by decide)) (by decide) (by decide) (by decide)⟩

/-- C30, the code at the failing input: an activated RDS that knows the
station with AID 6 under the address 66 receives an RLS Request for the
destination AID 6; it remembers the sender as the source REDS, keeps its
relayMode, and re-sends the request (same dialog token and AIDs) to the
address 00:00:00:00:00:04, not to the address of the destination AID. -/
theorem rls_request_is_resent_to_fixed_address :
    rdsRelay.m_rdsActivated = true ∧
    mapFind rdsRelay.m_aidMap rlsRequest.rlsDestinationAid = some 66 ∧
    (Receive rlsRequest actionHdr rdsRelay).map
        (fun t => (emitted rdsRelay t, t.m_srcRedsAddress, t.m_relayMode))
      = some ([Effect.SetupRls 4 10 5 7 6], 5, false) := by
  decide

/-- The sector sweep sender of an initiator sweep hands exactly one SSW frame
to the transmitter. -/
theorem SendIssSectorSweepFrame_fields (a : Mac48Address) (d : BeamformingDirection)
    (sec ant c : Nat) (x : Mac) :
    ∃ tx, (SendIssSectorSweepFrame a d sec ant c x).m_low = x.m_low ++ [tx] ∧
      tx.sweepFields = some (sec, ant, c) ∧
      tx.hdr.macType = WifiMacType.WIFI_MAC_CTL_DMG_SSW ∧ tx.hdr.addr1 = a ∧
      (SendIssSectorSweepFrame a d sec ant c x).sim = x.sim ∧
      (SendIssSectorSweepFrame a d sec ant c x).m_sectorId = x.m_sectorId ∧
      (SendIssSectorSweepFrame a d sec ant c x).m_antennaId = x.m_antennaId ∧
      (SendIssSectorSweepFrame a d sec ant c x).m_totalSectors = x.m_totalSectors ∧
      (SendIssSectorSweepFrame a d sec ant c x).antenna.numberOfSectors
        = x.antenna.numberOfSectors ∧
      (SendIssSectorSweepFrame a d sec ant c x).antenna.numberOfAntennas
        = x.antenna.numberOfAntennas :=
  ⟨_, rfl, rfl, rfl, rfl, rfl, rfl, rfl, rfl, rfl, rfl⟩

/-- The sector sweep sender of a responder sweep in the DTI hands exactly one
SSW frame to the transmitter. -/
theorem SendRssSectorSweepFrame_fields (a : Mac48Address) (d : BeamformingDirection)
    (sec ant c : Nat) (x : Mac) :
    ∃ tx, (SendRssSectorSweepFrame a d sec ant c x).m_low = x.m_low ++ [tx] ∧
      tx.sweepFields = some (sec, ant, c) ∧
      tx.hdr.macType = WifiMacType.WIFI_MAC_CTL_DMG_SSW ∧ tx.hdr.addr1 = a ∧
      (SendRssSectorSweepFrame a d sec ant c x).sim = x.sim ∧
      (SendRssSectorSweepFrame a d sec ant c x).m_sectorId = x.m_sectorId ∧
      (SendRssSectorSweepFrame a d sec ant c x).m_antennaId = x.m_antennaId ∧
      (SendRssSectorSweepFrame a d sec ant c x).m_totalSectors = x.m_totalSectors ∧
      (SendRssSectorSweepFrame a d sec ant c x).antenna.numberOfSectors
        = x.antenna.numberOfSectors ∧
      (SendRssSectorSweepFrame a d sec ant c x).antenna.numberOfAntennas
        = x.antenna.numberOfAntennas := by
  unfold SendRssSectorSweepFrame StartTransmission
  simp only []
  split_ifs <;> exact ⟨_, rfl, rfl, rfl, rfl, rfl, rfl, rfl, rfl, rfl, rfl⟩

/-- The sector sweep sender of the A-BFT hands exactly one SSW frame to the
transmitter. -/
theorem SendSectorSweepFrame_fields (a : Mac48Address) (d : BeamformingDirection)
    (sec ant c : Nat) (x : Mac) :
    ∃ tx, (SendSectorSweepFrame a d sec ant c x).m_low = x.m_low ++ [tx] ∧
      tx.sweepFields = some (sec, ant, c) ∧
      tx.hdr.macType = WifiMacType.WIFI_MAC_CTL_DMG_SSW ∧ tx.hdr.addr1 = a ∧
      (SendSectorSweepFrame a d sec ant c x).sim = x.sim ∧
      (SendSectorSweepFrame a d sec ant c x).m_sectorId = x.m_sectorId ∧
      (SendSectorSweepFrame a d sec ant c x).m_antennaId = x.m_antennaId ∧
      (SendSectorSweepFrame a d sec ant c x).m_totalSectors = x.m_totalSectors ∧
      (SendSectorSweepFrame a d sec ant c x).antenna.numberOfSectors
        = x.antenna.numberOfSectors ∧
      (SendSectorSweepFrame a d sec ant c x).antenna.numberOfAntennas
        = x.antenna.numberOfAntennas := by
  unfold SendSectorSweepFrame StartTransmission
  simp only []
  split_ifs <;> exact ⟨_, rfl, rfl, rfl, rfl, rfl, rfl, rfl, rfl, rfl, rfl⟩

/-- A sector sweep sender hands exactly one SSW frame to the transmitter,
carrying the sector, the antenna and the count it was scheduled with, and
leaves the sweep counters, the scheduler and the size of the antenna array. -/
theorem invoke_sweep (cb : Callback) (slot : Nat) (x : Mac) (a : Mac48Address)
    (sec ant c : Nat) (h : cb.sweepArgs = some (a, sec, ant, c)) :
    ∃ y tx, invoke cb slot x = some y ∧ y.m_low = x.m_low ++ [tx] ∧
      tx.sweepFields = some (sec, ant, c) ∧
      tx.hdr.macType = WifiMacType.WIFI_MAC_CTL_DMG_SSW ∧ tx.hdr.addr1 = a ∧
      y.sim = x.sim ∧ y.m_sectorId = x.m_sectorId ∧ y.m_antennaId = x.m_antennaId ∧
      y.m_totalSectors = x.m_totalSectors ∧
      y.antenna.numberOfSectors = x.antenna.numberOfSectors ∧
      y.antenna.numberOfAntennas = x.antenna.numberOfAntennas := by
  cases cb <;> simp only [Callback.sweepArgs, Option.some.injEq, Prod.mk.injEq, reduceCtorEq] at h
  all_goals
    obtain ⟨h1, h2, h3, h4⟩ := h
    subst h1 h2 h3 h4
  · obtain ⟨tx, h⟩ := SendIssSectorSweepFrame_fields _ ‹_› _ _ _ x
    exact ⟨_, tx, rfl, h⟩
  · obtain ⟨tx, h⟩ := SendRssSectorSweepFrame_fields _ ‹_› _ _ _ x
    exact ⟨_, tx, rfl, h⟩
  · obtain ⟨tx, h⟩ := SendSectorSweepFrame_fields _ ‹_› _ _ _ x
    exact ⟨_, tx, rfl, h⟩

/-- The completion of an SSW transmission while sectors remain: the sweep
counters advance and the sender of the next SSW frame is scheduled. -/
theorem FrameTxOk_sweep_more (hdr : WifiMacHeader) (x : Mac)
    (htype : hdr.macType = WifiMacType.WIFI_MAC_CTL_DMG_SSW) (hc : x.m_totalSectors > 0) :
    (FrameTxOk hdr x).m_sectorId =
      (if x.m_sectorId < x.antenna.numberOfSectors then x.m_sectorId + 1
       else if x.m_sectorId = x.antenna.numberOfSectors ∧
           x.m_antennaId < x.antenna.numberOfAntennas then 1
       else x.m_sectorId) ∧
    (FrameTxOk hdr x).m_antennaId =
      (if x.m_sectorId < x.antenna.numberOfSectors then x.m_antennaId
       else if x.m_sectorId = x.antenna.numberOfSectors ∧
           x.m_antennaId < x.antenna.numberOfAntennas then x.m_antennaId + 1
       else x.m_antennaId) ∧
    (FrameTxOk hdr x).m_totalSectors = x.m_totalSectors - 1 ∧
    (∃ cb, (FrameTxOk hdr x).sim = x.sim.Schedule x.m_sbifs cb ∧
      cb.sweepArgs = some (hdr.addr1, (FrameTxOk hdr x).m_sectorId,
        (FrameTxOk hdr x).m_antennaId, (FrameTxOk hdr x).m_totalSectors)) ∧
    (FrameTxOk hdr x).m_low = x.m_low ∧ (FrameTxOk hdr x).antenna = x.antenna := by
  have e : FrameTxOk hdr x = _ := (if_pos htype).trans (if_pos hc)
  rw [e]
  simp only [Schedule]
  split_ifs <;> exact ⟨rfl, rfl, rfl, ⟨_, rfl, rfl⟩, rfl, rfl⟩

/-- The completion of the last SSW transmission of a sweep: the antenna is
switched to omni receiving mode and nothing is scheduled. -/
theorem FrameTxOk_sweep_last (hdr : WifiMacHeader) (x : Mac)
    (htype : hdr.macType = WifiMacType.WIFI_MAC_CTL_DMG_SSW) (hc : x.m_totalSectors = 0) :
    (FrameTxOk hdr x).antenna.omniReceivingMode = true ∧
    (FrameTxOk hdr x).sim = x.sim ∧ (FrameTxOk hdr x).m_low = x.m_low ∧
    (FrameTxOk hdr x).antenna.numberOfSectors = x.antenna.numberOfSectors ∧
    (FrameTxOk hdr x).antenna.numberOfAntennas = x.antenna.numberOfAntennas := by
  have hn : ¬ x.m_totalSectors > 0 := by omega
  have e : FrameTxOk hdr x = _ := (if_pos htype).trans (if_neg hn)
  rw [e]
  exact ⟨rfl, rfl, rfl, rfl, rfl⟩

/-- The scheduler runs the event scheduled last: its call runs with the clock
at its firing time and the event is no longer pending. -/
theorem runEvent_last (old : List Event) (ev : Event) (slot : Nat) (x : Mac)
    (hev : x.sim.events = old ++ [ev]) (hold : ∀ e ∈ old, e.uid < ev.uid) :
    runEvent ev.uid slot x =
      invoke ev.cb slot { x with sim := { x.sim with now := ev.ts, events := old } } := by
  obtain ⟨f1, f2⟩ := find_scheduled old ev.uid ev rfl hold
  unfold runEvent
  rw [hev, f1]
  simp only []
  rw [f2]

/-- The step of the sweep counters, in terms of the index of the frame. -/
theorem sweep_advance (N M k : Nat) (hN : 0 < N) (hk : k + 1 < N * M) :
    (if k % N + 1 < N then k % N + 1 + 1
     else if k % N + 1 = N ∧ k / N + 1 < M then 1 else k % N + 1) = (k + 1) % N + 1 ∧
    (if k % N + 1 < N then k / N + 1
     else if k % N + 1 = N ∧ k / N + 1 < M then k / N + 1 + 1 else k / N + 1)
      = (k + 1) / N + 1 := by
  have hdm := Nat.div_add_mod k N
  have hlt := Nat.mod_lt k hN
  by_cases h : k % N + 1 < N
  · have hu : (k + 1) / N = k / N ∧ (k + 1) % N = k % N + 1 :=
      (Nat.div_mod_unique hN).mpr ⟨by omega, h⟩
    rw [if_pos h, if_pos h, hu.1, hu.2]
    exact ⟨rfl, rfl⟩
  · have hq : k % N + 1 = N := by omega
    have hu : (k + 1) / N = k / N + 1 ∧ (k + 1) % N = 0 :=
      (Nat.div_mod_unique hN).mpr ⟨by rw [Nat.mul_add, Nat.mul_one]; omega, hN⟩
    have hm : k / N + 1 < M := by
      have h1 : N * (k / N + 1) < N * M := by
        rw [Nat.mul_add, Nat.mul_one]; omega
      exact Nat.lt_of_mul_lt_mul_left h1
    rw [if_neg h, if_neg h, if_pos ⟨hq, hm⟩, if_pos ⟨hq, hm⟩, hu.1, hu.2]
    exact ⟨rfl, rfl⟩

/-- One round of a transmit sector sweep: the pending sender transmits the SSW
frame it was scheduled for; while sectors remain the counters advance and the
next sender is scheduled, otherwise the antenna goes to omni receiving mode
and nothing is pending any more. -/
theorem sweepRound_spec (old : List Event) (a : Mac48Address) (u sec ant c : Nat) (ts : Time)
    (cb : Callback) (x : Mac)
    (hev : x.sim.events = old ++ [{ uid := u, ts := ts, cb := cb }])
    (hold : ∀ e ∈ old, e.uid < u) (hnext : x.sim.nextUid = u + 1)
    (hcb : cb.sweepArgs = some (a, sec, ant, c))
    (hsec : x.m_sectorId = sec) (hant : x.m_antennaId = ant) (htot : x.m_totalSectors = c) :
    ∃ y tx, sweepRound u x = some y ∧ y.m_low = x.m_low ++ [tx] ∧
      tx.sweepFields = some (sec, ant, c) ∧
      tx.hdr.macType = WifiMacType.WIFI_MAC_CTL_DMG_SSW ∧ tx.hdr.addr1 = a ∧
      y.antenna.numberOfSectors = x.antenna.numberOfSectors ∧
      y.antenna.numberOfAntennas = x.antenna.numberOfAntennas ∧
      (if c > 0 then
        y.m_sectorId =
          (if sec < x.antenna.numberOfSectors then sec + 1
           else if sec = x.antenna.numberOfSectors ∧ ant < x.antenna.numberOfAntennas then 1
           else sec) ∧
        y.m_antennaId =
          (if sec < x.antenna.numberOfSectors then ant
           else if sec = x.antenna.numberOfSectors ∧ ant < x.antenna.numberOfAntennas
             then ant + 1
           else ant) ∧
        y.m_totalSectors = c - 1 ∧ y.sim.nextUid = u + 1 + 1 ∧
        ∃ ts2 cb2, y.sim.events = old ++ [{ uid := u + 1, ts := ts2, cb := cb2 }] ∧
          cb2.sweepArgs = some (a, y.m_sectorId, y.m_antennaId, y.m_totalSectors)
      else y.sim.events = old ∧ y.antenna.omniReceivingMode = true) := by
  have hrun := runEvent_last old { uid := u, ts := ts, cb := cb } 0 x hev hold
  obtain ⟨y1, tx, hinv, hlow, hf, hty, haddr, hsim, hs, ha, ht, hn, hm⟩ :=
    invoke_sweep cb 0 { x with sim := { x.sim with now := ts, events := old } } a sec ant c hcb
  have hlast : y1.m_low.getLast? = some tx := by
    rw [hlow]; simp
  have hround : sweepRound u x = some (FrameTxOk tx.hdr y1) := by
    unfold sweepRound
    rw [hrun, hinv]
    simp only []
    rw [hlast]
  have ht1 : y1.m_totalSectors = c := ht.trans htot
  refine ⟨_, tx, hround, ?_, hf, hty, haddr, ?_⟩
  · by_cases hc : c > 0
    · rw [(FrameTxOk_sweep_more tx.hdr y1 hty (by rw [ht1]; exact hc)).2.2.2.2.1]
      exact hlow
    · rw [(FrameTxOk_sweep_last tx.hdr y1 hty (by rw [ht1]; omega)).2.2.1]
      exact hlow
  · by_cases hc : c > 0
    · obtain ⟨g1, g2, g3, ⟨cb2, g4, g5⟩, g6, g7⟩ :=
        FrameTxOk_sweep_more tx.hdr y1 hty (by rw [ht1]; exact hc)
      rw [if_pos hc, g7]
      refine ⟨hn, hm, ?_, ?_, ?_, ?_, y1.sim.now + y1.m_sbifs, cb2, ?_, ?_⟩
      · rw [g1, hs, hn, hm, ha]
        show (if x.m_sectorId < _ then _ else _) = _
        rw [hsec, hant]
      · rw [g2, hs, hn, hm, ha]
        show (if x.m_sectorId < _ then _ else _) = _
        rw [hsec, hant]
      · rw [g3, ht1]
      · rw [g4, hsim]
        show x.sim.nextUid + 1 = _
        rw [hnext]
      · rw [g4, hsim]
        show old ++ [{ uid := x.sim.nextUid, ts := _, cb := cb2 }] = _
        rw [hnext]
      · rw [g5, haddr]
    · obtain ⟨g1, g2, _, g4, g5⟩ := FrameTxOk_sweep_last tx.hdr y1 hty (by rw [ht1]; omega)
      rw [if_neg hc]
      refine ⟨g4.trans hn, g5.trans hm, ?_, g1⟩
      rw [g2, hsim]

/-- The rounds of a transmit sector sweep from its frame `k` on: every round
sends the SSW frame of its index, and after the last one nothing of the sweep
is pending and the antenna is in omni receiving mode. -/
theorem sweepRounds_spec (N M : Nat) (a : Mac48Address) (old : List Event) (u0 : Nat)
    (hN : 0 < N) (hold : ∀ e ∈ old, e.uid < u0) :
    ∀ (r k : Nat) (x : Mac) (ts : Time) (cb : Callback),
      k + (r + 1) = N * M →
      x.antenna.numberOfSectors = N → x.antenna.numberOfAntennas = M →
      x.sim.events = old ++ [{ uid := u0 + k, ts := ts, cb := cb }] →
      x.sim.nextUid = u0 + k + 1 →
      cb.sweepArgs = some (a, k % N + 1, k / N + 1, N * M - 1 - k) →
      x.m_sectorId = k % N + 1 → x.m_antennaId = k / N + 1 →
      x.m_totalSectors = N * M - 1 - k →
      ∃ t txs, sweepRounds (r + 1) (u0 + k) x = some t ∧ t.m_low = x.m_low ++ txs ∧
        txs.map Transmission.sweepFields =
          (List.range' k (r + 1)).map
            (fun i => some (i % N + 1, i / N + 1, N * M - 1 - i)) ∧
        (∀ tx ∈ txs, tx.hdr.macType = WifiMacType.WIFI_MAC_CTL_DMG_SSW ∧ tx.hdr.addr1 = a) ∧
        t.sim.events = old ∧ t.antenna.omniReceivingMode = true := by
  intro r
  induction r with
  | zero =>
    intro k x ts cb hk hn hm hev hnext hcb hsec hant htot
    obtain ⟨y, tx, hy, hlow, hf, hty, haddr, _, _, hif⟩ :=
      sweepRound_spec old a (u0 + k) _ _ _ ts cb x hev
        (fun e he => Nat.lt_of_lt_of_le (hold e he) (Nat.le_add_right _ _)) hnext hcb hsec hant htot
    have hc : ¬ N * M - 1 - k > 0 := by omega
    rw [if_neg hc] at hif
    refine ⟨y, [tx], ?_, hlow, ?_, ?_, hif.1, hif.2⟩
    · show (sweepRound (u0 + k) x).bind (sweepRounds 0 (u0 + k + 1)) = some y
      rw [hy]
      rfl
    · show [tx.sweepFields] = _
      rw [hf]
      rfl
    · intro tx2 h2
      rw [List.mem_singleton] at h2
      subst h2
      exact ⟨hty, haddr⟩
  | succ r ih =>
    intro k x ts cb hk hn hm hev hnext hcb hsec hant htot
    obtain ⟨y, tx, hy, hlow, hf, hty, haddr, hyn, hym, hif⟩ :=
      sweepRound_spec old a (u0 + k) _ _ _ ts cb x hev
        (fun e he => Nat.lt_of_lt_of_le (hold e he) (Nat.le_add_right _ _)) hnext hcb hsec hant htot
    have hc : N * M - 1 - k > 0 := by omega
    rw [if_pos hc, hn, hm] at hif
    obtain ⟨hs, ha, ht, hnu, ts2, cb2, hev2, hcb2⟩ := hif
    obtain ⟨e1, e2⟩ := sweep_advance N M k hN (by omega)
    rw [e1] at hs
    rw [e2] at ha
    have ht2 : y.m_totalSectors = N * M - 1 - (k + 1) := by rw [ht]; omega
    rw [hs, ha, ht2] at hcb2
    obtain ⟨t, txs, hrun, htl, hmap, hall, hevt, homni⟩ :=
      ih (k + 1) y ts2 cb2 (by omega) (hyn.trans hn) (hym.trans hm) hev2 hnu hcb2 hs ha ht2
    refine ⟨t, tx :: txs, ?_, ?_, ?_, ?_, hevt, homni⟩
    · show (sweepRound (u0 + k) x).bind (sweepRounds (r + 1) (u0 + k + 1)) = some t
      rw [hy]
      exact hrun
    · rw [htl, hlow, List.append_assoc]
      rfl
    · show tx.sweepFields :: txs.map Transmission.sweepFields = _
      rw [hf, hmap]
      rfl
    · intro tx2 h2
      rcases List.mem_cons.mp h2 with h2 | h2
      · subst h2
        exact ⟨hty, haddr⟩
      · exact hall tx2 h2

/-- The start of a transmit sector sweep: the counters are set for the first
frame and its sender is scheduled for the current instant. -/
theorem StartTransmitSectorSweep_fields (address : Mac48Address)
    (direction : BeamformingDirection) (s : Mac) :
    (StartTransmitSectorSweep address direction s).m_sectorId = 1 ∧
    (StartTransmitSectorSweep address direction s).m_antennaId = 1 ∧
    (StartTransmitSectorSweep address direction s).m_totalSectors =
      (s.antenna.numberOfSectors * s.antenna.numberOfAntennas + 65536 - 1) % 65536 ∧
    (∃ cb, (StartTransmitSectorSweep address direction s).sim = s.sim.ScheduleNow cb ∧
      cb.sweepArgs = some (address, 1, 1,
        (s.antenna.numberOfSectors * s.antenna.numberOfAntennas + 65536 - 1) % 65536)) ∧
    (StartTransmitSectorSweep address direction s).m_low = s.m_low ∧
    (StartTransmitSectorSweep address direction s).antenna = s.antenna := by
  unfold StartTransmitSectorSweep ScheduleNow
  simp only []
  split_ifs <;> exact ⟨rfl, rfl, rfl, ⟨_, rfl, rfl⟩, rfl, rfl⟩

/-- Exactly one index below `n` equals a given index below `n`. -/
theorem countP_range_eq (n k0 : Nat) :
    (List.range n).countP (fun k => decide (k = k0)) = if k0 < n then 1 else 0 := by
  induction n with
  | zero => rfl
  | succ n ih =>
    rw [List.range_succ, List.countP_append, ih]
    by_cases h1 : k0 < n
    · have h2 : ¬ n = k0 := by omega
      simp [h1, h2, Nat.lt_succ_of_lt h1]
    · by_cases h2 : n = k0
      · simp [h2]
      · have h3 : ¬ k0 < n + 1 := by omega
        simp [h1, h2, h3]

/-- The index of a frame is determined by its sector and antenna: exactly one
index below `N * M` has sector `i` and antenna `j`. -/
theorem sweep_pairs_count (N M i j : Nat) (hi : 1 ≤ i) (hiN : i ≤ N) (hj : 1 ≤ j)
    (hjM : j ≤ M) :
    (List.range (N * M)).countP (fun k => decide (k % N + 1 = i ∧ k / N + 1 = j)) = 1 := by
  have hN : 0 < N := by omega
  have hlt : i - 1 < N := by omega
  have hu : (N * (j - 1) + (i - 1)) / N = j - 1 ∧ (N * (j - 1) + (i - 1)) % N = i - 1 :=
    (Nat.div_mod_unique hN).mpr ⟨by omega, hlt⟩
  have hmem : N * (j - 1) + (i - 1) < N * M := by
    have h1 : N * (j - 1) + N ≤ N * M := by
      rw [← Nat.mul_succ]
      exact Nat.mul_le_mul_left N (by omega)
    omega
  have hcongr : (List.range (N * M)).countP (fun k => decide (k % N + 1 = i ∧ k / N + 1 = j))
      = (List.range (N * M)).countP (fun k => decide (k = N * (j - 1) + (i - 1))) := by
    apply List.countP_congr
    intro k _
    simp only [decide_eq_true_eq]
    constructor
    · rintro ⟨h1, h2⟩
      have := Nat.div_add_mod k N
      have e1 : k % N = i - 1 := by omega
      have e2 : k / N = j - 1 := by omega
      rw [← this, e1, e2]
    · intro h
      rw [h, hu.1, hu.2]
      omega
  rw [hcongr, countP_range_eq, if_pos hmem]

/-- C21: a transmit sector sweep of a station with N ≥ 1 sectors and M ≥ 1
antennas (both 8-bit) covers the cartesian product exactly once with a
decrementing CountDown. Starting from `StartTransmitSectorSweep` and reporting
the completion of each SSW transmission with `FrameTxOk`, the N·M rounds all
run; exactly N·M frames are handed to the transmitter, all of them SSW frames
to the peer; the k-th frame carries sector (k mod N) + 1, antenna (k div N) + 1
and CountDown N·M − 1 − k; every pair of [1..N] × [1..M] is carried by exactly
one frame; sector and antenna stay within 1..N and 1..M; the first frame is
(1, 1, N·M − 1); and after the completion of the frame with CountDown 0 the
pending events are those from before the sweep (no further SSW is scheduled)
and the antenna is in omni receiving mode. -/
theorem transmit_sector_sweep (address : Mac48Address) (direction : BeamformingDirection)
    (s : Mac) (N M : Nat)
    (hN : s.antenna.numberOfSectors = N) (hM : s.antenna.numberOfAntennas = M)
    (hN1 : 1 ≤ N) (hN2 : N < 256) (hM1 : 1 ≤ M) (hM2 : M < 256)
    (hwf : ∀ e ∈ s.sim.events, e.uid < s.sim.nextUid) :
    ∃ t txs,
      sweepRounds (N * M) s.sim.nextUid (StartTransmitSectorSweep address direction s)
        = some t ∧
      t.m_low = s.m_low ++ txs ∧ txs.length = N * M ∧
      txs.map Transmission.sweepFields =
        (List.range (N * M)).map (fun k => some (k % N + 1, k / N + 1, N * M - 1 - k)) ∧
      (∀ tx ∈ txs, tx.hdr.macType = WifiMacType.WIFI_MAC_CTL_DMG_SSW ∧
        tx.hdr.addr1 = address) ∧
      (∀ i j, 1 ≤ i → i ≤ N → 1 ≤ j → j ≤ M →
        txs.countP (fun tx =>
          decide (tx.sweepFields.map (fun f => (f.1, f.2.1)) = some (i, j))) = 1) ∧
      (∀ tx ∈ txs, ∃ sec ant c, tx.sweepFields = some (sec, ant, c) ∧
        1 ≤ sec ∧ sec ≤ N ∧ 1 ≤ ant ∧ ant ≤ M) ∧
      txs.head?.map Transmission.sweepFields = some (some (1, 1, N * M - 1)) ∧
      t.sim.events = s.sim.events ∧ t.antenna.omniReceivingMode = true := by
  have hpos : 0 < N * M := Nat.mul_pos hN1 hM1
  have hle : N * M ≤ 255 * 255 := Nat.mul_le_mul (by omega) (by omega)
  have htotal : (N * M + 65536 - 1) % 65536 = N * M - 1 - 0 := by omega
  obtain ⟨g1, g2, g3, ⟨cb, g4, g5⟩, g6, g7⟩ :=
    StartTransmitSectorSweep_fields address direction s
  rw [hN, hM, htotal] at g3 g5
  have e0 : 0 % N + 1 = 1 := by rw [Nat.zero_mod]
  have e1 : 0 / N + 1 = 1 := by rw [Nat.zero_div]
  obtain ⟨t, txs, hrun, hlow, hmap, hall, hev, homni⟩ :=
    sweepRounds_spec N M address s.sim.events s.sim.nextUid hN1 hwf (N * M - 1) 0
      (StartTransmitSectorSweep address direction s) (s.sim.now + 0) cb (by omega)
      (by rw [g7]; exact hN) (by rw [g7]; exact hM) (by rw [g4]; rfl) (by rw [g4]; rfl)
      (by rw [e0, e1]; exact g5) (by rw [e0]; exact g1) (by rw [e1]; exact g2) g3
  have hcount : N * M - 1 + 1 = N * M := by omega
  rw [hcount] at hrun hmap
  rw [← List.range_eq_range'] at hmap
  rw [g6] at hlow
  have hlen : txs.length = N * M := by
    have := congrArg List.length hmap
    rw [List.length_map, List.length_map, List.length_range] at this
    exact this
  have hfields : ∀ tx ∈ txs, ∃ k, k < N * M ∧
      tx.sweepFields = some (k % N + 1, k / N + 1, N * M - 1 - k) := by
    intro tx htx
    have hm : tx.sweepFields ∈ txs.map Transmission.sweepFields := List.mem_map_of_mem _ htx
    rw [hmap, List.mem_map] at hm
    obtain ⟨k, hk, hk2⟩ := hm
    exact ⟨k, List.mem_range.mp hk, hk2.symm⟩
  refine ⟨t, txs, hrun, hlow, hlen, hmap, hall, ?_, ?_, ?_, hev, homni⟩
  · intro i j hi hiN hj hjM
    have h1 : txs.countP (fun tx =>
          decide (tx.sweepFields.map (fun f => (f.1, f.2.1)) = some (i, j)))
        = (txs.map Transmission.sweepFields).countP
            (fun o => decide (o.map (fun f => (f.1, f.2.1)) = some (i, j))) := by
      rw [List.countP_map]
      rfl
    rw [h1, hmap, List.countP_map]
    refine Eq.trans ?_ (sweep_pairs_count N M i j hi hiN hj hjM)
    apply List.countP_congr
    intro k _
    simp only [Function.comp, Option.map_some', Option.some.injEq, Prod.mk.injEq]
  · intro tx htx
    obtain ⟨k, hk, hf⟩ := hfields tx htx
    refine ⟨_, _, _, hf, Nat.le_add_left _ _, Nat.mod_lt k hN1, Nat.le_add_left _ _, ?_⟩
    have : k / N < M := by
      rw [Nat.div_lt_iff_lt_mul hN1, Nat.mul_comm]
      exact hk
    exact this
  · cases txs with
    | nil => simp at hlen; omega
    | cons tx rest =>
      have h0 := congrArg List.head? hmap
      rw [List.map_cons, List.head?_cons] at h0
      obtain ⟨n, hn⟩ : ∃ n, N * M = n + 1 := ⟨N * M - 1, by omega⟩
      rw [hn, List.range_succ_eq_map, List.map_cons, List.head?_cons] at h0
      rw [List.head?_cons, Option.map_some', Option.some.inj h0, e0, e1, hn]
      rfl

/-- The sweep of a station with three sectors on each of two antennas: the
hypotheses of `transmit_sector_sweep` hold for it, so its six rounds send the
six SSW frames of the product in order. -/
theorem transmit_sector_sweep_witness :
    sweepStation.antenna.numberOfSectors = 3 ∧ sweepStation.antenna.numberOfAntennas = 2 ∧
    1 ≤ 3 ∧ 3 < 256 ∧ 1 ≤ 2 ∧ 2 < 256 ∧
    (∀ e ∈ sweepStation.sim.events, e.uid < sweepStation.sim.nextUid) ∧
    ∃ t txs,
      sweepRounds (3 * 2) sweepStation.sim.nextUid
          (StartTransmitSectorSweep 6 BeamformingDirection.BeamformingResponder sweepStation)
        = some t ∧
      t.m_low = sweepStation.m_low ++ txs ∧ txs.length = 3 * 2 ∧
      txs.map Transmission.sweepFields =
        (List.range (3 * 2)).map (fun k => some (k % 3 + 1, k / 3 + 1, 3 * 2 - 1 - k)) ∧
      (∀ tx ∈ txs, tx.hdr.macType = WifiMacType.WIFI_MAC_CTL_DMG_SSW ∧
        tx.hdr.addr1 = 6) ∧
      (∀ i j, 1 ≤ i → i ≤ 3 → 1 ≤ j → j ≤ 2 →
        txs.countP (fun tx =>
          decide (tx.sweepFields.map (fun f => (f.1, f.2.1)) = some (i, j))) = 1) ∧
      (∀ tx ∈ txs, ∃ sec ant c, tx.sweepFields = some (sec, ant, c) ∧
        1 ≤ sec ∧ sec ≤ 3 ∧ 1 ≤ ant ∧ ant ≤ 2) ∧
      txs.head?.map Transmission.sweepFields = some (some (1, 1, 3 * 2 - 1)) ∧
      t.sim.events = sweepStation.sim.events ∧ t.antenna.omniReceivingMode = true :=
  ⟨rfl, rfl, by decide, by decide, by decide, by decide, (fun e h => by cases h),
    transmit_sector_sweep 6 BeamformingDirection.BeamformingResponder sweepStation 3 2 rfl rfl
      (by decide) (by decide) (by decide) (by decide) (fun e h => by cases h)⟩

/-- A key just set is found with the value set. -/
theorem mapFind_mapSet {K V : Type} [DecidableEq K] (m : List (K × V)) (k : K) (v : V) :
    mapFind (mapSet m k v) k = some v := by
  induction m with
  | nil => simp [mapSet, mapFind]
  | cons hd tl ih =>
    unfold mapSet mapFind at ih ⊢
    by_cases h : hd.1 = k
    · simp [h]
    · by_cases ha : tl.any (fun e => e.1 == k) = true
      · rw [if_pos ha] at ih
        simpa [h, ha] using ih
      · rw [if_neg ha] at ih
        simpa [h, ha] using ih

/-- C22, counterexample: a station in the A-BFT receives an SSW-FBCK from the
access point; the SLS-completed hook fires with the access period BHI, not
BTI. -/
theorem abft_fbck_reports_bhi :
    awaitingFbck.m_accessPeriod = ChannelAccessPeriod.CHANNEL_ACCESS_A_BFT ∧
    (Receive feedbackSector3 fbckHdr awaitingFbck).map (fun t => emitted awaitingFbck t)
      = some [Effect.SlsCompleted 9 ChannelAccessPeriod.CHANNEL_ACCESS_BHI 3 1] ∧
    (Receive feedbackSector3 fbckHdr awaitingFbck).map (fun t => emitted awaitingFbck t)
      ≠ some [Effect.SlsCompleted 9 ChannelAccessPeriod.CHANNEL_ACCESS_BTI 3 1] := by
  decide

/-- C22, amended: an SSW-FBCK from the peer P (Addr2) that passes the address
filter, received while the access period is A-BFT.  The best configuration for
P becomes the (sector, antenna) of the feedback field as transmit part, with
the receive part (0, 0); the pending SSW-FBCK timeout (the A-BFT fallback) is
cancelled and the slot index is reset; the SLS-completed hook fires exactly
once, with (P, BHI, that sector, that antenna); no event is scheduled, so no
SSW-ACK is sent. -/
theorem Receive_sswFbck_abft (packet : Packet) (hdr : WifiMacHeader) (s : Mac)
    (htype : hdr.macType = WifiMacType.WIFI_MAC_CTL_DMG_SSW_FBCK)
    (h3 : hdr.addr3 ≠ s.address)
    (h1 : hdr.addr1 = s.address ∨ IsGroup hdr.addr1 = true)
    (hap : s.m_accessPeriod = ChannelAccessPeriod.CHANNEL_ACCESS_A_BFT) :
    ∃ t, Receive packet hdr s = some t ∧
      t.m_bestAntennaConfig =
        mapSet s.m_bestAntennaConfig hdr.addr2
          ((packet.sswFeedbackField.sector, packet.sswFeedbackField.antenna), (0, 0)) ∧
      mapFind t.m_bestAntennaConfig hdr.addr2 =
        some ((packet.sswFeedbackField.sector, packet.sswFeedbackField.antenna), (0, 0)) ∧
      t.sim = s.sim.Cancel s.m_sswFbckTimeout ∧
      t.sim.IsRunning s.m_sswFbckTimeout = false ∧
      (∀ e ∈ t.sim.events, e ∈ s.sim.events) ∧
      t.m_slotIndex = 0 ∧
      emitted s t =
        [Effect.SlsCompleted hdr.addr2 ChannelAccessPeriod.CHANNEL_ACCESS_BHI
          packet.sswFeedbackField.sector packet.sswFeedbackField.antenna] ∧
      t.m_low = s.m_low ∧ t.m_dataForwardingMap = s.m_dataForwardingMap := by
  refine ⟨_, Receive_sswFbck_eq packet hdr s htype h3 h1, ?_⟩
  have e : ReceiveSswFbck packet hdr s = _ := if_pos hap
  rw [e]
  refine ⟨rfl, mapFind_mapSet _ _ _, rfl, Simulator.IsRunning_Cancel _ _, ?_, rfl,
    drop_length_append _ _, rfl, rfl⟩
  intro ev hev
  change ev ∈ (s.sim.Cancel s.m_sswFbckTimeout).events at hev
  unfold Simulator.Cancel at hev
  cases hid : s.m_sswFbckTimeout with
  | none => rw [hid] at hev; exact hev
  | some u => rw [hid] at hev; exact (List.mem_filter.mp hev).1

/-- C22, witness: the statement at the station `awaitingFbck` and an SSW-FBCK
of the access point reporting sector 3 of antenna 1. -/
theorem Receive_sswFbck_abft_witness :
    fbckHdr.macType = WifiMacType.WIFI_MAC_CTL_DMG_SSW_FBCK ∧
    fbckHdr.addr3 ≠ awaitingFbck.address ∧
    (fbckHdr.addr1 = awaitingFbck.address ∨ IsGroup fbckHdr.addr1 = true) ∧
    awaitingFbck.m_accessPeriod = ChannelAccessPeriod.CHANNEL_ACCESS_A_BFT ∧
    ∃ t, Receive feedbackSector3 fbckHdr awaitingFbck = some t ∧
      t.m_bestAntennaConfig =
        mapSet awaitingFbck.m_bestAntennaConfig fbckHdr.addr2
          ((feedbackSector3.sswFeedbackField.sector, feedbackSector3.sswFeedbackField.antenna), (0, 0)) ∧
      mapFind t.m_bestAntennaConfig fbckHdr.addr2 =
        some ((feedbackSector3.sswFeedbackField.sector, feedbackSector3.sswFeedbackField.antenna), (0, 0)) ∧
      t.sim = awaitingFbck.sim.Cancel awaitingFbck.m_sswFbckTimeout ∧
      t.sim.IsRunning awaitingFbck.m_sswFbckTimeout = false ∧
      (∀ e ∈ t.sim.events, e ∈ awaitingFbck.sim.events) ∧
      t.m_slotIndex = 0 ∧
      emitted awaitingFbck t =
        [Effect.SlsCompleted fbckHdr.addr2 ChannelAccessPeriod.CHANNEL_ACCESS_BHI
          feedbackSector3.sswFeedbackField.sector feedbackSector3.sswFeedbackField.antenna] ∧
      t.m_low = awaitingFbck.m_low ∧ t.m_dataForwardingMap = awaitingFbck.m_dataForwardingMap :=
  ⟨by decide, by decide, Or.inl (by decide), by decide,
    Receive_sswFbck_abft feedbackSector3 fbckHdr awaitingFbck (by decide) (by decide)
      (Or.inl (by decide)) (by decide)⟩

/-- Evaluating `m[k]` inserts at most the default value, so it changes no
lookup that falls back to that default. -/
theorem mapIndex_mapTouch_dflt {K V : Type} [DecidableEq K] (m : List (K × V)) (k j : K)
    (d : V) : mapIndex (mapTouch m k d) j d = mapIndex m j d := by
  unfold mapTouch
  split_ifs with h
  · rfl
  · unfold mapIndex mapFind
    rw [List.find?_append]
    cases hf : m.find? (fun e => e.1 == j) with
    | some v => rfl
    | none =>
      by_cases hkj : k = j
      · simp [hkj]
      · simp [hkj]

/-- C23, counterexample: a station whose best configuration toward the peer 5
is (1, 1) and which has heard the peer best on the peer sector (3, 1) receives
an SSW-ACK whose feedback field reports (6, 2); the best-configuration table
is unchanged and the SLS-completed hook fires with (3, 1), which is neither the
feedback of the SSW-ACK nor the configuration in the table. -/
theorem sswAck_records_nothing :
    (Receive rssFrame ackHdrFrom5 trainedStation).map (fun t => t.m_bestAntennaConfig)
      = some [(5, ((1, 1), (0, 0)))] ∧
    (Receive rssFrame ackHdrFrom5 trainedStation).map (fun t => emitted trainedStation t)
      = some [Effect.SlsCompleted 5 ChannelAccessPeriod.CHANNEL_ACCESS_DTI 3 1] ∧
    rssFrame.sswFeedbackField.sector = 6 ∧ rssFrame.sswFeedbackField.antenna = 2 := by
  decide

/-- C23, amended: an SSW-ACK from the peer P (Addr2) that passes the address
filter.  P is added to the direct-forwarding set, so that `SetHeaderAddresses`
for the destination P afterwards puts P in Addr1; the best-configuration table
is left as it was (the feedback carried in the SSW-ACK is not read); the
SLS-completed hook fires exactly once with (P, DTI, sector, antenna), where
(sector, antenna) is the highest-SNR entry of the SNR table of P; nothing is
scheduled or transmitted. -/
theorem Receive_sswAck (packet : Packet) (hdr : WifiMacHeader) (s : Mac)
    (htype : hdr.macType = WifiMacType.WIFI_MAC_CTL_DMG_SSW_ACK)
    (h3 : hdr.addr3 ≠ s.address)
    (h1 : hdr.addr1 = s.address ∨ IsGroup hdr.addr1 = true) :
    ∃ t, Receive packet hdr s = some t ∧
      t.m_dataForwardingMap = s.m_dataForwardingMap ++ [hdr.addr2] ∧
      (∀ h0 : WifiMacHeader, (SetHeaderAddresses hdr.addr2 h0 t).addr1 = hdr.addr2) ∧
      t.m_bestAntennaConfig = s.m_bestAntennaConfig ∧
      emitted s t =
        [Effect.SlsCompleted hdr.addr2 ChannelAccessPeriod.CHANNEL_ACCESS_DTI
          (GetBestAntennaConfiguration hdr.addr2 s).1
          (GetBestAntennaConfiguration hdr.addr2 s).2] ∧
      t.sim = s.sim ∧ t.m_low = s.m_low ∧
      t = { s with m_dataForwardingMap := t.m_dataForwardingMap, log := t.log } := by
  refine ⟨_, Receive_sswAck_eq packet hdr s htype h3 h1, rfl, ?_, rfl, drop_length_append _ _,
    rfl, rfl, rfl⟩
  intro h0
  have hany : (ReceiveSswAck packet hdr s).m_dataForwardingMap.any (fun a => a == hdr.addr2)
      = true := by
    show (s.m_dataForwardingMap ++ [hdr.addr2]).any (fun a => a == hdr.addr2) = true
    simp
  unfold SetHeaderAddresses
  rw [if_pos hany]

/-- C23, witness: the statement at the station `trainedStation` and an
SSW-ACK of the station 5. -/
theorem Receive_sswAck_witness :
    ackHdrFrom5.macType = WifiMacType.WIFI_MAC_CTL_DMG_SSW_ACK ∧
    ackHdrFrom5.addr3 ≠ trainedStation.address ∧
    (ackHdrFrom5.addr1 = trainedStation.address ∨ IsGroup ackHdrFrom5.addr1 = true) ∧
    ∃ t, Receive rssFrame ackHdrFrom5 trainedStation = some t ∧
      t.m_dataForwardingMap = trainedStation.m_dataForwardingMap ++ [ackHdrFrom5.addr2] ∧
      (∀ h0 : WifiMacHeader, (SetHeaderAddresses ackHdrFrom5.addr2 h0 t).addr1 = ackHdrFrom5.addr2) ∧
      t.m_bestAntennaConfig = trainedStation.m_bestAntennaConfig ∧
      emitted trainedStation t =
        [Effect.SlsCompleted ackHdrFrom5.addr2 ChannelAccessPeriod.CHANNEL_ACCESS_DTI
          (GetBestAntennaConfiguration ackHdrFrom5.addr2 trainedStation).1
          (GetBestAntennaConfiguration ackHdrFrom5.addr2 trainedStation).2] ∧
      t.sim = trainedStation.sim ∧ t.m_low = trainedStation.m_low ∧
      t = { trainedStation with m_dataForwardingMap := t.m_dataForwardingMap, log := t.log } :=
  ⟨by decide, by decide, Or.inl (by decide),
    Receive_sswAck rssFrame ackHdrFrom5 trainedStation (by decide) (by decide)
      (Or.inl (by decide))⟩

/-- C24, counterexample: a station that has sent no feedback to the peer 5
receives an SSW of an initiator sweep from it: no SSW-FBCK is scheduled (a
Responder Sector Sweep is) and the feedback tracking map is unchanged.  And a
station that has answered a responder sweep of the peer 5 with an SSW-FBCK
starts a later beamforming allocation with the same peer in the same beacon
interval: a further SSW of a responder sweep schedules no further SSW-FBCK. -/
theorem fbck_follows_responder_sweeps_once_per_interval :
    issFrame.sswField.direction = BeamformingDirection.BeamformingInitiator ∧
    mapIndex trainedStation.m_sectorFeedbackSent 5 false = false ∧
    (Receive issFrame sswHdrFrom5 trainedStation).map
        (fun t => (t.sim.events, t.m_sectorFeedbackSent))
      = some ([{ uid := 0, ts := 105000,
                 cb := Callback.StartResponderSectorSweep 5 true 300000 }], []) ∧
    (run [Op.Receive rssFrame sswHdrFrom5] trainedStation).map
        (fun t => t.sim.events.filter (fun e => e.cb.isSswFbck))
      = some [{ uid := 0, ts := 105000, cb := Callback.SendSswFbckFrame 5 }] ∧
    (run [Op.Receive rssFrame sswHdrFrom5, Op.RunEvent 0 0, Op.InitiateBeamforming 5 false 300000,
          Op.Receive rssFrame sswHdrFrom5] trainedStation).map
        (fun t => t.sim.events.filter (fun e => e.cb.isSswFbck))
      = some [] := by
  decide

/-- What an operation that only appends to the pending events scheduled. -/
theorem scheduled_of_append (s t : Mac) (l : List Event)
    (h : t.sim.events = s.sim.events ++ l) : scheduled s t = l := by
  unfold scheduled
  rw [h]
  exact drop_length_append _ _

/-- The sector sweep starters leave the feedback tracking map. -/
theorem sweepStart_feedbackSent (a : Mac48Address) (x : Bool) (d : Time) (s : Mac) :
    (InitiateBeamforming a x d s).m_sectorFeedbackSent = s.m_sectorFeedbackSent ∧
    (StartResponderSectorSweep a x d s).m_sectorFeedbackSent = s.m_sectorFeedbackSent := by
  constructor
  · unfold InitiateBeamforming StartInitiatorSectorSweep StartTransmitSectorSweep
      StartReceiveSectorSweep
    simp only []
    split_ifs <;> rfl
  · unfold StartResponderSectorSweep StartTransmitSectorSweep StartReceiveSectorSweep
    simp only []
    split_ifs <;> rfl

/-- C24, amended: an SSW frame from the peer P (Addr2) that passes the address
filter, in any access period.  If it belongs to a responder sweep (direction =
responder, the station is the initiator) and no feedback was sent to P yet, the
tracking entry of P is set, the best configuration for P becomes the (sector,
antenna) of the feedback field of the SSW (receive part (0, 0)) and exactly one
SSW-FBCK to P is scheduled, at delay sectorSweepDuration (CountDown) + MBIFS;
if feedback was already sent to P, nothing is scheduled and the table is
unchanged.  If it belongs to an initiator sweep (direction = initiator), no
SSW-FBCK is scheduled and the tracking map and the table are unchanged; a
Responder Sector Sweep toward P is scheduled at the same delay when none is
pending.  The tracking map is cleared at BTI entry and is left as it is when a
beamforming allocation or a responder sweep starts. -/
theorem Receive_ssw_feedback (packet : Packet) (hdr : WifiMacHeader) (s : Mac)
    (htype : hdr.macType = WifiMacType.WIFI_MAC_CTL_DMG_SSW)
    (h3 : hdr.addr3 ≠ s.address)
    (h1 : hdr.addr1 = s.address ∨ IsGroup hdr.addr1 = true) :
    ∃ t, Receive packet hdr s = some t ∧
      t.sim.events = s.sim.events ++ scheduled s t ∧
      (if packet.sswField.direction = BeamformingDirection.BeamformingResponder then
        if mapIndex s.m_sectorFeedbackSent hdr.addr2 false = false then
          mapIndex t.m_sectorFeedbackSent hdr.addr2 false = true ∧
          t.m_bestAntennaConfig =
            mapSet s.m_bestAntennaConfig hdr.addr2
              ((packet.sswFeedbackField.sector, packet.sswFeedbackField.antenna), (0, 0)) ∧
          scheduled s t =
            [{ uid := s.sim.nextUid,
               ts := s.sim.now +
                 (s.GetSectorSweepDuration packet.sswField.countDown + s.m_mbifs),
               cb := Callback.SendSswFbckFrame hdr.addr2 }]
        else
          mapIndex t.m_sectorFeedbackSent hdr.addr2 false = true ∧
          t.m_bestAntennaConfig = s.m_bestAntennaConfig ∧ scheduled s t = []
      else
        t.m_sectorFeedbackSent = s.m_sectorFeedbackSent ∧
        t.m_bestAntennaConfig = s.m_bestAntennaConfig ∧
        scheduled s t =
          (if s.sim.IsExpired s.m_rssEvent = true then
            [{ uid := s.sim.nextUid,
               ts := s.sim.now +
                 (s.GetSectorSweepDuration packet.sswField.countDown + s.m_mbifs),
               cb := Callback.StartResponderSectorSweep hdr.addr2 true (MicroSeconds 300) }]
           else [])) ∧
      (StartBeaconTransmissionInterval t).m_sectorFeedbackSent = [] ∧
      (∀ (a : Mac48Address) (x : Bool) (d : Time),
        (InitiateBeamforming a x d t).m_sectorFeedbackSent = t.m_sectorFeedbackSent ∧
        (StartResponderSectorSweep a x d t).m_sectorFeedbackSent = t.m_sectorFeedbackSent) := by
  have hbti : ∀ x : Mac, (StartBeaconTransmissionInterval x).m_sectorFeedbackSent = [] := by
    intro x
    unfold StartBeaconTransmissionInterval
    simp only []
    split_ifs <;> rfl
  suffices hmain :
      (ReceiveSsw packet hdr s).sim.events = s.sim.events ++ scheduled s (ReceiveSsw packet hdr s) ∧
      (if packet.sswField.direction = BeamformingDirection.BeamformingResponder then
        if mapIndex s.m_sectorFeedbackSent hdr.addr2 false = false then
          mapIndex (ReceiveSsw packet hdr s).m_sectorFeedbackSent hdr.addr2 false = true ∧
          (ReceiveSsw packet hdr s).m_bestAntennaConfig =
            mapSet s.m_bestAntennaConfig hdr.addr2
              ((packet.sswFeedbackField.sector, packet.sswFeedbackField.antenna), (0, 0)) ∧
          scheduled s (ReceiveSsw packet hdr s) =
            [{ uid := s.sim.nextUid,
               ts := s.sim.now +
                 (s.GetSectorSweepDuration packet.sswField.countDown + s.m_mbifs),
               cb := Callback.SendSswFbckFrame hdr.addr2 }]
        else
          mapIndex (ReceiveSsw packet hdr s).m_sectorFeedbackSent hdr.addr2 false = true ∧
          (ReceiveSsw packet hdr s).m_bestAntennaConfig = s.m_bestAntennaConfig ∧
          scheduled s (ReceiveSsw packet hdr s) = []
      else
        (ReceiveSsw packet hdr s).m_sectorFeedbackSent = s.m_sectorFeedbackSent ∧
        (ReceiveSsw packet hdr s).m_bestAntennaConfig = s.m_bestAntennaConfig ∧
        scheduled s (ReceiveSsw packet hdr s) =
          (if s.sim.IsExpired s.m_rssEvent = true then
            [{ uid := s.sim.nextUid,
               ts := s.sim.now +
                 (s.GetSectorSweepDuration packet.sswField.countDown + s.m_mbifs),
               cb := Callback.StartResponderSectorSweep hdr.addr2 true (MicroSeconds 300) }]
           else [])) from
    ⟨_, Receive_ssw_eq packet hdr s htype h3 h1, hmain.1, hmain.2, hbti _,
      fun a x d => sweepStart_feedbackSent a x d _⟩
  by_cases hdir : packet.sswField.direction = BeamformingDirection.BeamformingResponder
  · rw [if_pos hdir]
    by_cases hsent : mapIndex s.m_sectorFeedbackSent hdr.addr2 false = false
    · have hs2 : (!mapIndex s.m_sectorFeedbackSent hdr.addr2 false) = true := by
        rw [hsent]; rfl
      have e : ReceiveSsw packet hdr s = _ := (if_pos hdir).trans (if_pos hs2)
      have hev : (ReceiveSsw packet hdr s).sim.events =
          s.sim.events ++
            [{ uid := s.sim.nextUid,
               ts := s.sim.now +
                 (s.GetSectorSweepDuration packet.sswField.countDown + s.m_mbifs),
               cb := Callback.SendSswFbckFrame hdr.addr2 }] := by
        rw [e]; rfl
      have hsch := scheduled_of_append _ _ _ hev
      rw [if_pos hsent, hsch]
      refine ⟨hev, ?_, ?_, rfl⟩
      · rw [e]
        show mapIndex (mapSet _ hdr.addr2 true) hdr.addr2 false = true
        unfold mapIndex
        rw [mapFind_mapSet]
        rfl
      · rw [e]; rfl
    · have hs2 : ¬ (!mapIndex s.m_sectorFeedbackSent hdr.addr2 false) = true := by
        simpa using hsent
      have hs3 : mapIndex s.m_sectorFeedbackSent hdr.addr2 false = true := by
        simpa using hsent
      have e : ReceiveSsw packet hdr s = _ := (if_pos hdir).trans (if_neg hs2)
      have hev : (ReceiveSsw packet hdr s).sim.events = s.sim.events := by
        rw [e]; rfl
      have hsch : scheduled s (ReceiveSsw packet hdr s) = [] := by
        unfold scheduled
        rw [hev]
        exact List.drop_length _
      rw [if_neg hsent, hsch]
      refine ⟨by rw [hev, List.append_nil], ?_, ?_, rfl⟩
      · rw [e]
        show mapIndex (mapTouch s.m_sectorFeedbackSent hdr.addr2 false) hdr.addr2 false = true
        rw [mapIndex_mapTouch_dflt]
        exact hs3
      · rw [e]; rfl
  · rw [if_neg hdir]
    by_cases hexp : s.sim.IsExpired s.m_rssEvent = true
    · have e : ReceiveSsw packet hdr s = _ := (if_neg hdir).trans (if_pos hexp)
      have hev : (ReceiveSsw packet hdr s).sim.events =
          s.sim.events ++
            [{ uid := s.sim.nextUid,
               ts := s.sim.now +
                 (s.GetSectorSweepDuration packet.sswField.countDown + s.m_mbifs),
               cb := Callback.StartResponderSectorSweep hdr.addr2 true (MicroSeconds 300) }] := by
        rw [e]; rfl
      have hsch := scheduled_of_append _ _ _ hev
      rw [if_pos hexp, hsch]
      refine ⟨hev, ?_, ?_, rfl⟩
      · rw [e]; rfl
      · rw [e]; rfl
    · have e : ReceiveSsw packet hdr s = _ := (if_neg hdir).trans (if_neg hexp)
      have hev : (ReceiveSsw packet hdr s).sim.events = s.sim.events := by
        rw [e]; rfl
      have hsch : scheduled s (ReceiveSsw packet hdr s) = [] := by
        unfold scheduled
        rw [hev]
        exact List.drop_length _
      rw [if_neg hexp, hsch]
      refine ⟨by rw [hev, List.append_nil], ?_, ?_, rfl⟩
      · rw [e]; rfl
      · rw [e]; rfl

/-- C24, witness: the statement at the station `trainedStation` and an SSW of
a responder sweep of the station 5. -/
theorem Receive_ssw_feedback_witness :
    sswHdrFrom5.macType = WifiMacType.WIFI_MAC_CTL_DMG_SSW ∧
    sswHdrFrom5.addr3 ≠ trainedStation.address ∧
    (sswHdrFrom5.addr1 = trainedStation.address ∨ IsGroup sswHdrFrom5.addr1 = true) ∧
    ∃ t, Receive rssFrame sswHdrFrom5 trainedStation = some t ∧
      t.sim.events = trainedStation.sim.events ++ scheduled trainedStation t ∧
      (if rssFrame.sswField.direction = BeamformingDirection.BeamformingResponder then
        if mapIndex trainedStation.m_sectorFeedbackSent sswHdrFrom5.addr2 false = false then
          mapIndex t.m_sectorFeedbackSent sswHdrFrom5.addr2 false = true ∧
          t.m_bestAntennaConfig =
            mapSet trainedStation.m_bestAntennaConfig sswHdrFrom5.addr2
              ((rssFrame.sswFeedbackField.sector, rssFrame.sswFeedbackField.antenna), (0, 0)) ∧
          scheduled trainedStation t =
            [{ uid := trainedStation.sim.nextUid,
               ts := trainedStation.sim.now +
                 (trainedStation.GetSectorSweepDuration rssFrame.sswField.countDown + trainedStation.m_mbifs),
               cb := Callback.SendSswFbckFrame sswHdrFrom5.addr2 }]
        else
          mapIndex t.m_sectorFeedbackSent sswHdrFrom5.addr2 false = true ∧
          t.m_bestAntennaConfig = trainedStation.m_bestAntennaConfig ∧ scheduled trainedStation t = []
      else
        t.m_sectorFeedbackSent = trainedStation.m_sectorFeedbackSent ∧
        t.m_bestAntennaConfig = trainedStation.m_bestAntennaConfig ∧
        scheduled trainedStation t =
          (if trainedStation.sim.IsExpired trainedStation.m_rssEvent = true then
            [{ uid := trainedStation.sim.nextUid,
               ts := trainedStation.sim.now +
                 (trainedStation.GetSectorSweepDuration rssFrame.sswField.countDown + trainedStation.m_mbifs),
               cb := Callback.StartResponderSectorSweep sswHdrFrom5.addr2 true (MicroSeconds 300) }]
           else [])) ∧
      (StartBeaconTransmissionInterval t).m_sectorFeedbackSent = [] ∧
      (∀ (a : Mac48Address) (x : Bool) (d : Time),
        (InitiateBeamforming a x d t).m_sectorFeedbackSent = t.m_sectorFeedbackSent ∧
        (StartResponderSectorSweep a x d t).m_sectorFeedbackSent = t.m_sectorFeedbackSent) :=
  ⟨by decide, by decide, Or.inl (by decide),
    Receive_ssw_feedback rssFrame sswHdrFrom5 trainedStation (by decide) (by decide)
      (Or.inl (by decide))⟩

/-- The RLS Request branch on an activated RDS: the sender is remembered as
the source REDS and the request is handed on. -/
theorem ReceiveAction_rls_request_rds (packet : Packet) (hdr : WifiMacHeader) (s : Mac)
    (hcat : packet.category = CategoryValue.DMG)
    (hact : packet.dmgAction = DmgActionValue.DMG_RLS_REQUEST)
    (hrds : s.m_rdsActivated = true) :
    ReceiveAction packet hdr s =
      some (emit (Effect.SetupRls 4 packet.dialogToken packet.rlsSourceAid packet.rlsRelayAid
        packet.rlsDestinationAid) { s with m_srcRedsAddress := hdr.addr2 }) := by
  unfold ReceiveAction
  simp only [hcat, hact, hrds, ↓reduceIte]

/-- The RLS Request branch on a station that is not an activated RDS (the
destination REDS): the sender is selected as relay, relayMode is set and an RLS
Response is sent to it. -/
theorem ReceiveAction_rls_request_dest (packet : Packet) (hdr : WifiMacHeader) (s : Mac)
    (hcat : packet.category = CategoryValue.DMG)
    (hact : packet.dmgAction = DmgActionValue.DMG_RLS_REQUEST)
    (hrds : s.m_rdsActivated = false) :
    ReceiveAction packet hdr s =
      some (emit (Effect.SendRlsResponse hdr.addr2 packet.dialogToken)
        { s with m_selectedRelayAddress := hdr.addr2, m_relayMode := true }) := by
  unfold ReceiveAction
  simp only [hcat, hact, hrds, Bool.false_eq_true, ↓reduceIte]

/-- The RLS Response branch on an activated RDS: the response is sent on to the
remembered source REDS and relayMode is set, whatever the status codes. -/
theorem ReceiveAction_rls_response_rds (packet : Packet) (hdr : WifiMacHeader) (s : Mac)
    (hcat : packet.category = CategoryValue.DMG)
    (hact : packet.dmgAction = DmgActionValue.DMG_RLS_RESPONSE)
    (hrds : s.m_rdsActivated = true) :
    ReceiveAction packet hdr s =
      some { emit (Effect.SendRlsResponse s.m_srcRedsAddress packet.dialogToken) s with
               m_relayMode := true } := by
  unfold ReceiveAction
  simp only [hcat, hact, hrds, ↓reduceIte]

/-- C31: RLS Response forwarding at the RDS.  An activated RDS receives an RLS
Request from the sender S (Addr2) and then an RLS Response (both pass the
address filter): the request leaves S as the remembered source REDS, and at
the response exactly one call is made, an RLS Response to S — not to the
sender of the response — with the dialog token of the received response;
nothing is scheduled or queued.  In any state of an activated RDS the
response goes to the remembered source REDS. -/
theorem rds_forwards_rls_response (request response : Packet) (hreq hresp : WifiMacHeader)
    (s : Mac)
    (hrds : s.m_rdsActivated = true)
    (hq : hreq.macType = WifiMacType.WIFI_MAC_MGT_ACTION ∨
      hreq.macType = WifiMacType.WIFI_MAC_MGT_ACTION_NO_ACK)
    (hq3 : hreq.addr3 ≠ s.address)
    (hq1 : hreq.addr1 = s.address ∨ IsGroup hreq.addr1 = true)
    (hqc : request.category = CategoryValue.DMG)
    (hqa : request.dmgAction = DmgActionValue.DMG_RLS_REQUEST)
    (hp : hresp.macType = WifiMacType.WIFI_MAC_MGT_ACTION ∨
      hresp.macType = WifiMacType.WIFI_MAC_MGT_ACTION_NO_ACK)
    (hp3 : hresp.addr3 ≠ s.address)
    (hp1 : hresp.addr1 = s.address ∨ IsGroup hresp.addr1 = true)
    (hpc : response.category = CategoryValue.DMG)
    (hpa : response.dmgAction = DmgActionValue.DMG_RLS_RESPONSE) :
    (∃ t1 t2, Receive request hreq s = some t1 ∧ t1.m_srcRedsAddress = hreq.addr2 ∧
      t1.m_rdsActivated = true ∧
      Receive response hresp t1 = some t2 ∧
      emitted t1 t2 = [Effect.SendRlsResponse hreq.addr2 response.dialogToken] ∧
      t2.sim = t1.sim ∧ t2.m_dca = t1.m_dca ∧ t2.m_low = t1.m_low ∧
      t2.m_srcRedsAddress = hreq.addr2) ∧
    (∃ t, Receive response hresp s = some t ∧
      emitted s t = [Effect.SendRlsResponse s.m_srcRedsAddress response.dialogToken]) := by
  have e1 := (Receive_action_eq request hreq s hq hq3 hq1).trans
    (ReceiveAction_rls_request_rds request hreq s hqc hqa hrds)
  have e2 : ∀ x : Mac, x.address = s.address → x.m_rdsActivated = true →
      Receive response hresp x =
        some { emit (Effect.SendRlsResponse x.m_srcRedsAddress response.dialogToken) x with
                 m_relayMode := true } := by
    intro x hx hxr
    exact (Receive_action_eq response hresp x hp (by rw [hx]; exact hp3)
      (by rw [hx]; exact hp1)).trans (ReceiveAction_rls_response_rds response hresp x hpc hpa hxr)
  refine ⟨⟨_, _, e1, rfl, hrds, e2 _ rfl hrds, ?_, rfl, rfl, rfl, rfl⟩, _, e2 s rfl hrds, ?_⟩
  · exact emitted_emit _ _
  · exact emitted_emit _ _

/-- C31, witness: the statement at the RDS `rdsRelay`, the RLS Request of the
station 5 and an RLS Response sent by the station 6. -/
theorem rds_forwards_rls_response_witness :
    rdsRelay.m_rdsActivated = true ∧
    (actionHdr.macType = WifiMacType.WIFI_MAC_MGT_ACTION ∨
      actionHdr.macType = WifiMacType.WIFI_MAC_MGT_ACTION_NO_ACK) ∧
    actionHdr.addr3 ≠ rdsRelay.address ∧
    (actionHdr.addr1 = rdsRelay.address ∨ IsGroup actionHdr.addr1 = true) ∧
    rlsRequest.category = CategoryValue.DMG ∧
    rlsRequest.dmgAction = DmgActionValue.DMG_RLS_REQUEST ∧
    (actionHdrFrom6.macType = WifiMacType.WIFI_MAC_MGT_ACTION ∨
      actionHdrFrom6.macType = WifiMacType.WIFI_MAC_MGT_ACTION_NO_ACK) ∧
    actionHdrFrom6.addr3 ≠ rdsRelay.address ∧
    (actionHdrFrom6.addr1 = rdsRelay.address ∨ IsGroup actionHdrFrom6.addr1 = true) ∧
    rlsResponseOk.category = CategoryValue.DMG ∧
    rlsResponseOk.dmgAction = DmgActionValue.DMG_RLS_RESPONSE ∧
    (∃ t1 t2, Receive rlsRequest actionHdr rdsRelay = some t1 ∧ t1.m_srcRedsAddress = actionHdr.addr2 ∧
      t1.m_rdsActivated = true ∧
      Receive rlsResponseOk actionHdrFrom6 t1 = some t2 ∧
      emitted t1 t2 = [Effect.SendRlsResponse actionHdr.addr2 rlsResponseOk.dialogToken] ∧
      t2.sim = t1.sim ∧ t2.m_dca = t1.m_dca ∧ t2.m_low = t1.m_low ∧
      t2.m_srcRedsAddress = actionHdr.addr2) ∧
    (∃ t, Receive rlsResponseOk actionHdrFrom6 rdsRelay = some t ∧
      emitted rdsRelay t = [Effect.SendRlsResponse rdsRelay.m_srcRedsAddress rlsResponseOk.dialogToken]) :=
  ⟨by decide, Or.inl (by decide), by decide, Or.inl (by decide), by decide, by decide,
    Or.inl (by decide), by decide, Or.inl (by decide), by decide, by decide,
    rds_forwards_rls_response rlsRequest rlsResponseOk actionHdr actionHdrFrom6 rdsRelay
      (by decide) (Or.inl (by decide)) (by decide) (Or.inl (by decide)) (by decide) (by decide)
      (Or.inl (by decide)) (by decide) (Or.inl (by decide)) (by decide) (by decide)⟩

/-- C36, counterexample: a station whose beacon did not set the responder-TxSS
flag, with the antenna on sector 0 of antenna 0, sends the SSW frame of sector 3
of antenna 1 with the A-BFT sender and with the RSS sender: the frame is handed
to the transmitter with the antenna still on sector 0 of antenna 0. -/
theorem responder_sweep_without_txss_leaves_antenna :
    initialMac.m_isResponderTXSS = false ∧
    (initialMac.antenna.currentTxSectorID, initialMac.antenna.currentTxAntennaID) = (0, 0) ∧
    lastTxAntenna (SendSectorSweepFrame 9 BeamformingDirection.BeamformingResponder 3 1 5
      initialMac) = some (0, 0) ∧
    lastTxAntenna (SendRssSectorSweepFrame 9 BeamformingDirection.BeamformingResponder 3 1 5
      initialMac) = some (0, 0) ∧
    ((SendSectorSweepFrame 9 BeamformingDirection.BeamformingResponder 3 1 5
      initialMac).m_low.map Transmission.sweepFields) = [some (3, 1, 5)] := by
  decide

/-- C36, amended: the antenna setting at the call of `StartTransmission` in
the three SSW senders called with (sectorID, antennaID).  Each hands exactly
one frame to the transmitter.  `SendIssSectorSweepFrame` always has the
antenna on (sectorID, antennaID); `SendRssSectorSweepFrame` and
`SendSectorSweepFrame` have it there when the responder-TxSS flag of the beacon
is set, and otherwise leave the antenna where it was. -/
theorem ssw_senders_antenna (address : Mac48Address) (direction : BeamformingDirection)
    (sectorID antennaID count : Nat) (s : Mac) :
    (∃ tx, (SendIssSectorSweepFrame address direction sectorID antennaID count s).m_low
        = s.m_low ++ [tx] ∧
      tx.txSector = sectorID ∧ tx.txAntenna = antennaID ∧
      (SendIssSectorSweepFrame address direction sectorID antennaID count
        s).antenna.currentTxSectorID = sectorID ∧
      (SendIssSectorSweepFrame address direction sectorID antennaID count
        s).antenna.currentTxAntennaID = antennaID) ∧
    (∃ tx, (SendRssSectorSweepFrame address direction sectorID antennaID count s).m_low
        = s.m_low ++ [tx] ∧
      tx.txSector = (if s.m_isResponderTXSS = true then sectorID
        else s.antenna.currentTxSectorID) ∧
      tx.txAntenna = (if s.m_isResponderTXSS = true then antennaID
        else s.antenna.currentTxAntennaID) ∧
      (SendRssSectorSweepFrame address direction sectorID antennaID count s).antenna =
        (if s.m_isResponderTXSS = true then
          (s.antenna.SetCurrentTxSectorID sectorID).SetCurrentTxAntennaID antennaID
         else s.antenna)) ∧
    (∃ tx, (SendSectorSweepFrame address direction sectorID antennaID count s).m_low
        = s.m_low ++ [tx] ∧
      tx.txSector = (if s.m_isResponderTXSS = true then sectorID
        else s.antenna.currentTxSectorID) ∧
      tx.txAntenna = (if s.m_isResponderTXSS = true then antennaID
        else s.antenna.currentTxAntennaID) ∧
      (SendSectorSweepFrame address direction sectorID antennaID count s).antenna =
        (if s.m_isResponderTXSS = true then
          (s.antenna.SetCurrentTxSectorID sectorID).SetCurrentTxAntennaID antennaID
         else s.antenna)) := by
  refine ⟨⟨_, rfl, rfl, rfl, rfl, rfl⟩, ?_, ?_⟩
  · by_cases h : s.m_isResponderTXSS = true
    · unfold SendRssSectorSweepFrame StartTransmission
      simp only [h, ↓reduceIte]
      exact ⟨_, rfl, rfl, rfl, trivial⟩
    · have hf : s.m_isResponderTXSS = false := by simpa using h
      unfold SendRssSectorSweepFrame StartTransmission
      simp only [hf, Bool.false_eq_true, ↓reduceIte]
      exact ⟨_, rfl, rfl, rfl, trivial⟩
  · by_cases h : s.m_isResponderTXSS = true
    · unfold SendSectorSweepFrame StartTransmission
      simp only [h, ↓reduceIte]
      exact ⟨_, rfl, rfl, rfl, trivial⟩
    · have hf : s.m_isResponderTXSS = false := by simpa using h
      unfold SendSectorSweepFrame StartTransmission
      simp only [hf, Bool.false_eq_true, ↓reduceIte]
      exact ⟨_, rfl, rfl, rfl, trivial⟩

/-- C39, the code at the failing input: 100 microseconds into an allocation of
300 microseconds the remaining allocation time is 200 microseconds, and it is
the duration of the SSW-FBCK the station sends; the SSW-ACK it sends carries
the whole allocation length, 300 microseconds, as header duration and as
overridden Duration/ID. -/
theorem ssw_ack_duration_is_allocation_length :
    GetRemainingAllocationTime ackingStation = 200000 ∧
    ackingStation.m_currentAllocationLength = 300000 ∧
    lastDurations (SendSswFbckFrame 5 ackingStation)
      = some (WifiMacType.WIFI_MAC_CTL_DMG_SSW_FBCK, 200000, 200000) ∧
    (SendSswAckFrame 5 ackingStation).map lastDurations
      = some (some (WifiMacType.WIFI_MAC_CTL_DMG_SSW_ACK, 300000, 300000)) := by
  decide

/-- Membership in the list of SP-reachable stations, as `Enqueue` tests it. -/
theorem any_eq_mem (l : List Mac48Address) (dest : Mac48Address) :
    l.any (fun a => a == dest) = true ↔ dest ∈ l := by
  rw [List.any_eq_true]
  constructor
  · rintro ⟨x, hx, hxd⟩
    have : x = dest := by simpa using hxd
    rw [← this]
    exact hx
  · intro h
    exact ⟨dest, h, by simp⟩

/-- From `SetState` between two states other than ASSOCIATED only writes the state. -/
theorem SetState_of_ne (v : MacState) (x : Mac) (hv : v ≠ MacState.ASSOCIATED)
    (hx : x.m_state ≠ MacState.ASSOCIATED) : SetState v x = { x with m_state := v } := by
  have h1 : ¬ (v = MacState.ASSOCIATED ∧ x.m_state ≠ MacState.ASSOCIATED) := fun h => hv h.1
  have h2 : ¬ (v ≠ MacState.ASSOCIATED ∧ x.m_state = MacState.ASSOCIATED) := fun h => hx h.2
  exact (if_neg h1).trans (if_neg h2)

/-- From `Enqueue` on an associated station. -/
theorem Enqueue_associated (packet packetTid : Nat) (dest : Mac48Address) (s : Mac)
    (h : s.m_state = MacState.ASSOCIATED) :
    Enqueue packet packetTid dest s =
      if dest ∈ s.m_spStations then
        { s with m_sp := s.m_sp ++
            [{ hdr := enqueueHeader dest (if packetTid > 7 then 0 else packetTid) s,
               body := TxBody.Msdu packet }] }
      else
        { s with m_edca := s.m_edca ++
            [(QosUtilsMapTidToAc (if packetTid > 7 then 0 else packetTid),
              { hdr := enqueueHeader dest (if packetTid > 7 then 0 else packetTid) s,
                body := TxBody.Msdu packet })] } := by
  have ha : ¬ ((!IsAssociated s) = true) := by simp [IsAssociated, h]
  have e : Enqueue packet packetTid dest s = _ := if_neg ha
  rw [e]
  by_cases hm : dest ∈ s.m_spStations
  · rw [if_pos hm, if_pos ((any_eq_mem _ _).mpr hm)]
    rfl
  · rw [if_neg hm, if_neg (fun hx => hm ((any_eq_mem _ _).mp hx))]
    rfl

/-- From `Enqueue` on a station that is not associated: the packet is dropped
and the association procedure is woken; no queue other than the management
queue is touched, and that one receives at most a probe request. -/
theorem Enqueue_unassociated (packet packetTid : Nat) (dest : Mac48Address) (s : Mac)
    (h : s.m_state ≠ MacState.ASSOCIATED) :
    Enqueue packet packetTid dest s = TryToEnsureAssociated (emit Effect.NotifyTxDrop s) ∧
    (Enqueue packet packetTid dest s).m_sp = s.m_sp ∧
    (Enqueue packet packetTid dest s).m_edca = s.m_edca ∧
    (Enqueue packet packetTid dest s).m_dmgAtiDca = s.m_dmgAtiDca ∧
    (Enqueue packet packetTid dest s).m_low = s.m_low ∧
    (Enqueue packet packetTid dest s).m_dca =
      s.m_dca ++ (if s.m_state = MacState.BEACON_MISSED ∧ s.m_activeProbing = true then
        [probeRequestFrame s] else []) ∧
    (Enqueue packet packetTid dest s).log =
      s.log ++ Effect.NotifyTxDrop ::
        (if s.m_state = MacState.BEACON_MISSED then [Effect.LinkDown] else []) := by
  have ha : (!IsAssociated s) = true := by simp [IsAssociated, h]
  have e : Enqueue packet packetTid dest s = _ := if_pos ha
  rw [e]
  refine ⟨rfl, ?_⟩
  by_cases hb : s.m_state = MacState.BEACON_MISSED
  · have hb1 : (emit Effect.NotifyTxDrop s).m_state = MacState.BEACON_MISSED := hb
    rw [TryToEnsureAssociated_of_beaconMissed _ hb1]
    by_cases hp : s.m_activeProbing = true
    · have hp2 : (emit Effect.NotifyTxDrop s).m_activeProbing = true := hp
      rw [if_pos hp2, if_pos ⟨hb, hp⟩, if_pos hb]
      have hb3 : (emit Effect.LinkDown (emit Effect.NotifyTxDrop s)).m_state
          ≠ MacState.ASSOCIATED := h
      rw [SendProbeRequest_eq, SetState_of_ne _ _ (by decide) hb3]
      exact ⟨rfl, rfl, rfl, rfl, rfl, by simp [emit]⟩
    · have hp2 : ¬ (emit Effect.NotifyTxDrop s).m_activeProbing = true := hp
      rw [if_neg hp2, if_neg (fun hx => hp hx.2), if_pos hb]
      exact ⟨rfl, rfl, rfl, rfl, by simp [emit], by simp [emit]⟩
  · have hb2 : (emit Effect.NotifyTxDrop s).m_state ≠ MacState.BEACON_MISSED := hb
    rw [TryToEnsureAssociated_of_ne _ hb2, if_neg (fun hx => hb hx.1), if_neg hb]
    exact ⟨rfl, rfl, rfl, rfl, by simp [emit], by simp [emit]⟩

/-- C40: `Enqueue` places a packet on exactly one queue when the station is
associated and on none otherwise.  Not ASSOCIATED: the tx-drop trace is raised
and `TryToEnsureAssociated` runs; the Service Period queue, the contention
queues, the ATI queue and the transmitter are untouched, and the management
queue receives no data frame (only the probe request `TryToEnsureAssociated`
may send).  ASSOCIATED: nothing changes but one queue, which receives one QoS
Data frame with the packet: the Service Period queue when the destination is in
the SP-reachable list, and otherwise the contention queue of the access class
mapped from the TID of the packet, a TID greater than 7 being replaced by 0. -/
theorem Enqueue_spec (packet packetTid : Nat) (dest : Mac48Address) (s : Mac) :
    if s.m_state = MacState.ASSOCIATED then
      (enqueueHeader dest (if packetTid > 7 then 0 else packetTid) s).qosTid
        = (if packetTid > 7 then 0 else packetTid) ∧
      (enqueueHeader dest (if packetTid > 7 then 0 else packetTid) s).macType
        = WifiMacType.WIFI_MAC_QOSDATA ∧
      Enqueue packet packetTid dest s =
        if dest ∈ s.m_spStations then
          { s with m_sp := s.m_sp ++
              [{ hdr := enqueueHeader dest (if packetTid > 7 then 0 else packetTid) s,
                 body := TxBody.Msdu packet }] }
        else
          { s with m_edca := s.m_edca ++
              [(QosUtilsMapTidToAc (if packetTid > 7 then 0 else packetTid),
                { hdr := enqueueHeader dest (if packetTid > 7 then 0 else packetTid) s,
                  body := TxBody.Msdu packet })] }
    else
      Enqueue packet packetTid dest s = TryToEnsureAssociated (emit Effect.NotifyTxDrop s) ∧
      (emitted s (Enqueue packet packetTid dest s)).head? = some Effect.NotifyTxDrop ∧
      (Enqueue packet packetTid dest s).m_sp = s.m_sp ∧
      (Enqueue packet packetTid dest s).m_edca = s.m_edca ∧
      (Enqueue packet packetTid dest s).m_dmgAtiDca = s.m_dmgAtiDca ∧
      (Enqueue packet packetTid dest s).m_low = s.m_low ∧
      (∀ f ∈ queued s (Enqueue packet packetTid dest s), f = probeRequestFrame s) := by
  by_cases h : s.m_state = MacState.ASSOCIATED
  · rw [if_pos h]
    refine ⟨?_, ?_, Enqueue_associated packet packetTid dest s h⟩
    · unfold enqueueHeader SetHeaderAddresses
      split_ifs <;> rfl
    · unfold enqueueHeader SetHeaderAddresses
      split_ifs <;> rfl
  · rw [if_neg h]
    obtain ⟨e, h1, h2, h3, h4, h5, h6⟩ := Enqueue_unassociated packet packetTid dest s h
    refine ⟨e, ?_, h1, h2, h3, h4, ?_⟩
    · unfold emitted
      rw [h6, drop_length_append]
      rfl
    · intro f hf
      unfold queued at hf
      rw [h5, drop_length_append] at hf
      split_ifs at hf
      · exact List.mem_singleton.mp hf
      · cases hf

/-- C32, counterexample: a station that has trained with no peer (its
best-configuration table is empty) starts a DTI whose schedule holds Service
Periods of which it is the source; the destinations, among them the zero
address for an AID it does not know, become SP-reachable, and a packet for the
station 66 is placed on the Service Period queue although the table holds no
entry for 66. -/
theorem sp_queue_without_trained_configuration :
    untrainedStation.m_bestAntennaConfig = [] ∧
    (StartDataTransmissionInterval untrainedStation).m_spStations = [66, 0] ∧
    (StartDataTransmissionInterval untrainedStation).m_bestAntennaConfig = [] ∧
    ((Enqueue 1 0 66 (StartDataTransmissionInterval untrainedStation)).m_sp.map
      (fun f => (f.hdr.addr3, f.body))) = [(66, TxBody.Msdu 1)] ∧
    mapFind (Enqueue 1 0 66 (StartDataTransmissionInterval untrainedStation)).m_bestAntennaConfig
      66 = none := by
  decide

/-- C32, amended: the Service Period queue is chosen by the SP-reachable list
alone.  On an associated station `Enqueue` places the Data frame for `peer` on
the Service Period queue exactly when `peer` is in the SP-reachable list,
whatever the best-configuration table holds, and leaves the table as it is; and
the walk over the DTI schedule adds, for a Service Period allocation without
beamforming whose source is the station, the address the AID map gives for the
destination AID (the zero address for an unknown AID), again whatever the table
holds. -/
theorem sp_queue_follows_sp_stations (packet packetTid : Nat) (peer : Mac48Address)
    (alloc : AllocationField) (s : Mac)
    (table : List (Mac48Address × BestAntennaConfig))
    (ha : s.m_state = MacState.ASSOCIATED)
    (hsp : alloc.allocationType = AllocationType.SERVICE_PERIOD_ALLOCATION)
    (hsrc : alloc.sourceAid = s.m_aid)
    (hbf : alloc.bfControl.isBeamformTraining = false) :
    ((Enqueue packet packetTid peer { s with m_bestAntennaConfig := table }).m_sp =
        s.m_sp ++ (if peer ∈ s.m_spStations then
          [{ hdr := enqueueHeader peer (if packetTid > 7 then 0 else packetTid) s,
             body := TxBody.Msdu packet }] else [])) ∧
    (Enqueue packet packetTid peer { s with m_bestAntennaConfig := table }).m_bestAntennaConfig
      = table ∧
    (dtiAllocation alloc { s with m_bestAntennaConfig := table }).m_spStations =
      s.m_spStations ++ [mapIndex s.m_aidMap alloc.destinationAid 0] ∧
    (dtiAllocation alloc { s with m_bestAntennaConfig := table }).m_bestAntennaConfig
      = table := by
  have e := Enqueue_associated packet packetTid peer { s with m_bestAntennaConfig := table } ha
  have d := dtiAllocation_source_sp alloc { s with m_bestAntennaConfig := table } hsp hsrc hbf
  rw [e, d]
  refine ⟨?_, ?_, rfl, rfl⟩
  · by_cases hm : peer ∈ s.m_spStations
    · have hm2 : peer ∈ ({ s with m_bestAntennaConfig := table } : Mac).m_spStations := hm
      rw [if_pos hm2, if_pos hm]
      rfl
    · have hm2 : ¬ peer ∈ ({ s with m_bestAntennaConfig := table } : Mac).m_spStations := hm
      rw [if_neg hm2, if_neg hm]
      exact (List.append_nil _).symm
  · split_ifs <;> rfl

/-- C32, witness: the statement at the station `untrainedStation`, its Service
Period toward the station with AID 6 and the empty table. -/
theorem sp_queue_follows_sp_stations_witness :
    untrainedStation.m_state = MacState.ASSOCIATED ∧
    spFrom5To6.allocationType = AllocationType.SERVICE_PERIOD_ALLOCATION ∧
    spFrom5To6.sourceAid = untrainedStation.m_aid ∧
    spFrom5To6.bfControl.isBeamformTraining = false ∧
    ((Enqueue 1 0 66 { untrainedStation with m_bestAntennaConfig := [] }).m_sp =
        untrainedStation.m_sp ++ (if 66 ∈ untrainedStation.m_spStations then
          [{ hdr := enqueueHeader 66 (if 0 > 7 then 0 else 0) untrainedStation,
             body := TxBody.Msdu 1 }] else [])) ∧
    (Enqueue 1 0 66 { untrainedStation with m_bestAntennaConfig := [] }).m_bestAntennaConfig
      = [] ∧
    (dtiAllocation spFrom5To6 { untrainedStation with m_bestAntennaConfig := [] }).m_spStations =
      untrainedStation.m_spStations ++ [mapIndex untrainedStation.m_aidMap spFrom5To6.destinationAid 0] ∧
    (dtiAllocation spFrom5To6 { untrainedStation with m_bestAntennaConfig := [] }).m_bestAntennaConfig
      = [] :=
  ⟨by decide, by decide, by decide, by decide,
    sp_queue_follows_sp_stations 1 0 66 spFrom5To6 untrainedStation [] (by decide) (by decide)
      (by decide) (by decide)⟩

/-- A key just set is present, so evaluating `m[k]` adds nothing. -/
theorem mapIndex_mapSet {K V : Type} [DecidableEq K] (m : List (K × V)) (k : K) (v d : V) :
    mapIndex (mapSet m k v) k d = v := by
  unfold mapIndex
  rw [mapFind_mapSet]
  rfl

/-- The SSW branch of `Receive`: what it does to the address, the
best-configuration table and the feedback tracking entry of the sender. -/
theorem ReceiveSsw_table (packet : Packet) (hdr : WifiMacHeader) (s : Mac) :
    (ReceiveSsw packet hdr s).address = s.address ∧
    (ReceiveSsw packet hdr s).m_bestAntennaConfig =
      (if packet.sswField.direction = BeamformingDirection.BeamformingResponder ∧
          mapIndex s.m_sectorFeedbackSent hdr.addr2 false = false then
        mapSet s.m_bestAntennaConfig hdr.addr2
          ((packet.sswFeedbackField.sector, packet.sswFeedbackField.antenna), (0, 0))
       else s.m_bestAntennaConfig) ∧
    mapIndex (ReceiveSsw packet hdr s).m_sectorFeedbackSent hdr.addr2 false =
      (if packet.sswField.direction = BeamformingDirection.BeamformingResponder then true
       else mapIndex s.m_sectorFeedbackSent hdr.addr2 false) := by
  by_cases hd : packet.sswField.direction = BeamformingDirection.BeamformingResponder
  · by_cases hs : mapIndex s.m_sectorFeedbackSent hdr.addr2 false = false
    · have hs2 : (!mapIndex (MapTxSnr hdr.addr2 packet.sswField.sectorID
          packet.sswField.antennaID packet.rxSnr s).m_sectorFeedbackSent hdr.addr2 false)
          = true := by
        show (!mapIndex s.m_sectorFeedbackSent hdr.addr2 false) = true
        rw [hs]; rfl
      have e : ReceiveSsw packet hdr s = _ := (if_pos hd).trans (if_pos hs2)
      rw [e, if_pos ⟨hd, hs⟩, if_pos hd]
      refine ⟨rfl, rfl, ?_⟩
      exact mapIndex_mapSet _ _ _ _
    · have ht : mapIndex s.m_sectorFeedbackSent hdr.addr2 false = true := by simpa using hs
      have hs2 : ¬ (!mapIndex (MapTxSnr hdr.addr2 packet.sswField.sectorID
          packet.sswField.antennaID packet.rxSnr s).m_sectorFeedbackSent hdr.addr2 false)
          = true := by
        show ¬ (!mapIndex s.m_sectorFeedbackSent hdr.addr2 false) = true
        rw [ht]; simp
      have e : ReceiveSsw packet hdr s = _ := (if_pos hd).trans (if_neg hs2)
      rw [e, if_neg (fun hx => hs hx.2), if_pos hd]
      refine ⟨rfl, rfl, ?_⟩
      show mapIndex (mapTouch s.m_sectorFeedbackSent hdr.addr2 false) hdr.addr2 false = true
      rw [mapIndex_mapTouch_dflt, ht]
  · have e : ReceiveSsw packet hdr s = _ := if_neg hd
    have hn : ¬ (packet.sswField.direction = BeamformingDirection.BeamformingResponder ∧
        mapIndex s.m_sectorFeedbackSent hdr.addr2 false = false) := fun hx => hd hx.1
    rw [if_neg hn, if_neg hd, e]
    unfold MapTxSnr
    split_ifs <;> exact ⟨rfl, rfl, rfl⟩

/-- C37, counterexample: a station whose best configuration toward the peer 5
is sector 1 of antenna 1 receives one SSW frame of a responder sweep of the
peer, and no SSW-FBCK: the entry of the peer in the best-configuration table is
overwritten with the feedback field of that SSW frame. -/
theorem ssw_reception_writes_best_config :
    trainedStation.m_bestAntennaConfig = [(5, ((1, 1), (0, 0)))] ∧
    sswHdrFrom5.macType = WifiMacType.WIFI_MAC_CTL_DMG_SSW ∧
    (run [Op.Receive rssFrame sswHdrFrom5] trainedStation).map (fun t => t.m_bestAntennaConfig)
      = some [(5, ((6, 2), (0, 0)))] := by
  decide

/-- C37, amended: the best-configuration table over the SSW frames of an
exchange with the peer P.  For SSW frames from P that pass the address filter,
received one after the other with no SSW-FBCK, the table is left as it was when
feedback to P was already tracked as sent or when no frame belongs to a
responder sweep; otherwise the entry of P is written once, with the feedback
field of the first frame that belongs to a responder sweep (receive part
(0, 0)), and the further frames leave it.  Sending the SSW-FBCK or the SSW-ACK
to P evaluates the entry of P, which adds the zero configuration when P has no
entry. -/
theorem ssw_frames_and_best_config (P : Mac48Address) (frames : List (Packet × WifiMacHeader))
    (s : Mac)
    (hf : ∀ f ∈ frames, f.2.macType = WifiMacType.WIFI_MAC_CTL_DMG_SSW ∧ f.2.addr2 = P ∧
      f.2.addr3 ≠ s.address ∧ (f.2.addr1 = s.address ∨ IsGroup f.2.addr1 = true)) :
    (∃ t, run (receiveAll frames) s = some t ∧
      t.m_bestAntennaConfig =
        (if mapIndex s.m_sectorFeedbackSent P false = false then
          match firstResponderSsw frames with
          | some f =>
            mapSet s.m_bestAntennaConfig P
              ((f.1.sswFeedbackField.sector, f.1.sswFeedbackField.antenna), (0, 0))
          | none => s.m_bestAntennaConfig
         else s.m_bestAntennaConfig)) ∧
    (SendSswFbckFrame P s).m_bestAntennaConfig =
      mapTouch s.m_bestAntennaConfig P ((0, 0), (0, 0)) ∧
    (∀ t, SendSswAckFrame P s = some t →
      t.m_bestAntennaConfig = mapTouch s.m_bestAntennaConfig P ((0, 0), (0, 0))) := by
  refine ⟨?_, rfl, ?_⟩
  · induction frames generalizing s with
    | nil =>
      refine ⟨s, rfl, ?_⟩
      show s.m_bestAntennaConfig = if _ then s.m_bestAntennaConfig else s.m_bestAntennaConfig
      split_ifs <;> rfl
    | cons f rest ih =>
      obtain ⟨h1, h2, h3, h4⟩ := hf f (List.mem_cons_self _ _)
      obtain ⟨ha, htab, hflag⟩ := ReceiveSsw_table f.1 f.2 s
      rw [h2] at htab hflag
      have hrest : ∀ g ∈ rest, g.2.macType = WifiMacType.WIFI_MAC_CTL_DMG_SSW ∧ g.2.addr2 = P ∧
          g.2.addr3 ≠ (ReceiveSsw f.1 f.2 s).address ∧
          (g.2.addr1 = (ReceiveSsw f.1 f.2 s).address ∨ IsGroup g.2.addr1 = true) := by
        intro g hg
        rw [ha]
        exact hf g (List.mem_cons_of_mem _ hg)
      obtain ⟨t, hrun, ht⟩ := ih (ReceiveSsw f.1 f.2 s) hrest
      refine ⟨t, ?_, ?_⟩
      · show (Receive f.1 f.2 s).bind (run (receiveAll rest)) = some t
        rw [Receive_ssw_eq f.1 f.2 s h1 h3 h4]
        exact hrun
      · rw [ht, hflag, htab]
        by_cases hd : f.1.sswField.direction = BeamformingDirection.BeamformingResponder
        · have hfind : firstResponderSsw (f :: rest) = some f := by
            unfold firstResponderSsw
            rw [List.find?_cons_of_pos _ (by simpa using hd)]
          have hne : ¬ (true = false) := by simp
          rw [if_pos hd, hfind, if_neg hne]
          by_cases hs : mapIndex s.m_sectorFeedbackSent P false = false
          · have hc : f.1.sswField.direction = BeamformingDirection.BeamformingResponder ∧
                mapIndex s.m_sectorFeedbackSent P false = false := ⟨hd, hs⟩
            rw [if_pos hc, if_pos hs]
          · have hc : ¬ (f.1.sswField.direction = BeamformingDirection.BeamformingResponder ∧
                mapIndex s.m_sectorFeedbackSent P false = false) := fun hx => hs hx.2
            rw [if_neg hc, if_neg hs]
        · have hfind : firstResponderSsw (f :: rest) = firstResponderSsw rest := by
            unfold firstResponderSsw
            rw [List.find?_cons_of_neg _ (by simpa using hd)]
          have hc : ¬ (f.1.sswField.direction = BeamformingDirection.BeamformingResponder ∧
              mapIndex s.m_sectorFeedbackSent P false = false) := fun hx => hd hx.1
          rw [if_neg hd, hfind, if_neg hc]
  · intro t ht
    unfold SendSswAckFrame at ht
    simp only [] at ht
    split_ifs at ht
    · rw [← Option.some.inj ht]
      rfl

/-- C37, witness: the statement at the station `trainedStation` and three SSW
frames of the station 5, the second of a responder sweep. -/
theorem ssw_frames_and_best_config_witness :
    (∀ f ∈ [(issFrame, sswHdrFrom5), (rssFrame, sswHdrFrom5), (issFrame, sswHdrFrom5)],
      f.2.macType = WifiMacType.WIFI_MAC_CTL_DMG_SSW ∧ f.2.addr2 = 5 ∧
      f.2.addr3 ≠ trainedStation.address ∧
      (f.2.addr1 = trainedStation.address ∨ IsGroup f.2.addr1 = true)) ∧
    (∃ t, run (receiveAll [(issFrame, sswHdrFrom5), (rssFrame, sswHdrFrom5), (issFrame, sswHdrFrom5)]) trainedStation = some t ∧
      t.m_bestAntennaConfig =
        (if mapIndex trainedStation.m_sectorFeedbackSent 5 false = false then
          match firstResponderSsw [(issFrame, sswHdrFrom5), (rssFrame, sswHdrFrom5), (issFrame, sswHdrFrom5)] with
          | some f =>
            mapSet trainedStation.m_bestAntennaConfig 5
              ((f.1.sswFeedbackField.sector, f.1.sswFeedbackField.antenna), (0, 0))
          | none => trainedStation.m_bestAntennaConfig
         else trainedStation.m_bestAntennaConfig)) ∧
    (SendSswFbckFrame 5 trainedStation).m_bestAntennaConfig =
      mapTouch trainedStation.m_bestAntennaConfig 5 ((0, 0), (0, 0)) ∧
    (∀ t, SendSswAckFrame 5 trainedStation = some t →
      t.m_bestAntennaConfig = mapTouch trainedStation.m_bestAntennaConfig 5 ((0, 0), (0, 0))) :=
  ⟨by decide,
    ssw_frames_and_best_config 5
      [(issFrame, sswHdrFrom5), (rssFrame, sswHdrFrom5), (issFrame, sswHdrFrom5)]
      trainedStation (by decide)⟩

/-- C33, the code at the failing input: a beacon announces an A-BFT of one slot
followed by an ATI.  The first A-BFT entry (event 0) schedules the ATI start
(event 2) and the fallback (event 3) for the same instant, 1991000.  The ATI
start runs first and schedules the DTI start (event 4); the fallback re-entry
then schedules a second ATI start (event 6), 144000 later.  Without an ATI the
same run schedules the DTI start once. -/
theorem abft_fallback_at_end_schedules_second_ati :
    (run [Op.Receive beaconOneSlotAti beaconHdr, Op.RunEvent 0 0] initialMac).map
        (fun t => (nextPhaseStarts t, t.sim.events.filter (fun e => e.cb.isAbftStart)))
      = some ([{ uid := 2, ts := 1991000, cb := Callback.StartAnnouncementTransmissionInterval }],
          [{ uid := 3, ts := 1991000, cb := Callback.StartAssociationBeamformTraining }]) ∧
    (run [Op.Receive beaconOneSlotAti beaconHdr, Op.RunEvent 0 0, Op.RunEvent 1 0,
          Op.RunEvent 2 0] initialMac).map
        (fun t => (t.sim.now, t.m_scheduledPeriodAfterAbft, nextPhaseStarts t))
      = some (1991000, false,
          [{ uid := 4, ts := 2291000, cb := Callback.StartDataTransmissionInterval }]) ∧
    (run [Op.Receive beaconOneSlotAti beaconHdr, Op.RunEvent 0 0, Op.RunEvent 1 0,
          Op.RunEvent 2 0, Op.RunEvent 3 0] initialMac).map
        (fun t => (t.sim.now, t.m_accessPeriod, nextPhaseStarts t))
      = some (1991000, ChannelAccessPeriod.CHANNEL_ACCESS_A_BFT,
          [{ uid := 4, ts := 2291000, cb := Callback.StartDataTransmissionInterval },
           { uid := 6, ts := 2135000, cb := Callback.StartAnnouncementTransmissionInterval }]) ∧
    (run [Op.Receive beaconOneSlot beaconHdr, Op.RunEvent 0 0] initialMac).map nextPhaseStarts
      = some [{ uid := 2, ts := 1991000, cb := Callback.StartDataTransmissionInterval }] ∧
    (run [Op.Receive beaconOneSlot beaconHdr, Op.RunEvent 0 0, Op.RunEvent 1 0,
          Op.RunEvent 2 0, Op.RunEvent 3 0] initialMac).map nextPhaseStarts
      = some [] := by
  decide

/-- The scheduler counter and the slot timing after `StartAssociationBeamformTraining`. -/
theorem StartAssociationBeamformTraining_timing (slot : Nat) (s : Mac) :
    (StartAssociationBeamformTraining slot s).sim.nextUid =
      (if s.m_remainingSlotsPerABFT > 0 then
         (if s.m_scheduledPeriodAfterAbft = true then s.sim.nextUid + 1 + 1
          else s.sim.nextUid + 1 + 1 + 1)
       else
         (if s.m_scheduledPeriodAfterAbft = true then s.sim.nextUid + 1
          else s.sim.nextUid + 1 + 1)) ∧
    (StartAssociationBeamformTraining slot s).GetSectorSweepSlotTime = s.GetSectorSweepSlotTime ∧
    (StartAssociationBeamformTraining slot s).m_ssFramesPerSlot = s.m_ssFramesPerSlot := by
  by_cases hr : s.m_remainingSlotsPerABFT > 0 <;>
  rcases hsch : s.m_scheduledPeriodAfterAbft with _ | _ <;>
  rcases hati : s.m_atiPresent with _ | _ <;>
  · unfold StartAssociationBeamformTraining Schedule GetBssid nextEventId Simulator.Schedule
    simp only [hr, hsch, hati, Bool.not_true, Bool.not_false, Bool.false_eq_true, ↓reduceIte,
      and_self, and_true, true_and]

/-- The slots used by entries in range do not exceed the remaining slots. -/
theorem slotsUsed_le (slots : List Nat) :
    ∀ r, slotsInRange r slots = true → slotsUsed slots ≤ r ∧ slots.length ≤ slotsUsed slots := by
  induction slots with
  | nil => intro r _; exact ⟨Nat.zero_le _, Nat.le_refl _⟩
  | cons slot rest ih =>
    intro r h
    simp only [slotsInRange, Bool.and_eq_true, decide_eq_true_eq] at h
    obtain ⟨h1, h2⟩ := ih _ h.2
    simp only [slotsUsed, List.length_cons]
    omega

/-- A re-entry of the A-BFT in range: the period after the A-BFT is already
scheduled, so exactly a Responder Sector Sweep, in the chosen slot, and the
next fallback, after it, are scheduled, and the slots used are taken off the
remaining ones. -/
theorem StartAssociationBeamformTraining_retry (slot : Nat) (x : Mac)
    (hflag : x.m_scheduledPeriodAfterAbft = true)
    (hslot : slot + 1 ≤ x.m_remainingSlotsPerABFT) (h8 : x.m_remainingSlotsPerABFT < 256) :
    (StartAssociationBeamformTraining slot x).sim.events =
      x.sim.events ++
        [{ uid := x.sim.nextUid,
           ts := x.sim.now + (slot : Int) * x.GetSectorSweepSlotTime x.m_ssFramesPerSlot,
           cb := Callback.StartResponderSectorSweep x.m_bssid x.m_isResponderTXSS
                   (x.GetSectorSweepDuration x.m_ssFramesPerSlot) }] ++
        [{ uid := x.sim.nextUid + 1,
           ts := x.sim.now + ((slot : Int) + 1) * x.GetSectorSweepSlotTime x.m_ssFramesPerSlot,
           cb := Callback.StartAssociationBeamformTraining }] ∧
    (StartAssociationBeamformTraining slot x).sim.nextUid = x.sim.nextUid + 1 + 1 ∧
    (StartAssociationBeamformTraining slot x).m_sswFbckTimeout = some (x.sim.nextUid + 1) ∧
    (StartAssociationBeamformTraining slot x).m_remainingSlotsPerABFT + (slot + 1)
      = x.m_remainingSlotsPerABFT ∧
    (StartAssociationBeamformTraining slot x).m_scheduledPeriodAfterAbft = true ∧
    (StartAssociationBeamformTraining slot x).GetSectorSweepSlotTime
      (StartAssociationBeamformTraining slot x).m_ssFramesPerSlot
      = x.GetSectorSweepSlotTime x.m_ssFramesPerSlot := by
  obtain ⟨hev, hto, hrem, -, -, hfl, -⟩ := StartAssociationBeamformTraining_fields slot x
  obtain ⟨hnu, hg, hf⟩ := StartAssociationBeamformTraining_timing slot x
  have hpos : x.m_remainingSlotsPerABFT > 0 := by omega
  have hmod := UniformRandomVariable.GetInteger_of_lt slot x.m_remainingSlotsPerABFT hslot h8
  rw [if_pos hpos, if_pos hflag] at hev hto hnu
  rw [if_pos hflag] at hev
  rw [if_pos hpos] at hrem
  rw [hmod] at hev hrem
  refine ⟨?_, hnu, hto, ?_, hfl, ?_⟩
  · rw [hev, List.append_nil, List.append_assoc]
  · rw [hrem]; omega
  · rw [hg, hf]

/-- The chain of fallbacks of one A-BFT, from a station whose fallback is the
event scheduled last: `k` slots are used up, the fallback is due at the end of
slot `k - 1` (counted from the first entry at `T0`), and the sweeps scheduled
so far start in slots below `n`.  Every re-entry in range preserves this. -/
theorem abftFallbacks_spec (n : Nat) (T0 d : Time) (u0 : Nat) (hn : n < 256) :
    ∀ (slots : List Nat) (x : Mac) (k c : Nat) (old : List Event) (u : Nat),
      x.sim.events = old ++ [{ uid := u, ts := T0 + (k : Int) * d,
                               cb := Callback.StartAssociationBeamformTraining }] →
      (∀ e ∈ old, e.uid < u) → u0 ≤ u →
      x.sim.nextUid = u + 1 → x.m_sswFbckTimeout = some u →
      x.m_remainingSlotsPerABFT + k = n →
      x.m_scheduledPeriodAfterAbft = true →
      x.GetSectorSweepSlotTime x.m_ssFramesPerSlot = d →
      slotsInRange x.m_remainingSlotsPerABFT slots = true →
      (old.filter (fun e => decide (u0 ≤ e.uid))).filter (fun e => e.cb.isAbftStart) = [] →
      (∀ e ∈ (old.filter (fun e => decide (u0 ≤ e.uid))).filter
          (fun e => e.cb.isResponderSectorSweep),
        ∃ j : Nat, j < n ∧ e.ts = T0 + (j : Int) * d) →
      ((old.filter (fun e => decide (u0 ≤ e.uid))).filter
          (fun e => e.cb.isResponderSectorSweep)).length = c →
      ∃ t old2 u2, abftFallbacks slots x = some t ∧
        t.sim.events = old2 ++ [{ uid := u2, ts := T0 + ((k + slotsUsed slots : Nat) : Int) * d,
                                  cb := Callback.StartAssociationBeamformTraining }] ∧
        u0 ≤ u2 ∧
        t.m_remainingSlotsPerABFT + (k + slotsUsed slots) = n ∧
        (old2.filter (fun e => decide (u0 ≤ e.uid))).filter (fun e => e.cb.isAbftStart) = [] ∧
        (∀ e ∈ (old2.filter (fun e => decide (u0 ≤ e.uid))).filter
            (fun e => e.cb.isResponderSectorSweep),
          ∃ j : Nat, j < n ∧ e.ts = T0 + (j : Int) * d) ∧
        ((old2.filter (fun e => decide (u0 ≤ e.uid))).filter
            (fun e => e.cb.isResponderSectorSweep)).length = c + slots.length := by
  intro slots
  induction slots with
  | nil =>
    intro x k c old u hev hold hu hnu hto hrem hfl hd hin hab hrs hcount
    exact ⟨x, old, u, rfl, hev, hu, hrem, hab, hrs, hcount⟩
  | cons slot rest ih =>
    intro x k c old u hev hold hu hnu hto hrem hfl hd hin hab hrs hcount
    simp only [slotsInRange, Bool.and_eq_true, decide_eq_true_eq] at hin
    obtain ⟨hslot, hrest⟩ := hin
    have h8 : x.m_remainingSlotsPerABFT < 256 := by omega
    have hinv : ∀ y : Mac, invoke Callback.StartAssociationBeamformTraining slot y =
        some (StartAssociationBeamformTraining slot y) := fun _ => rfl
    have hl := (runEvent_last old
      ⟨u, T0 + (k : Int) * d, Callback.StartAssociationBeamformTraining⟩ slot x hev hold).trans
      (hinv _)
    obtain ⟨x1, hx1, f1, f2, f3, f4, f5, f6, f7, f8, f9⟩ : ∃ x1 : Mac,
        runEvent u slot x = some (StartAssociationBeamformTraining slot x1) ∧
        x1.sim.events = old ∧ x1.sim.now = T0 + (k : Int) * d ∧
        x1.sim.nextUid = x.sim.nextUid ∧
        x1.m_remainingSlotsPerABFT = x.m_remainingSlotsPerABFT ∧
        x1.m_scheduledPeriodAfterAbft = x.m_scheduledPeriodAfterAbft ∧
        x1.GetSectorSweepSlotTime = x.GetSectorSweepSlotTime ∧
        x1.m_ssFramesPerSlot = x.m_ssFramesPerSlot ∧ x1.m_bssid = x.m_bssid ∧
        x1.m_isResponderTXSS = x.m_isResponderTXSS :=
      ⟨_, hl, rfl, rfl, rfl, rfl, rfl, rfl, rfl, rfl, rfl⟩
    have hrun : abftFallback slot x = some (StartAssociationBeamformTraining slot x1) := by
      unfold abftFallback
      rw [hto]
      exact hx1
    obtain ⟨yev, ynu, yto, yrem, yfl, yd⟩ := StartAssociationBeamformTraining_retry slot x1
      (f5.trans hfl) (by rw [f4]; exact hslot) (by rw [f4]; exact h8)
    have yrem2 : (StartAssociationBeamformTraining slot x1).m_remainingSlotsPerABFT
        = x.m_remainingSlotsPerABFT - (slot + 1) := by
      omega
    have hts : T0 + (k : Int) * d + ((slot : Int) + 1) * d
        = T0 + ((k + (slot + 1) : Nat) : Int) * d := by
      push_cast; ring
    have hts2 : T0 + (k : Int) * d + (slot : Int) * d = T0 + ((k + slot : Nat) : Int) * d := by
      push_cast; ring
    have hd1 : x1.GetSectorSweepSlotTime x1.m_ssFramesPerSlot = d := by
      rw [f6, f7]; exact hd
    have yev2 : (StartAssociationBeamformTraining slot x1).sim.events =
        (old ++ [{ uid := u + 1, ts := T0 + ((k + slot : Nat) : Int) * d,
                   cb := Callback.StartResponderSectorSweep x1.m_bssid x1.m_isResponderTXSS
                           (x1.GetSectorSweepDuration x1.m_ssFramesPerSlot) }]) ++
          [{ uid := u + 1 + 1, ts := T0 + ((k + (slot + 1) : Nat) : Int) * d,
             cb := Callback.StartAssociationBeamformTraining }] := by
      rw [yev, hd1, f1, f2, f3, hnu, hts, hts2]
    obtain ⟨t, old2, u2, h1, h2, h3, h4, h5, h6, h7⟩ :=
      ih _ (k + (slot + 1)) (c + 1) _ (u + 1 + 1) yev2
        (by
          intro e he
          rcases List.mem_append.mp he with h | h
          · exact Nat.lt_trans (hold e h) (by omega)
          · rw [List.mem_singleton.mp h]
            exact Nat.lt_succ_self _)
        (by omega) (by rw [ynu, f3, hnu]) (by rw [yto, f3, hnu])
        (by rw [yrem2]; omega) yfl (by rw [yd]; exact hd1) (by rw [yrem2]; exact hrest)
        (by
          rw [List.filter_append, List.filter_append, hab]
          simp [Callback.isAbftStart, Callback.isResponderSectorSweep])
        (by
          intro e he
          rw [List.filter_append, List.filter_append] at he
          rcases List.mem_append.mp he with h | h
          · exact hrs e h
          · have h2 := List.mem_filter.mp h
            have h3 := (List.mem_filter.mp h2.1).1
            rw [List.mem_singleton.mp h3]
            exact ⟨k + slot, by omega, rfl⟩)
        (by
          rw [List.filter_append, List.filter_append, List.length_append, hcount]
          have hge : u0 ≤ u + 1 := by omega
          simp [Callback.isResponderSectorSweep, hge])
    refine ⟨t, old2, u2, ?_, ?_, h3, ?_, h5, h6, ?_⟩
    · show (abftFallback slot x).bind (abftFallbacks rest) = some t
      rw [hrun]
      exact h1
    · rw [h2]
      simp only [slotsUsed, Nat.add_assoc]
    · rw [← h4]
      simp only [slotsUsed, Nat.add_assoc]
    · rw [h7, List.length_cons]
      omega

/-- An A-BFT entry in range, as the start of a chain of fallbacks: the
fallback is the event scheduled last, after the first sweep (in the chosen
slot) and, possibly, the start of the period after the A-BFT. -/
theorem StartAssociationBeamformTraining_first (slot : Nat) (s : Mac)
    (h8 : s.m_remainingSlotsPerABFT < 256) (hslot : slot + 1 ≤ s.m_remainingSlotsPerABFT)
    (hwf : ∀ e ∈ s.sim.events, e.uid < s.sim.nextUid) :
    ∃ old u,
      (StartAssociationBeamformTraining slot s).sim.events =
        old ++ [{ uid := u,
                  ts := s.sim.now +
                    ((slot + 1 : Nat) : Int) * s.GetSectorSweepSlotTime s.m_ssFramesPerSlot,
                  cb := Callback.StartAssociationBeamformTraining }] ∧
      (∀ e ∈ old, e.uid < u) ∧ s.sim.nextUid ≤ u ∧
      (StartAssociationBeamformTraining slot s).sim.nextUid = u + 1 ∧
      (StartAssociationBeamformTraining slot s).m_sswFbckTimeout = some u ∧
      (old.filter (fun e => decide (s.sim.nextUid ≤ e.uid))).filter
        (fun e => e.cb.isAbftStart) = [] ∧
      (∀ e ∈ (old.filter (fun e => decide (s.sim.nextUid ≤ e.uid))).filter
          (fun e => e.cb.isResponderSectorSweep),
        e.ts = s.sim.now + (slot : Int) * s.GetSectorSweepSlotTime s.m_ssFramesPerSlot) ∧
      ((old.filter (fun e => decide (s.sim.nextUid ≤ e.uid))).filter
          (fun e => e.cb.isResponderSectorSweep)).length = 1 := by
  obtain ⟨hev, hto, -, -, -, -, -⟩ := StartAssociationBeamformTraining_fields slot s
  obtain ⟨hnu, -, -⟩ := StartAssociationBeamformTraining_timing slot s
  have hpos : s.m_remainingSlotsPerABFT > 0 := by omega
  have hmod := UniformRandomVariable.GetInteger_of_lt slot s.m_remainingSlotsPerABFT hslot h8
  have hcast : ((slot : Int) + 1) = ((slot + 1 : Nat) : Int) := by push_cast; rfl
  have hsince : s.sim.events.filter (fun e => decide (s.sim.nextUid ≤ e.uid)) = [] := by
    rw [List.filter_eq_nil_iff]
    intro e he
    have := hwf e he
    simp only [decide_eq_true_eq]
    omega
  rw [if_pos hpos, hmod, hcast] at hev
  rw [if_pos hpos] at hto hnu
  by_cases hsch : s.m_scheduledPeriodAfterAbft = true
  · rw [if_pos hsch] at hto hnu
    rw [if_pos hsch, if_pos hsch] at hev
    refine ⟨s.sim.events ++ [⟨s.sim.nextUid,
        s.sim.now + (slot : Int) * s.GetSectorSweepSlotTime s.m_ssFramesPerSlot,
        Callback.StartResponderSectorSweep s.m_bssid s.m_isResponderTXSS
          (s.GetSectorSweepDuration s.m_ssFramesPerSlot)⟩], s.sim.nextUid + 1,
      ?_, ?_, by omega, hnu, hto, ?_, ?_, ?_⟩
    · rw [hev]
      simp only [List.append_nil, List.append_assoc]
    · intro e he
      rcases List.mem_append.mp he with h | h
      · exact Nat.lt_succ_of_lt (hwf e h)
      · rw [List.mem_singleton.mp h]
        exact Nat.lt_succ_self _
    · rw [List.filter_append, hsince]
      simp [Callback.isAbftStart]
    · intro e he
      rw [List.filter_append, hsince] at he
      have h2 := (List.mem_filter.mp (List.mem_filter.mp he).1).1
      rw [List.mem_singleton.mp h2]
    · rw [List.filter_append, hsince]
      simp [Callback.isResponderSectorSweep]
  · rw [if_neg hsch] at hto hnu
    rw [if_neg hsch, if_neg hsch] at hev
    refine ⟨s.sim.events ++ [⟨s.sim.nextUid,
        s.sim.now + (slot : Int) * s.GetSectorSweepSlotTime s.m_ssFramesPerSlot,
        Callback.StartResponderSectorSweep s.m_bssid s.m_isResponderTXSS
          (s.GetSectorSweepDuration s.m_ssFramesPerSlot)⟩] ++
        [⟨s.sim.nextUid + 1, s.sim.now + s.m_abftDuration,
          if s.m_atiPresent = true then Callback.StartAnnouncementTransmissionInterval
          else Callback.StartDataTransmissionInterval⟩], s.sim.nextUid + 1 + 1,
      ?_, ?_, by omega, hnu, hto, ?_, ?_, ?_⟩
    · rw [hev]
      simp only [List.append_assoc]
    · intro e he
      rcases List.mem_append.mp he with h | h
      · rcases List.mem_append.mp h with h | h
        · exact Nat.lt_trans (hwf e h) (by omega)
        · rw [List.mem_singleton.mp h]
          show s.sim.nextUid < s.sim.nextUid + 1 + 1
          omega
      · rw [List.mem_singleton.mp h]
        exact Nat.lt_succ_self _
    · simp only [List.filter_append, hsince, List.nil_append]
      by_cases hati : s.m_atiPresent = true <;> simp [Callback.isAbftStart, hati]
    · intro e he
      simp only [List.filter_append, hsince, List.nil_append] at he
      by_cases hati : s.m_atiPresent = true <;>
      · simp [Callback.isResponderSectorSweep, hati] at he
        rw [he]
    · simp only [List.filter_append, hsince, List.nil_append]
      by_cases hati : s.m_atiPresent = true <;> simp [Callback.isResponderSectorSweep, hati]

/-- An A-BFT entry with no remaining slot schedules no fallback and leaves the
count at zero. -/
theorem StartAssociationBeamformTraining_no_slot (slot : Nat) (x : Mac)
    (h0 : x.m_remainingSlotsPerABFT = 0) :
    (StartAssociationBeamformTraining slot x).m_remainingSlotsPerABFT = 0 ∧
    (scheduled x (StartAssociationBeamformTraining slot x)).filter
      (fun e => e.cb.isAbftStart) = [] := by
  obtain ⟨hev, -, hrem, -, -, -, -⟩ := StartAssociationBeamformTraining_fields slot x
  have hn : ¬ x.m_remainingSlotsPerABFT > 0 := by omega
  rw [if_neg hn] at hev hrem
  refine ⟨hrem.trans h0, ?_⟩
  rw [scheduled_of_append _ _ _ hev]
  by_cases hsch : x.m_scheduledPeriodAfterAbft = true
  · simp [hsch, Callback.isAbftStart]
  · by_cases hati : x.m_atiPresent = true <;> simp [hsch, hati, Callback.isAbftStart]

/-- C34: A-BFT retries are bounded per beacon interval and stay inside the
A-BFT.  The station enters the A-BFT with n remaining slots (8-bit) and the
fallback then fires any number of times, each entry choosing a slot of its
range, at most remaining − 1.  All the entries run; every entry takes its
slot and the slots before it off the remaining ones, which never go below 0
(remaining + slots used = n), so the entries, each of which schedules one
fallback, are at most n; one fallback is pending at the end, due when the
slots used so far are over; and every Responder Sector Sweep scheduled starts
in a slot whose index counted from the first entry is below n, that is at an
offset below n × slotDuration.  An entry with no remaining slot schedules no
fallback. -/
theorem abft_retries_bounded (slot0 : Nat) (slots : List Nat) (s : Mac)
    (h8 : s.m_remainingSlotsPerABFT < 256)
    (hwf : ∀ e ∈ s.sim.events, e.uid < s.sim.nextUid)
    (hin : slotsInRange s.m_remainingSlotsPerABFT (slot0 :: slots) = true) :
    ∃ t, abftFallbacks slots (StartAssociationBeamformTraining slot0 s) = some t ∧
      t.m_remainingSlotsPerABFT + slotsUsed (slot0 :: slots) = s.m_remainingSlotsPerABFT ∧
      (slot0 :: slots).length ≤ slotsUsed (slot0 :: slots) ∧
      slotsUsed (slot0 :: slots) ≤ s.m_remainingSlotsPerABFT ∧
      (∃ u, fallbacksSince s t =
        [{ uid := u,
           ts := s.sim.now + (slotsUsed (slot0 :: slots) : Int) *
                   s.GetSectorSweepSlotTime s.m_ssFramesPerSlot,
           cb := Callback.StartAssociationBeamformTraining }]) ∧
      (sweepsSince s t).length = (slot0 :: slots).length ∧
      (∀ e ∈ sweepsSince s t, ∃ j : Nat, j < s.m_remainingSlotsPerABFT ∧
        e.ts = s.sim.now + (j : Int) * s.GetSectorSweepSlotTime s.m_ssFramesPerSlot) ∧
      (0 < s.GetSectorSweepSlotTime s.m_ssFramesPerSlot →
        ∀ e ∈ sweepsSince s t,
          e.ts < s.sim.now + (s.m_remainingSlotsPerABFT : Int) *
                   s.GetSectorSweepSlotTime s.m_ssFramesPerSlot) ∧
      (∀ (slot : Nat) (x : Mac), x.m_remainingSlotsPerABFT = 0 →
        (StartAssociationBeamformTraining slot x).m_remainingSlotsPerABFT = 0 ∧
        (scheduled x (StartAssociationBeamformTraining slot x)).filter
          (fun e => e.cb.isAbftStart) = []) := by
  have hin2 := hin
  simp only [slotsInRange, Bool.and_eq_true, decide_eq_true_eq] at hin2
  obtain ⟨hslot, hrest⟩ := hin2
  obtain ⟨hle, hlen⟩ := slotsUsed_le (slot0 :: slots) _ hin
  obtain ⟨old, u, hev, hold, hu, hnu, hto, hab, hrs, hcount⟩ :=
    StartAssociationBeamformTraining_first slot0 s h8 hslot hwf
  obtain ⟨-, -, hrem, -, -, hfl, -⟩ := StartAssociationBeamformTraining_fields slot0 s
  obtain ⟨-, hg, hf⟩ := StartAssociationBeamformTraining_timing slot0 s
  have hpos : s.m_remainingSlotsPerABFT > 0 := by omega
  have hmod := UniformRandomVariable.GetInteger_of_lt slot0 s.m_remainingSlotsPerABFT hslot h8
  rw [if_pos hpos, hmod] at hrem
  have hrem2 : (StartAssociationBeamformTraining slot0 s).m_remainingSlotsPerABFT
      = s.m_remainingSlotsPerABFT - (slot0 + 1) := by rw [hrem]; omega
  obtain ⟨t, old2, u2, h1, h2, h3, h4, h5, h6, h7⟩ :=
    abftFallbacks_spec s.m_remainingSlotsPerABFT s.sim.now
      (s.GetSectorSweepSlotTime s.m_ssFramesPerSlot) s.sim.nextUid h8 slots
      (StartAssociationBeamformTraining slot0 s) (slot0 + 1) 1 old u hev hold hu hnu hto
      (by rw [hrem2]; omega) hfl (by rw [hg, hf]) (by rw [hrem2]; exact hrest) hab
      (fun e he => ⟨slot0, by omega, hrs e he⟩) hcount
  have hsw : sweepsSince s t =
      (old2.filter (fun e => decide (s.sim.nextUid ≤ e.uid))).filter
        (fun e => e.cb.isResponderSectorSweep) := by
    unfold sweepsSince scheduledSince
    rw [h2]
    simp [List.filter_append, Callback.isResponderSectorSweep]
  have hused : slot0 + 1 + slotsUsed slots = slotsUsed (slot0 :: slots) := rfl
  rw [hused] at h2 h4
  refine ⟨t, h1, h4, hlen, hle, ⟨u2, ?_⟩, ?_, ?_, ?_, StartAssociationBeamformTraining_no_slot⟩
  · unfold fallbacksSince scheduledSince
    rw [h2]
    simp only [List.filter_append, h5, List.nil_append]
    simp [Callback.isAbftStart, h3]
  · rw [hsw, h7, List.length_cons]
    omega
  · rw [hsw]
    exact h6
  · intro hd e he
    rw [hsw] at he
    obtain ⟨j, hj, hts⟩ := h6 e he
    rw [hts]
    have hj2 : (j : Int) < (s.m_remainingSlotsPerABFT : Int) := by exact_mod_cast hj
    have := mul_lt_mul_of_pos_right hj2 hd
    linarith

/-- C34, witness: the statement at the station `afterFirstBeacon` (four
remaining slots), an entry in slot 1 and one fallback with slot 0. -/
theorem abft_retries_bounded_witness :
    afterFirstBeacon.m_remainingSlotsPerABFT < 256 ∧
    (∀ e ∈ afterFirstBeacon.sim.events, e.uid < afterFirstBeacon.sim.nextUid) ∧
    slotsInRange afterFirstBeacon.m_remainingSlotsPerABFT (1 :: [0]) = true ∧
    ∃ t, abftFallbacks [0] (StartAssociationBeamformTraining 1 afterFirstBeacon) = some t ∧
      t.m_remainingSlotsPerABFT + slotsUsed (1 :: [0]) = afterFirstBeacon.m_remainingSlotsPerABFT ∧
      (1 :: [0]).length ≤ slotsUsed (1 :: [0]) ∧
      slotsUsed (1 :: [0]) ≤ afterFirstBeacon.m_remainingSlotsPerABFT ∧
      (∃ u, fallbacksSince afterFirstBeacon t =
        [{ uid := u,
           ts := afterFirstBeacon.sim.now + (slotsUsed (1 :: [0]) : Int) *
                   afterFirstBeacon.GetSectorSweepSlotTime afterFirstBeacon.m_ssFramesPerSlot,
           cb := Callback.StartAssociationBeamformTraining }]) ∧
      (sweepsSince afterFirstBeacon t).length = (1 :: [0]).length ∧
      (∀ e ∈ sweepsSince afterFirstBeacon t, ∃ j : Nat, j < afterFirstBeacon.m_remainingSlotsPerABFT ∧
        e.ts = afterFirstBeacon.sim.now + (j : Int) * afterFirstBeacon.GetSectorSweepSlotTime afterFirstBeacon.m_ssFramesPerSlot) ∧
      (0 < afterFirstBeacon.GetSectorSweepSlotTime afterFirstBeacon.m_ssFramesPerSlot →
        ∀ e ∈ sweepsSince afterFirstBeacon t,
          e.ts < afterFirstBeacon.sim.now + (afterFirstBeacon.m_remainingSlotsPerABFT : Int) *
                   afterFirstBeacon.GetSectorSweepSlotTime afterFirstBeacon.m_ssFramesPerSlot) ∧
      (∀ (slot : Nat) (x : Mac), x.m_remainingSlotsPerABFT = 0 →
        (StartAssociationBeamformTraining slot x).m_remainingSlotsPerABFT = 0 ∧
        (scheduled x (StartAssociationBeamformTraining slot x)).filter
          (fun e => e.cb.isAbftStart) = []) :=
  ⟨by decide, by decide, by decide,
    abft_retries_bounded 1 [0] afterFirstBeacon (by decide) (by decide) (by decide)⟩

/-- An expired handle has no delay left. -/
theorem Simulator.GetDelayLeft_of_expired (sim : Simulator) (id : EventId)
    (h : sim.IsExpired id = true) : sim.GetDelayLeft id = 0 := by
  cases id with
  | none => rfl
  | some u =>
    unfold Simulator.IsExpired Simulator.IsRunning at h
    unfold Simulator.GetDelayLeft
    simp only [Bool.not_eq_true', List.any_eq_false, beq_iff_eq] at h
    have hf : sim.events.find? (fun e => e.uid == u) = none := by
      rw [List.find?_eq_none]
      intro e he
      simpa using h e he
    simp only [hf]

/-- C3: a probe response that passes the address filter, announcing a beacon
interval for which `beaconInterval * maxMissedBeacons` microseconds fit the
64-bit signed nanosecond clock (so that neither the unsigned 64-bit product
nor its conversion to a time wraps).  If the state is WAIT_PROBE_RESP and the
SSID of the response is the station's, the BSSID becomes Addr3 of the frame;
the beacon watchdog is restarted with the delay
`beaconInterval * maxMissedBeacons` microseconds: its deadline becomes
`max (now + delay) deadline` and, when no watchdog event is pending and the
delay is positive, a `MissedBeacons` event is scheduled at `now + delay` and
becomes the watchdog, while a pending watchdog event is kept; the pending
probe-request timeout is cancelled; the state becomes WAIT_ASSOC_RESP; exactly
one frame is queued, an association request from the station to the new BSSID
carrying the station's SSID, and its timeout is armed.  If the SSID differs or
the state is not WAIT_PROBE_RESP the station is left exactly as it was, so that
state, BSSID, deadline and queue are unchanged. -/
theorem Receive_probeResp_spec (packet : Packet) (hdr : WifiMacHeader) (s : Mac)
    (htype : hdr.macType = WifiMacType.WIFI_MAC_MGT_PROBE_RESPONSE)
    (h3 : hdr.addr3 ≠ s.address)
    (h1 : hdr.addr1 = s.address ∨ IsGroup hdr.addr1 = true)
    (hfit : 1000 * (packet.probeRespBeaconIntervalUs * s.m_maxMissedBeacons) < 2 ^ 63) :
    ∃ t, Receive packet hdr s = some t ∧
      (if s.m_state = MacState.WAIT_PROBE_RESP ∧ packet.probeRespSsid = s.ssid then
        t.m_bssid = hdr.addr3 ∧
        t.m_beaconWatchdogEnd =
          max (s.sim.now + MicroSeconds (packet.probeRespBeaconIntervalUs * s.m_maxMissedBeacons : Nat))
            s.m_beaconWatchdogEnd ∧
        MicroSeconds (packet.probeRespBeaconIntervalUs * s.m_maxMissedBeacons : Nat) =
          1000 * ((packet.probeRespBeaconIntervalUs * s.m_maxMissedBeacons : Nat) : Int) ∧
        t.m_beaconWatchdog =
          (if s.sim.IsExpired s.m_beaconWatchdog = true ∧
              0 < packet.probeRespBeaconIntervalUs * s.m_maxMissedBeacons then
            some s.sim.nextUid
          else s.m_beaconWatchdog) ∧
        t.sim =
          (((if s.sim.IsExpired s.m_beaconWatchdog = true ∧
                0 < packet.probeRespBeaconIntervalUs * s.m_maxMissedBeacons then
              s.sim.Schedule
                (1000 * ((packet.probeRespBeaconIntervalUs * s.m_maxMissedBeacons : Nat) : Int))
                Callback.MissedBeacons
            else s.sim).Cancel s.m_probeRequestEvent).Cancel s.m_assocRequestEvent).Schedule
            s.m_assocRequestTimeout Callback.AssocRequestTimeout ∧
        t.m_state = MacState.WAIT_ASSOC_RESP ∧
        queued s t =
          [{ hdr := { macType := WifiMacType.WIFI_MAC_MGT_ASSOCIATION_REQUEST,
                      addr1 := hdr.addr3, addr2 := s.address, addr3 := hdr.addr3,
                      duration := 0, qosAmsdu := false, qosTid := 0,
                      dsTo := false, dsFrom := false },
             body := TxBody.AssocRequest s.ssid }] ∧
        ((queued s t).filter Frame.isAssocRequest).length = 1 ∧
        emitted s t = []
      else
        t = s ∧ queued s t = []) := by
  refine ⟨_, Receive_probeResp_eq packet hdr s htype h3 h1, ?_⟩
  rw [ReceiveProbeResp_eq]
  have hwrap : (packet.probeRespBeaconIntervalUs * s.m_maxMissedBeacons) % 2 ^ 64
      = packet.probeRespBeaconIntervalUs * s.m_maxMissedBeacons :=
    Nat.mod_eq_of_lt (by omega)
  rw [hwrap]
  by_cases hs : s.m_state = MacState.WAIT_PROBE_RESP
  · by_cases hid : packet.probeRespSsid = s.ssid
    · rw [if_pos hs, if_neg (not_not.mpr hid), if_pos ⟨hs, hid⟩]
      have hms : MicroSeconds (packet.probeRespBeaconIntervalUs * s.m_maxMissedBeacons : Nat) =
          1000 * ((packet.probeRespBeaconIntervalUs * s.m_maxMissedBeacons : Nat) : Int) := rfl
      generalize hp : packet.probeRespBeaconIntervalUs * s.m_maxMissedBeacons = p at *
      generalize hd : MicroSeconds (p : Nat) = delay at *
      have hr := RestartBeaconWatchdog_fields delay (SetBssid hdr.addr3 s)
      obtain ⟨r1, r2, r3, r4, r5, r6, r7, r8, r9, r10, r11, r12, r13⟩ := hr
      have hcond : (s.sim.GetDelayLeft s.m_beaconWatchdog < delay ∧
            s.sim.IsExpired s.m_beaconWatchdog = true) ↔
          (s.sim.IsExpired s.m_beaconWatchdog = true ∧ 0 < p) := by
        constructor
        · rintro ⟨hlt, hex⟩
          rw [Simulator.GetDelayLeft_of_expired _ _ hex, hms] at hlt
          have hlt2 : (0 : Int) < 1000 * ((p : Nat) : Int) := hlt
          exact ⟨hex, by omega⟩
        · rintro ⟨hex, hpos⟩
          rw [Simulator.GetDelayLeft_of_expired _ _ hex, hms]
          have hlt2 : (0 : Int) < 1000 * ((p : Nat) : Int) := by omega
          exact ⟨hlt2, hex⟩
      have hsim : (RestartBeaconWatchdog delay (SetBssid hdr.addr3 s)).sim
          = (if s.sim.IsExpired s.m_beaconWatchdog = true ∧ 0 < p then
              s.sim.Schedule (1000 * ((p : Nat) : Int)) Callback.MissedBeacons
            else s.sim) := by
        rw [r12]
        show (if s.sim.GetDelayLeft s.m_beaconWatchdog < delay ∧
            s.sim.IsExpired s.m_beaconWatchdog = true
          then s.sim.Schedule delay Callback.MissedBeacons else s.sim) = _
        by_cases hc : s.sim.IsExpired s.m_beaconWatchdog = true ∧ 0 < p
        · rw [if_pos (hcond.mpr hc), if_pos hc, ← hms]
        · rw [if_neg (fun h => hc (hcond.mp h)), if_neg hc]
      have hwd : (RestartBeaconWatchdog delay (SetBssid hdr.addr3 s)).m_beaconWatchdog
          = (if s.sim.IsExpired s.m_beaconWatchdog = true ∧ 0 < p then some s.sim.nextUid
             else s.m_beaconWatchdog) := by
        rw [r13]
        show (if s.sim.GetDelayLeft s.m_beaconWatchdog < delay ∧
            s.sim.IsExpired s.m_beaconWatchdog = true
          then some s.sim.nextUid else s.m_beaconWatchdog) = _
        by_cases hc : s.sim.IsExpired s.m_beaconWatchdog = true ∧ 0 < p
        · rw [if_pos (hcond.mpr hc), if_pos hc]
        · rw [if_neg (fun h => hc (hcond.mp h)), if_neg hc]
      generalize hR : RestartBeaconWatchdog delay (SetBssid hdr.addr3 s) = R at *
      generalize hC : ({ R with sim := R.sim.Cancel R.m_probeRequestEvent } : Mac) = C
      have hCf : C.m_state = R.m_state ∧ C.m_bssid = R.m_bssid ∧ C.m_dca = R.m_dca ∧
          C.log = R.log ∧ C.m_assocRequestEvent = R.m_assocRequestEvent ∧
          C.m_assocRequestTimeout = R.m_assocRequestTimeout ∧ C.address = R.address ∧
          C.ssid = R.ssid ∧ C.m_beaconWatchdogEnd = R.m_beaconWatchdogEnd ∧
          C.m_beaconWatchdog = R.m_beaconWatchdog ∧
          C.sim = R.sim.Cancel R.m_probeRequestEvent := by
        rw [← hC]; exact ⟨rfl, rfl, rfl, rfl, rfl, rfl, rfl, rfl, rfl, rfl, rfl⟩
      obtain ⟨c1, c2, c3, c4, c5, c6, c7, c8, c9, c10, c11⟩ := hCf
      have hf := SetState_fields MacState.WAIT_ASSOC_RESP C
      have hst := SetState_state MacState.WAIT_ASSOC_RESP C
      have hlog := SetState_log MacState.WAIT_ASSOC_RESP C
      have hCne : C.m_state ≠ MacState.ASSOCIATED := by rw [c1, r1]; show s.m_state ≠ _; rw [hs]; decide
      simp only [hCne, if_false, and_false, reduceCtorEq, false_and, List.append_nil] at hlog
      obtain ⟨f1, f2, f3, f4, f5, f6, f7, f8, f9, f10, f11, f12, f13⟩ := hf
      have ha := SendAssociationRequest_fields (SetState MacState.WAIT_ASSOC_RESP C)
      obtain ⟨a1, a2, a3, a4, a5, a6, a7, a8, a9, a10⟩ := ha
      have hq : queued s (SendAssociationRequest (SetState MacState.WAIT_ASSOC_RESP C))
          = [{ hdr := { macType := WifiMacType.WIFI_MAC_MGT_ASSOCIATION_REQUEST,
                        addr1 := hdr.addr3, addr2 := s.address, addr3 := hdr.addr3,
                        duration := 0, qosAmsdu := false, qosTid := 0,
                        dsTo := false, dsFrom := false },
               body := TxBody.AssocRequest s.ssid }] := by
        unfold queued
        rw [a8, f4, c3, r4]
        have : assocRequestFrame (SetState MacState.WAIT_ASSOC_RESP C)
            = assocRequestFrame (SetBssid hdr.addr3 s) := by
          unfold assocRequestFrame GetBssid
          rw [f2, f12, f13, c2, c7, c8, r2, r9, r10]
        rw [this]
        exact drop_length_append _ _
      refine ⟨?_, ?_, hms, ?_, ?_, ?_, hq, ?_, ?_⟩
      · rw [a3, f2, c2, r2]; rfl
      · rw [a4, f9, c9, r11]; rfl
      · rw [a5, f8, c10, hwd]
      · rw [a10, f3, f7, f11, c11, c5, c6, r6, r7, r8, hsim]; rfl
      · rw [a1, hst]
      · rw [hq]; simp [Frame.isAssocRequest]
      · unfold emitted; rw [a7, hlog, c4, r5]; simp [SetBssid]
    · have hs2 : ¬ (s.m_state = MacState.WAIT_PROBE_RESP ∧ packet.probeRespSsid = s.ssid) :=
        fun h => hid h.2
      rw [if_pos hs, if_pos hid, if_neg hs2]
      exact ⟨rfl, by simp [queued]⟩
  · have hs2 : ¬ (s.m_state = MacState.WAIT_PROBE_RESP ∧ packet.probeRespSsid = s.ssid) :=
      fun h => hs h.1
    rw [if_neg hs, if_neg hs2]
    exact ⟨rfl, by simp [queued]⟩

/-- C3, witness: the statement at the station `probingStation` and a probe
response for its SSID that passes the address filter. -/
theorem Receive_probeResp_spec_witness :
    probeRespHdr.macType = WifiMacType.WIFI_MAC_MGT_PROBE_RESPONSE ∧
    probeRespHdr.addr3 ≠ probingStation.address ∧
    (probeRespHdr.addr1 = probingStation.address ∨ IsGroup probeRespHdr.addr1 = true) ∧
    1000 * (probeRespMatching.probeRespBeaconIntervalUs * probingStation.m_maxMissedBeacons)
      < 2 ^ 63 ∧
    ∃ t, Receive probeRespMatching probeRespHdr probingStation = some t ∧
      (if probingStation.m_state = MacState.WAIT_PROBE_RESP ∧ probeRespMatching.probeRespSsid = probingStation.ssid then
        t.m_bssid = probeRespHdr.addr3 ∧
        t.m_beaconWatchdogEnd =
          max (probingStation.sim.now + MicroSeconds (probeRespMatching.probeRespBeaconIntervalUs * probingStation.m_maxMissedBeacons : Nat))
            probingStation.m_beaconWatchdogEnd ∧
        MicroSeconds (probeRespMatching.probeRespBeaconIntervalUs * probingStation.m_maxMissedBeacons : Nat) =
          1000 * ((probeRespMatching.probeRespBeaconIntervalUs * probingStation.m_maxMissedBeacons : Nat) : Int) ∧
        t.m_beaconWatchdog =
          (if probingStation.sim.IsExpired probingStation.m_beaconWatchdog = true ∧
              0 < probeRespMatching.probeRespBeaconIntervalUs * probingStation.m_maxMissedBeacons then
            some probingStation.sim.nextUid
          else probingStation.m_beaconWatchdog) ∧
        t.sim =
          (((if probingStation.sim.IsExpired probingStation.m_beaconWatchdog = true ∧
                0 < probeRespMatching.probeRespBeaconIntervalUs * probingStation.m_maxMissedBeacons then
              probingStation.sim.Schedule
                (1000 * ((probeRespMatching.probeRespBeaconIntervalUs * probingStation.m_maxMissedBeacons : Nat) : Int))
                Callback.MissedBeacons
            else probingStation.sim).Cancel probingStation.m_probeRequestEvent).Cancel probingStation.m_assocRequestEvent).Schedule
            probingStation.m_assocRequestTimeout Callback.AssocRequestTimeout ∧
        t.m_state = MacState.WAIT_ASSOC_RESP ∧
        queued probingStation t =
          [{ hdr := { macType := WifiMacType.WIFI_MAC_MGT_ASSOCIATION_REQUEST,
                      addr1 := probeRespHdr.addr3, addr2 := probingStation.address, addr3 := probeRespHdr.addr3,
                      duration := 0, qosAmsdu := false, qosTid := 0,
                      dsTo := false, dsFrom := false },
             body := TxBody.AssocRequest probingStation.ssid }] ∧
        ((queued probingStation t).filter Frame.isAssocRequest).length = 1 ∧
        emitted probingStation t = []
      else
        t = probingStation ∧ queued probingStation t = []) :=
  ⟨by decide, by decide, Or.inl (by decide), by decide,
    Receive_probeResp_spec probeRespMatching probeRespHdr probingStation
      (by decide) (by decide) (Or.inl (by decide)) (by decide)⟩

/-- C4: `TryToEnsureAssociated`, for every starting state.  The resulting state
is WAIT_PROBE_RESP if the starting state is BEACON_MISSED and active probing is
enabled, and the starting state otherwise; exactly in that first case one frame
is queued, a Probe Request (from the station to the broadcast address, with
broadcast BSSID, carrying the station's SSID), and the probe timeout is armed (a
running event for `now + probeRequestTimeout`), otherwise nothing is queued and
the scheduler and the handle are untouched; the link-down signal is raised
exactly when the starting state is BEACON_MISSED; in every other state the call
changes nothing at all. -/
theorem TryToEnsureAssociated_spec (s : Mac) :
    (TryToEnsureAssociated s).m_state =
      (if s.m_state = MacState.BEACON_MISSED ∧ s.m_activeProbing = true
        then MacState.WAIT_PROBE_RESP else s.m_state) ∧
    queued s (TryToEnsureAssociated s) =
      (if s.m_state = MacState.BEACON_MISSED ∧ s.m_activeProbing = true
        then [probeRequestFrame s] else []) ∧
    queued s (TryToEnsureAssociated s) =
      (if s.m_state = MacState.BEACON_MISSED ∧ s.m_activeProbing = true
        then [{ hdr := { macType := WifiMacType.WIFI_MAC_MGT_PROBE_REQUEST,
                         addr1 := GetBroadcast, addr2 := s.address, addr3 := GetBroadcast,
                         duration := 0, qosAmsdu := false, qosTid := 0,
                         dsTo := false, dsFrom := false },
                body := TxBody.ProbeRequest s.ssid }]
        else []) ∧
    ((queued s (TryToEnsureAssociated s)).filter Frame.isProbeRequest).length =
      (if s.m_state = MacState.BEACON_MISSED ∧ s.m_activeProbing = true then 1 else 0) ∧
    (TryToEnsureAssociated s).sim =
      (if s.m_state = MacState.BEACON_MISSED ∧ s.m_activeProbing = true
        then (s.sim.Cancel s.m_probeRequestEvent).Schedule s.m_probeRequestTimeout
          Callback.ProbeRequestTimeout
        else s.sim) ∧
    (TryToEnsureAssociated s).m_probeRequestEvent =
      (if s.m_state = MacState.BEACON_MISSED ∧ s.m_activeProbing = true
        then some s.sim.nextUid else s.m_probeRequestEvent) ∧
    ((TryToEnsureAssociated s).sim.IsRunning (some s.sim.nextUid) = true ↔
      (s.m_state = MacState.BEACON_MISSED ∧ s.m_activeProbing = true) ∨
        s.sim.IsRunning (some s.sim.nextUid) = true) ∧
    emitted s (TryToEnsureAssociated s) =
      (if s.m_state = MacState.BEACON_MISSED then [Effect.LinkDown] else []) ∧
    (s.m_state = MacState.BEACON_MISSED ∨ TryToEnsureAssociated s = s) := by
  unfold TryToEnsureAssociated
  cases hs : s.m_state <;> simp [emitted, queued, hs]
  · -- BEACON_MISSED
    by_cases hp : s.m_activeProbing = true
    · simp [hp, emit, SendProbeRequest_eq, SetState, hs, probeRequestFrame, Frame.isProbeRequest,
        WifiMacHeader.blank]
      cases hid : s.m_probeRequestEvent <;>
        simp [Simulator.Cancel, Simulator.Schedule, Simulator.IsRunning]
    · simp [hp, emit, hs]

/-- C5: turning active probing on schedules `TryToEnsureAssociated` for the
current instant, and that call sees probing enabled: for a station in
BEACON_MISSED whose pending events carry identifiers below the next free one,
executing the scheduled event leaves the state WAIT_PROBE_RESP with exactly one
frame queued, a Probe Request (from the station to the broadcast address, with
broadcast BSSID, carrying the station's SSID), at the same instant.
`GetActiveProbing` returns the last value given to `SetActiveProbing`.
`SetActiveProbing (false)` cancels the pending probe-request timeout and leaves
the association state unchanged. -/
theorem SetActiveProbing_spec (s : Mac) (slot : Nat) :
    (SetActiveProbing true s).sim.events =
      s.sim.events ++
        [{ uid := s.sim.nextUid, ts := s.sim.now, cb := Callback.TryToEnsureAssociated }] ∧
    (SetActiveProbing true s).m_state = s.m_state ∧
    ((∀ e ∈ s.sim.events, e.uid < s.sim.nextUid) → s.m_state = MacState.BEACON_MISSED →
      ∃ t, runEvent s.sim.nextUid slot (SetActiveProbing true s) = some t ∧
        t.m_state = MacState.WAIT_PROBE_RESP ∧
        queued s t = [probeRequestFrame s] ∧
        queued s t =
          [{ hdr := { macType := WifiMacType.WIFI_MAC_MGT_PROBE_REQUEST,
                      addr1 := GetBroadcast, addr2 := s.address, addr3 := GetBroadcast,
                      duration := 0, qosAmsdu := false, qosTid := 0,
                      dsTo := false, dsFrom := false },
             body := TxBody.ProbeRequest s.ssid }] ∧
        ((queued s t).filter Frame.isProbeRequest).length = 1 ∧
        t.sim.now = s.sim.now) ∧
    (∀ b, GetActiveProbing (SetActiveProbing b s) = b) ∧
    (∀ b c, GetActiveProbing (SetActiveProbing c (SetActiveProbing b s)) = c) ∧
    (SetActiveProbing false s).m_state = s.m_state ∧
    (SetActiveProbing false s).sim = s.sim.Cancel s.m_probeRequestEvent ∧
    (SetActiveProbing false s).sim.IsRunning s.m_probeRequestEvent = false := by
  have hev : (SetActiveProbing true s).sim.events =
      s.sim.events ++
        [{ uid := s.sim.nextUid, ts := s.sim.now, cb := Callback.TryToEnsureAssociated }] := by
    simp [SetActiveProbing, ScheduleNow, Simulator.ScheduleNow, Simulator.Schedule]
  refine ⟨hev, rfl, ?_, ?_, ?_, rfl, rfl, Simulator.IsRunning_Cancel _ _⟩
  · intro hwf hbm
    obtain ⟨hfind, hfilter⟩ := find_scheduled s.sim.events s.sim.nextUid
      { uid := s.sim.nextUid, ts := s.sim.now, cb := Callback.TryToEnsureAssociated } rfl hwf
    unfold runEvent
    rw [hev, hfind]
    simp only [hfilter, invoke]
    refine ⟨_, rfl, ?_⟩
    generalize hS : ({ SetActiveProbing true s with
        sim := { (SetActiveProbing true s).sim with now := s.sim.now, events := s.sim.events } } : Mac)
      = S
    have hSf : S.m_state = s.m_state ∧ S.m_activeProbing = true ∧ S.m_dca = s.m_dca ∧
        S.address = s.address ∧ S.ssid = s.ssid ∧ S.sim.now = s.sim.now := by
      rw [← hS]; exact ⟨rfl, rfl, rfl, rfl, rfl, rfl⟩
    obtain ⟨s1, s2, s3, s4, s5, s6⟩ := hSf
    rw [TryToEnsureAssociated_of_beaconMissed S (by rw [s1, hbm]), if_pos s2]
    have hf := SetState_fields MacState.WAIT_PROBE_RESP (emit Effect.LinkDown S)
    have hst := SetState_state MacState.WAIT_PROBE_RESP (emit Effect.LinkDown S)
    obtain ⟨f1, f2, f3, f4, f5, f6, f7, f8, f9, f10, f11, f12, f13⟩ := hf
    have hq : queued s (SendProbeRequest (SetState MacState.WAIT_PROBE_RESP (emit Effect.LinkDown S)))
        = [probeRequestFrame s] := by
      rw [SendProbeRequest_eq]
      show List.drop s.m_dca.length
        ((SetState MacState.WAIT_PROBE_RESP (emit Effect.LinkDown S)).m_dca ++
          [probeRequestFrame (SetState MacState.WAIT_PROBE_RESP (emit Effect.LinkDown S))]) = _
      have hp : probeRequestFrame (SetState MacState.WAIT_PROBE_RESP (emit Effect.LinkDown S))
          = probeRequestFrame s := by
        unfold probeRequestFrame
        rw [f12, f13]
        show _ = _
        simp only [emit, s4, s5]
      rw [f4, hp]
      show List.drop s.m_dca.length (S.m_dca ++ _) = _
      rw [s3]
      exact drop_length_append _ _
    have hstate : (SendProbeRequest (SetState MacState.WAIT_PROBE_RESP (emit Effect.LinkDown S))).m_state
        = MacState.WAIT_PROBE_RESP := by
      rw [SendProbeRequest_eq]; exact hst
    have hnow : (SendProbeRequest (SetState MacState.WAIT_PROBE_RESP (emit Effect.LinkDown S))).sim.now
        = s.sim.now := by
      rw [SendProbeRequest_eq]
      have hnow : ∀ X : Mac, ((X.sim.Cancel X.m_probeRequestEvent).Schedule X.m_probeRequestTimeout
          Callback.ProbeRequestTimeout).now = X.sim.now := fun _ => rfl
      exact (hnow _).trans (by rw [f3]; exact s6)
    refine ⟨hstate, hq, hq, ?_, hnow⟩
    rw [hq]
    rfl
  · intro b
    cases b <;> rfl
  · intro b c
    cases c <;> rfl

/-- C5, witness: the run from `initialMac`, a station in BEACON_MISSED with no
pending event. -/
theorem SetActiveProbing_spec_witness :
    (∀ e ∈ initialMac.sim.events, e.uid < initialMac.sim.nextUid) ∧
    initialMac.m_state = MacState.BEACON_MISSED ∧
    ∃ t, runEvent initialMac.sim.nextUid 0 (SetActiveProbing true initialMac) = some t ∧
      t.m_state = MacState.WAIT_PROBE_RESP ∧
      queued initialMac t = [probeRequestFrame initialMac] ∧
      queued initialMac t =
        [{ hdr := { macType := WifiMacType.WIFI_MAC_MGT_PROBE_REQUEST,
                    addr1 := GetBroadcast, addr2 := initialMac.address, addr3 := GetBroadcast,
                    duration := 0, qosAmsdu := false, qosTid := 0,
                    dsTo := false, dsFrom := false },
           body := TxBody.ProbeRequest initialMac.ssid }] ∧
      ((queued initialMac t).filter Frame.isProbeRequest).length = 1 ∧
      t.sim.now = initialMac.sim.now :=
  ⟨by decide, by decide,
    (SetActiveProbing_spec initialMac 0).2.2.1 (by decide) (by decide)⟩

/-- C10, amended: once the association state is REFUSED and no probe-request
or association-request timeout is pending, a step leaves the state REFUSED
unless the step is the firing of a pending event that is a DTI start on a
station that is not an operational RDS (then WAIT_ASSOC_RESP) or the beacon
watchdog at or after its deadline (then BEACON_MISSED, or WAIT_PROBE_RESP under
active probing).  Every frame reception, transmission completion, BTI, A-BFT
and ATI start, early watchdog callback, `TryToEnsureAssociated` and every
public call keeps REFUSED. -/
theorem refused_left_only_by (op : Op) (s t : Mac) (hstep : step op s = some t)
    (href : s.m_state = MacState.REFUSED)
    (hno : ∀ e ∈ s.sim.events,
      e.cb ≠ Callback.ProbeRequestTimeout ∧ e.cb ≠ Callback.AssocRequestTimeout) :
    t.m_state = MacState.REFUSED ∨
    ∃ uid slot e, op = Op.RunEvent uid slot ∧ e ∈ s.sim.events ∧ e.uid = uid ∧
      ((e.cb = Callback.StartDataTransmissionInterval ∧ s.m_rdsOperational = false ∧
          t.m_state = MacState.WAIT_ASSOC_RESP) ∨
        (e.cb = Callback.MissedBeacons ∧ s.m_beaconWatchdogEnd ≤ e.ts ∧
          t.m_state = (if s.m_activeProbing = true then MacState.WAIT_PROBE_RESP
            else MacState.BEACON_MISSED))) := by
  rcases step_state op s t hstep with h0 | ⟨h1, -, -⟩ | ⟨packet, hdr, -, h1 | h1⟩ |
    ⟨uid, slot, e, ho, he, hu, h1 | h1 | h1 | h1⟩
  · exact Or.inl (h0.trans href)
  · rw [href] at h1; exact absurd h1 (by decide)
  · rw [href] at h1; exact absurd h1.2.1 (by decide)
  · rw [href] at h1; exact absurd h1.2.2.2.1 (by decide)
  · exact absurd h1.1 (hno e he).1
  · exact absurd h1.1 (hno e he).2
  · exact Or.inr ⟨uid, slot, e, ho, he, hu, Or.inr h1⟩
  · exact Or.inr ⟨uid, slot, e, ho, he, hu, Or.inl ⟨h1.1, h1.2.1, h1.2.2.2⟩⟩

/-- C10, witness: the amended statement at `refusedStation` and its pending
DTI start. -/
theorem refused_left_only_by_witness :
    step (Op.RunEvent 0 0) refusedStation = some refusedAfterDtiStart ∧
    refusedStation.m_state = MacState.REFUSED ∧
    (∀ e ∈ refusedStation.sim.events,
      e.cb ≠ Callback.ProbeRequestTimeout ∧ e.cb ≠ Callback.AssocRequestTimeout) ∧
    (refusedAfterDtiStart.m_state = MacState.REFUSED ∨
      ∃ uid slot e, Op.RunEvent 0 0 = Op.RunEvent uid slot ∧ e ∈ refusedStation.sim.events ∧
        e.uid = uid ∧
        ((e.cb = Callback.StartDataTransmissionInterval ∧ refusedStation.m_rdsOperational = false ∧
            refusedAfterDtiStart.m_state = MacState.WAIT_ASSOC_RESP) ∨
          (e.cb = Callback.MissedBeacons ∧ refusedStation.m_beaconWatchdogEnd ≤ e.ts ∧
            refusedAfterDtiStart.m_state =
              (if refusedStation.m_activeProbing = true then MacState.WAIT_PROBE_RESP
                else MacState.BEACON_MISSED)))) :=
  ⟨rfl, by decide, by decide,
    refused_left_only_by (Op.RunEvent 0 0) refusedStation refusedAfterDtiStart rfl (by decide)
      (by decide)⟩

/-- C11: a run on which the probe-request timeout fires on an associated
station.  On the run `associationByDtiStart` the probe-request timeout armed
at time 0 is still pending when the DTI start moves the station to
WAIT_ASSOC_RESP (the DTI start does not cancel it, while the probe response
branch does) and when the association response makes it ASSOCIATED with AID 5.
When it fires, at 50 ms, the station is not in WAIT_PROBE_RESP; yet the state
becomes WAIT_PROBE_RESP, the DeAssoc trace fires and a Probe Request is
queued. -/
theorem stale_probe_timeout_deassociates :
    (run (associationByDtiStart.take 2) initialMac).map
        (fun t => (t.m_state, t.sim.events.filter (fun e => e.cb.isRequestTimeout)))
      = some (MacState.WAIT_PROBE_RESP,
          [{ uid := 1, ts := 50000000, cb := Callback.ProbeRequestTimeout }]) ∧
    (run (associationByDtiStart.take 6) initialMac).map
        (fun t => (t.m_state, t.sim.now, t.sim.events.filter (fun e => e.cb.isRequestTimeout)))
      = some (MacState.WAIT_ASSOC_RESP, 1991000,
          [{ uid := 1, ts := 50000000, cb := Callback.ProbeRequestTimeout },
           { uid := 7, ts := 501991000, cb := Callback.AssocRequestTimeout }]) ∧
    (run associationByDtiStart initialMac).map
        (fun t => (t.m_state, t.m_aid, t.sim.events.filter (fun e => e.cb.isRequestTimeout)))
      = some (MacState.ASSOCIATED, 5,
          [{ uid := 1, ts := 50000000, cb := Callback.ProbeRequestTimeout }]) ∧
    (run associationByDtiStart initialMac).map
        (fun t => t.sim.events.all (fun e => decide (50000000 ≤ e.ts)))
      = some true ∧
    ((run associationByDtiStart initialMac).bind
        (fun s => (step (Op.RunEvent 1 0) s).map
          (fun t => (t.m_state, emitted s t, queued s t))))
      = some (MacState.WAIT_PROBE_RESP, [Effect.DeAssocLogger 9],
          [{ hdr := { macType := WifiMacType.WIFI_MAC_MGT_PROBE_REQUEST,
                      addr1 := GetBroadcast, addr2 := 1, addr3 := GetBroadcast,
                      duration := 0, qosAmsdu := false, qosTid := 0,
                      dsTo := false, dsFrom := false },
             body := TxBody.ProbeRequest 7 }]) := by
  decide

/-- C15: A-BFT entry with r ≥ 1 remaining slots (the counter is 8-bit).  The
code sets the range of the random source to 0 .. r − 1, so the slot index it
stores is at most r − 1 for every number the stream yields (it is that number
modulo r), and every index from 0 to r − 1 is stored for some number.  For the
slot index chosen, the access period becomes A-BFT, exactly one Responder
Sector Sweep toward the BSSID is scheduled at delay slot × slotDuration,
exactly one re-entry of the A-BFT is scheduled at delay
(slot + 1) × slotDuration and is the SSW-FBCK timeout, and r − (slot + 1)
slots remain.  (The only other event is the start of the period after the
A-BFT, if it was not scheduled yet.) -/
theorem abft_entry_with_slots (draw : Nat) (s : Mac)
    (hr : 1 ≤ s.m_remainingSlotsPerABFT) (h8 : s.m_remainingSlotsPerABFT < 256) :
    (StartAssociationBeamformTraining draw s).m_slotIndex ≤ s.m_remainingSlotsPerABFT - 1 ∧
    (∀ k : Nat, k ≤ s.m_remainingSlotsPerABFT - 1 →
      (StartAssociationBeamformTraining k s).m_slotIndex = k) ∧
    (StartAssociationBeamformTraining draw s).m_accessPeriod =
      ChannelAccessPeriod.CHANNEL_ACCESS_A_BFT ∧
    (StartAssociationBeamformTraining draw s).m_slotIndex = draw % s.m_remainingSlotsPerABFT ∧
    (StartAssociationBeamformTraining draw s).sim.events =
      s.sim.events ++ scheduled s (StartAssociationBeamformTraining draw s) ∧
    scheduled s (StartAssociationBeamformTraining draw s) =
      [{ uid := s.sim.nextUid,
         ts := s.sim.now + ((draw % s.m_remainingSlotsPerABFT : Nat) : Int) * s.GetSectorSweepSlotTime s.m_ssFramesPerSlot,
         cb := Callback.StartResponderSectorSweep s.m_bssid s.m_isResponderTXSS
                 (s.GetSectorSweepDuration s.m_ssFramesPerSlot) }] ++
      (if s.m_scheduledPeriodAfterAbft = true then []
       else [{ uid := s.sim.nextUid + 1, ts := s.sim.now + s.m_abftDuration,
               cb := if s.m_atiPresent = true then
                   Callback.StartAnnouncementTransmissionInterval
                 else Callback.StartDataTransmissionInterval }]) ++
      [{ uid := if s.m_scheduledPeriodAfterAbft = true then s.sim.nextUid + 1
                else s.sim.nextUid + 1 + 1,
         ts := s.sim.now + (((draw % s.m_remainingSlotsPerABFT : Nat) : Int) + 1) * s.GetSectorSweepSlotTime s.m_ssFramesPerSlot,
         cb := Callback.StartAssociationBeamformTraining }] ∧
    ((scheduled s (StartAssociationBeamformTraining draw s)).filter
        (fun e => e.cb.isResponderSectorSweep)).length = 1 ∧
    ((scheduled s (StartAssociationBeamformTraining draw s)).filter
        (fun e => e.cb.isAbftStart)).length = 1 ∧
    (StartAssociationBeamformTraining draw s).m_sswFbckTimeout =
      some (if s.m_scheduledPeriodAfterAbft = true then s.sim.nextUid + 1
            else s.sim.nextUid + 1 + 1) ∧
    (StartAssociationBeamformTraining draw s).m_remainingSlotsPerABFT =
      s.m_remainingSlotsPerABFT - (draw % s.m_remainingSlotsPerABFT + 1) := by
  obtain ⟨hev, hto, hrem, hap, hsi, _, _⟩ := StartAssociationBeamformTraining_fields draw s
  have hpos : s.m_remainingSlotsPerABFT > 0 := hr
  have hlt : draw % s.m_remainingSlotsPerABFT < s.m_remainingSlotsPerABFT := Nat.mod_lt _ hpos
  have hmod : ({ min := 0, max := (s.m_remainingSlotsPerABFT : Int) - 1 } :
      UniformRandomVariable).GetInteger draw % 256 = draw % s.m_remainingSlotsPerABFT := by
    rw [UniformRandomVariable.GetInteger_range _ draw hr]
    exact Nat.mod_eq_of_lt (by omega)
  have hall : ∀ k : Nat, k ≤ s.m_remainingSlotsPerABFT - 1 →
      (StartAssociationBeamformTraining k s).m_slotIndex = k := by
    intro k hk
    rw [(StartAssociationBeamformTraining_fields k s).2.2.2.2.1]
    exact UniformRandomVariable.GetInteger_of_lt k _ (by omega) h8
  generalize hslot : draw % s.m_remainingSlotsPerABFT = slot at *
  rw [if_pos hpos] at hev hto hrem
  rw [hmod] at hev hrem hsi
  have hsched : scheduled s (StartAssociationBeamformTraining draw s) =
        [{ uid := s.sim.nextUid,
           ts := s.sim.now + (slot : Int) * s.GetSectorSweepSlotTime s.m_ssFramesPerSlot,
           cb := Callback.StartResponderSectorSweep s.m_bssid s.m_isResponderTXSS
                   (s.GetSectorSweepDuration s.m_ssFramesPerSlot) }] ++
        (if s.m_scheduledPeriodAfterAbft = true then []
         else [{ uid := s.sim.nextUid + 1, ts := s.sim.now + s.m_abftDuration,
                 cb := if s.m_atiPresent = true then
                     Callback.StartAnnouncementTransmissionInterval
                   else Callback.StartDataTransmissionInterval }]) ++
        [{ uid := if s.m_scheduledPeriodAfterAbft = true then s.sim.nextUid + 1
                  else s.sim.nextUid + 1 + 1,
           ts := s.sim.now + ((slot : Int) + 1) * s.GetSectorSweepSlotTime s.m_ssFramesPerSlot,
           cb := Callback.StartAssociationBeamformTraining }] := by
    unfold scheduled
    rw [hev, drop_length_append]
  refine ⟨?_, hall, hap, hsi, ?_, hsched, ?_, ?_, hto, ?_⟩
  · rw [hsi]; omega
  · rw [hsched]; exact hev
  · rw [hsched]
    by_cases hsch : s.m_scheduledPeriodAfterAbft = true
    · simp [hsch, Callback.isResponderSectorSweep]
    · by_cases hati : s.m_atiPresent = true <;>
        simp [hsch, hati, Callback.isResponderSectorSweep]
  · rw [hsched]
    by_cases hsch : s.m_scheduledPeriodAfterAbft = true
    · simp [hsch, Callback.isAbftStart]
    · by_cases hati : s.m_atiPresent = true <;>
        simp [hsch, hati, Callback.isAbftStart]
  · rw [hrem]; omega

/-- C15, witness: the statement at the station `afterFirstBeacon` (four
remaining slots of eight frames) and the number 6 of the stream, for which the
slot is 2. -/
theorem abft_entry_with_slots_witness :
    1 ≤ afterFirstBeacon.m_remainingSlotsPerABFT ∧
    afterFirstBeacon.m_remainingSlotsPerABFT < 256 ∧
    (StartAssociationBeamformTraining 6 afterFirstBeacon).m_slotIndex ≤ afterFirstBeacon.m_remainingSlotsPerABFT - 1 ∧
    (∀ k : Nat, k ≤ afterFirstBeacon.m_remainingSlotsPerABFT - 1 →
      (StartAssociationBeamformTraining k afterFirstBeacon).m_slotIndex = k) ∧
    (StartAssociationBeamformTraining 6 afterFirstBeacon).m_accessPeriod =
      ChannelAccessPeriod.CHANNEL_ACCESS_A_BFT ∧
    (StartAssociationBeamformTraining 6 afterFirstBeacon).m_slotIndex = 6 % afterFirstBeacon.m_remainingSlotsPerABFT ∧
    (StartAssociationBeamformTraining 6 afterFirstBeacon).sim.events =
      afterFirstBeacon.sim.events ++ scheduled afterFirstBeacon (StartAssociationBeamformTraining 6 afterFirstBeacon) ∧
    scheduled afterFirstBeacon (StartAssociationBeamformTraining 6 afterFirstBeacon) =
      [{ uid := afterFirstBeacon.sim.nextUid,
         ts := afterFirstBeacon.sim.now + ((6 % afterFirstBeacon.m_remainingSlotsPerABFT : Nat) : Int) * afterFirstBeacon.GetSectorSweepSlotTime afterFirstBeacon.m_ssFramesPerSlot,
         cb := Callback.StartResponderSectorSweep afterFirstBeacon.m_bssid afterFirstBeacon.m_isResponderTXSS
                 (afterFirstBeacon.GetSectorSweepDuration afterFirstBeacon.m_ssFramesPerSlot) }] ++
      (if afterFirstBeacon.m_scheduledPeriodAfterAbft = true then []
       else [{ uid := afterFirstBeacon.sim.nextUid + 1, ts := afterFirstBeacon.sim.now + afterFirstBeacon.m_abftDuration,
               cb := if afterFirstBeacon.m_atiPresent = true then
                   Callback.StartAnnouncementTransmissionInterval
                 else Callback.StartDataTransmissionInterval }]) ++
      [{ uid := if afterFirstBeacon.m_scheduledPeriodAfterAbft = true then afterFirstBeacon.sim.nextUid + 1
                else afterFirstBeacon.sim.nextUid + 1 + 1,
         ts := afterFirstBeacon.sim.now + (((6 % afterFirstBeacon.m_remainingSlotsPerABFT : Nat) : Int) + 1) * afterFirstBeacon.GetSectorSweepSlotTime afterFirstBeacon.m_ssFramesPerSlot,
         cb := Callback.StartAssociationBeamformTraining }] ∧
    ((scheduled afterFirstBeacon (StartAssociationBeamformTraining 6 afterFirstBeacon)).filter
        (fun e => e.cb.isResponderSectorSweep)).length = 1 ∧
    ((scheduled afterFirstBeacon (StartAssociationBeamformTraining 6 afterFirstBeacon)).filter
        (fun e => e.cb.isAbftStart)).length = 1 ∧
    (StartAssociationBeamformTraining 6 afterFirstBeacon).m_sswFbckTimeout =
      some (if afterFirstBeacon.m_scheduledPeriodAfterAbft = true then afterFirstBeacon.sim.nextUid + 1
            else afterFirstBeacon.sim.nextUid + 1 + 1) ∧
    (StartAssociationBeamformTraining 6 afterFirstBeacon).m_remainingSlotsPerABFT =
      afterFirstBeacon.m_remainingSlotsPerABFT - (6 % afterFirstBeacon.m_remainingSlotsPerABFT + 1) :=
  ⟨by decide, by decide,
    abft_entry_with_slots 6 afterFirstBeacon (by decide) (by decide)⟩

/-- C25, counterexample: a frame that is not a DMG beacon, whose Addr1 is
neither the address of the station nor a group address, and whose Addr3 is the
address of the station: `Receive` returns at the Addr3 test, leaves the station
exactly as it was and raises no receive-drop trace. -/
theorem own_frame_for_other_raises_no_drop_trace :
    hdrOwnFrameRelayed.addr1 ≠ initialMac.address ∧
    IsGroup hdrOwnFrameRelayed.addr1 = false ∧
    hdrOwnFrameRelayed.macType ≠ WifiMacType.WIFI_MAC_EXTENSION_DMG_BEACON ∧
    hdrOwnFrameRelayed.addr3 = initialMac.address ∧
    (Receive blankPacket hdrOwnFrameRelayed initialMac).map (fun t => emitted initialMac t)
      = some [] ∧
    (Receive blankPacket hdrOwnFrameRelayed initialMac).map
        (fun t => decide (Effect.NotifyRxDrop ∈ t.log)) = some false ∧
    (Receive blankPacket hdrForOther initialMac).map (fun t => emitted initialMac t)
      = some [Effect.NotifyRxDrop] := by
  decide

/-- C38: relay mode entered without success.  An activated RDS in normal mode
receives an RLS Response whose relay status code is 1: it forwards the
response to the source REDS and enters relay mode, without looking at the
status codes.  The same response received by a station that is not an RDS (the
source REDS), which tests both status codes, leaves that station in normal
mode, and a response with both status codes zero puts it in relay mode.  A
station that is not an RDS (a destination REDS) in normal mode that receives
an RLS Request enters relay mode on sending its RLS Response. -/
theorem relay_mode_entered_without_success :
    rdsRelay.m_rdsActivated = true ∧ rdsRelay.m_relayMode = false ∧
    rlsResponseRefused.relayStatusCode = 1 ∧
    (Receive rlsResponseRefused actionHdrFrom6 rdsRelay).map
        (fun t => (t.m_relayMode, emitted rdsRelay t))
      = some (true, [Effect.SendRlsResponse rdsRelay.m_srcRedsAddress 10]) ∧
    associatedStation.m_rdsActivated = false ∧ associatedStation.m_relayMode = false ∧
    (Receive rlsResponseRefused actionHdrFrom6 associatedStation).map
        (fun t => (t.m_relayMode, emitted associatedStation t))
      = some (false, []) ∧
    (Receive rlsResponseOk actionHdrFrom6 associatedStation).map (fun t => t.m_relayMode)
      = some true ∧
    (Receive rlsRequest actionHdr associatedStation).map
        (fun t => (t.m_relayMode, emitted associatedStation t))
      = some (true, [Effect.SendRlsResponse 5 10]) := by
  decide

/-- The delay of the watchdog restart is a 64-bit product: for a beacon
interval of 2 ^ 63 microseconds and two missed beacons it wraps to zero, so
that the deadline stays at the current time and no watchdog is armed. -/
theorem probe_response_delay_wraps :
    (Receive probeRespHuge probeRespHdr { probingStation with m_maxMissedBeacons := 2 }).map
        (fun t => (t.m_state, t.m_beaconWatchdogEnd, t.m_beaconWatchdog))
      = some (MacState.WAIT_ASSOC_RESP, 0, none) := by
  decide

end DmgSta
